import Mathlib

set_option maxRecDepth 100000

/-!
# mesh-test: the generated schema modules

`.mesh/sources/Contentful/schema.graphql.cjs` and
`.mesh/sources/Shopify/schema.graphql.cjs` each consist of

    const source = new Source(<template literal>, <template literal>);
    module.exports = buildSchema(source, { assumeValid: true, assumeValidSDL: true });

The development below embeds the two template literals line by line, the
cooking of a JavaScript template literal, the GraphQL lexer and the
type-system part of the GraphQL parser that `buildSchema` runs, and the
documents the two modules declare.
-/

namespace Mesh

/-! ## The GraphQL type-system AST -/

/-- A type reference: `Name`, `[T]` or `T!`. -/
inductive TypeRef where
  | named (name : String)
  | list (ofType : TypeRef)
  | nonNull (ofType : TypeRef)
  deriving DecidableEq, Repr

/-- A string literal: its value and whether it was written as a block string. -/
structure StringValue where
  value : String
  block : Bool
  deriving DecidableEq, Repr

/-- A constant value literal.  List and object literals are outside the
sublanguage embedded here; neither document writes one. -/
inductive Value where
  | int (value : String)
  | float (value : String)
  | string (value : StringValue)
  | boolean (value : Bool)
  | null
  | enum (value : String)
  deriving DecidableEq, Repr

/-- One `name: value` argument of an applied directive. -/
structure Argument where
  name : String
  value : Value
  deriving DecidableEq, Repr

/-- An applied directive `@name(arguments)`. -/
structure Directive where
  name : String
  arguments : List Argument
  deriving DecidableEq, Repr

/-- An argument definition or an input field definition. -/
structure InputValueDefinition where
  description : Option StringValue
  name : String
  type : TypeRef
  defaultValue : Option Value
  directives : List Directive
  deriving DecidableEq, Repr

/-- A field definition of an object or interface type. -/
structure FieldDefinition where
  description : Option StringValue
  name : String
  arguments : List InputValueDefinition
  type : TypeRef
  directives : List Directive
  deriving DecidableEq, Repr

/-- One value of an enum type. -/
structure EnumValueDefinition where
  description : Option StringValue
  name : String
  directives : List Directive
  deriving DecidableEq, Repr

/-- The three root operation kinds of a schema block. -/
inductive OperationType where
  | query | mutation | subscription
  deriving DecidableEq, Repr

/-- One `operation: Type` line of a schema block. -/
structure OperationTypeDefinition where
  operation : OperationType
  type : String
  deriving DecidableEq, Repr

/-- A top-level type-system definition. -/
inductive Definition where
  | schemaDefinition (description : Option StringValue) (directives : List Directive)
      (operationTypes : List OperationTypeDefinition)
  | scalarType (description : Option StringValue) (name : String) (directives : List Directive)
  | objectType (description : Option StringValue) (name : String) (interfaces : List String)
      (directives : List Directive) (fields : List FieldDefinition)
  | interfaceType (description : Option StringValue) (name : String) (interfaces : List String)
      (directives : List Directive) (fields : List FieldDefinition)
  | unionType (description : Option StringValue) (name : String) (directives : List Directive)
      (types : List String)
  | enumType (description : Option StringValue) (name : String) (directives : List Directive)
      (values : List EnumValueDefinition)
  | inputObjectType (description : Option StringValue) (name : String)
      (directives : List Directive) (fields : List InputValueDefinition)
  | directiveDefinition (description : Option StringValue) (name : String)
      (arguments : List InputValueDefinition) (repeatable : Bool) (locations : List String)
  deriving DecidableEq, Repr

/-- A parsed SDL document. -/
abbrev Document := List Definition

/-! ### Shorthands used by the embedded documents -/

/-- A block-string description `""" ... """`. -/
def blk (s : String) : Option StringValue := some ⟨s, true⟩
/-- A quoted description `"..."`. -/
def quo (s : String) : Option StringValue := some ⟨s, false⟩
/-- The named type `T`. -/
def nm (s : String) : TypeRef := .named s
/-- The list type `[t]`. -/
def ls (t : TypeRef) : TypeRef := .list t
/-- The non-null type `t!`. -/
def nn (t : TypeRef) : TypeRef := .nonNull t
/-- The application `@deprecated(reason: "...")` with a quoted reason. -/
def deprecated (reason : String) : Directive :=
  ⟨"deprecated", [⟨"reason", .string ⟨reason, false⟩⟩]⟩

/-- An enum value definition, by position. -/
def enumValue (description : Option StringValue) (name : String) (directives : List Directive) :
    EnumValueDefinition := ⟨description, name, directives⟩
/-- An argument or input field definition, by position. -/
def inputValue (description : Option StringValue) (name : String) (type : TypeRef)
    (defaultValue : Option Value) (directives : List Directive) : InputValueDefinition :=
  ⟨description, name, type, defaultValue, directives⟩
/-- A field definition, by position. -/
def field (description : Option StringValue) (name : String)
    (arguments : List InputValueDefinition) (type : TypeRef) (directives : List Directive) :
    FieldDefinition := ⟨description, name, arguments, type, directives⟩

/-! ## JavaScript template literals -/

/-- Why the raw text of a template literal is outside this model. -/
inductive TemplateError where
  | substitution
  | unsupportedEscape (c : Char)
  | lineContinuation
  | unescapedBacktick
  deriving DecidableEq, Repr

/-- The character an escape sequence of one character stands for in the
cooked value: `\n`, `\r`, `\t`, `\b`, `\f`, `\v` and `\0` are control
characters, and any other character that starts no escape sequence (among
them the backtick, `$` and the backslash) stands for itself. -/
def escapeValue (c : Char) : Char :=
  if c = 'n' then '\n'
  else if c = 'r' then '\r'
  else if c = 't' then '\t'
  else if c = 'b' then Char.ofNat 8
  else if c = 'f' then Char.ofNat 12
  else if c = 'v' then Char.ofNat 11
  else if c = '0' then Char.ofNat 0
  else c

/-- The cooked value (ECMAScript "TV") of one line of a template literal,
followed by a line feed and by `tail`; the flag says that the previous
character was a backslash.  Meaningful when `templateErrorFrom` finds no
error in the line. -/
def cookInto (tail : List Char) : Bool → List Char → List Char
  | _, [] => '\n' :: tail
  | false, c :: rest => if c = '\\' then cookInto tail true rest else c :: cookInto tail false rest
  | true, c :: rest => escapeValue c :: cookInto tail false rest

/-- The cooked value of the lines of a template literal, each followed by a
line feed. -/
def cookLines (lines : List String) : List Char :=
  lines.foldr (fun l tail => cookInto tail false l.data) []

/-- The first reason, if any, why a line of raw text is outside this model:
`$` followed by an opening brace starts a substitution, an unescaped backtick
would end the literal, and hexadecimal, Unicode and octal escapes and line
continuations are not modelled. -/
def templateErrorFrom : Bool → List Char → Option TemplateError
  | false, [] => none
  | true, [] => some .lineContinuation
  | false, c :: rest =>
    if c = '\\' then templateErrorFrom true rest
    else if c = Char.ofNat 96 then some .unescapedBacktick
    else if c = '$' then
      match rest with
      | d :: _ => if d = '\x7b' then some .substitution else templateErrorFrom false rest
      | [] => none
    else templateErrorFrom false rest
  | true, c :: rest =>
    if c = 'x' ∨ c = 'u' ∨ ('1' ≤ c ∧ c ≤ '9') then some (.unsupportedEscape c)
    else if c = '0' then
      match rest with
      | d :: _ => if d.isDigit then some (.unsupportedEscape c) else templateErrorFrom false rest
      | [] => none
    else templateErrorFrom false rest

/-- The first error in the lines of a template literal. -/
def templateError (lines : List String) : Option TemplateError :=
  lines.findSome? (fun l => templateErrorFrom false l.data)

/-- The cooked text of a template literal that opens at the end of one source
line and closes at the start of a later one, given the lines in between: a
line feed, then every line followed by a line feed. -/
def cookedText (lines : List String) : String := String.mk ('\n' :: cookLines lines)

/-- The string such a template literal evaluates to. -/
def templateValue (lines : List String) : Except TemplateError String :=
  match templateError lines with
  | some e => .error e
  | none => .ok (cookedText lines)

/-- The string a template literal written on one line evaluates to. -/
def lineValue (raw : String) : Except TemplateError String :=
  match templateErrorFrom false raw.data with
  | some e => .error e
  | none => .ok (String.mk (cookInto [] false raw.data).dropLast)

end Mesh
namespace Mesh

/-! ## The GraphQL lexer -/

/-- The punctuators of the GraphQL grammar. -/
inductive Punctuator where
  | bang | dollar | amp | parenL | parenR | spread | colon | equals | at
  | bracketL | bracketR | braceL | pipe | braceR
  deriving DecidableEq, Repr

/-- A lexical token; comments and ignored characters produce none. -/
inductive Token where
  | punct (p : Punctuator)
  | name (value : String)
  | int (value : String)
  | float (value : String)
  | string (value : String)
  | blockString (value : String)
  deriving DecidableEq, Repr

/-- A syntax error thrown by the lexer or the parser.  Lexical errors carry the
line of the source body (counted from 1) on which the lexer gave up; parse
errors carry the number of tokens before the offending one. -/
inductive SyntaxError where
  | unexpectedCharacter (line : Nat)
  | unterminatedString (line : Nat)
  | invalidNumber (line : Nat)
  | invalidEscape (line : Nat)
  | unexpectedToken (index : Nat)
  | unsupported (index : Nat)
  deriving DecidableEq, Repr

/-- The first character of a name: a letter or an underscore. -/
def isNameStart (c : Char) : Bool := c.isAlpha || c = '_'

/-- A later character of a name: a letter, a digit or an underscore. -/
def isNameContinue (c : Char) : Bool := c.isAlphanum || c = '_'

/-- Splits off the longest run of characters satisfying `p`; `acc` holds the
run so far, last character first. -/
def takeWhileRev (p : Char → Bool) : List Char → List Char → List Char × List Char
  | [], acc => (acc.reverse, [])
  | c :: cs, acc => if p c then takeWhileRev p cs (c :: acc) else (acc.reverse, c :: cs)

/-- Drops a comment body: everything before the next line terminator. -/
def skipComment : List Char → List Char
  | [] => []
  | c :: cs => if c = '\n' ∨ c = '\r' then c :: cs else skipComment cs

/-- Why a string could not be read. -/
inductive StringFailure where
  | unterminated
  | invalidEscape

/-- The body of a quoted string after the opening quote (`readString`); the
flag says that the previous character was a backslash and `acc` is the value
read so far, last character first.  A line feed or carriage return inside the
string, or the end of the text, leaves the string unterminated. -/
def readString : Bool → List Char → List Char → Except StringFailure (String × List Char)
  | _, [], _ => .error .unterminated
  | false, c :: rest, acc =>
    if c = '"' then .ok (String.mk acc.reverse, rest)
    else if c = '\\' then readString true rest acc
    else if c = '\n' ∨ c = '\r' then .error .unterminated
    else readString false rest (c :: acc)
  | true, e :: rest, acc =>
    if e = '"' then readString false rest ('"' :: acc)
    else if e = '\\' then readString false rest ('\\' :: acc)
    else if e = '/' then readString false rest ('/' :: acc)
    else if e = 'b' then readString false rest (Char.ofNat 8 :: acc)
    else if e = 'f' then readString false rest (Char.ofNat 12 :: acc)
    else if e = 'n' then readString false rest ('\n' :: acc)
    else if e = 'r' then readString false rest ('\r' :: acc)
    else if e = 't' then readString false rest ('\t' :: acc)
    else .error .invalidEscape

/-- Whether the text starts with three double quotes; if so, what follows. -/
def tripleQuote? : List Char → Option (List Char)
  | a :: b :: c :: rest => if a = '"' ∧ b = '"' ∧ c = '"' then some rest else none
  | _ => none

/-- The body of a block string after the opening `"""` (`readBlockString`):
`line` is the current line, last character first, and `lines` the finished
lines, last one first; the first argument counts characters that were already
accounted for (the quotes of an escaped `\"""`, the line feed of a carriage
return and line feed) and are passed over.  Returns the raw lines in order
and the text after the closing `"""`; `none` if the block string is
unterminated. -/
def readBlockLines : Nat → List Char → List Char → List (List Char) →
    Option (List (List Char) × List Char)
  | _, [], _, _ => none
  | skip + 1, _ :: rest, line, lines => readBlockLines skip rest line lines
  | 0, c :: rest, line, lines =>
    if c = '"' then
      match tripleQuote? (c :: rest) with
      | some rest2 => some ((line.reverse :: lines).reverse, rest2)
      | none => readBlockLines 0 rest (c :: line) lines
    else if c = '\\' then
      match tripleQuote? rest with
      | some _ => readBlockLines 3 rest ('"' :: '"' :: '"' :: line) lines
      | none => readBlockLines 0 rest (c :: line) lines
    else if c = '\r' then
      match rest with
      | d :: _ =>
        if d = '\n' then readBlockLines 1 rest [] (line.reverse :: lines)
        else readBlockLines 0 rest [] (line.reverse :: lines)
      | [] => readBlockLines 0 rest [] (line.reverse :: lines)
    else if c = '\n' then readBlockLines 0 rest [] (line.reverse :: lines)
    else readBlockLines 0 rest (c :: line) lines

/-- The number of leading spaces and tabs of a line (`leadingWhitespace`). -/
def leadingWhitespace : List Char → Nat
  | [] => 0
  | c :: cs => if c = ' ' ∨ c = '\t' then leadingWhitespace cs + 1 else 0

/-- The smallest indentation among the lines that are not blank; `none` if
there is none.  Called on the lines after the first. -/
def commonIndent : List (List Char) → Option Nat
  | [] => none
  | l :: ls =>
    let i := leadingWhitespace l
    if i = l.length then commonIndent ls
    else match commonIndent ls with
      | none => some i
      | some j => some (min i j)

/-- Whether a line consists of spaces and tabs only. -/
def isBlankLine (l : List Char) : Bool := leadingWhitespace l = l.length

/-- The value of a block string (`dedentBlockStringLines`): every line but the
first loses the common indentation, then blank lines are dropped from both
ends. -/
def dedentBlockStringLines (lines : List (List Char)) : List (List Char) :=
  let dedented :=
    match lines with
    | [] => []
    | first :: others =>
      match commonIndent others with
      | none => first :: others.map (fun _ => [])
      | some n => first :: others.map (List.drop n)
  ((dedented.dropWhile isBlankLine).reverse.dropWhile isBlankLine).reverse

/-- Joins lines with line feeds. -/
def joinLines : List (List Char) → List Char
  | [] => []
  | [l] => l
  | l :: ls => l ++ '\n' :: joinLines ls

/-- The digits at the start of the text, which must not be empty
(`readDigits`). -/
def readDigits (cs : List Char) : Option (List Char × List Char) :=
  match takeWhileRev Char.isDigit cs [] with
  | ([], _) => none
  | r => some r

/-- The integer part of a number: a single `0` not followed by a digit, or a
run of digits. -/
def readIntegerPart : List Char → Option (List Char × List Char)
  | [] => none
  | c :: rest =>
    if c = '0' then
      match rest with
      | d :: _ => if d.isDigit then none else some (['0'], rest)
      | [] => some (['0'], rest)
    else readDigits (c :: rest)

/-- The optional fraction of a number, with its dot. -/
def readFraction : List Char → Option (List Char × List Char)
  | [] => some ([], [])
  | c :: rest =>
    if c = '.' then
      match readDigits rest with
      | none => none
      | some (ds, rest2) => some ('.' :: ds, rest2)
    else some ([], c :: rest)

/-- The optional exponent of a number, with its marker and sign. -/
def readExponent : List Char → Option (List Char × List Char)
  | [] => some ([], [])
  | c :: rest =>
    if c = 'e' ∨ c = 'E' then
      match rest with
      | s :: rest2 =>
        if s = '+' ∨ s = '-' then
          match readDigits rest2 with
          | none => none
          | some (ds, rest3) => some (c :: s :: ds, rest3)
        else
          match readDigits rest with
          | none => none
          | some (ds, rest3) => some (c :: ds, rest3)
      | [] => none
    else some ([], c :: rest)

/-- A number token (`readNumber`) starting at `cs`, whose first character is
a digit or a minus sign; `none` for an invalid number. -/
def readNumber (cs : List Char) : Option (Token × List Char) :=
  let signed : List Char × List Char :=
    match cs with
    | c :: rest => if c = '-' then (['-'], rest) else ([], cs)
    | [] => ([], cs)
  match readIntegerPart signed.2 with
  | none => none
  | some (ds, rest) =>
    match readFraction rest with
    | none => none
    | some (fs, rest2) =>
      match readExponent rest2 with
      | none => none
      | some (es, rest3) =>
        let follows : Bool :=
          match rest3 with
          | c :: _ => c = '.' || isNameStart c
          | [] => false
        if follows then none
        else
          let text := String.mk (signed.1 ++ ds ++ fs ++ es)
          if fs.isEmpty ∧ es.isEmpty then some (.int text, rest3) else some (.float text, rest3)

/-- The punctuator a single character stands for, if any. -/
def punctuator? (c : Char) : Option Punctuator :=
  if c = '!' then some .bang
  else if c = '$' then some .dollar
  else if c = '&' then some .amp
  else if c = '(' then some .parenL
  else if c = ')' then some .parenR
  else if c = ':' then some .colon
  else if c = '=' then some .equals
  else if c = '@' then some .at
  else if c = '[' then some .bracketL
  else if c = ']' then some .bracketR
  else if c = '\x7b' then some .braceL
  else if c = '|' then some .pipe
  else if c = '\x7d' then some .braceR
  else none

/-- The lexer loop (`readNextToken` until the end of the text) on the text
`cs`, which starts on line `line`: skips ignored characters and comments and
collects the tokens, last one first, in `acc`.  The first argument is fuel, one
element per round; every round consumes at least one character, so a list
longer than the text never runs out. -/
def lexLoop : List Char → Nat → List Char → List Token → Except SyntaxError (List Token)
  | [], line, _, _ => .error (.unexpectedCharacter line)
  | _ :: _, _, [], acc => .ok acc.reverse
  | _ :: fuel, line, c :: rest, acc =>
    if c = ' ' ∨ c = ',' ∨ c = '\t' ∨ c = Char.ofNat 0xFEFF then lexLoop fuel line rest acc
    else if c = '\n' then lexLoop fuel (line + 1) rest acc
    else if c = '\r' then
      match rest with
      | d :: rest2 =>
        if d = '\n' then lexLoop fuel (line + 1) rest2 acc else lexLoop fuel (line + 1) rest acc
      | [] => lexLoop fuel (line + 1) rest acc
    else if isNameStart c then
      match takeWhileRev isNameContinue rest [] with
      | (more, rest2) => lexLoop fuel line rest2 (.name (String.mk (c :: more)) :: acc)
    else if c = '"' then
      match tripleQuote? (c :: rest) with
      | some rest2 =>
        match readBlockLines 0 rest2 [] [] with
        | none => .error (.unterminatedString (line + (rest2.filter (· = '\n')).length))
        | some (lines, rest3) =>
          lexLoop fuel (line + (lines.length - 1)) rest3
            (.blockString (String.mk (joinLines (dedentBlockStringLines lines))) :: acc)
      | none =>
        match readString false rest [] with
        | .error .unterminated => .error (.unterminatedString line)
        | .error .invalidEscape => .error (.invalidEscape line)
        | .ok (value, rest2) => lexLoop fuel line rest2 (.string value :: acc)
    else if c = '#' then lexLoop fuel line (skipComment rest) acc
    else if c = '.' then
      match rest with
      | d :: e :: rest2 =>
        if d = '.' ∧ e = '.' then lexLoop fuel line rest2 (.punct .spread :: acc)
        else .error (.unexpectedCharacter line)
      | _ => .error (.unexpectedCharacter line)
    else if c.isDigit ∨ c = '-' then
      match readNumber (c :: rest) with
      | none => .error (.invalidNumber line)
      | some (tok, rest2) => lexLoop fuel line rest2 (tok :: acc)
    else
      match punctuator? c with
      | some p => lexLoop fuel line rest (.punct p :: acc)
      | none => .error (.unexpectedCharacter line)

/-- All tokens of a source text, or the first lexical error. -/
def lex (body : String) : Except SyntaxError (List Token) :=
  lexLoop (' ' :: body.data) 1 body.data []

end Mesh
namespace Mesh

/-! ## The GraphQL parser, type-system definitions -/

/-- Raised inside the parser: the tokens from the offending one on. -/
inductive ParseFailure where
  | unexpected (rest : List Token)
  | unsupported (rest : List Token)

/-- The result of a parsing function: a node and the tokens after it. -/
abbrev Parsed (α : Type) := Except ParseFailure (α × List Token)

/-- Consumes the punctuator `p` (`expectToken`). -/
def expectToken (p : Punctuator) : List Token → Except ParseFailure (List Token)
  | .punct q :: rest => if q = p then .ok rest else .error (.unexpected (.punct q :: rest))
  | toks => .error (.unexpected toks)

/-- Consumes a name token (`parseName`). -/
def parseName : List Token → Parsed String
  | .name n :: rest => .ok (n, rest)
  | toks => .error (.unexpected toks)

/-- Reads a description if the next token is a string (`parseDescription`). -/
def parseDescription : List Token → Option StringValue × List Token
  | .string v :: rest => (some ⟨v, false⟩, rest)
  | .blockString v :: rest => (some ⟨v, true⟩, rest)
  | toks => (none, toks)

/-- Wraps a type in non-null if a `!` follows. -/
def parseNonNull (t : TypeRef) : List Token → TypeRef × List Token
  | .punct .bang :: rest => (.nonNull t, rest)
  | toks => (t, toks)

/-- Reads a type reference (`parseTypeReference`). -/
def parseTypeReference : List Token → Parsed TypeRef
  | .punct .bracketL :: rest =>
    match parseTypeReference rest with
    | .error e => .error e
    | .ok (inner, rest2) =>
      match expectToken .bracketR rest2 with
      | .error e => .error e
      | .ok rest3 => .ok (parseNonNull (.list inner) rest3)
  | .name n :: rest => .ok (parseNonNull (.named n) rest)
  | toks => .error (.unexpected toks)

/-- Reads a constant value (`parseValueLiteral` with `isConst`).  List and
object literals are reported as unsupported. -/
def parseValueLiteral : List Token → Parsed Value
  | .int v :: rest => .ok (.int v, rest)
  | .float v :: rest => .ok (.float v, rest)
  | .string v :: rest => .ok (.string ⟨v, false⟩, rest)
  | .blockString v :: rest => .ok (.string ⟨v, true⟩, rest)
  | .name v :: rest =>
    if v = "true" then .ok (.boolean true, rest)
    else if v = "false" then .ok (.boolean false, rest)
    else if v = "null" then .ok (.null, rest)
    else .ok (.enum v, rest)
  | .punct .bracketL :: rest => .error (.unsupported (.punct .bracketL :: rest))
  | .punct .braceL :: rest => .error (.unsupported (.punct .braceL :: rest))
  | toks => .error (.unexpected toks)

/-- Applies `parseFn` until the punctuator `close` follows an item; at least
one item is read.  The items read so far are `acc`, last one first. -/
def manyLoop {α : Type} (parseFn : List Token → Parsed α) (close : Punctuator) :
    List Token → List Token → List α → Parsed (List α)
  | [], toks, _ => .error (.unexpected toks)
  | _ :: fuel, toks, acc =>
    match parseFn toks with
    | .error e => .error e
    | .ok (a, .punct p :: rest) =>
      if p = close then .ok ((a :: acc).reverse, rest)
      else manyLoop parseFn close fuel (.punct p :: rest) (a :: acc)
    | .ok (a, rest) => manyLoop parseFn close fuel rest (a :: acc)

/-- A possibly absent bracketed list (`optionalMany`): nothing if the next
token is not `open`, otherwise one or more items up to `close`. -/
def optionalMany {α : Type} (opening close : Punctuator) (parseFn : List Token → Parsed α)
    (fuel : List Token) : List Token → Parsed (List α)
  | .punct p :: rest =>
    if p = opening then manyLoop parseFn close fuel rest []
    else .ok ([], .punct p :: rest)
  | toks => .ok ([], toks)

/-- A bracketed list that must be present (`many`). -/
def many {α : Type} (opening close : Punctuator) (parseFn : List Token → Parsed α)
    (fuel : List Token) (toks : List Token) : Parsed (List α) :=
  match expectToken opening toks with
  | .error e => .error e
  | .ok rest => manyLoop parseFn close fuel rest []

/-- Items separated by the punctuator `delim`, after the first one. -/
def delimitedLoop {α : Type} (delim : Punctuator) (parseFn : List Token → Parsed α) :
    List Token → List Token → List α → Parsed (List α)
  | [], toks, _ => .error (.unexpected toks)
  | _ :: fuel, toks, acc =>
    match parseFn toks with
    | .error e => .error e
    | .ok (a, .punct p :: rest) =>
      if p = delim then delimitedLoop delim parseFn fuel rest (a :: acc)
      else .ok ((a :: acc).reverse, .punct p :: rest)
    | .ok (a, rest) => .ok ((a :: acc).reverse, rest)

/-- One or more items separated by `delim`, with an optional leading `delim`
(`delimitedMany`). -/
def delimitedMany {α : Type} (delim : Punctuator) (parseFn : List Token → Parsed α)
    (fuel : List Token) : List Token → Parsed (List α)
  | .punct p :: rest =>
    if p = delim then delimitedLoop delim parseFn fuel rest []
    else delimitedLoop delim parseFn fuel (.punct p :: rest) []
  | toks => delimitedLoop delim parseFn fuel toks []

/-- One `name: value` argument (`parseConstArgument`). -/
def parseConstArgument (toks : List Token) : Parsed Argument :=
  match parseName toks with
  | .error e => .error e
  | .ok (n, rest) =>
    match expectToken .colon rest with
    | .error e => .error e
    | .ok rest2 =>
      match parseValueLiteral rest2 with
      | .error e => .error e
      | .ok (v, rest3) => .ok (⟨n, v⟩, rest3)

/-- The directives applied at this point (`parseConstDirectives`): as many
`@name(arguments)` as follow. -/
def parseDirectives : List Token → List Token → List Directive → Parsed (List Directive)
  | [], toks, _ => .error (.unexpected toks)
  | _ :: fuel, .punct .at :: rest, acc =>
    match parseName rest with
    | .error e => .error e
    | .ok (n, rest2) =>
      match optionalMany .parenL .parenR parseConstArgument fuel rest2 with
      | .error e => .error e
      | .ok (args, rest3) => parseDirectives fuel rest3 (⟨n, args⟩ :: acc)
  | _ :: _, toks, acc => .ok (acc.reverse, toks)

/-- An argument or input field definition (`parseInputValueDef`). -/
def parseInputValueDef (fuel : List Token) (toks : List Token) : Parsed InputValueDefinition :=
  let (description, rest0) := parseDescription toks
  match parseName rest0 with
  | .error e => .error e
  | .ok (n, rest) =>
    match expectToken .colon rest with
    | .error e => .error e
    | .ok rest2 =>
      match parseTypeReference rest2 with
      | .error e => .error e
      | .ok (t, rest3) =>
        let defaultValue : Parsed (Option Value) :=
          match rest3 with
          | .punct .equals :: rest4 =>
            match parseValueLiteral rest4 with
            | .error e => .error e
            | .ok (v, rest5) => .ok (some v, rest5)
          | _ => .ok (none, rest3)
        match defaultValue with
        | .error e => .error e
        | .ok (dv, rest5) =>
          match parseDirectives fuel rest5 [] with
          | .error e => .error e
          | .ok (ds, rest6) => .ok (⟨description, n, t, dv, ds⟩, rest6)

/-- A field definition (`parseFieldDefinition`). -/
def parseFieldDefinition (fuel : List Token) (toks : List Token) : Parsed FieldDefinition :=
  let (description, rest0) := parseDescription toks
  match parseName rest0 with
  | .error e => .error e
  | .ok (n, rest) =>
    match optionalMany .parenL .parenR (parseInputValueDef fuel) fuel rest with
    | .error e => .error e
    | .ok (args, rest2) =>
      match expectToken .colon rest2 with
      | .error e => .error e
      | .ok rest3 =>
        match parseTypeReference rest3 with
        | .error e => .error e
        | .ok (t, rest4) =>
          match parseDirectives fuel rest4 [] with
          | .error e => .error e
          | .ok (ds, rest5) => .ok (⟨description, n, args, t, ds⟩, rest5)

/-- An enum value definition (`parseEnumValueDefinition`); `true`, `false`
and `null` are reserved. -/
def parseEnumValueDefinition (fuel : List Token) (toks : List Token) : Parsed EnumValueDefinition :=
  let (description, rest0) := parseDescription toks
  match parseName rest0 with
  | .error e => .error e
  | .ok (n, rest) =>
    if n = "true" ∨ n = "false" ∨ n = "null" then .error (.unexpected rest0)
    else
      match parseDirectives fuel rest [] with
      | .error e => .error e
      | .ok (ds, rest2) => .ok (⟨description, n, ds⟩, rest2)

/-- One `operation: Type` entry of a schema block
(`parseOperationTypeDefinition`). -/
def parseOperationTypeDefinition (toks : List Token) : Parsed OperationTypeDefinition :=
  match parseName toks with
  | .error e => .error e
  | .ok (o, rest) =>
    let operation : Option OperationType :=
      if o = "query" then some .query
      else if o = "mutation" then some .mutation
      else if o = "subscription" then some .subscription
      else none
    match operation with
    | none => .error (.unexpected toks)
    | some op =>
      match expectToken .colon rest with
      | .error e => .error e
      | .ok rest2 =>
        match parseName rest2 with
        | .error e => .error e
        | .ok (t, rest3) => .ok (⟨op, t⟩, rest3)

/-- The interfaces after `implements`, if any (`parseImplementsInterfaces`). -/
def parseImplementsInterfaces (fuel : List Token) : List Token → Parsed (List String)
  | .name kw :: rest =>
    if kw = "implements" then delimitedMany .amp parseName fuel rest
    else .ok ([], .name kw :: rest)
  | toks => .ok ([], toks)

/-- The member types after `=`, if any (`parseUnionMemberTypes`). -/
def parseUnionMemberTypes (fuel : List Token) : List Token → Parsed (List String)
  | .punct .equals :: rest => delimitedMany .pipe parseName fuel rest
  | toks => .ok ([], toks)

/-- The names a directive definition may list after `on`. -/
def directiveLocations : List String :=
  ["QUERY", "MUTATION", "SUBSCRIPTION", "FIELD", "FRAGMENT_DEFINITION", "FRAGMENT_SPREAD",
   "INLINE_FRAGMENT", "VARIABLE_DEFINITION", "SCHEMA", "SCALAR", "OBJECT", "FIELD_DEFINITION",
   "ARGUMENT_DEFINITION", "INTERFACE", "UNION", "ENUM", "ENUM_VALUE", "INPUT_OBJECT",
   "INPUT_FIELD_DEFINITION"]

/-- One directive location (`parseDirectiveLocation`). -/
def parseDirectiveLocation (toks : List Token) : Parsed String :=
  match parseName toks with
  | .error e => .error e
  | .ok (n, rest) => if n ∈ directiveLocations then .ok (n, rest) else .error (.unexpected toks)

/-- The rest of an object or interface type definition after its keyword. -/
def parseFieldsType (fuel : List Token) (toks : List Token) :
    Parsed (String × List String × List Directive × List FieldDefinition) :=
  match parseName toks with
  | .error e => .error e
  | .ok (n, rest) =>
    match parseImplementsInterfaces fuel rest with
    | .error e => .error e
    | .ok (ifaces, rest2) =>
      match parseDirectives fuel rest2 [] with
      | .error e => .error e
      | .ok (ds, rest3) =>
        match optionalMany .braceL .braceR (parseFieldDefinition fuel) fuel rest3 with
        | .error e => .error e
        | .ok (fields, rest4) => .ok ((n, ifaces, ds, fields), rest4)

/-- The name and directives that follow the keyword of a scalar, union, enum
or input type definition. -/
def parseNameDirectives (fuel : List Token) (toks : List Token) : Parsed (String × List Directive) :=
  match parseName toks with
  | .error e => .error e
  | .ok (n, rest) =>
    match parseDirectives fuel rest [] with
    | .error e => .error e
    | .ok (ds, rest2) => .ok ((n, ds), rest2)

/-- The rest of a directive definition after the keyword `directive`. -/
def parseDirectiveDefinition (fuel : List Token) (description : Option StringValue)
    (toks : List Token) : Parsed Definition :=
  match expectToken .at toks with
  | .error e => .error e
  | .ok rest =>
    match parseName rest with
    | .error e => .error e
    | .ok (n, rest2) =>
      match optionalMany .parenL .parenR (parseInputValueDef fuel) fuel rest2 with
      | .error e => .error e
      | .ok (args, rest3) =>
        let (repeatable, rest4) : Bool × List Token :=
          match rest3 with
          | .name kw :: r => if kw = "repeatable" then (true, r) else (false, rest3)
          | _ => (false, rest3)
        match rest4 with
        | .name kw :: rest5 =>
          if kw = "on" then
            match delimitedMany .pipe parseDirectiveLocation fuel rest5 with
            | .error e => .error e
            | .ok (locs, rest6) => .ok (.directiveDefinition description n args repeatable locs, rest6)
          else .error (.unexpected rest4)
        | _ => .error (.unexpected rest4)

/-- One top-level definition (`parseDefinition`).  Executable definitions and
type-system extensions are reported as unsupported. -/
def parseDefinition (fuel : List Token) (toks : List Token) : Parsed Definition :=
  let (description, rest0) := parseDescription toks
  match rest0 with
  | .name kw :: rest =>
    if kw = "schema" then
      match parseDirectives fuel rest [] with
      | .error e => .error e
      | .ok (ds, rest2) =>
        match many .braceL .braceR parseOperationTypeDefinition fuel rest2 with
        | .error e => .error e
        | .ok (ops, rest3) => .ok (.schemaDefinition description ds ops, rest3)
    else if kw = "scalar" then
      match parseNameDirectives fuel rest with
      | .error e => .error e
      | .ok ((n, ds), rest2) => .ok (.scalarType description n ds, rest2)
    else if kw = "type" then
      match parseFieldsType fuel rest with
      | .error e => .error e
      | .ok ((n, ifaces, ds, fields), rest2) => .ok (.objectType description n ifaces ds fields, rest2)
    else if kw = "interface" then
      match parseFieldsType fuel rest with
      | .error e => .error e
      | .ok ((n, ifaces, ds, fields), rest2) =>
        .ok (.interfaceType description n ifaces ds fields, rest2)
    else if kw = "union" then
      match parseNameDirectives fuel rest with
      | .error e => .error e
      | .ok ((n, ds), rest2) =>
        match parseUnionMemberTypes fuel rest2 with
        | .error e => .error e
        | .ok (types, rest3) => .ok (.unionType description n ds types, rest3)
    else if kw = "enum" then
      match parseNameDirectives fuel rest with
      | .error e => .error e
      | .ok ((n, ds), rest2) =>
        match optionalMany .braceL .braceR (parseEnumValueDefinition fuel) fuel rest2 with
        | .error e => .error e
        | .ok (values, rest3) => .ok (.enumType description n ds values, rest3)
    else if kw = "input" then
      match parseNameDirectives fuel rest with
      | .error e => .error e
      | .ok ((n, ds), rest2) =>
        match optionalMany .braceL .braceR (parseInputValueDef fuel) fuel rest2 with
        | .error e => .error e
        | .ok (fields, rest3) => .ok (.inputObjectType description n ds fields, rest3)
    else if kw = "directive" then parseDirectiveDefinition fuel description rest
    else if description.isNone ∧
        (kw = "query" ∨ kw = "mutation" ∨ kw = "subscription" ∨ kw = "fragment" ∨ kw = "extend")
      then .error (.unsupported rest0)
    else .error (.unexpected rest0)
  | .punct .braceL :: _ => if description.isNone then .error (.unsupported rest0)
                           else .error (.unexpected rest0)
  | _ => .error (.unexpected rest0)

/-- The definitions of a document up to the end of the tokens; at least one
is read. -/
def parseDefinitions : List Token → List Token → List Definition →
    Except ParseFailure Document
  | [], toks, _ => .error (.unexpected toks)
  | _ :: fuel, toks, acc =>
    match parseDefinition fuel toks with
    | .error e => .error e
    | .ok (d, []) => .ok (d :: acc).reverse
    | .ok (d, rest) => parseDefinitions fuel rest (d :: acc)

/-- Locates a parser failure in a list of `n` tokens. -/
def ParseFailure.toSyntaxError (n : Nat) : ParseFailure → SyntaxError
  | .unexpected rest => .unexpectedToken (n - rest.length)
  | .unsupported rest => .unsupported (n - rest.length)

/-- The parser on a token list.  Fuel is a list, one element per loop round;
every round consumes a token, so a list longer than the token list never runs
out. -/
def parseTokens (toks : List Token) : Except SyntaxError Document :=
  match parseDefinitions (.punct .bang :: toks) toks [] with
  | .ok doc => .ok doc
  | .error e => .error (e.toSyntaxError toks.length)

/-- The library function `parse` on the body of a source: lexing, then
parsing.  (The library reads tokens on demand; a text is accepted by one
arrangement exactly if it is by the other.) -/
def parse (body : String) : Except SyntaxError Document :=
  match lex body with
  | .error e => .error e
  | .ok toks => parseTokens toks

end Mesh
namespace Mesh.Contentful

/-! ## `.mesh/sources/Contentful/schema.graphql.cjs`

For every top-level definition of the template literal: the lines of the
module that hold it, as written (escapes intact), and the definition they
declare. -/

/-- Lines 4 to 7 of the module: schema block. -/
def text.schema : List String := [
  "schema \x7b",
  "  query: Query",
  "\x7d",
  ""]

/-- The schema block declared by lines 4 to 7. -/
def schema : Definition :=
  .schemaDefinition none [] [⟨.query, "Query"⟩]

/-- Lines 8 to 17 of the module: type Query. -/
def text.Query : List String := [
  "type Query \x7b",
  "  asset(id: String!, preview: Boolean, locale: String): Asset",
  "  assetCollection(skip: Int = 0, limit: Int = 100, preview: Boolean, locale: String, where: AssetFilter, order: [AssetOrder]): AssetCollection",
  "  contentfuProduct(id: String!, preview: Boolean, locale: String): ContentfuProduct",
  "  contentfuProductCollection(skip: Int = 0, limit: Int = 100, preview: Boolean, locale: String, where: ContentfuProductFilter, order: [ContentfuProductOrder]): ContentfuProductCollection",
  "  page(id: String!, preview: Boolean, locale: String): Page",
  "  pageCollection(skip: Int = 0, limit: Int = 100, preview: Boolean, locale: String, where: PageFilter, order: [PageOrder]): PageCollection",
  "  entryCollection(skip: Int = 0, limit: Int = 100, preview: Boolean, locale: String, where: EntryFilter, order: [EntryOrder]): EntryCollection",
  "\x7d",
  ""]

/-- The type Query declared by lines 8 to 17. -/
def Query : Definition :=
  .objectType none
    "Query" [] [] [
    field none "asset" [
        inputValue none "id" (nn (nm "String")) none [],
        inputValue none "preview" (nm "Boolean") none [],
        inputValue none "locale" (nm "String") none []]
       (nm "Asset") [],
    field none "assetCollection" [
        inputValue none "skip" (nm "Int") (some (.int "0")) [],
        inputValue none "limit" (nm "Int") (some (.int "100")) [],
        inputValue none "preview" (nm "Boolean") none [],
        inputValue none "locale" (nm "String") none [],
        inputValue none "where" (nm "AssetFilter") none [],
        inputValue none "order" (ls (nm "AssetOrder")) none []]
       (nm "AssetCollection") [],
    field none "contentfuProduct" [
        inputValue none "id" (nn (nm "String")) none [],
        inputValue none "preview" (nm "Boolean") none [],
        inputValue none "locale" (nm "String") none []]
       (nm "ContentfuProduct") [],
    field none "contentfuProductCollection" [
        inputValue none "skip" (nm "Int") (some (.int "0")) [],
        inputValue none "limit" (nm "Int") (some (.int "100")) [],
        inputValue none "preview" (nm "Boolean") none [],
        inputValue none "locale" (nm "String") none [],
        inputValue none "where" (nm "ContentfuProductFilter") none [],
        inputValue none "order" (ls (nm "ContentfuProductOrder")) none []]
       (nm "ContentfuProductCollection") [],
    field none "page" [
        inputValue none "id" (nn (nm "String")) none [],
        inputValue none "preview" (nm "Boolean") none [],
        inputValue none "locale" (nm "String") none []]
       (nm "Page") [],
    field none "pageCollection" [
        inputValue none "skip" (nm "Int") (some (.int "0")) [],
        inputValue none "limit" (nm "Int") (some (.int "100")) [],
        inputValue none "preview" (nm "Boolean") none [],
        inputValue none "locale" (nm "String") none [],
        inputValue none "where" (nm "PageFilter") none [],
        inputValue none "order" (ls (nm "PageOrder")) none []]
       (nm "PageCollection") [],
    field none "entryCollection" [
        inputValue none "skip" (nm "Int") (some (.int "0")) [],
        inputValue none "limit" (nm "Int") (some (.int "100")) [],
        inputValue none "preview" (nm "Boolean") none [],
        inputValue none "locale" (nm "String") none [],
        inputValue none "where" (nm "EntryFilter") none [],
        inputValue none "order" (ls (nm "EntryOrder")) none []]
       (nm "EntryCollection") []]

/-- Lines 18 to 32 of the module: type Asset. -/
def text.Asset : List String := [
  "\"\"\"Represents a binary file in a space. An asset can be any file type.\"\"\"",
  "type Asset \x7b",
  "  sys: Sys!",
  "  contentfulMetadata: ContentfulMetadata!",
  "  title(locale: String): String",
  "  description(locale: String): String",
  "  contentType(locale: String): String",
  "  fileName(locale: String): String",
  "  size(locale: String): Int",
  "  url(transform: ImageTransformOptions, locale: String): String",
  "  width(locale: String): Int",
  "  height(locale: String): Int",
  "  linkedFrom(allowedLocales: [String]): AssetLinkingCollections",
  "\x7d",
  ""]

/-- The type Asset declared by lines 18 to 32. -/
def Asset : Definition :=
  .objectType (blk "Represents a binary file in a space. An asset can be any file type.")
    "Asset" [] [] [
    field none "sys" [] (nn (nm "Sys")) [],
    field none "contentfulMetadata" [] (nn (nm "ContentfulMetadata")) [],
    field none "title" [
        inputValue none "locale" (nm "String") none []]
       (nm "String") [],
    field none "description" [
        inputValue none "locale" (nm "String") none []]
       (nm "String") [],
    field none "contentType" [
        inputValue none "locale" (nm "String") none []]
       (nm "String") [],
    field none "fileName" [
        inputValue none "locale" (nm "String") none []]
       (nm "String") [],
    field none "size" [
        inputValue none "locale" (nm "String") none []]
       (nm "Int") [],
    field none "url" [
        inputValue none "transform" (nm "ImageTransformOptions") none [],
        inputValue none "locale" (nm "String") none []]
       (nm "String") [],
    field none "width" [
        inputValue none "locale" (nm "String") none []]
       (nm "Int") [],
    field none "height" [
        inputValue none "locale" (nm "String") none []]
       (nm "Int") [],
    field none "linkedFrom" [
        inputValue none "allowedLocales" (ls (nm "String")) none []]
       (nm "AssetLinkingCollections") []]

/-- Lines 33 to 41 of the module: type Sys. -/
def text.Sys : List String := [
  "type Sys \x7b",
  "  id: String!",
  "  spaceId: String!",
  "  environmentId: String!",
  "  publishedAt: DateTime",
  "  firstPublishedAt: DateTime",
  "  publishedVersion: Int",
  "\x7d",
  ""]

/-- The type Sys declared by lines 33 to 41. -/
def Sys : Definition :=
  .objectType none
    "Sys" [] [] [
    field none "id" [] (nn (nm "String")) [],
    field none "spaceId" [] (nn (nm "String")) [],
    field none "environmentId" [] (nn (nm "String")) [],
    field none "publishedAt" [] (nm "DateTime") [],
    field none "firstPublishedAt" [] (nm "DateTime") [],
    field none "publishedVersion" [] (nm "Int") []]

/-- Lines 42 to 49 of the module: scalar DateTime. -/
def text.DateTime : List String := [
  "\"\"\"",
  "A date-time string at UTC, such as 2007-12-03T10:15:30Z,",
  "    compliant with the 'date-time' format outlined in section 5.6 of",
  "    the RFC 3339 profile of the ISO 8601 standard for representation",
  "    of dates and times using the Gregorian calendar.",
  "\"\"\"",
  "scalar DateTime",
  ""]

/-- The scalar DateTime declared by lines 42 to 49. -/
def DateTime : Definition :=
  .scalarType (blk "A date-time string at UTC, such as 2007-12-03T10:15:30Z,\n    compliant with the 'date-time' format outlined in section 5.6 of\n    the RFC 3339 profile of the ISO 8601 standard for representation\n    of dates and times using the Gregorian calendar.")
    "DateTime" []

/-- Lines 50 to 53 of the module: type ContentfulMetadata. -/
def text.ContentfulMetadata : List String := [
  "type ContentfulMetadata \x7b",
  "  tags: [ContentfulTag]!",
  "\x7d",
  ""]

/-- The type ContentfulMetadata declared by lines 50 to 53. -/
def ContentfulMetadata : Definition :=
  .objectType none
    "ContentfulMetadata" [] [] [
    field none "tags" [] (nn (ls (nm "ContentfulTag"))) []]

/-- Lines 54 to 62 of the module: type ContentfulTag. -/
def text.ContentfulTag : List String := [
  "\"\"\"",
  "Represents a tag entity for finding and organizing content easily.",
  "    Find out more here: https://www.contentful.com/developers/docs/references/content-delivery-api/#/reference/content-tags",
  "\"\"\"",
  "type ContentfulTag \x7b",
  "  id: String",
  "  name: String",
  "\x7d",
  ""]

/-- The type ContentfulTag declared by lines 54 to 62. -/
def ContentfulTag : Definition :=
  .objectType (blk "Represents a tag entity for finding and organizing content easily.\n    Find out more here: https://www.contentful.com/developers/docs/references/content-delivery-api/#/reference/content-tags")
    "ContentfulTag" [] [] [
    field none "id" [] (nm "String") [],
    field none "name" [] (nm "String") []]

/-- Lines 63 to 92 of the module: input ImageTransformOptions. -/
def text.ImageTransformOptions : List String := [
  "input ImageTransformOptions \x7b",
  "  \"\"\"Desired width in pixels. Defaults to the original image width.\"\"\"",
  "  width: Dimension",
  "  \"\"\"Desired height in pixels. Defaults to the original image height.\"\"\"",
  "  height: Dimension",
  "  \"\"\"",
  "  Desired quality of the image in percents.",
  "          Used for \\`PNG8\\`, \\`JPG\\`, \\`JPG_PROGRESSIVE\\` and \\`WEBP\\` formats.",
  "  \"\"\"",
  "  quality: Quality",
  "  \"\"\"",
  "  Desired corner radius in pixels.",
  "          Results in an image with rounded corners (pass \\`-1\\` for a full circle/ellipse).",
  "          Defaults to \\`0\\`. Uses desired background color as padding color,",
  "          unless the format is \\`JPG\\` or \\`JPG_PROGRESSIVE\\` and resize strategy is \\`PAD\\`, then defaults to white.",
  "  \"\"\"",
  "  cornerRadius: Int",
  "  \"\"\"Desired resize strategy. Defaults to \\`FIT\\`.\"\"\"",
  "  resizeStrategy: ImageResizeStrategy",
  "  \"\"\"Desired resize focus area. Defaults to \\`CENTER\\`.\"\"\"",
  "  resizeFocus: ImageResizeFocus",
  "  \"\"\"",
  "  Desired background color, used with corner radius or \\`PAD\\` resize strategy.",
  "          Defaults to transparent (for \\`PNG\\`, \\`PNG8\\` and \\`WEBP\\`) or white (for \\`JPG\\` and \\`JPG_PROGRESSIVE\\`).",
  "  \"\"\"",
  "  backgroundColor: HexColor",
  "  \"\"\"Desired image format. Defaults to the original image format.\"\"\"",
  "  format: ImageFormat",
  "\x7d",
  ""]

/-- The input ImageTransformOptions declared by lines 63 to 92. -/
def ImageTransformOptions : Definition :=
  .inputObjectType none
    "ImageTransformOptions" [] [
    inputValue (blk "Desired width in pixels. Defaults to the original image width.")
       "width" (nm "Dimension") none [],
    inputValue (blk "Desired height in pixels. Defaults to the original image height.")
       "height" (nm "Dimension") none [],
    inputValue (blk "Desired quality of the image in percents.\n        Used for `PNG8`, `JPG`, `JPG_PROGRESSIVE` and `WEBP` formats.")
       "quality" (nm "Quality") none [],
    inputValue (blk "Desired corner radius in pixels.\n        Results in an image with rounded corners (pass `-1` for a full circle/ellipse).\n        Defaults to `0`. Uses desired background color as padding color,\n        unless the format is `JPG` or `JPG_PROGRESSIVE` and resize strategy is `PAD`, then defaults to white.")
       "cornerRadius" (nm "Int") none [],
    inputValue (blk "Desired resize strategy. Defaults to `FIT`.")
       "resizeStrategy" (nm "ImageResizeStrategy") none [],
    inputValue (blk "Desired resize focus area. Defaults to `CENTER`.")
       "resizeFocus" (nm "ImageResizeFocus") none [],
    inputValue (blk "Desired background color, used with corner radius or `PAD` resize strategy.\n        Defaults to transparent (for `PNG`, `PNG8` and `WEBP`) or white (for `JPG` and `JPG_PROGRESSIVE`).")
       "backgroundColor" (nm "HexColor") none [],
    inputValue (blk "Desired image format. Defaults to the original image format.")
       "format" (nm "ImageFormat") none []]

/-- Lines 93 to 97 of the module: scalar Dimension. -/
def text.Dimension : List String := [
  "\"\"\"",
  "The 'Dimension' type represents dimensions as whole numeric values between \\`1\\` and \\`4000\\`.",
  "\"\"\"",
  "scalar Dimension",
  ""]

/-- The scalar Dimension declared by lines 93 to 97. -/
def Dimension : Definition :=
  .scalarType (blk "The 'Dimension' type represents dimensions as whole numeric values between `1` and `4000`.")
    "Dimension" []

/-- Lines 98 to 102 of the module: scalar Quality. -/
def text.Quality : List String := [
  "\"\"\"",
  "The 'Quality' type represents quality as whole numeric values between \\`1\\` and \\`100\\`.",
  "\"\"\"",
  "scalar Quality",
  ""]

/-- The scalar Quality declared by lines 98 to 102. -/
def Quality : Definition :=
  .scalarType (blk "The 'Quality' type represents quality as whole numeric values between `1` and `100`.")
    "Quality" []

/-- Lines 103 to 126 of the module: enum ImageResizeStrategy. -/
def text.ImageResizeStrategy : List String := [
  "enum ImageResizeStrategy \x7b",
  "  \"\"\"Resizes the image to fit into the specified dimensions.\"\"\"",
  "  FIT",
  "  \"\"\"",
  "  Resizes the image to the specified dimensions, padding the image if needed.",
  "          Uses desired background color as padding color.",
  "  \"\"\"",
  "  PAD",
  "  \"\"\"",
  "  Resizes the image to the specified dimensions, cropping the image if needed.",
  "  \"\"\"",
  "  FILL",
  "  \"\"\"",
  "  Resizes the image to the specified dimensions, changing the original aspect ratio if needed.",
  "  \"\"\"",
  "  SCALE",
  "  \"\"\"",
  "  Crops a part of the original image to fit into the specified dimensions.",
  "  \"\"\"",
  "  CROP",
  "  \"\"\"Creates a thumbnail from the image.\"\"\"",
  "  THUMB",
  "\x7d",
  ""]

/-- The enum ImageResizeStrategy declared by lines 103 to 126. -/
def ImageResizeStrategy : Definition :=
  .enumType none
    "ImageResizeStrategy" [] [
    enumValue (blk "Resizes the image to fit into the specified dimensions.")
       "FIT" [],
    enumValue (blk "Resizes the image to the specified dimensions, padding the image if needed.\n        Uses desired background color as padding color.")
       "PAD" [],
    enumValue (blk "Resizes the image to the specified dimensions, cropping the image if needed.")
       "FILL" [],
    enumValue (blk "Resizes the image to the specified dimensions, changing the original aspect ratio if needed.")
       "SCALE" [],
    enumValue (blk "Crops a part of the original image to fit into the specified dimensions.")
       "CROP" [],
    enumValue (blk "Creates a thumbnail from the image.")
       "THUMB" []]

/-- Lines 127 to 151 of the module: enum ImageResizeFocus. -/
def text.ImageResizeFocus : List String := [
  "enum ImageResizeFocus \x7b",
  "  \"\"\"Focus the resizing on the center.\"\"\"",
  "  CENTER",
  "  \"\"\"Focus the resizing on the top.\"\"\"",
  "  TOP",
  "  \"\"\"Focus the resizing on the top right.\"\"\"",
  "  TOP_RIGHT",
  "  \"\"\"Focus the resizing on the right.\"\"\"",
  "  RIGHT",
  "  \"\"\"Focus the resizing on the bottom right.\"\"\"",
  "  BOTTOM_RIGHT",
  "  \"\"\"Focus the resizing on the bottom.\"\"\"",
  "  BOTTOM",
  "  \"\"\"Focus the resizing on the bottom left.\"\"\"",
  "  BOTTOM_LEFT",
  "  \"\"\"Focus the resizing on the left.\"\"\"",
  "  LEFT",
  "  \"\"\"Focus the resizing on the top left.\"\"\"",
  "  TOP_LEFT",
  "  \"\"\"Focus the resizing on the largest face.\"\"\"",
  "  FACE",
  "  \"\"\"Focus the resizing on the area containing all the faces.\"\"\"",
  "  FACES",
  "\x7d",
  ""]

/-- The enum ImageResizeFocus declared by lines 127 to 151. -/
def ImageResizeFocus : Definition :=
  .enumType none
    "ImageResizeFocus" [] [
    enumValue (blk "Focus the resizing on the center.")
       "CENTER" [],
    enumValue (blk "Focus the resizing on the top.")
       "TOP" [],
    enumValue (blk "Focus the resizing on the top right.")
       "TOP_RIGHT" [],
    enumValue (blk "Focus the resizing on the right.")
       "RIGHT" [],
    enumValue (blk "Focus the resizing on the bottom right.")
       "BOTTOM_RIGHT" [],
    enumValue (blk "Focus the resizing on the bottom.")
       "BOTTOM" [],
    enumValue (blk "Focus the resizing on the bottom left.")
       "BOTTOM_LEFT" [],
    enumValue (blk "Focus the resizing on the left.")
       "LEFT" [],
    enumValue (blk "Focus the resizing on the top left.")
       "TOP_LEFT" [],
    enumValue (blk "Focus the resizing on the largest face.")
       "FACE" [],
    enumValue (blk "Focus the resizing on the area containing all the faces.")
       "FACES" []]

/-- Lines 152 to 154 of the module: scalar HexColor. -/
def text.HexColor : List String := [
  "\"\"\"The 'HexColor' type represents color in \\`rgb:ffffff\\` string format.\"\"\"",
  "scalar HexColor",
  ""]

/-- The scalar HexColor declared by lines 152 to 154. -/
def HexColor : Definition :=
  .scalarType (blk "The 'HexColor' type represents color in `rgb:ffffff` string format.")
    "HexColor" []

/-- Lines 155 to 176 of the module: enum ImageFormat. -/
def text.ImageFormat : List String := [
  "enum ImageFormat \x7b",
  "  \"\"\"JPG image format.\"\"\"",
  "  JPG",
  "  \"\"\"",
  "  Progressive JPG format stores multiple passes of an image in progressively higher detail.",
  "          When a progressive image is loading, the viewer will first see a lower quality pixelated version which",
  "          will gradually improve in detail, until the image is fully downloaded. This is to display an image as",
  "          early as possible to make the layout look as designed.",
  "  \"\"\"",
  "  JPG_PROGRESSIVE",
  "  \"\"\"PNG image format\"\"\"",
  "  PNG",
  "  \"\"\"",
  "  8-bit PNG images support up to 256 colors and weigh less than the standard 24-bit PNG equivalent.",
  "          The 8-bit PNG format is mostly used for simple images, such as icons or logos.",
  "  \"\"\"",
  "  PNG8",
  "  \"\"\"WebP image format.\"\"\"",
  "  WEBP",
  "  AVIF",
  "\x7d",
  ""]

/-- The enum ImageFormat declared by lines 155 to 176. -/
def ImageFormat : Definition :=
  .enumType none
    "ImageFormat" [] [
    enumValue (blk "JPG image format.")
       "JPG" [],
    enumValue (blk "Progressive JPG format stores multiple passes of an image in progressively higher detail.\n        When a progressive image is loading, the viewer will first see a lower quality pixelated version which\n        will gradually improve in detail, until the image is fully downloaded. This is to display an image as\n        early as possible to make the layout look as designed.")
       "JPG_PROGRESSIVE" [],
    enumValue (blk "PNG image format")
       "PNG" [],
    enumValue (blk "8-bit PNG images support up to 256 colors and weigh less than the standard 24-bit PNG equivalent.\n        The 8-bit PNG format is mostly used for simple images, such as icons or logos.")
       "PNG8" [],
    enumValue (blk "WebP image format.")
       "WEBP" [],
    enumValue none "AVIF" []]

/-- Lines 177 to 180 of the module: type AssetLinkingCollections. -/
def text.AssetLinkingCollections : List String := [
  "type AssetLinkingCollections \x7b",
  "  entryCollection(skip: Int = 0, limit: Int = 100, preview: Boolean, locale: String): EntryCollection",
  "\x7d",
  ""]

/-- The type AssetLinkingCollections declared by lines 177 to 180. -/
def AssetLinkingCollections : Definition :=
  .objectType none
    "AssetLinkingCollections" [] [] [
    field none "entryCollection" [
        inputValue none "skip" (nm "Int") (some (.int "0")) [],
        inputValue none "limit" (nm "Int") (some (.int "100")) [],
        inputValue none "preview" (nm "Boolean") none [],
        inputValue none "locale" (nm "String") none []]
       (nm "EntryCollection") []]

/-- Lines 181 to 187 of the module: type EntryCollection. -/
def text.EntryCollection : List String := [
  "type EntryCollection \x7b",
  "  total: Int!",
  "  skip: Int!",
  "  limit: Int!",
  "  items: [Entry]!",
  "\x7d",
  ""]

/-- The type EntryCollection declared by lines 181 to 187. -/
def EntryCollection : Definition :=
  .objectType none
    "EntryCollection" [] [] [
    field none "total" [] (nn (nm "Int")) [],
    field none "skip" [] (nn (nm "Int")) [],
    field none "limit" [] (nn (nm "Int")) [],
    field none "items" [] (nn (ls (nm "Entry"))) []]

/-- Lines 188 to 192 of the module: interface Entry. -/
def text.Entry : List String := [
  "interface Entry \x7b",
  "  sys: Sys!",
  "  contentfulMetadata: ContentfulMetadata!",
  "\x7d",
  ""]

/-- The interface Entry declared by lines 188 to 192. -/
def Entry : Definition :=
  .interfaceType none
    "Entry" [] [] [
    field none "sys" [] (nn (nm "Sys")) [],
    field none "contentfulMetadata" [] (nn (nm "ContentfulMetadata")) []]

/-- Lines 193 to 199 of the module: type AssetCollection. -/
def text.AssetCollection : List String := [
  "type AssetCollection \x7b",
  "  total: Int!",
  "  skip: Int!",
  "  limit: Int!",
  "  items: [Asset]!",
  "\x7d",
  ""]

/-- The type AssetCollection declared by lines 193 to 199. -/
def AssetCollection : Definition :=
  .objectType none
    "AssetCollection" [] [] [
    field none "total" [] (nn (nm "Int")) [],
    field none "skip" [] (nn (nm "Int")) [],
    field none "limit" [] (nn (nm "Int")) [],
    field none "items" [] (nn (ls (nm "Asset"))) []]

/-- Lines 200 to 268 of the module: input AssetFilter. -/
def text.AssetFilter : List String := [
  "input AssetFilter \x7b",
  "  sys: SysFilter",
  "  contentfulMetadata: ContentfulMetadataFilter",
  "  title_exists: Boolean",
  "  title: String",
  "  title_not: String",
  "  title_in: [String]",
  "  title_not_in: [String]",
  "  title_contains: String",
  "  title_not_contains: String",
  "  description_exists: Boolean",
  "  description: String",
  "  description_not: String",
  "  description_in: [String]",
  "  description_not_in: [String]",
  "  description_contains: String",
  "  description_not_contains: String",
  "  url_exists: Boolean",
  "  url: String",
  "  url_not: String",
  "  url_in: [String]",
  "  url_not_in: [String]",
  "  url_contains: String",
  "  url_not_contains: String",
  "  size_exists: Boolean",
  "  size: Int",
  "  size_not: Int",
  "  size_in: [Int]",
  "  size_not_in: [Int]",
  "  size_gt: Int",
  "  size_gte: Int",
  "  size_lt: Int",
  "  size_lte: Int",
  "  contentType_exists: Boolean",
  "  contentType: String",
  "  contentType_not: String",
  "  contentType_in: [String]",
  "  contentType_not_in: [String]",
  "  contentType_contains: String",
  "  contentType_not_contains: String",
  "  fileName_exists: Boolean",
  "  fileName: String",
  "  fileName_not: String",
  "  fileName_in: [String]",
  "  fileName_not_in: [String]",
  "  fileName_contains: String",
  "  fileName_not_contains: String",
  "  width_exists: Boolean",
  "  width: Int",
  "  width_not: Int",
  "  width_in: [Int]",
  "  width_not_in: [Int]",
  "  width_gt: Int",
  "  width_gte: Int",
  "  width_lt: Int",
  "  width_lte: Int",
  "  height_exists: Boolean",
  "  height: Int",
  "  height_not: Int",
  "  height_in: [Int]",
  "  height_not_in: [Int]",
  "  height_gt: Int",
  "  height_gte: Int",
  "  height_lt: Int",
  "  height_lte: Int",
  "  OR: [AssetFilter]",
  "  AND: [AssetFilter]",
  "\x7d",
  ""]

/-- The input AssetFilter declared by lines 200 to 268. -/
def AssetFilter : Definition :=
  .inputObjectType none
    "AssetFilter" [] [
    inputValue none "sys" (nm "SysFilter") none [],
    inputValue none "contentfulMetadata" (nm "ContentfulMetadataFilter") none [],
    inputValue none "title_exists" (nm "Boolean") none [],
    inputValue none "title" (nm "String") none [],
    inputValue none "title_not" (nm "String") none [],
    inputValue none "title_in" (ls (nm "String")) none [],
    inputValue none "title_not_in" (ls (nm "String")) none [],
    inputValue none "title_contains" (nm "String") none [],
    inputValue none "title_not_contains" (nm "String") none [],
    inputValue none "description_exists" (nm "Boolean") none [],
    inputValue none "description" (nm "String") none [],
    inputValue none "description_not" (nm "String") none [],
    inputValue none "description_in" (ls (nm "String")) none [],
    inputValue none "description_not_in" (ls (nm "String")) none [],
    inputValue none "description_contains" (nm "String") none [],
    inputValue none "description_not_contains" (nm "String") none [],
    inputValue none "url_exists" (nm "Boolean") none [],
    inputValue none "url" (nm "String") none [],
    inputValue none "url_not" (nm "String") none [],
    inputValue none "url_in" (ls (nm "String")) none [],
    inputValue none "url_not_in" (ls (nm "String")) none [],
    inputValue none "url_contains" (nm "String") none [],
    inputValue none "url_not_contains" (nm "String") none [],
    inputValue none "size_exists" (nm "Boolean") none [],
    inputValue none "size" (nm "Int") none [],
    inputValue none "size_not" (nm "Int") none [],
    inputValue none "size_in" (ls (nm "Int")) none [],
    inputValue none "size_not_in" (ls (nm "Int")) none [],
    inputValue none "size_gt" (nm "Int") none [],
    inputValue none "size_gte" (nm "Int") none [],
    inputValue none "size_lt" (nm "Int") none [],
    inputValue none "size_lte" (nm "Int") none [],
    inputValue none "contentType_exists" (nm "Boolean") none [],
    inputValue none "contentType" (nm "String") none [],
    inputValue none "contentType_not" (nm "String") none [],
    inputValue none "contentType_in" (ls (nm "String")) none [],
    inputValue none "contentType_not_in" (ls (nm "String")) none [],
    inputValue none "contentType_contains" (nm "String") none [],
    inputValue none "contentType_not_contains" (nm "String") none [],
    inputValue none "fileName_exists" (nm "Boolean") none [],
    inputValue none "fileName" (nm "String") none [],
    inputValue none "fileName_not" (nm "String") none [],
    inputValue none "fileName_in" (ls (nm "String")) none [],
    inputValue none "fileName_not_in" (ls (nm "String")) none [],
    inputValue none "fileName_contains" (nm "String") none [],
    inputValue none "fileName_not_contains" (nm "String") none [],
    inputValue none "width_exists" (nm "Boolean") none [],
    inputValue none "width" (nm "Int") none [],
    inputValue none "width_not" (nm "Int") none [],
    inputValue none "width_in" (ls (nm "Int")) none [],
    inputValue none "width_not_in" (ls (nm "Int")) none [],
    inputValue none "width_gt" (nm "Int") none [],
    inputValue none "width_gte" (nm "Int") none [],
    inputValue none "width_lt" (nm "Int") none [],
    inputValue none "width_lte" (nm "Int") none [],
    inputValue none "height_exists" (nm "Boolean") none [],
    inputValue none "height" (nm "Int") none [],
    inputValue none "height_not" (nm "Int") none [],
    inputValue none "height_in" (ls (nm "Int")) none [],
    inputValue none "height_not_in" (ls (nm "Int")) none [],
    inputValue none "height_gt" (nm "Int") none [],
    inputValue none "height_gte" (nm "Int") none [],
    inputValue none "height_lt" (nm "Int") none [],
    inputValue none "height_lte" (nm "Int") none [],
    inputValue none "OR" (ls (nm "AssetFilter")) none [],
    inputValue none "AND" (ls (nm "AssetFilter")) none []]

/-- Lines 269 to 305 of the module: input SysFilter. -/
def text.SysFilter : List String := [
  "input SysFilter \x7b",
  "  id_exists: Boolean",
  "  id: String",
  "  id_not: String",
  "  id_in: [String]",
  "  id_not_in: [String]",
  "  id_contains: String",
  "  id_not_contains: String",
  "  publishedAt_exists: Boolean",
  "  publishedAt: DateTime",
  "  publishedAt_not: DateTime",
  "  publishedAt_in: [DateTime]",
  "  publishedAt_not_in: [DateTime]",
  "  publishedAt_gt: DateTime",
  "  publishedAt_gte: DateTime",
  "  publishedAt_lt: DateTime",
  "  publishedAt_lte: DateTime",
  "  firstPublishedAt_exists: Boolean",
  "  firstPublishedAt: DateTime",
  "  firstPublishedAt_not: DateTime",
  "  firstPublishedAt_in: [DateTime]",
  "  firstPublishedAt_not_in: [DateTime]",
  "  firstPublishedAt_gt: DateTime",
  "  firstPublishedAt_gte: DateTime",
  "  firstPublishedAt_lt: DateTime",
  "  firstPublishedAt_lte: DateTime",
  "  publishedVersion_exists: Boolean",
  "  publishedVersion: Float",
  "  publishedVersion_not: Float",
  "  publishedVersion_in: [Float]",
  "  publishedVersion_not_in: [Float]",
  "  publishedVersion_gt: Float",
  "  publishedVersion_gte: Float",
  "  publishedVersion_lt: Float",
  "  publishedVersion_lte: Float",
  "\x7d",
  ""]

/-- The input SysFilter declared by lines 269 to 305. -/
def SysFilter : Definition :=
  .inputObjectType none
    "SysFilter" [] [
    inputValue none "id_exists" (nm "Boolean") none [],
    inputValue none "id" (nm "String") none [],
    inputValue none "id_not" (nm "String") none [],
    inputValue none "id_in" (ls (nm "String")) none [],
    inputValue none "id_not_in" (ls (nm "String")) none [],
    inputValue none "id_contains" (nm "String") none [],
    inputValue none "id_not_contains" (nm "String") none [],
    inputValue none "publishedAt_exists" (nm "Boolean") none [],
    inputValue none "publishedAt" (nm "DateTime") none [],
    inputValue none "publishedAt_not" (nm "DateTime") none [],
    inputValue none "publishedAt_in" (ls (nm "DateTime")) none [],
    inputValue none "publishedAt_not_in" (ls (nm "DateTime")) none [],
    inputValue none "publishedAt_gt" (nm "DateTime") none [],
    inputValue none "publishedAt_gte" (nm "DateTime") none [],
    inputValue none "publishedAt_lt" (nm "DateTime") none [],
    inputValue none "publishedAt_lte" (nm "DateTime") none [],
    inputValue none "firstPublishedAt_exists" (nm "Boolean") none [],
    inputValue none "firstPublishedAt" (nm "DateTime") none [],
    inputValue none "firstPublishedAt_not" (nm "DateTime") none [],
    inputValue none "firstPublishedAt_in" (ls (nm "DateTime")) none [],
    inputValue none "firstPublishedAt_not_in" (ls (nm "DateTime")) none [],
    inputValue none "firstPublishedAt_gt" (nm "DateTime") none [],
    inputValue none "firstPublishedAt_gte" (nm "DateTime") none [],
    inputValue none "firstPublishedAt_lt" (nm "DateTime") none [],
    inputValue none "firstPublishedAt_lte" (nm "DateTime") none [],
    inputValue none "publishedVersion_exists" (nm "Boolean") none [],
    inputValue none "publishedVersion" (nm "Float") none [],
    inputValue none "publishedVersion_not" (nm "Float") none [],
    inputValue none "publishedVersion_in" (ls (nm "Float")) none [],
    inputValue none "publishedVersion_not_in" (ls (nm "Float")) none [],
    inputValue none "publishedVersion_gt" (nm "Float") none [],
    inputValue none "publishedVersion_gte" (nm "Float") none [],
    inputValue none "publishedVersion_lt" (nm "Float") none [],
    inputValue none "publishedVersion_lte" (nm "Float") none []]

/-- Lines 306 to 310 of the module: input ContentfulMetadataFilter. -/
def text.ContentfulMetadataFilter : List String := [
  "input ContentfulMetadataFilter \x7b",
  "  tags_exists: Boolean",
  "  tags: ContentfulMetadataTagsFilter",
  "\x7d",
  ""]

/-- The input ContentfulMetadataFilter declared by lines 306 to 310. -/
def ContentfulMetadataFilter : Definition :=
  .inputObjectType none
    "ContentfulMetadataFilter" [] [
    inputValue none "tags_exists" (nm "Boolean") none [],
    inputValue none "tags" (nm "ContentfulMetadataTagsFilter") none []]

/-- Lines 311 to 316 of the module: input ContentfulMetadataTagsFilter. -/
def text.ContentfulMetadataTagsFilter : List String := [
  "input ContentfulMetadataTagsFilter \x7b",
  "  id_contains_all: [String]",
  "  id_contains_some: [String]",
  "  id_contains_none: [String]",
  "\x7d",
  ""]

/-- The input ContentfulMetadataTagsFilter declared by lines 311 to 316. -/
def ContentfulMetadataTagsFilter : Definition :=
  .inputObjectType none
    "ContentfulMetadataTagsFilter" [] [
    inputValue none "id_contains_all" (ls (nm "String")) none [],
    inputValue none "id_contains_some" (ls (nm "String")) none [],
    inputValue none "id_contains_none" (ls (nm "String")) none []]

/-- Lines 317 to 339 of the module: enum AssetOrder. -/
def text.AssetOrder : List String := [
  "enum AssetOrder \x7b",
  "  url_ASC",
  "  url_DESC",
  "  size_ASC",
  "  size_DESC",
  "  contentType_ASC",
  "  contentType_DESC",
  "  fileName_ASC",
  "  fileName_DESC",
  "  width_ASC",
  "  width_DESC",
  "  height_ASC",
  "  height_DESC",
  "  sys_id_ASC",
  "  sys_id_DESC",
  "  sys_publishedAt_ASC",
  "  sys_publishedAt_DESC",
  "  sys_firstPublishedAt_ASC",
  "  sys_firstPublishedAt_DESC",
  "  sys_publishedVersion_ASC",
  "  sys_publishedVersion_DESC",
  "\x7d",
  ""]

/-- The enum AssetOrder declared by lines 317 to 339. -/
def AssetOrder : Definition :=
  .enumType none
    "AssetOrder" [] [
    enumValue none "url_ASC" [],
    enumValue none "url_DESC" [],
    enumValue none "size_ASC" [],
    enumValue none "size_DESC" [],
    enumValue none "contentType_ASC" [],
    enumValue none "contentType_DESC" [],
    enumValue none "fileName_ASC" [],
    enumValue none "fileName_DESC" [],
    enumValue none "width_ASC" [],
    enumValue none "width_DESC" [],
    enumValue none "height_ASC" [],
    enumValue none "height_DESC" [],
    enumValue none "sys_id_ASC" [],
    enumValue none "sys_id_DESC" [],
    enumValue none "sys_publishedAt_ASC" [],
    enumValue none "sys_publishedAt_DESC" [],
    enumValue none "sys_firstPublishedAt_ASC" [],
    enumValue none "sys_firstPublishedAt_DESC" [],
    enumValue none "sys_publishedVersion_ASC" [],
    enumValue none "sys_publishedVersion_DESC" []]

/-- Lines 340 to 351 of the module: type ContentfuProduct. -/
def text.ContentfuProduct : List String := [
  "\"\"\"",
  "[See type definition](https://app.contentful.com/spaces/ocjjk64g08s4/content_types/contentfuProduct)",
  "\"\"\"",
  "type ContentfuProduct implements Entry \x7b",
  "  sys: Sys!",
  "  contentfulMetadata: ContentfulMetadata!",
  "  linkedFrom(allowedLocales: [String]): ContentfuProductLinkingCollections",
  "  productId(locale: String): String",
  "  handle(locale: String): String",
  "  title(locale: String): String",
  "\x7d",
  ""]

/-- The type ContentfuProduct declared by lines 340 to 351. -/
def ContentfuProduct : Definition :=
  .objectType (blk "[See type definition](https://app.contentful.com/spaces/ocjjk64g08s4/content_types/contentfuProduct)")
    "ContentfuProduct" ["Entry"] [] [
    field none "sys" [] (nn (nm "Sys")) [],
    field none "contentfulMetadata" [] (nn (nm "ContentfulMetadata")) [],
    field none "linkedFrom" [
        inputValue none "allowedLocales" (ls (nm "String")) none []]
       (nm "ContentfuProductLinkingCollections") [],
    field none "productId" [
        inputValue none "locale" (nm "String") none []]
       (nm "String") [],
    field none "handle" [
        inputValue none "locale" (nm "String") none []]
       (nm "String") [],
    field none "title" [
        inputValue none "locale" (nm "String") none []]
       (nm "String") []]

/-- Lines 352 to 355 of the module: type ContentfuProductLinkingCollections. -/
def text.ContentfuProductLinkingCollections : List String := [
  "type ContentfuProductLinkingCollections \x7b",
  "  entryCollection(skip: Int = 0, limit: Int = 100, preview: Boolean, locale: String): EntryCollection",
  "\x7d",
  ""]

/-- The type ContentfuProductLinkingCollections declared by lines 352 to 355. -/
def ContentfuProductLinkingCollections : Definition :=
  .objectType none
    "ContentfuProductLinkingCollections" [] [] [
    field none "entryCollection" [
        inputValue none "skip" (nm "Int") (some (.int "0")) [],
        inputValue none "limit" (nm "Int") (some (.int "100")) [],
        inputValue none "preview" (nm "Boolean") none [],
        inputValue none "locale" (nm "String") none []]
       (nm "EntryCollection") []]

/-- Lines 356 to 362 of the module: type ContentfuProductCollection. -/
def text.ContentfuProductCollection : List String := [
  "type ContentfuProductCollection \x7b",
  "  total: Int!",
  "  skip: Int!",
  "  limit: Int!",
  "  items: [ContentfuProduct]!",
  "\x7d",
  ""]

/-- The type ContentfuProductCollection declared by lines 356 to 362. -/
def ContentfuProductCollection : Definition :=
  .objectType none
    "ContentfuProductCollection" [] [] [
    field none "total" [] (nn (nm "Int")) [],
    field none "skip" [] (nn (nm "Int")) [],
    field none "limit" [] (nn (nm "Int")) [],
    field none "items" [] (nn (ls (nm "ContentfuProduct"))) []]

/-- Lines 363 to 390 of the module: input ContentfuProductFilter. -/
def text.ContentfuProductFilter : List String := [
  "input ContentfuProductFilter \x7b",
  "  sys: SysFilter",
  "  contentfulMetadata: ContentfulMetadataFilter",
  "  productID_exists: Boolean",
  "  productID: String",
  "  productID_not: String",
  "  productID_in: [String]",
  "  productID_not_in: [String]",
  "  productID_contains: String",
  "  productID_not_contains: String",
  "  handle_exists: Boolean",
  "  handle: String",
  "  handle_not: String",
  "  handle_in: [String]",
  "  handle_not_in: [String]",
  "  handle_contains: String",
  "  handle_not_contains: String",
  "  title_exists: Boolean",
  "  title: String",
  "  title_not: String",
  "  title_in: [String]",
  "  title_not_in: [String]",
  "  title_contains: String",
  "  title_not_contains: String",
  "  OR: [ContentfuProductFilter]",
  "  AND: [ContentfuProductFilter]",
  "\x7d",
  ""]

/-- The input ContentfuProductFilter declared by lines 363 to 390. -/
def ContentfuProductFilter : Definition :=
  .inputObjectType none
    "ContentfuProductFilter" [] [
    inputValue none "sys" (nm "SysFilter") none [],
    inputValue none "contentfulMetadata" (nm "ContentfulMetadataFilter") none [],
    inputValue none "productID_exists" (nm "Boolean") none [],
    inputValue none "productID" (nm "String") none [],
    inputValue none "productID_not" (nm "String") none [],
    inputValue none "productID_in" (ls (nm "String")) none [],
    inputValue none "productID_not_in" (ls (nm "String")) none [],
    inputValue none "productID_contains" (nm "String") none [],
    inputValue none "productID_not_contains" (nm "String") none [],
    inputValue none "handle_exists" (nm "Boolean") none [],
    inputValue none "handle" (nm "String") none [],
    inputValue none "handle_not" (nm "String") none [],
    inputValue none "handle_in" (ls (nm "String")) none [],
    inputValue none "handle_not_in" (ls (nm "String")) none [],
    inputValue none "handle_contains" (nm "String") none [],
    inputValue none "handle_not_contains" (nm "String") none [],
    inputValue none "title_exists" (nm "Boolean") none [],
    inputValue none "title" (nm "String") none [],
    inputValue none "title_not" (nm "String") none [],
    inputValue none "title_in" (ls (nm "String")) none [],
    inputValue none "title_not_in" (ls (nm "String")) none [],
    inputValue none "title_contains" (nm "String") none [],
    inputValue none "title_not_contains" (nm "String") none [],
    inputValue none "OR" (ls (nm "ContentfuProductFilter")) none [],
    inputValue none "AND" (ls (nm "ContentfuProductFilter")) none []]

/-- Lines 391 to 407 of the module: enum ContentfuProductOrder. -/
def text.ContentfuProductOrder : List String := [
  "enum ContentfuProductOrder \x7b",
  "  productID_ASC",
  "  productID_DESC",
  "  handle_ASC",
  "  handle_DESC",
  "  title_ASC",
  "  title_DESC",
  "  sys_id_ASC",
  "  sys_id_DESC",
  "  sys_publishedAt_ASC",
  "  sys_publishedAt_DESC",
  "  sys_firstPublishedAt_ASC",
  "  sys_firstPublishedAt_DESC",
  "  sys_publishedVersion_ASC",
  "  sys_publishedVersion_DESC",
  "\x7d",
  ""]

/-- The enum ContentfuProductOrder declared by lines 391 to 407. -/
def ContentfuProductOrder : Definition :=
  .enumType none
    "ContentfuProductOrder" [] [
    enumValue none "productID_ASC" [],
    enumValue none "productID_DESC" [],
    enumValue none "handle_ASC" [],
    enumValue none "handle_DESC" [],
    enumValue none "title_ASC" [],
    enumValue none "title_DESC" [],
    enumValue none "sys_id_ASC" [],
    enumValue none "sys_id_DESC" [],
    enumValue none "sys_publishedAt_ASC" [],
    enumValue none "sys_publishedAt_DESC" [],
    enumValue none "sys_firstPublishedAt_ASC" [],
    enumValue none "sys_firstPublishedAt_DESC" [],
    enumValue none "sys_publishedVersion_ASC" [],
    enumValue none "sys_publishedVersion_DESC" []]

/-- Lines 408 to 418 of the module: type Page. -/
def text.Page : List String := [
  "\"\"\"",
  "[See type definition](https://app.contentful.com/spaces/ocjjk64g08s4/content_types/page)",
  "\"\"\"",
  "type Page implements Entry \x7b",
  "  sys: Sys!",
  "  contentfulMetadata: ContentfulMetadata!",
  "  linkedFrom(allowedLocales: [String]): PageLinkingCollections",
  "  handle(locale: String): String",
  "  test(locale: String): String",
  "\x7d",
  ""]

/-- The type Page declared by lines 408 to 418. -/
def Page : Definition :=
  .objectType (blk "[See type definition](https://app.contentful.com/spaces/ocjjk64g08s4/content_types/page)")
    "Page" ["Entry"] [] [
    field none "sys" [] (nn (nm "Sys")) [],
    field none "contentfulMetadata" [] (nn (nm "ContentfulMetadata")) [],
    field none "linkedFrom" [
        inputValue none "allowedLocales" (ls (nm "String")) none []]
       (nm "PageLinkingCollections") [],
    field none "handle" [
        inputValue none "locale" (nm "String") none []]
       (nm "String") [],
    field none "test" [
        inputValue none "locale" (nm "String") none []]
       (nm "String") []]

/-- Lines 419 to 422 of the module: type PageLinkingCollections. -/
def text.PageLinkingCollections : List String := [
  "type PageLinkingCollections \x7b",
  "  entryCollection(skip: Int = 0, limit: Int = 100, preview: Boolean, locale: String): EntryCollection",
  "\x7d",
  ""]

/-- The type PageLinkingCollections declared by lines 419 to 422. -/
def PageLinkingCollections : Definition :=
  .objectType none
    "PageLinkingCollections" [] [] [
    field none "entryCollection" [
        inputValue none "skip" (nm "Int") (some (.int "0")) [],
        inputValue none "limit" (nm "Int") (some (.int "100")) [],
        inputValue none "preview" (nm "Boolean") none [],
        inputValue none "locale" (nm "String") none []]
       (nm "EntryCollection") []]

/-- Lines 423 to 429 of the module: type PageCollection. -/
def text.PageCollection : List String := [
  "type PageCollection \x7b",
  "  total: Int!",
  "  skip: Int!",
  "  limit: Int!",
  "  items: [Page]!",
  "\x7d",
  ""]

/-- The type PageCollection declared by lines 423 to 429. -/
def PageCollection : Definition :=
  .objectType none
    "PageCollection" [] [] [
    field none "total" [] (nn (nm "Int")) [],
    field none "skip" [] (nn (nm "Int")) [],
    field none "limit" [] (nn (nm "Int")) [],
    field none "items" [] (nn (ls (nm "Page"))) []]

/-- Lines 430 to 450 of the module: input PageFilter. -/
def text.PageFilter : List String := [
  "input PageFilter \x7b",
  "  sys: SysFilter",
  "  contentfulMetadata: ContentfulMetadataFilter",
  "  handle_exists: Boolean",
  "  handle: String",
  "  handle_not: String",
  "  handle_in: [String]",
  "  handle_not_in: [String]",
  "  handle_contains: String",
  "  handle_not_contains: String",
  "  test_exists: Boolean",
  "  test: String",
  "  test_not: String",
  "  test_in: [String]",
  "  test_not_in: [String]",
  "  test_contains: String",
  "  test_not_contains: String",
  "  OR: [PageFilter]",
  "  AND: [PageFilter]",
  "\x7d",
  ""]

/-- The input PageFilter declared by lines 430 to 450. -/
def PageFilter : Definition :=
  .inputObjectType none
    "PageFilter" [] [
    inputValue none "sys" (nm "SysFilter") none [],
    inputValue none "contentfulMetadata" (nm "ContentfulMetadataFilter") none [],
    inputValue none "handle_exists" (nm "Boolean") none [],
    inputValue none "handle" (nm "String") none [],
    inputValue none "handle_not" (nm "String") none [],
    inputValue none "handle_in" (ls (nm "String")) none [],
    inputValue none "handle_not_in" (ls (nm "String")) none [],
    inputValue none "handle_contains" (nm "String") none [],
    inputValue none "handle_not_contains" (nm "String") none [],
    inputValue none "test_exists" (nm "Boolean") none [],
    inputValue none "test" (nm "String") none [],
    inputValue none "test_not" (nm "String") none [],
    inputValue none "test_in" (ls (nm "String")) none [],
    inputValue none "test_not_in" (ls (nm "String")) none [],
    inputValue none "test_contains" (nm "String") none [],
    inputValue none "test_not_contains" (nm "String") none [],
    inputValue none "OR" (ls (nm "PageFilter")) none [],
    inputValue none "AND" (ls (nm "PageFilter")) none []]

/-- Lines 451 to 465 of the module: enum PageOrder. -/
def text.PageOrder : List String := [
  "enum PageOrder \x7b",
  "  handle_ASC",
  "  handle_DESC",
  "  test_ASC",
  "  test_DESC",
  "  sys_id_ASC",
  "  sys_id_DESC",
  "  sys_publishedAt_ASC",
  "  sys_publishedAt_DESC",
  "  sys_firstPublishedAt_ASC",
  "  sys_firstPublishedAt_DESC",
  "  sys_publishedVersion_ASC",
  "  sys_publishedVersion_DESC",
  "\x7d",
  ""]

/-- The enum PageOrder declared by lines 451 to 465. -/
def PageOrder : Definition :=
  .enumType none
    "PageOrder" [] [
    enumValue none "handle_ASC" [],
    enumValue none "handle_DESC" [],
    enumValue none "test_ASC" [],
    enumValue none "test_DESC" [],
    enumValue none "sys_id_ASC" [],
    enumValue none "sys_id_DESC" [],
    enumValue none "sys_publishedAt_ASC" [],
    enumValue none "sys_publishedAt_DESC" [],
    enumValue none "sys_firstPublishedAt_ASC" [],
    enumValue none "sys_firstPublishedAt_DESC" [],
    enumValue none "sys_publishedVersion_ASC" [],
    enumValue none "sys_publishedVersion_DESC" []]

/-- Lines 466 to 472 of the module: input EntryFilter. -/
def text.EntryFilter : List String := [
  "input EntryFilter \x7b",
  "  sys: SysFilter",
  "  contentfulMetadata: ContentfulMetadataFilter",
  "  OR: [EntryFilter]",
  "  AND: [EntryFilter]",
  "\x7d",
  ""]

/-- The input EntryFilter declared by lines 466 to 472. -/
def EntryFilter : Definition :=
  .inputObjectType none
    "EntryFilter" [] [
    inputValue none "sys" (nm "SysFilter") none [],
    inputValue none "contentfulMetadata" (nm "ContentfulMetadataFilter") none [],
    inputValue none "OR" (ls (nm "EntryFilter")) none [],
    inputValue none "AND" (ls (nm "EntryFilter")) none []]

/-- Lines 473 to 482 of the module: enum EntryOrder. -/
def text.EntryOrder : List String := [
  "enum EntryOrder \x7b",
  "  sys_id_ASC",
  "  sys_id_DESC",
  "  sys_publishedAt_ASC",
  "  sys_publishedAt_DESC",
  "  sys_firstPublishedAt_ASC",
  "  sys_firstPublishedAt_DESC",
  "  sys_publishedVersion_ASC",
  "  sys_publishedVersion_DESC",
  "\x7d"]

/-- The enum EntryOrder declared by lines 473 to 482. -/
def EntryOrder : Definition :=
  .enumType none
    "EntryOrder" [] [
    enumValue none "sys_id_ASC" [],
    enumValue none "sys_id_DESC" [],
    enumValue none "sys_publishedAt_ASC" [],
    enumValue none "sys_publishedAt_DESC" [],
    enumValue none "sys_firstPublishedAt_ASC" [],
    enumValue none "sys_firstPublishedAt_DESC" [],
    enumValue none "sys_publishedVersion_ASC" [],
    enumValue none "sys_publishedVersion_DESC" []]

/-- The lines of the template literal, lines 4 to 482 of the module. -/
def lines : List String := List.flatten [
  text.schema, text.Query, text.Asset, text.Sys, text.DateTime, text.ContentfulMetadata,
  text.ContentfulTag, text.ImageTransformOptions, text.Dimension, text.Quality,
  text.ImageResizeStrategy, text.ImageResizeFocus, text.HexColor, text.ImageFormat,
  text.AssetLinkingCollections, text.EntryCollection, text.Entry, text.AssetCollection,
  text.AssetFilter, text.SysFilter, text.ContentfulMetadataFilter,
  text.ContentfulMetadataTagsFilter, text.AssetOrder, text.ContentfuProduct,
  text.ContentfuProductLinkingCollections, text.ContentfuProductCollection,
  text.ContentfuProductFilter, text.ContentfuProductOrder, text.Page,
  text.PageLinkingCollections, text.PageCollection, text.PageFilter, text.PageOrder,
  text.EntryFilter, text.EntryOrder]

/-- The definitions the template literal declares, in order. -/
def document : Document := [
  schema, Query, Asset, Sys, DateTime, ContentfulMetadata, ContentfulTag,
  ImageTransformOptions, Dimension, Quality, ImageResizeStrategy, ImageResizeFocus, HexColor,
  ImageFormat, AssetLinkingCollections, EntryCollection, Entry, AssetCollection, AssetFilter,
  SysFilter, ContentfulMetadataFilter, ContentfulMetadataTagsFilter, AssetOrder,
  ContentfuProduct, ContentfuProductLinkingCollections, ContentfuProductCollection,
  ContentfuProductFilter, ContentfuProductOrder, Page, PageLinkingCollections, PageCollection,
  PageFilter, PageOrder, EntryFilter, EntryOrder]

end Mesh.Contentful
namespace Mesh.Shopify

/-! ## `.mesh/sources/Shopify/schema.graphql.cjs`

For every top-level definition of the template literal: the lines of the
module that hold it, as written (escapes intact), and the definition they
declare. -/

/-- Lines 4 to 8 of the module: schema block. -/
def text.schema : List String := [
  "schema \x7b",
  "  query: QueryRoot",
  "  mutation: Mutation",
  "\x7d",
  ""]

/-- The schema block declared by lines 4 to 8. -/
def schema : Definition :=
  .schemaDefinition none [] [⟨.query, "QueryRoot"⟩, ⟨.mutation, "Mutation"⟩]

/-- Lines 9 to 14 of the module: directive @accessRestricted. -/
def text.directive_accessRestricted : List String := [
  "\"Marks an element of a GraphQL schema as having restricted access.\"",
  "directive @accessRestricted(",
  "  \"\"\"Explains the reason around this restriction\"\"\"",
  "  reason: String = null",
  ") on FIELD_DEFINITION | OBJECT",
  ""]

/-- The directive @accessRestricted declared by lines 9 to 14. -/
def directive_accessRestricted : Definition :=
  .directiveDefinition (quo "Marks an element of a GraphQL schema as having restricted access.")
    "accessRestricted" [
    inputValue (blk "Explains the reason around this restriction")
       "reason" (nm "String") (some .null) []] false ["FIELD_DEFINITION", "OBJECT"]

/-- Lines 15 to 22 of the module: directive @inContext. -/
def text.directive_inContext : List String := [
  "\"Contextualizes data based on the additional information provided by the directive. For example, you can use the \\`@inContext(country: CA)\\` directive to [query a product's price](https://shopify.dev/custom-storefronts/products/international-pricing#query-product-prices) in a storefront within the context of Canada.\"",
  "directive @inContext(",
  "  \"\"\"The country code for context. For example, \\`CA\\`.\"\"\"",
  "  country: CountryCode",
  "  \"\"\"The identifier of the customer's preferred location.\"\"\"",
  "  preferredLocationId: ID",
  ") on QUERY | MUTATION",
  ""]

/-- The directive @inContext declared by lines 15 to 22. -/
def directive_inContext : Definition :=
  .directiveDefinition (quo "Contextualizes data based on the additional information provided by the directive. For example, you can use the `@inContext(country: CA)` directive to [query a product's price](https://shopify.dev/custom-storefronts/products/international-pricing#query-product-prices) in a storefront within the context of Canada.")
    "inContext" [
    inputValue (blk "The country code for context. For example, `CA`.")
       "country" (nm "CountryCode") none [],
    inputValue (blk "The identifier of the customer's preferred location.")
       "preferredLocationId" (nm "ID") none []] false ["QUERY", "MUTATION"]

/-- Lines 23 to 40 of the module: type ApiVersion. -/
def text.ApiVersion : List String := [
  "\"\"\"",
  "A version of the API, as defined by [Shopify API versioning](https://shopify.dev/api/usage/versioning).",
  "Versions are commonly referred to by their handle (for example, \\`2021-10\\`).",
  "",
  "\"\"\"",
  "type ApiVersion \x7b",
  "  \"\"\"The human-readable name of the version.\"\"\"",
  "  displayName: String!",
  "  \"\"\"",
  "  The unique identifier of an ApiVersion. All supported API versions have a date-based (YYYY-MM) or \\`unstable\\` handle.",
  "  \"\"\"",
  "  handle: String!",
  "  \"\"\"",
  "  Whether the version is actively supported by Shopify. Supported API versions are guaranteed to be stable. Unsupported API versions include unstable, release candidate, and end-of-life versions that are marked as unsupported. For more information, refer to [Versioning](https://shopify.dev/api/usage/versioning).",
  "  \"\"\"",
  "  supported: Boolean!",
  "\x7d",
  ""]

/-- The type ApiVersion declared by lines 23 to 40. -/
def ApiVersion : Definition :=
  .objectType (blk "A version of the API, as defined by [Shopify API versioning](https://shopify.dev/api/usage/versioning).\nVersions are commonly referred to by their handle (for example, `2021-10`).")
    "ApiVersion" [] [] [
    field (blk "The human-readable name of the version.")
       "displayName" [] (nn (nm "String")) [],
    field (blk "The unique identifier of an ApiVersion. All supported API versions have a date-based (YYYY-MM) or `unstable` handle.")
       "handle" [] (nn (nm "String")) [],
    field (blk "Whether the version is actively supported by Shopify. Supported API versions are guaranteed to be stable. Unsupported API versions include unstable, release candidate, and end-of-life versions that are marked as unsupported. For more information, refer to [Versioning](https://shopify.dev/api/usage/versioning).")
       "supported" [] (nn (nm "Boolean")) []]

/-- Lines 41 to 58 of the module: type AppliedGiftCard. -/
def text.AppliedGiftCard : List String := [
  "\"\"\"Details about the gift card used on the checkout.\"\"\"",
  "type AppliedGiftCard implements Node \x7b",
  "  \"\"\"The amount that was taken from the gift card by applying it.\"\"\"",
  "  amountUsed: Money! @deprecated(reason: \"Use \\`amountUsedV2\\` instead\")",
  "  \"\"\"The amount that was taken from the gift card by applying it.\"\"\"",
  "  amountUsedV2: MoneyV2!",
  "  \"\"\"The amount left on the gift card.\"\"\"",
  "  balance: Money! @deprecated(reason: \"Use \\`balanceV2\\` instead\")",
  "  \"\"\"The amount left on the gift card.\"\"\"",
  "  balanceV2: MoneyV2!",
  "  \"\"\"A globally-unique identifier.\"\"\"",
  "  id: ID!",
  "  \"\"\"The last characters of the gift card.\"\"\"",
  "  lastCharacters: String!",
  "  \"\"\"The amount that was applied to the checkout in its currency.\"\"\"",
  "  presentmentAmountUsed: MoneyV2!",
  "\x7d",
  ""]

/-- The type AppliedGiftCard declared by lines 41 to 58. -/
def AppliedGiftCard : Definition :=
  .objectType (blk "Details about the gift card used on the checkout.")
    "AppliedGiftCard" ["Node"] [] [
    field (blk "The amount that was taken from the gift card by applying it.")
       "amountUsed" [] (nn (nm "Money")) [deprecated "Use `amountUsedV2` instead"],
    field (blk "The amount that was taken from the gift card by applying it.")
       "amountUsedV2" [] (nn (nm "MoneyV2")) [],
    field (blk "The amount left on the gift card.")
       "balance" [] (nn (nm "Money")) [deprecated "Use `balanceV2` instead"],
    field (blk "The amount left on the gift card.")
       "balanceV2" [] (nn (nm "MoneyV2")) [],
    field (blk "A globally-unique identifier.")
       "id" [] (nn (nm "ID")) [],
    field (blk "The last characters of the gift card.")
       "lastCharacters" [] (nn (nm "String")) [],
    field (blk "The amount that was applied to the checkout in its currency.")
       "presentmentAmountUsed" [] (nn (nm "MoneyV2")) []]

/-- Lines 59 to 138 of the module: type Article. -/
def text.Article : List String := [
  "\"\"\"An article in an online store blog.\"\"\"",
  "type Article implements Node & HasMetafields & OnlineStorePublishable \x7b",
  "  \"\"\"The article's author.\"\"\"",
  "  author: ArticleAuthor! @deprecated(reason: \"Use \\`authorV2\\` instead\")",
  "  \"\"\"The article's author.\"\"\"",
  "  authorV2: ArticleAuthor",
  "  \"\"\"The blog that the article belongs to.\"\"\"",
  "  blog: Blog!",
  "  \"\"\"List of comments posted on the article.\"\"\"",
  "  comments(",
  "    \"\"\"Returns up to the first \\`n\\` elements from the list.\"\"\"",
  "    first: Int",
  "    \"\"\"Returns the elements that come after the specified cursor.\"\"\"",
  "    after: String",
  "    \"\"\"Returns up to the last \\`n\\` elements from the list.\"\"\"",
  "    last: Int",
  "    \"\"\"Returns the elements that come before the specified cursor.\"\"\"",
  "    before: String",
  "    \"\"\"Reverse the order of the underlying list.\"\"\"",
  "    reverse: Boolean = false",
  "  ): CommentConnection!",
  "  \"\"\"Stripped content of the article, single line with HTML tags removed.\"\"\"",
  "  content(",
  "    \"\"\"Truncates string after the given length.\"\"\"",
  "    truncateAt: Int",
  "  ): String!",
  "  \"\"\"The content of the article, complete with HTML formatting.\"\"\"",
  "  contentHtml: HTML!",
  "  \"\"\"Stripped excerpt of the article, single line with HTML tags removed.\"\"\"",
  "  excerpt(",
  "    \"\"\"Truncates string after the given length.\"\"\"",
  "    truncateAt: Int",
  "  ): String",
  "  \"\"\"The excerpt of the article, complete with HTML formatting.\"\"\"",
  "  excerptHtml: HTML",
  "  \"\"\"",
  "  A human-friendly unique string for the Article automatically generated from its title.",
  "  ",
  "  \"\"\"",
  "  handle: String!",
  "  \"\"\"A globally-unique identifier.\"\"\"",
  "  id: ID!",
  "  \"\"\"The image associated with the article.\"\"\"",
  "  image: Image",
  "  \"\"\"Returns a metafield found by namespace and key.\"\"\"",
  "  metafield(",
  "    \"\"\"Container for a set of metafields (maximum of 20 characters).\"\"\"",
  "    namespace: String!",
  "    \"\"\"Identifier for the metafield (maximum of 30 characters).\"\"\"",
  "    key: String!",
  "  ): Metafield",
  "  \"\"\"A paginated list of metafields associated with the resource.\"\"\"",
  "  metafields(",
  "    \"\"\"Container for a set of metafields (maximum of 20 characters).\"\"\"",
  "    namespace: String",
  "    \"\"\"Returns up to the first \\`n\\` elements from the list.\"\"\"",
  "    first: Int",
  "    \"\"\"Returns the elements that come after the specified cursor.\"\"\"",
  "    after: String",
  "    \"\"\"Returns up to the last \\`n\\` elements from the list.\"\"\"",
  "    last: Int",
  "    \"\"\"Returns the elements that come before the specified cursor.\"\"\"",
  "    before: String",
  "    \"\"\"Reverse the order of the underlying list.\"\"\"",
  "    reverse: Boolean = false",
  "  ): MetafieldConnection! @deprecated(reason: \"The \\`metafields\\` field will be removed in the future in favor of using [aliases](https://graphql.org/learn/queries/#aliases) with the \\`metafield\\` field.\\n\")",
  "  \"\"\"",
  "  The URL used for viewing the resource on the shop's Online Store. Returns \\`null\\` if the resource is currently not published to the Online Store sales channel.",
  "  \"\"\"",
  "  onlineStoreUrl: URL",
  "  \"\"\"The date and time when the article was published.\"\"\"",
  "  publishedAt: DateTime!",
  "  \"\"\"The article’s SEO information.\"\"\"",
  "  seo: SEO",
  "  \"\"\"A categorization that a article can be tagged with.\"\"\"",
  "  tags: [String!]!",
  "  \"\"\"The article’s name.\"\"\"",
  "  title: String!",
  "\x7d",
  ""]

/-- The type Article declared by lines 59 to 138. -/
def Article : Definition :=
  .objectType (blk "An article in an online store blog.")
    "Article" ["Node", "HasMetafields", "OnlineStorePublishable"] [] [
    field (blk "The article's author.")
       "author" [] (nn (nm "ArticleAuthor")) [deprecated "Use `authorV2` instead"],
    field (blk "The article's author.")
       "authorV2" [] (nm "ArticleAuthor") [],
    field (blk "The blog that the article belongs to.")
       "blog" [] (nn (nm "Blog")) [],
    field (blk "List of comments posted on the article.")
       "comments" [
        inputValue (blk "Returns up to the first `n` elements from the list.")
           "first" (nm "Int") none [],
        inputValue (blk "Returns the elements that come after the specified cursor.")
           "after" (nm "String") none [],
        inputValue (blk "Returns up to the last `n` elements from the list.")
           "last" (nm "Int") none [],
        inputValue (blk "Returns the elements that come before the specified cursor.")
           "before" (nm "String") none [],
        inputValue (blk "Reverse the order of the underlying list.")
           "reverse" (nm "Boolean") (some (.boolean false)) []]
       (nn (nm "CommentConnection")) [],
    field (blk "Stripped content of the article, single line with HTML tags removed.")
       "content" [
        inputValue (blk "Truncates string after the given length.")
           "truncateAt" (nm "Int") none []]
       (nn (nm "String")) [],
    field (blk "The content of the article, complete with HTML formatting.")
       "contentHtml" [] (nn (nm "HTML")) [],
    field (blk "Stripped excerpt of the article, single line with HTML tags removed.")
       "excerpt" [
        inputValue (blk "Truncates string after the given length.")
           "truncateAt" (nm "Int") none []]
       (nm "String") [],
    field (blk "The excerpt of the article, complete with HTML formatting.")
       "excerptHtml" [] (nm "HTML") [],
    field (blk "A human-friendly unique string for the Article automatically generated from its title.")
       "handle" [] (nn (nm "String")) [],
    field (blk "A globally-unique identifier.")
       "id" [] (nn (nm "ID")) [],
    field (blk "The image associated with the article.")
       "image" [] (nm "Image") [],
    field (blk "Returns a metafield found by namespace and key.")
       "metafield" [
        inputValue (blk "Container for a set of metafields (maximum of 20 characters).")
           "namespace" (nn (nm "String")) none [],
        inputValue (blk "Identifier for the metafield (maximum of 30 characters).")
           "key" (nn (nm "String")) none []]
       (nm "Metafield") [],
    field (blk "A paginated list of metafields associated with the resource.")
       "metafields" [
        inputValue (blk "Container for a set of metafields (maximum of 20 characters).")
           "namespace" (nm "String") none [],
        inputValue (blk "Returns up to the first `n` elements from the list.")
           "first" (nm "Int") none [],
        inputValue (blk "Returns the elements that come after the specified cursor.")
           "after" (nm "String") none [],
        inputValue (blk "Returns up to the last `n` elements from the list.")
           "last" (nm "Int") none [],
        inputValue (blk "Returns the elements that come before the specified cursor.")
           "before" (nm "String") none [],
        inputValue (blk "Reverse the order of the underlying list.")
           "reverse" (nm "Boolean") (some (.boolean false)) []]
       (nn (nm "MetafieldConnection")) [deprecated "The `metafields` field will be removed in the future in favor of using [aliases](https://graphql.org/learn/queries/#aliases) with the `metafield` field.\n"],
    field (blk "The URL used for viewing the resource on the shop's Online Store. Returns `null` if the resource is currently not published to the Online Store sales channel.")
       "onlineStoreUrl" [] (nm "URL") [],
    field (blk "The date and time when the article was published.")
       "publishedAt" [] (nn (nm "DateTime")) [],
    field (blk "The article’s SEO information.")
       "seo" [] (nm "SEO") [],
    field (blk "A categorization that a article can be tagged with.")
       "tags" [] (nn (ls (nn (nm "String")))) [],
    field (blk "The article’s name.")
       "title" [] (nn (nm "String")) []]

/-- Lines 139 to 152 of the module: type ArticleAuthor. -/
def text.ArticleAuthor : List String := [
  "\"\"\"The author of an article.\"\"\"",
  "type ArticleAuthor \x7b",
  "  \"\"\"The author's bio.\"\"\"",
  "  bio: String",
  "  \"\"\"The author’s email.\"\"\"",
  "  email: String!",
  "  \"\"\"The author's first name.\"\"\"",
  "  firstName: String!",
  "  \"\"\"The author's last name.\"\"\"",
  "  lastName: String!",
  "  \"\"\"The author's full name.\"\"\"",
  "  name: String!",
  "\x7d",
  ""]

/-- The type ArticleAuthor declared by lines 139 to 152. -/
def ArticleAuthor : Definition :=
  .objectType (blk "The author of an article.")
    "ArticleAuthor" [] [] [
    field (blk "The author's bio.")
       "bio" [] (nm "String") [],
    field (blk "The author’s email.")
       "email" [] (nn (nm "String")) [],
    field (blk "The author's first name.")
       "firstName" [] (nn (nm "String")) [],
    field (blk "The author's last name.")
       "lastName" [] (nn (nm "String")) [],
    field (blk "The author's full name.")
       "name" [] (nn (nm "String")) []]

/-- Lines 153 to 163 of the module: type ArticleConnection. -/
def text.ArticleConnection : List String := [
  "\"\"\"",
  "An auto-generated type for paginating through multiple Articles.",
  "",
  "\"\"\"",
  "type ArticleConnection \x7b",
  "  \"\"\"A list of edges.\"\"\"",
  "  edges: [ArticleEdge!]!",
  "  \"\"\"Information to aid in pagination.\"\"\"",
  "  pageInfo: PageInfo!",
  "\x7d",
  ""]

/-- The type ArticleConnection declared by lines 153 to 163. -/
def ArticleConnection : Definition :=
  .objectType (blk "An auto-generated type for paginating through multiple Articles.")
    "ArticleConnection" [] [] [
    field (blk "A list of edges.")
       "edges" [] (nn (ls (nn (nm "ArticleEdge")))) [],
    field (blk "Information to aid in pagination.")
       "pageInfo" [] (nn (nm "PageInfo")) []]

/-- Lines 164 to 174 of the module: type ArticleEdge. -/
def text.ArticleEdge : List String := [
  "\"\"\"",
  "An auto-generated type which holds one Article and a cursor during pagination.",
  "",
  "\"\"\"",
  "type ArticleEdge \x7b",
  "  \"\"\"A cursor for use in pagination.\"\"\"",
  "  cursor: String!",
  "  \"\"\"The item at the end of ArticleEdge.\"\"\"",
  "  node: Article!",
  "\x7d",
  ""]

/-- The type ArticleEdge declared by lines 164 to 174. -/
def ArticleEdge : Definition :=
  .objectType (blk "An auto-generated type which holds one Article and a cursor during pagination.")
    "ArticleEdge" [] [] [
    field (blk "A cursor for use in pagination.")
       "cursor" [] (nn (nm "String")) [],
    field (blk "The item at the end of ArticleEdge.")
       "node" [] (nn (nm "Article")) []]

/-- Lines 175 to 197 of the module: enum ArticleSortKeys. -/
def text.ArticleSortKeys : List String := [
  "\"\"\"The set of valid sort keys for the Article query.\"\"\"",
  "enum ArticleSortKeys \x7b",
  "  \"\"\"Sort by the \\`title\\` value.\"\"\"",
  "  TITLE",
  "  \"\"\"Sort by the \\`blog_title\\` value.\"\"\"",
  "  BLOG_TITLE",
  "  \"\"\"Sort by the \\`author\\` value.\"\"\"",
  "  AUTHOR",
  "  \"\"\"Sort by the \\`updated_at\\` value.\"\"\"",
  "  UPDATED_AT",
  "  \"\"\"Sort by the \\`published_at\\` value.\"\"\"",
  "  PUBLISHED_AT",
  "  \"\"\"Sort by the \\`id\\` value.\"\"\"",
  "  ID",
  "  \"\"\"",
  "  During a search (i.e. when the \\`query\\` parameter has been specified on the connection) this sorts the",
  "  results by relevance to the search term(s). When no search query is specified, this sort key is not",
  "  deterministic and should not be used.",
  "  ",
  "  \"\"\"",
  "  RELEVANCE",
  "\x7d",
  ""]

/-- The enum ArticleSortKeys declared by lines 175 to 197. -/
def ArticleSortKeys : Definition :=
  .enumType (blk "The set of valid sort keys for the Article query.")
    "ArticleSortKeys" [] [
    enumValue (blk "Sort by the `title` value.")
       "TITLE" [],
    enumValue (blk "Sort by the `blog_title` value.")
       "BLOG_TITLE" [],
    enumValue (blk "Sort by the `author` value.")
       "AUTHOR" [],
    enumValue (blk "Sort by the `updated_at` value.")
       "UPDATED_AT" [],
    enumValue (blk "Sort by the `published_at` value.")
       "PUBLISHED_AT" [],
    enumValue (blk "Sort by the `id` value.")
       "ID" [],
    enumValue (blk "During a search (i.e. when the `query` parameter has been specified on the connection) this sorts the\nresults by relevance to the search term(s). When no search query is specified, this sort key is not\ndeterministic and should not be used.")
       "RELEVANCE" []]

/-- Lines 198 to 205 of the module: type Attribute. -/
def text.Attribute : List String := [
  "\"\"\"Represents a generic custom attribute.\"\"\"",
  "type Attribute \x7b",
  "  \"\"\"Key or name of the attribute.\"\"\"",
  "  key: String!",
  "  \"\"\"Value of the attribute.\"\"\"",
  "  value: String",
  "\x7d",
  ""]

/-- The type Attribute declared by lines 198 to 205. -/
def Attribute : Definition :=
  .objectType (blk "Represents a generic custom attribute.")
    "Attribute" [] [] [
    field (blk "Key or name of the attribute.")
       "key" [] (nn (nm "String")) [],
    field (blk "Value of the attribute.")
       "value" [] (nm "String") []]

/-- Lines 206 to 213 of the module: input AttributeInput. -/
def text.AttributeInput : List String := [
  "\"\"\"Specifies the input fields required for an attribute.\"\"\"",
  "input AttributeInput \x7b",
  "  \"\"\"Key or name of the attribute.\"\"\"",
  "  key: String!",
  "  \"\"\"Value of the attribute.\"\"\"",
  "  value: String!",
  "\x7d",
  ""]

/-- The input AttributeInput declared by lines 206 to 213. -/
def AttributeInput : Definition :=
  .inputObjectType (blk "Specifies the input fields required for an attribute.")
    "AttributeInput" [] [
    inputValue (blk "Key or name of the attribute.")
       "key" (nn (nm "String")) none [],
    inputValue (blk "Value of the attribute.")
       "value" (nn (nm "String")) none []]

/-- Lines 214 to 232 of the module: type AutomaticDiscountApplication. -/
def text.AutomaticDiscountApplication : List String := [
  "\"\"\"",
  "Automatic discount applications capture the intentions of a discount that was automatically applied.",
  "",
  "\"\"\"",
  "type AutomaticDiscountApplication implements DiscountApplication \x7b",
  "  \"\"\"",
  "  The method by which the discount's value is allocated to its entitled items.",
  "  \"\"\"",
  "  allocationMethod: DiscountApplicationAllocationMethod!",
  "  \"\"\"Which lines of targetType that the discount is allocated over.\"\"\"",
  "  targetSelection: DiscountApplicationTargetSelection!",
  "  \"\"\"The type of line that the discount is applicable towards.\"\"\"",
  "  targetType: DiscountApplicationTargetType!",
  "  \"\"\"The title of the application.\"\"\"",
  "  title: String!",
  "  \"\"\"The value of the discount application.\"\"\"",
  "  value: PricingValue!",
  "\x7d",
  ""]

/-- The type AutomaticDiscountApplication declared by lines 214 to 232. -/
def AutomaticDiscountApplication : Definition :=
  .objectType (blk "Automatic discount applications capture the intentions of a discount that was automatically applied.")
    "AutomaticDiscountApplication" ["DiscountApplication"] [] [
    field (blk "The method by which the discount's value is allocated to its entitled items.")
       "allocationMethod" [] (nn (nm "DiscountApplicationAllocationMethod")) [],
    field (blk "Which lines of targetType that the discount is allocated over.")
       "targetSelection" [] (nn (nm "DiscountApplicationTargetSelection")) [],
    field (blk "The type of line that the discount is applicable towards.")
       "targetType" [] (nn (nm "DiscountApplicationTargetType")) [],
    field (blk "The title of the application.")
       "title" [] (nn (nm "String")) [],
    field (blk "The value of the discount application.")
       "value" [] (nn (nm "PricingValue")) []]

/-- Lines 233 to 245 of the module: type AvailableShippingRates. -/
def text.AvailableShippingRates : List String := [
  "\"\"\"A collection of available shipping rates for a checkout.\"\"\"",
  "type AvailableShippingRates \x7b",
  "  \"\"\"",
  "  Whether or not the shipping rates are ready.",
  "  The \\`shippingRates\\` field is \\`null\\` when this value is \\`false\\`.",
  "  This field should be polled until its value becomes \\`true\\`.",
  "  ",
  "  \"\"\"",
  "  ready: Boolean!",
  "  \"\"\"The fetched shipping rates. \\`null\\` until the \\`ready\\` field is \\`true\\`.\"\"\"",
  "  shippingRates: [ShippingRate!]",
  "\x7d",
  ""]

/-- The type AvailableShippingRates declared by lines 233 to 245. -/
def AvailableShippingRates : Definition :=
  .objectType (blk "A collection of available shipping rates for a checkout.")
    "AvailableShippingRates" [] [] [
    field (blk "Whether or not the shipping rates are ready.\nThe `shippingRates` field is `null` when this value is `false`.\nThis field should be polled until its value becomes `true`.")
       "ready" [] (nn (nm "Boolean")) [],
    field (blk "The fetched shipping rates. `null` until the `ready` field is `true`.")
       "shippingRates" [] (ls (nn (nm "ShippingRate"))) []]

/-- Lines 246 to 322 of the module: type Blog. -/
def text.Blog : List String := [
  "\"\"\"An online store blog.\"\"\"",
  "type Blog implements Node & HasMetafields & OnlineStorePublishable \x7b",
  "  \"\"\"Find an article by its handle.\"\"\"",
  "  articleByHandle(",
  "    \"\"\"The handle of the article.\"\"\"",
  "    handle: String!",
  "  ): Article",
  "  \"\"\"List of the blog's articles.\"\"\"",
  "  articles(",
  "    \"\"\"Returns up to the first \\`n\\` elements from the list.\"\"\"",
  "    first: Int",
  "    \"\"\"Returns the elements that come after the specified cursor.\"\"\"",
  "    after: String",
  "    \"\"\"Returns up to the last \\`n\\` elements from the list.\"\"\"",
  "    last: Int",
  "    \"\"\"Returns the elements that come before the specified cursor.\"\"\"",
  "    before: String",
  "    \"\"\"Reverse the order of the underlying list.\"\"\"",
  "    reverse: Boolean = false",
  "    \"\"\"Sort the underlying list by the given key.\"\"\"",
  "    sortKey: ArticleSortKeys = ID",
  "    \"\"\"",
  "    Supported filter parameters:",
  "     - \\`author\\`",
  "     - \\`blog_title\\`",
  "     - \\`created_at\\`",
  "     - \\`tag\\`",
  "     - \\`tag_not\\`",
  "     - \\`updated_at\\`",
  "    ",
  "    See the detailed [search syntax](https://shopify.dev/api/usage/search-syntax)",
  "    for more information about using filters.",
  "    ",
  "    \"\"\"",
  "    query: String",
  "  ): ArticleConnection!",
  "  \"\"\"The authors who have contributed to the blog.\"\"\"",
  "  authors: [ArticleAuthor!]!",
  "  \"\"\"",
  "  A human-friendly unique string for the Blog automatically generated from its title.",
  "  ",
  "  \"\"\"",
  "  handle: String!",
  "  \"\"\"A globally-unique identifier.\"\"\"",
  "  id: ID!",
  "  \"\"\"Returns a metafield found by namespace and key.\"\"\"",
  "  metafield(",
  "    \"\"\"Container for a set of metafields (maximum of 20 characters).\"\"\"",
  "    namespace: String!",
  "    \"\"\"Identifier for the metafield (maximum of 30 characters).\"\"\"",
  "    key: String!",
  "  ): Metafield",
  "  \"\"\"A paginated list of metafields associated with the resource.\"\"\"",
  "  metafields(",
  "    \"\"\"Container for a set of metafields (maximum of 20 characters).\"\"\"",
  "    namespace: String",
  "    \"\"\"Returns up to the first \\`n\\` elements from the list.\"\"\"",
  "    first: Int",
  "    \"\"\"Returns the elements that come after the specified cursor.\"\"\"",
  "    after: String",
  "    \"\"\"Returns up to the last \\`n\\` elements from the list.\"\"\"",
  "    last: Int",
  "    \"\"\"Returns the elements that come before the specified cursor.\"\"\"",
  "    before: String",
  "    \"\"\"Reverse the order of the underlying list.\"\"\"",
  "    reverse: Boolean = false",
  "  ): MetafieldConnection! @deprecated(reason: \"The \\`metafields\\` field will be removed in the future in favor of using [aliases](https://graphql.org/learn/queries/#aliases) with the \\`metafield\\` field.\\n\")",
  "  \"\"\"",
  "  The URL used for viewing the resource on the shop's Online Store. Returns \\`null\\` if the resource is currently not published to the Online Store sales channel.",
  "  \"\"\"",
  "  onlineStoreUrl: URL",
  "  \"\"\"The blog's SEO information.\"\"\"",
  "  seo: SEO",
  "  \"\"\"The blogs’s title.\"\"\"",
  "  title: String!",
  "\x7d",
  ""]

/-- The type Blog declared by lines 246 to 322. -/
def Blog : Definition :=
  .objectType (blk "An online store blog.")
    "Blog" ["Node", "HasMetafields", "OnlineStorePublishable"] [] [
    field (blk "Find an article by its handle.")
       "articleByHandle" [
        inputValue (blk "The handle of the article.")
           "handle" (nn (nm "String")) none []]
       (nm "Article") [],
    field (blk "List of the blog's articles.")
       "articles" [
        inputValue (blk "Returns up to the first `n` elements from the list.")
           "first" (nm "Int") none [],
        inputValue (blk "Returns the elements that come after the specified cursor.")
           "after" (nm "String") none [],
        inputValue (blk "Returns up to the last `n` elements from the list.")
           "last" (nm "Int") none [],
        inputValue (blk "Returns the elements that come before the specified cursor.")
           "before" (nm "String") none [],
        inputValue (blk "Reverse the order of the underlying list.")
           "reverse" (nm "Boolean") (some (.boolean false)) [],
        inputValue (blk "Sort the underlying list by the given key.")
           "sortKey" (nm "ArticleSortKeys") (some (.enum "ID")) [],
        inputValue (blk "Supported filter parameters:\n - `author`\n - `blog_title`\n - `created_at`\n - `tag`\n - `tag_not`\n - `updated_at`\n\nSee the detailed [search syntax](https://shopify.dev/api/usage/search-syntax)\nfor more information about using filters.")
           "query" (nm "String") none []]
       (nn (nm "ArticleConnection")) [],
    field (blk "The authors who have contributed to the blog.")
       "authors" [] (nn (ls (nn (nm "ArticleAuthor")))) [],
    field (blk "A human-friendly unique string for the Blog automatically generated from its title.")
       "handle" [] (nn (nm "String")) [],
    field (blk "A globally-unique identifier.")
       "id" [] (nn (nm "ID")) [],
    field (blk "Returns a metafield found by namespace and key.")
       "metafield" [
        inputValue (blk "Container for a set of metafields (maximum of 20 characters).")
           "namespace" (nn (nm "String")) none [],
        inputValue (blk "Identifier for the metafield (maximum of 30 characters).")
           "key" (nn (nm "String")) none []]
       (nm "Metafield") [],
    field (blk "A paginated list of metafields associated with the resource.")
       "metafields" [
        inputValue (blk "Container for a set of metafields (maximum of 20 characters).")
           "namespace" (nm "String") none [],
        inputValue (blk "Returns up to the first `n` elements from the list.")
           "first" (nm "Int") none [],
        inputValue (blk "Returns the elements that come after the specified cursor.")
           "after" (nm "String") none [],
        inputValue (blk "Returns up to the last `n` elements from the list.")
           "last" (nm "Int") none [],
        inputValue (blk "Returns the elements that come before the specified cursor.")
           "before" (nm "String") none [],
        inputValue (blk "Reverse the order of the underlying list.")
           "reverse" (nm "Boolean") (some (.boolean false)) []]
       (nn (nm "MetafieldConnection")) [deprecated "The `metafields` field will be removed in the future in favor of using [aliases](https://graphql.org/learn/queries/#aliases) with the `metafield` field.\n"],
    field (blk "The URL used for viewing the resource on the shop's Online Store. Returns `null` if the resource is currently not published to the Online Store sales channel.")
       "onlineStoreUrl" [] (nm "URL") [],
    field (blk "The blog's SEO information.")
       "seo" [] (nm "SEO") [],
    field (blk "The blogs’s title.")
       "title" [] (nn (nm "String")) []]

/-- Lines 323 to 333 of the module: type BlogConnection. -/
def text.BlogConnection : List String := [
  "\"\"\"",
  "An auto-generated type for paginating through multiple Blogs.",
  "",
  "\"\"\"",
  "type BlogConnection \x7b",
  "  \"\"\"A list of edges.\"\"\"",
  "  edges: [BlogEdge!]!",
  "  \"\"\"Information to aid in pagination.\"\"\"",
  "  pageInfo: PageInfo!",
  "\x7d",
  ""]

/-- The type BlogConnection declared by lines 323 to 333. -/
def BlogConnection : Definition :=
  .objectType (blk "An auto-generated type for paginating through multiple Blogs.")
    "BlogConnection" [] [] [
    field (blk "A list of edges.")
       "edges" [] (nn (ls (nn (nm "BlogEdge")))) [],
    field (blk "Information to aid in pagination.")
       "pageInfo" [] (nn (nm "PageInfo")) []]

/-- Lines 334 to 344 of the module: type BlogEdge. -/
def text.BlogEdge : List String := [
  "\"\"\"",
  "An auto-generated type which holds one Blog and a cursor during pagination.",
  "",
  "\"\"\"",
  "type BlogEdge \x7b",
  "  \"\"\"A cursor for use in pagination.\"\"\"",
  "  cursor: String!",
  "  \"\"\"The item at the end of BlogEdge.\"\"\"",
  "  node: Blog!",
  "\x7d",
  ""]

/-- The type BlogEdge declared by lines 334 to 344. -/
def BlogEdge : Definition :=
  .objectType (blk "An auto-generated type which holds one Blog and a cursor during pagination.")
    "BlogEdge" [] [] [
    field (blk "A cursor for use in pagination.")
       "cursor" [] (nn (nm "String")) [],
    field (blk "The item at the end of BlogEdge.")
       "node" [] (nn (nm "Blog")) []]

/-- Lines 345 to 361 of the module: enum BlogSortKeys. -/
def text.BlogSortKeys : List String := [
  "\"\"\"The set of valid sort keys for the Blog query.\"\"\"",
  "enum BlogSortKeys \x7b",
  "  \"\"\"Sort by the \\`handle\\` value.\"\"\"",
  "  HANDLE",
  "  \"\"\"Sort by the \\`title\\` value.\"\"\"",
  "  TITLE",
  "  \"\"\"Sort by the \\`id\\` value.\"\"\"",
  "  ID",
  "  \"\"\"",
  "  During a search (i.e. when the \\`query\\` parameter has been specified on the connection) this sorts the",
  "  results by relevance to the search term(s). When no search query is specified, this sort key is not",
  "  deterministic and should not be used.",
  "  ",
  "  \"\"\"",
  "  RELEVANCE",
  "\x7d",
  ""]

/-- The enum BlogSortKeys declared by lines 345 to 361. -/
def BlogSortKeys : Definition :=
  .enumType (blk "The set of valid sort keys for the Blog query.")
    "BlogSortKeys" [] [
    enumValue (blk "Sort by the `handle` value.")
       "HANDLE" [],
    enumValue (blk "Sort by the `title` value.")
       "TITLE" [],
    enumValue (blk "Sort by the `id` value.")
       "ID" [],
    enumValue (blk "During a search (i.e. when the `query` parameter has been specified on the connection) this sorts the\nresults by relevance to the search term(s). When no search query is specified, this sort key is not\ndeterministic and should not be used.")
       "RELEVANCE" []]

/-- Lines 362 to 383 of the module: enum CardBrand. -/
def text.CardBrand : List String := [
  "\"\"\"",
  "Card brand, such as Visa or Mastercard, which can be used for payments.",
  "\"\"\"",
  "enum CardBrand \x7b",
  "  \"\"\"Visa.\"\"\"",
  "  VISA",
  "  \"\"\"Mastercard.\"\"\"",
  "  MASTERCARD",
  "  \"\"\"Discover.\"\"\"",
  "  DISCOVER",
  "  \"\"\"American Express.\"\"\"",
  "  AMERICAN_EXPRESS",
  "  \"\"\"Diners Club.\"\"\"",
  "  DINERS_CLUB",
  "  \"\"\"JCB.\"\"\"",
  "  JCB",
  "  \"\"\"UnionPay.\"\"\"",
  "  UNIONPAY",
  "  \"\"\"Elo.\"\"\"",
  "  ELO",
  "\x7d",
  ""]

/-- The enum CardBrand declared by lines 362 to 383. -/
def CardBrand : Definition :=
  .enumType (blk "Card brand, such as Visa or Mastercard, which can be used for payments.")
    "CardBrand" [] [
    enumValue (blk "Visa.")
       "VISA" [],
    enumValue (blk "Mastercard.")
       "MASTERCARD" [],
    enumValue (blk "Discover.")
       "DISCOVER" [],
    enumValue (blk "American Express.")
       "AMERICAN_EXPRESS" [],
    enumValue (blk "Diners Club.")
       "DINERS_CLUB" [],
    enumValue (blk "JCB.")
       "JCB" [],
    enumValue (blk "UnionPay.")
       "UNIONPAY" [],
    enumValue (blk "Elo.")
       "ELO" []]

/-- Lines 384 to 430 of the module: type Cart. -/
def text.Cart : List String := [
  "\"\"\"",
  "A cart represents the merchandise that a buyer intends to purchase, and the estimated cost associated with the cart. To learn how to interact with a cart during a customer's session, refer to [Manage a cart with the Storefront API](https://shopify.dev/custom-storefronts/cart).",
  "\"\"\"",
  "type Cart implements Node \x7b",
  "  \"\"\"",
  "  The attributes associated with the cart. Attributes are represented as key-value pairs.",
  "  \"\"\"",
  "  attributes: [Attribute!]!",
  "  \"\"\"Information about the buyer that is interacting with the cart.\"\"\"",
  "  buyerIdentity: CartBuyerIdentity!",
  "  \"\"\"The URL of the checkout for the cart.\"\"\"",
  "  checkoutUrl: URL!",
  "  \"\"\"The date and time when the cart was created.\"\"\"",
  "  createdAt: DateTime!",
  "  \"\"\"The discount codes that have been applied to the cart.\"\"\"",
  "  discountCodes: [CartDiscountCode!]!",
  "  \"\"\"",
  "  The estimated costs that the buyer will pay at checkout. The estimated costs are subject to change and changes will be reflected at checkout. The \\`estimatedCost\\` field uses the \\`buyerIdentity\\` field to determine [international pricing](https://shopify.dev/custom-storefronts/products/international-pricing#create-a-cart).",
  "  \"\"\"",
  "  estimatedCost: CartEstimatedCost!",
  "  \"\"\"A globally-unique identifier.\"\"\"",
  "  id: ID!",
  "  \"\"\"",
  "  A list of lines containing information about the items the customer intends to purchase.",
  "  \"\"\"",
  "  lines(",
  "    \"\"\"Returns up to the first \\`n\\` elements from the list.\"\"\"",
  "    first: Int",
  "    \"\"\"Returns the elements that come after the specified cursor.\"\"\"",
  "    after: String",
  "    \"\"\"Returns up to the last \\`n\\` elements from the list.\"\"\"",
  "    last: Int",
  "    \"\"\"Returns the elements that come before the specified cursor.\"\"\"",
  "    before: String",
  "    \"\"\"Reverse the order of the underlying list.\"\"\"",
  "    reverse: Boolean = false",
  "  ): CartLineConnection!",
  "  \"\"\"",
  "  A note that is associated with the cart. For example, the note can be a personalized message to the buyer.",
  "  \"\"\"",
  "  note: String",
  "  \"\"\"The total number of items in the cart.\"\"\"",
  "  totalQuantity: Int!",
  "  \"\"\"The date and time when the cart was updated.\"\"\"",
  "  updatedAt: DateTime!",
  "\x7d",
  ""]

/-- The type Cart declared by lines 384 to 430. -/
def Cart : Definition :=
  .objectType (blk "A cart represents the merchandise that a buyer intends to purchase, and the estimated cost associated with the cart. To learn how to interact with a cart during a customer's session, refer to [Manage a cart with the Storefront API](https://shopify.dev/custom-storefronts/cart).")
    "Cart" ["Node"] [] [
    field (blk "The attributes associated with the cart. Attributes are represented as key-value pairs.")
       "attributes" [] (nn (ls (nn (nm "Attribute")))) [],
    field (blk "Information about the buyer that is interacting with the cart.")
       "buyerIdentity" [] (nn (nm "CartBuyerIdentity")) [],
    field (blk "The URL of the checkout for the cart.")
       "checkoutUrl" [] (nn (nm "URL")) [],
    field (blk "The date and time when the cart was created.")
       "createdAt" [] (nn (nm "DateTime")) [],
    field (blk "The discount codes that have been applied to the cart.")
       "discountCodes" [] (nn (ls (nn (nm "CartDiscountCode")))) [],
    field (blk "The estimated costs that the buyer will pay at checkout. The estimated costs are subject to change and changes will be reflected at checkout. The `estimatedCost` field uses the `buyerIdentity` field to determine [international pricing](https://shopify.dev/custom-storefronts/products/international-pricing#create-a-cart).")
       "estimatedCost" [] (nn (nm "CartEstimatedCost")) [],
    field (blk "A globally-unique identifier.")
       "id" [] (nn (nm "ID")) [],
    field (blk "A list of lines containing information about the items the customer intends to purchase.")
       "lines" [
        inputValue (blk "Returns up to the first `n` elements from the list.")
           "first" (nm "Int") none [],
        inputValue (blk "Returns the elements that come after the specified cursor.")
           "after" (nm "String") none [],
        inputValue (blk "Returns up to the last `n` elements from the list.")
           "last" (nm "Int") none [],
        inputValue (blk "Returns the elements that come before the specified cursor.")
           "before" (nm "String") none [],
        inputValue (blk "Reverse the order of the underlying list.")
           "reverse" (nm "Boolean") (some (.boolean false)) []]
       (nn (nm "CartLineConnection")) [],
    field (blk "A note that is associated with the cart. For example, the note can be a personalized message to the buyer.")
       "note" [] (nm "String") [],
    field (blk "The total number of items in the cart.")
       "totalQuantity" [] (nn (nm "Int")) [],
    field (blk "The date and time when the cart was updated.")
       "updatedAt" [] (nn (nm "DateTime")) []]

/-- Lines 431 to 438 of the module: type CartAttributesUpdatePayload. -/
def text.CartAttributesUpdatePayload : List String := [
  "\"\"\"Return type for \\`cartAttributesUpdate\\` mutation.\"\"\"",
  "type CartAttributesUpdatePayload \x7b",
  "  \"\"\"The updated cart.\"\"\"",
  "  cart: Cart",
  "  \"\"\"The list of errors that occurred from executing the mutation.\"\"\"",
  "  userErrors: [CartUserError!]!",
  "\x7d",
  ""]

/-- The type CartAttributesUpdatePayload declared by lines 431 to 438. -/
def CartAttributesUpdatePayload : Definition :=
  .objectType (blk "Return type for `cartAttributesUpdate` mutation.")
    "CartAttributesUpdatePayload" [] [] [
    field (blk "The updated cart.")
       "cart" [] (nm "Cart") [],
    field (blk "The list of errors that occurred from executing the mutation.")
       "userErrors" [] (nn (ls (nn (nm "CartUserError")))) []]

/-- Lines 439 to 448 of the module: type CartAutomaticDiscountAllocation. -/
def text.CartAutomaticDiscountAllocation : List String := [
  "\"\"\"",
  "The discounts automatically applied to the cart line based on prerequisites that have been met.",
  "\"\"\"",
  "type CartAutomaticDiscountAllocation implements CartDiscountAllocation \x7b",
  "  \"\"\"The discounted amount that has been applied to the cart line.\"\"\"",
  "  discountedAmount: MoneyV2!",
  "  \"\"\"The title of the allocated discount.\"\"\"",
  "  title: String!",
  "\x7d",
  ""]

/-- The type CartAutomaticDiscountAllocation declared by lines 439 to 448. -/
def CartAutomaticDiscountAllocation : Definition :=
  .objectType (blk "The discounts automatically applied to the cart line based on prerequisites that have been met.")
    "CartAutomaticDiscountAllocation" ["CartDiscountAllocation"] [] [
    field (blk "The discounted amount that has been applied to the cart line.")
       "discountedAmount" [] (nn (nm "MoneyV2")) [],
    field (blk "The title of the allocated discount.")
       "title" [] (nn (nm "String")) []]

/-- Lines 449 to 462 of the module: type CartBuyerIdentity. -/
def text.CartBuyerIdentity : List String := [
  "\"\"\"",
  "Represents information about the buyer that is interacting with the cart.",
  "\"\"\"",
  "type CartBuyerIdentity \x7b",
  "  \"\"\"The country where the buyer is located.\"\"\"",
  "  countryCode: CountryCode",
  "  \"\"\"The customer account associated with the cart.\"\"\"",
  "  customer: Customer",
  "  \"\"\"The email address of the buyer that is interacting with the cart.\"\"\"",
  "  email: String",
  "  \"\"\"The phone number of the buyer that is interacting with the cart.\"\"\"",
  "  phone: String",
  "\x7d",
  ""]

/-- The type CartBuyerIdentity declared by lines 449 to 462. -/
def CartBuyerIdentity : Definition :=
  .objectType (blk "Represents information about the buyer that is interacting with the cart.")
    "CartBuyerIdentity" [] [] [
    field (blk "The country where the buyer is located.")
       "countryCode" [] (nm "CountryCode") [],
    field (blk "The customer account associated with the cart.")
       "customer" [] (nm "Customer") [],
    field (blk "The email address of the buyer that is interacting with the cart.")
       "email" [] (nm "String") [],
    field (blk "The phone number of the buyer that is interacting with the cart.")
       "phone" [] (nm "String") []]

/-- Lines 463 to 482 of the module: input CartBuyerIdentityInput. -/
def text.CartBuyerIdentityInput : List String := [
  "\"\"\"",
  "Specifies the input fields to update the buyer information associated with a cart.",
  "Buyer identity is used to determine",
  "[international pricing](https://shopify.dev/custom-storefronts/products/international-pricing#create-a-checkout)",
  "and should match the customer's shipping address.",
  "",
  "\"\"\"",
  "input CartBuyerIdentityInput \x7b",
  "  \"\"\"The email address of the buyer that is interacting with the cart.\"\"\"",
  "  email: String",
  "  \"\"\"The phone number of the buyer that is interacting with the cart.\"\"\"",
  "  phone: String",
  "  \"\"\"The country where the buyer is located.\"\"\"",
  "  countryCode: CountryCode",
  "  \"\"\"",
  "  The access token used to identify the customer associated with the cart.",
  "  \"\"\"",
  "  customerAccessToken: String",
  "\x7d",
  ""]

/-- The input CartBuyerIdentityInput declared by lines 463 to 482. -/
def CartBuyerIdentityInput : Definition :=
  .inputObjectType (blk "Specifies the input fields to update the buyer information associated with a cart.\nBuyer identity is used to determine\n[international pricing](https://shopify.dev/custom-storefronts/products/international-pricing#create-a-checkout)\nand should match the customer's shipping address.")
    "CartBuyerIdentityInput" [] [
    inputValue (blk "The email address of the buyer that is interacting with the cart.")
       "email" (nm "String") none [],
    inputValue (blk "The phone number of the buyer that is interacting with the cart.")
       "phone" (nm "String") none [],
    inputValue (blk "The country where the buyer is located.")
       "countryCode" (nm "CountryCode") none [],
    inputValue (blk "The access token used to identify the customer associated with the cart.")
       "customerAccessToken" (nm "String") none []]

/-- Lines 483 to 490 of the module: type CartBuyerIdentityUpdatePayload. -/
def text.CartBuyerIdentityUpdatePayload : List String := [
  "\"\"\"Return type for \\`cartBuyerIdentityUpdate\\` mutation.\"\"\"",
  "type CartBuyerIdentityUpdatePayload \x7b",
  "  \"\"\"The updated cart.\"\"\"",
  "  cart: Cart",
  "  \"\"\"The list of errors that occurred from executing the mutation.\"\"\"",
  "  userErrors: [CartUserError!]!",
  "\x7d",
  ""]

/-- The type CartBuyerIdentityUpdatePayload declared by lines 483 to 490. -/
def CartBuyerIdentityUpdatePayload : Definition :=
  .objectType (blk "Return type for `cartBuyerIdentityUpdate` mutation.")
    "CartBuyerIdentityUpdatePayload" [] [] [
    field (blk "The updated cart.")
       "cart" [] (nm "Cart") [],
    field (blk "The list of errors that occurred from executing the mutation.")
       "userErrors" [] (nn (ls (nn (nm "CartUserError")))) []]

/-- Lines 491 to 500 of the module: type CartCodeDiscountAllocation. -/
def text.CartCodeDiscountAllocation : List String := [
  "\"\"\"",
  "The discount that has been applied to the cart line using a discount code.",
  "\"\"\"",
  "type CartCodeDiscountAllocation implements CartDiscountAllocation \x7b",
  "  \"\"\"The code used to apply the discount.\"\"\"",
  "  code: String!",
  "  \"\"\"The discounted amount that has been applied to the cart line.\"\"\"",
  "  discountedAmount: MoneyV2!",
  "\x7d",
  ""]

/-- The type CartCodeDiscountAllocation declared by lines 491 to 500. -/
def CartCodeDiscountAllocation : Definition :=
  .objectType (blk "The discount that has been applied to the cart line using a discount code.")
    "CartCodeDiscountAllocation" ["CartDiscountAllocation"] [] [
    field (blk "The code used to apply the discount.")
       "code" [] (nn (nm "String")) [],
    field (blk "The discounted amount that has been applied to the cart line.")
       "discountedAmount" [] (nn (nm "MoneyV2")) []]

/-- Lines 501 to 508 of the module: type CartCreatePayload. -/
def text.CartCreatePayload : List String := [
  "\"\"\"Return type for \\`cartCreate\\` mutation.\"\"\"",
  "type CartCreatePayload \x7b",
  "  \"\"\"The new cart.\"\"\"",
  "  cart: Cart",
  "  \"\"\"The list of errors that occurred from executing the mutation.\"\"\"",
  "  userErrors: [CartUserError!]!",
  "\x7d",
  ""]

/-- The type CartCreatePayload declared by lines 501 to 508. -/
def CartCreatePayload : Definition :=
  .objectType (blk "Return type for `cartCreate` mutation.")
    "CartCreatePayload" [] [] [
    field (blk "The new cart.")
       "cart" [] (nm "Cart") [],
    field (blk "The list of errors that occurred from executing the mutation.")
       "userErrors" [] (nn (ls (nn (nm "CartUserError")))) []]

/-- Lines 509 to 514 of the module: interface CartDiscountAllocation. -/
def text.CartDiscountAllocation : List String := [
  "\"\"\"The discounts that have been applied to the cart line.\"\"\"",
  "interface CartDiscountAllocation \x7b",
  "  \"\"\"The discounted amount that has been applied to the cart line.\"\"\"",
  "  discountedAmount: MoneyV2!",
  "\x7d",
  ""]

/-- The interface CartDiscountAllocation declared by lines 509 to 514. -/
def CartDiscountAllocation : Definition :=
  .interfaceType (blk "The discounts that have been applied to the cart line.")
    "CartDiscountAllocation" [] [] [
    field (blk "The discounted amount that has been applied to the cart line.")
       "discountedAmount" [] (nn (nm "MoneyV2")) []]

/-- Lines 515 to 524 of the module: type CartDiscountCode. -/
def text.CartDiscountCode : List String := [
  "\"\"\"The discount codes applied to the cart.\"\"\"",
  "type CartDiscountCode \x7b",
  "  \"\"\"",
  "  Whether the discount code is applicable to the cart's current contents.",
  "  \"\"\"",
  "  applicable: Boolean!",
  "  \"\"\"The code for the discount.\"\"\"",
  "  code: String!",
  "\x7d",
  ""]

/-- The type CartDiscountCode declared by lines 515 to 524. -/
def CartDiscountCode : Definition :=
  .objectType (blk "The discount codes applied to the cart.")
    "CartDiscountCode" [] [] [
    field (blk "Whether the discount code is applicable to the cart's current contents.")
       "applicable" [] (nn (nm "Boolean")) [],
    field (blk "The code for the discount.")
       "code" [] (nn (nm "String")) []]

/-- Lines 525 to 532 of the module: type CartDiscountCodesUpdatePayload. -/
def text.CartDiscountCodesUpdatePayload : List String := [
  "\"\"\"Return type for \\`cartDiscountCodesUpdate\\` mutation.\"\"\"",
  "type CartDiscountCodesUpdatePayload \x7b",
  "  \"\"\"The updated cart.\"\"\"",
  "  cart: Cart",
  "  \"\"\"The list of errors that occurred from executing the mutation.\"\"\"",
  "  userErrors: [CartUserError!]!",
  "\x7d",
  ""]

/-- The type CartDiscountCodesUpdatePayload declared by lines 525 to 532. -/
def CartDiscountCodesUpdatePayload : Definition :=
  .objectType (blk "Return type for `cartDiscountCodesUpdate` mutation.")
    "CartDiscountCodesUpdatePayload" [] [] [
    field (blk "The updated cart.")
       "cart" [] (nm "Cart") [],
    field (blk "The list of errors that occurred from executing the mutation.")
       "userErrors" [] (nn (ls (nn (nm "CartUserError")))) []]

/-- Lines 533 to 546 of the module: enum CartErrorCode. -/
def text.CartErrorCode : List String := [
  "\"\"\"Possible error codes that can be returned by \\`CartUserError\\`.\"\"\"",
  "enum CartErrorCode \x7b",
  "  \"\"\"The input value is invalid.\"\"\"",
  "  INVALID",
  "  \"\"\"The input value should be less than the maximum value allowed.\"\"\"",
  "  LESS_THAN",
  "  \"\"\"Merchandise line was not found in cart.\"\"\"",
  "  INVALID_MERCHANDISE_LINE",
  "  \"\"\"Missing discount code.\"\"\"",
  "  MISSING_DISCOUNT_CODE",
  "  \"\"\"Missing note.\"\"\"",
  "  MISSING_NOTE",
  "\x7d",
  ""]

/-- The enum CartErrorCode declared by lines 533 to 546. -/
def CartErrorCode : Definition :=
  .enumType (blk "Possible error codes that can be returned by `CartUserError`.")
    "CartErrorCode" [] [
    enumValue (blk "The input value is invalid.")
       "INVALID" [],
    enumValue (blk "The input value should be less than the maximum value allowed.")
       "LESS_THAN" [],
    enumValue (blk "Merchandise line was not found in cart.")
       "INVALID_MERCHANDISE_LINE" [],
    enumValue (blk "Missing discount code.")
       "MISSING_DISCOUNT_CODE" [],
    enumValue (blk "Missing note.")
       "MISSING_NOTE" []]

/-- Lines 547 to 565 of the module: type CartEstimatedCost. -/
def text.CartEstimatedCost : List String := [
  "\"\"\"",
  "The estimated costs that the buyer will pay at checkout.",
  "It uses [\\`CartBuyerIdentity\\`](https://shopify.dev/api/storefront/reference/cart/cartbuyeridentity) to determine",
  "[international pricing](https://shopify.dev/custom-storefronts/products/international-pricing#create-a-cart).",
  "",
  "\"\"\"",
  "type CartEstimatedCost \x7b",
  "  \"\"\"",
  "  The estimated amount, before taxes and discounts, for the customer to pay at checkout.",
  "  \"\"\"",
  "  subtotalAmount: MoneyV2!",
  "  \"\"\"The estimated total amount for the customer to pay at checkout.\"\"\"",
  "  totalAmount: MoneyV2!",
  "  \"\"\"The estimated duty amount for the customer to pay at checkout.\"\"\"",
  "  totalDutyAmount: MoneyV2",
  "  \"\"\"The estimated tax amount for the customer to pay at checkout.\"\"\"",
  "  totalTaxAmount: MoneyV2",
  "\x7d",
  ""]

/-- The type CartEstimatedCost declared by lines 547 to 565. -/
def CartEstimatedCost : Definition :=
  .objectType (blk "The estimated costs that the buyer will pay at checkout.\nIt uses [`CartBuyerIdentity`](https://shopify.dev/api/storefront/reference/cart/cartbuyeridentity) to determine\n[international pricing](https://shopify.dev/custom-storefronts/products/international-pricing#create-a-cart).")
    "CartEstimatedCost" [] [] [
    field (blk "The estimated amount, before taxes and discounts, for the customer to pay at checkout.")
       "subtotalAmount" [] (nn (nm "MoneyV2")) [],
    field (blk "The estimated total amount for the customer to pay at checkout.")
       "totalAmount" [] (nn (nm "MoneyV2")) [],
    field (blk "The estimated duty amount for the customer to pay at checkout.")
       "totalDutyAmount" [] (nm "MoneyV2") [],
    field (blk "The estimated tax amount for the customer to pay at checkout.")
       "totalTaxAmount" [] (nm "MoneyV2") []]

/-- Lines 566 to 585 of the module: input CartInput. -/
def text.CartInput : List String := [
  "\"\"\"Specifies the input fields to create a cart.\"\"\"",
  "input CartInput \x7b",
  "  \"\"\"",
  "  An array of key-value pairs that contains additional information about the cart.",
  "  \"\"\"",
  "  attributes: [AttributeInput!]",
  "  \"\"\"A list of merchandise lines to add to the cart.\"\"\"",
  "  lines: [CartLineInput!]",
  "  \"\"\"The discount codes to apply to the cart.\"\"\"",
  "  discountCodes: [String!]",
  "  \"\"\"",
  "  A note that is associated with the cart. For example, the note can be a personalized message to the buyer.",
  "  \"\"\"",
  "  note: String",
  "  \"\"\"",
  "  The customer associated with the cart. Used to determine [international pricing](https://shopify.dev/custom-storefronts/products/international-pricing#create-a-checkout). Buyer identity should match the customer's shipping address.",
  "  \"\"\"",
  "  buyerIdentity: CartBuyerIdentityInput",
  "\x7d",
  ""]

/-- The input CartInput declared by lines 566 to 585. -/
def CartInput : Definition :=
  .inputObjectType (blk "Specifies the input fields to create a cart.")
    "CartInput" [] [
    inputValue (blk "An array of key-value pairs that contains additional information about the cart.")
       "attributes" (ls (nn (nm "AttributeInput"))) none [],
    inputValue (blk "A list of merchandise lines to add to the cart.")
       "lines" (ls (nn (nm "CartLineInput"))) none [],
    inputValue (blk "The discount codes to apply to the cart.")
       "discountCodes" (ls (nn (nm "String"))) none [],
    inputValue (blk "A note that is associated with the cart. For example, the note can be a personalized message to the buyer.")
       "note" (nm "String") none [],
    inputValue (blk "The customer associated with the cart. Used to determine [international pricing](https://shopify.dev/custom-storefronts/products/international-pricing#create-a-checkout). Buyer identity should match the customer's shipping address.")
       "buyerIdentity" (nm "CartBuyerIdentityInput") none []]

/-- Lines 586 to 609 of the module: type CartLine. -/
def text.CartLine : List String := [
  "\"\"\"Represents information about the merchandise in the cart.\"\"\"",
  "type CartLine implements Node \x7b",
  "  \"\"\"",
  "  The attributes associated with the cart line. Attributes are represented as key-value pairs.",
  "  \"\"\"",
  "  attributes: [Attribute!]!",
  "  \"\"\"The discounts that have been applied to the cart line.\"\"\"",
  "  discountAllocations: [CartDiscountAllocation!]!",
  "  \"\"\"",
  "  The estimated cost of the merchandise that the buyer will pay for at checkout. The estimated costs are subject to change and changes will be reflected at checkout.",
  "  \"\"\"",
  "  estimatedCost: CartLineEstimatedCost!",
  "  \"\"\"A globally-unique identifier.\"\"\"",
  "  id: ID!",
  "  \"\"\"The merchandise that the buyer intends to purchase.\"\"\"",
  "  merchandise: Merchandise!",
  "  \"\"\"The quantity of the merchandise that the customer intends to purchase.\"\"\"",
  "  quantity: Int!",
  "  \"\"\"",
  "  The selling plan associated with the cart line and the effect that each selling plan has on variants when they're purchased.",
  "  \"\"\"",
  "  sellingPlanAllocation: SellingPlanAllocation",
  "\x7d",
  ""]

/-- The type CartLine declared by lines 586 to 609. -/
def CartLine : Definition :=
  .objectType (blk "Represents information about the merchandise in the cart.")
    "CartLine" ["Node"] [] [
    field (blk "The attributes associated with the cart line. Attributes are represented as key-value pairs.")
       "attributes" [] (nn (ls (nn (nm "Attribute")))) [],
    field (blk "The discounts that have been applied to the cart line.")
       "discountAllocations" [] (nn (ls (nn (nm "CartDiscountAllocation")))) [],
    field (blk "The estimated cost of the merchandise that the buyer will pay for at checkout. The estimated costs are subject to change and changes will be reflected at checkout.")
       "estimatedCost" [] (nn (nm "CartLineEstimatedCost")) [],
    field (blk "A globally-unique identifier.")
       "id" [] (nn (nm "ID")) [],
    field (blk "The merchandise that the buyer intends to purchase.")
       "merchandise" [] (nn (nm "Merchandise")) [],
    field (blk "The quantity of the merchandise that the customer intends to purchase.")
       "quantity" [] (nn (nm "Int")) [],
    field (blk "The selling plan associated with the cart line and the effect that each selling plan has on variants when they're purchased.")
       "sellingPlanAllocation" [] (nm "SellingPlanAllocation") []]

/-- Lines 610 to 620 of the module: type CartLineConnection. -/
def text.CartLineConnection : List String := [
  "\"\"\"",
  "An auto-generated type for paginating through multiple CartLines.",
  "",
  "\"\"\"",
  "type CartLineConnection \x7b",
  "  \"\"\"A list of edges.\"\"\"",
  "  edges: [CartLineEdge!]!",
  "  \"\"\"Information to aid in pagination.\"\"\"",
  "  pageInfo: PageInfo!",
  "\x7d",
  ""]

/-- The type CartLineConnection declared by lines 610 to 620. -/
def CartLineConnection : Definition :=
  .objectType (blk "An auto-generated type for paginating through multiple CartLines.")
    "CartLineConnection" [] [] [
    field (blk "A list of edges.")
       "edges" [] (nn (ls (nn (nm "CartLineEdge")))) [],
    field (blk "Information to aid in pagination.")
       "pageInfo" [] (nn (nm "PageInfo")) []]

/-- Lines 621 to 631 of the module: type CartLineEdge. -/
def text.CartLineEdge : List String := [
  "\"\"\"",
  "An auto-generated type which holds one CartLine and a cursor during pagination.",
  "",
  "\"\"\"",
  "type CartLineEdge \x7b",
  "  \"\"\"A cursor for use in pagination.\"\"\"",
  "  cursor: String!",
  "  \"\"\"The item at the end of CartLineEdge.\"\"\"",
  "  node: CartLine!",
  "\x7d",
  ""]

/-- The type CartLineEdge declared by lines 621 to 631. -/
def CartLineEdge : Definition :=
  .objectType (blk "An auto-generated type which holds one CartLine and a cursor during pagination.")
    "CartLineEdge" [] [] [
    field (blk "A cursor for use in pagination.")
       "cursor" [] (nn (nm "String")) [],
    field (blk "The item at the end of CartLineEdge.")
       "node" [] (nn (nm "CartLine")) []]

/-- Lines 632 to 641 of the module: type CartLineEstimatedCost. -/
def text.CartLineEstimatedCost : List String := [
  "\"\"\"",
  "The estimated cost of the merchandise line that the buyer will pay at checkout.",
  "\"\"\"",
  "type CartLineEstimatedCost \x7b",
  "  \"\"\"The estimated cost of the merchandise line before discounts.\"\"\"",
  "  subtotalAmount: MoneyV2!",
  "  \"\"\"The estimated total cost of the merchandise line.\"\"\"",
  "  totalAmount: MoneyV2!",
  "\x7d",
  ""]

/-- The type CartLineEstimatedCost declared by lines 632 to 641. -/
def CartLineEstimatedCost : Definition :=
  .objectType (blk "The estimated cost of the merchandise line that the buyer will pay at checkout.")
    "CartLineEstimatedCost" [] [] [
    field (blk "The estimated cost of the merchandise line before discounts.")
       "subtotalAmount" [] (nn (nm "MoneyV2")) [],
    field (blk "The estimated total cost of the merchandise line.")
       "totalAmount" [] (nn (nm "MoneyV2")) []]

/-- Lines 642 to 657 of the module: input CartLineInput. -/
def text.CartLineInput : List String := [
  "\"\"\"Specifies the input fields to create a merchandise line on a cart.\"\"\"",
  "input CartLineInput \x7b",
  "  \"\"\"",
  "  An array of key-value pairs that contains additional information about the merchandise line.",
  "  \"\"\"",
  "  attributes: [AttributeInput!]",
  "  \"\"\"The quantity of the merchandise.\"\"\"",
  "  quantity: Int = 1",
  "  \"\"\"The identifier of the merchandise that the buyer intends to purchase.\"\"\"",
  "  merchandiseId: ID!",
  "  \"\"\"",
  "  The identifier of the selling plan that the merchandise is being purchased with.",
  "  \"\"\"",
  "  sellingPlanId: ID",
  "\x7d",
  ""]

/-- The input CartLineInput declared by lines 642 to 657. -/
def CartLineInput : Definition :=
  .inputObjectType (blk "Specifies the input fields to create a merchandise line on a cart.")
    "CartLineInput" [] [
    inputValue (blk "An array of key-value pairs that contains additional information about the merchandise line.")
       "attributes" (ls (nn (nm "AttributeInput"))) none [],
    inputValue (blk "The quantity of the merchandise.")
       "quantity" (nm "Int") (some (.int "1")) [],
    inputValue (blk "The identifier of the merchandise that the buyer intends to purchase.")
       "merchandiseId" (nn (nm "ID")) none [],
    inputValue (blk "The identifier of the selling plan that the merchandise is being purchased with.")
       "sellingPlanId" (nm "ID") none []]

/-- Lines 658 to 675 of the module: input CartLineUpdateInput. -/
def text.CartLineUpdateInput : List String := [
  "\"\"\"Specifies the input fields to update a line item on a cart.\"\"\"",
  "input CartLineUpdateInput \x7b",
  "  \"\"\"The identifier of the merchandise line.\"\"\"",
  "  id: ID!",
  "  \"\"\"The quantity of the line item.\"\"\"",
  "  quantity: Int",
  "  \"\"\"The identifier of the merchandise for the line item.\"\"\"",
  "  merchandiseId: ID",
  "  \"\"\"",
  "  An array of key-value pairs that contains additional information about the merchandise line.",
  "  \"\"\"",
  "  attributes: [AttributeInput!]",
  "  \"\"\"",
  "  The identifier of the selling plan that the merchandise is being purchased with.",
  "  \"\"\"",
  "  sellingPlanId: ID",
  "\x7d",
  ""]

/-- The input CartLineUpdateInput declared by lines 658 to 675. -/
def CartLineUpdateInput : Definition :=
  .inputObjectType (blk "Specifies the input fields to update a line item on a cart.")
    "CartLineUpdateInput" [] [
    inputValue (blk "The identifier of the merchandise line.")
       "id" (nn (nm "ID")) none [],
    inputValue (blk "The quantity of the line item.")
       "quantity" (nm "Int") none [],
    inputValue (blk "The identifier of the merchandise for the line item.")
       "merchandiseId" (nm "ID") none [],
    inputValue (blk "An array of key-value pairs that contains additional information about the merchandise line.")
       "attributes" (ls (nn (nm "AttributeInput"))) none [],
    inputValue (blk "The identifier of the selling plan that the merchandise is being purchased with.")
       "sellingPlanId" (nm "ID") none []]

/-- Lines 676 to 683 of the module: type CartLinesAddPayload. -/
def text.CartLinesAddPayload : List String := [
  "\"\"\"Return type for \\`cartLinesAdd\\` mutation.\"\"\"",
  "type CartLinesAddPayload \x7b",
  "  \"\"\"The updated cart.\"\"\"",
  "  cart: Cart",
  "  \"\"\"The list of errors that occurred from executing the mutation.\"\"\"",
  "  userErrors: [CartUserError!]!",
  "\x7d",
  ""]

/-- The type CartLinesAddPayload declared by lines 676 to 683. -/
def CartLinesAddPayload : Definition :=
  .objectType (blk "Return type for `cartLinesAdd` mutation.")
    "CartLinesAddPayload" [] [] [
    field (blk "The updated cart.")
       "cart" [] (nm "Cart") [],
    field (blk "The list of errors that occurred from executing the mutation.")
       "userErrors" [] (nn (ls (nn (nm "CartUserError")))) []]

/-- Lines 684 to 691 of the module: type CartLinesRemovePayload. -/
def text.CartLinesRemovePayload : List String := [
  "\"\"\"Return type for \\`cartLinesRemove\\` mutation.\"\"\"",
  "type CartLinesRemovePayload \x7b",
  "  \"\"\"The updated cart.\"\"\"",
  "  cart: Cart",
  "  \"\"\"The list of errors that occurred from executing the mutation.\"\"\"",
  "  userErrors: [CartUserError!]!",
  "\x7d",
  ""]

/-- The type CartLinesRemovePayload declared by lines 684 to 691. -/
def CartLinesRemovePayload : Definition :=
  .objectType (blk "Return type for `cartLinesRemove` mutation.")
    "CartLinesRemovePayload" [] [] [
    field (blk "The updated cart.")
       "cart" [] (nm "Cart") [],
    field (blk "The list of errors that occurred from executing the mutation.")
       "userErrors" [] (nn (ls (nn (nm "CartUserError")))) []]

/-- Lines 692 to 699 of the module: type CartLinesUpdatePayload. -/
def text.CartLinesUpdatePayload : List String := [
  "\"\"\"Return type for \\`cartLinesUpdate\\` mutation.\"\"\"",
  "type CartLinesUpdatePayload \x7b",
  "  \"\"\"The updated cart.\"\"\"",
  "  cart: Cart",
  "  \"\"\"The list of errors that occurred from executing the mutation.\"\"\"",
  "  userErrors: [CartUserError!]!",
  "\x7d",
  ""]

/-- The type CartLinesUpdatePayload declared by lines 692 to 699. -/
def CartLinesUpdatePayload : Definition :=
  .objectType (blk "Return type for `cartLinesUpdate` mutation.")
    "CartLinesUpdatePayload" [] [] [
    field (blk "The updated cart.")
       "cart" [] (nm "Cart") [],
    field (blk "The list of errors that occurred from executing the mutation.")
       "userErrors" [] (nn (ls (nn (nm "CartUserError")))) []]

/-- Lines 700 to 707 of the module: type CartNoteUpdatePayload. -/
def text.CartNoteUpdatePayload : List String := [
  "\"\"\"Return type for \\`cartNoteUpdate\\` mutation.\"\"\"",
  "type CartNoteUpdatePayload \x7b",
  "  \"\"\"The updated cart.\"\"\"",
  "  cart: Cart",
  "  \"\"\"The list of errors that occurred from executing the mutation.\"\"\"",
  "  userErrors: [CartUserError!]!",
  "\x7d",
  ""]

/-- The type CartNoteUpdatePayload declared by lines 700 to 707. -/
def CartNoteUpdatePayload : Definition :=
  .objectType (blk "Return type for `cartNoteUpdate` mutation.")
    "CartNoteUpdatePayload" [] [] [
    field (blk "The updated cart.")
       "cart" [] (nm "Cart") [],
    field (blk "The list of errors that occurred from executing the mutation.")
       "userErrors" [] (nn (ls (nn (nm "CartUserError")))) []]

/-- Lines 708 to 717 of the module: type CartUserError. -/
def text.CartUserError : List String := [
  "\"\"\"Represents an error that happens during execution of a cart mutation.\"\"\"",
  "type CartUserError implements DisplayableError \x7b",
  "  \"\"\"The error code.\"\"\"",
  "  code: CartErrorCode",
  "  \"\"\"The path to the input field that caused the error.\"\"\"",
  "  field: [String!]",
  "  \"\"\"The error message.\"\"\"",
  "  message: String!",
  "\x7d",
  ""]

/-- The type CartUserError declared by lines 708 to 717. -/
def CartUserError : Definition :=
  .objectType (blk "Represents an error that happens during execution of a cart mutation.")
    "CartUserError" ["DisplayableError"] [] [
    field (blk "The error code.")
       "code" [] (nm "CartErrorCode") [],
    field (blk "The path to the input field that caused the error.")
       "field" [] (ls (nn (nm "String"))) [],
    field (blk "The error message.")
       "message" [] (nn (nm "String")) []]

/-- Lines 718 to 847 of the module: type Checkout. -/
def text.Checkout : List String := [
  "\"\"\"",
  "A container for all the information required to checkout items and pay.",
  "\"\"\"",
  "type Checkout implements Node \x7b",
  "  \"\"\"The gift cards used on the checkout.\"\"\"",
  "  appliedGiftCards: [AppliedGiftCard!]!",
  "  \"\"\"",
  "  The available shipping rates for this Checkout.",
  "  Should only be used when checkout \\`requiresShipping\\` is \\`true\\` and",
  "  the shipping address is valid.",
  "  ",
  "  \"\"\"",
  "  availableShippingRates: AvailableShippingRates",
  "  \"\"\"The identity of the customer associated with the checkout.\"\"\"",
  "  buyerIdentity: CheckoutBuyerIdentity!",
  "  \"\"\"The date and time when the checkout was completed.\"\"\"",
  "  completedAt: DateTime",
  "  \"\"\"The date and time when the checkout was created.\"\"\"",
  "  createdAt: DateTime!",
  "  \"\"\"The currency code for the Checkout.\"\"\"",
  "  currencyCode: CurrencyCode!",
  "  \"\"\"A list of extra information that is added to the checkout.\"\"\"",
  "  customAttributes: [Attribute!]!",
  "  \"\"\"Discounts that have been applied on the checkout.\"\"\"",
  "  discountApplications(",
  "    \"\"\"Returns up to the first \\`n\\` elements from the list.\"\"\"",
  "    first: Int",
  "    \"\"\"Returns the elements that come after the specified cursor.\"\"\"",
  "    after: String",
  "    \"\"\"Returns up to the last \\`n\\` elements from the list.\"\"\"",
  "    last: Int",
  "    \"\"\"Returns the elements that come before the specified cursor.\"\"\"",
  "    before: String",
  "    \"\"\"Reverse the order of the underlying list.\"\"\"",
  "    reverse: Boolean = false",
  "  ): DiscountApplicationConnection!",
  "  \"\"\"The email attached to this checkout.\"\"\"",
  "  email: String",
  "  \"\"\"A globally-unique identifier.\"\"\"",
  "  id: ID!",
  "  \"\"\"",
  "  A list of line item objects, each one containing information about an item in the checkout.",
  "  \"\"\"",
  "  lineItems(",
  "    \"\"\"Returns up to the first \\`n\\` elements from the list.\"\"\"",
  "    first: Int",
  "    \"\"\"Returns the elements that come after the specified cursor.\"\"\"",
  "    after: String",
  "    \"\"\"Returns up to the last \\`n\\` elements from the list.\"\"\"",
  "    last: Int",
  "    \"\"\"Returns the elements that come before the specified cursor.\"\"\"",
  "    before: String",
  "    \"\"\"Reverse the order of the underlying list.\"\"\"",
  "    reverse: Boolean = false",
  "  ): CheckoutLineItemConnection!",
  "  \"\"\"",
  "  The sum of all the prices of all the items in the checkout. Duties, taxes, shipping and discounts excluded.",
  "  \"\"\"",
  "  lineItemsSubtotalPrice: MoneyV2!",
  "  \"\"\"The note associated with the checkout.\"\"\"",
  "  note: String",
  "  \"\"\"The resulting order from a paid checkout.\"\"\"",
  "  order: Order",
  "  \"\"\"",
  "  The Order Status Page for this Checkout, null when checkout is not completed.",
  "  \"\"\"",
  "  orderStatusUrl: URL",
  "  \"\"\"",
  "  The amount left to be paid. This is equal to the cost of the line items, taxes and shipping minus discounts and gift cards.",
  "  \"\"\"",
  "  paymentDue: Money! @deprecated(reason: \"Use \\`paymentDueV2\\` instead\")",
  "  \"\"\"",
  "  The amount left to be paid. This is equal to the cost of the line items, duties, taxes and shipping minus discounts and gift cards.",
  "  \"\"\"",
  "  paymentDueV2: MoneyV2!",
  "  \"\"\"",
  "  Whether or not the Checkout is ready and can be completed. Checkouts may",
  "  have asynchronous operations that can take time to finish. If you want",
  "  to complete a checkout or ensure all the fields are populated and up to",
  "  date, polling is required until the value is true.",
  "  ",
  "  \"\"\"",
  "  ready: Boolean!",
  "  \"\"\"States whether or not the fulfillment requires shipping.\"\"\"",
  "  requiresShipping: Boolean!",
  "  \"\"\"The shipping address to where the line items will be shipped.\"\"\"",
  "  shippingAddress: MailingAddress",
  "  \"\"\"",
  "  The discounts that have been allocated onto the shipping line by discount applications.",
  "  ",
  "  \"\"\"",
  "  shippingDiscountAllocations: [DiscountAllocation!]!",
  "  \"\"\"",
  "  Once a shipping rate is selected by the customer it is transitioned to a \\`shipping_line\\` object.",
  "  \"\"\"",
  "  shippingLine: ShippingRate",
  "  \"\"\"Price of the checkout before shipping and taxes.\"\"\"",
  "  subtotalPrice: Money! @deprecated(reason: \"Use \\`subtotalPriceV2\\` instead\")",
  "  \"\"\"Price of the checkout before duties, shipping and taxes.\"\"\"",
  "  subtotalPriceV2: MoneyV2!",
  "  \"\"\"Specifies if the Checkout is tax exempt.\"\"\"",
  "  taxExempt: Boolean!",
  "  \"\"\"",
  "  Specifies if taxes are included in the line item and shipping line prices.",
  "  \"\"\"",
  "  taxesIncluded: Boolean!",
  "  \"\"\"The sum of all the duties applied to the line items in the checkout.\"\"\"",
  "  totalDuties: MoneyV2",
  "  \"\"\"",
  "  The sum of all the prices of all the items in the checkout, taxes and discounts included.",
  "  \"\"\"",
  "  totalPrice: Money! @deprecated(reason: \"Use \\`totalPriceV2\\` instead\")",
  "  \"\"\"",
  "  The sum of all the prices of all the items in the checkout, duties, taxes and discounts included.",
  "  \"\"\"",
  "  totalPriceV2: MoneyV2!",
  "  \"\"\"",
  "  The sum of all the taxes applied to the line items and shipping lines in the checkout.",
  "  \"\"\"",
  "  totalTax: Money! @deprecated(reason: \"Use \\`totalTaxV2\\` instead\")",
  "  \"\"\"",
  "  The sum of all the taxes applied to the line items and shipping lines in the checkout.",
  "  \"\"\"",
  "  totalTaxV2: MoneyV2!",
  "  \"\"\"The date and time when the checkout was last updated.\"\"\"",
  "  updatedAt: DateTime!",
  "  \"\"\"The url pointing to the checkout accessible from the web.\"\"\"",
  "  webUrl: URL!",
  "\x7d",
  ""]

/-- The type Checkout declared by lines 718 to 847. -/
def Checkout : Definition :=
  .objectType (blk "A container for all the information required to checkout items and pay.")
    "Checkout" ["Node"] [] [
    field (blk "The gift cards used on the checkout.")
       "appliedGiftCards" [] (nn (ls (nn (nm "AppliedGiftCard")))) [],
    field (blk "The available shipping rates for this Checkout.\nShould only be used when checkout `requiresShipping` is `true` and\nthe shipping address is valid.")
       "availableShippingRates" [] (nm "AvailableShippingRates") [],
    field (blk "The identity of the customer associated with the checkout.")
       "buyerIdentity" [] (nn (nm "CheckoutBuyerIdentity")) [],
    field (blk "The date and time when the checkout was completed.")
       "completedAt" [] (nm "DateTime") [],
    field (blk "The date and time when the checkout was created.")
       "createdAt" [] (nn (nm "DateTime")) [],
    field (blk "The currency code for the Checkout.")
       "currencyCode" [] (nn (nm "CurrencyCode")) [],
    field (blk "A list of extra information that is added to the checkout.")
       "customAttributes" [] (nn (ls (nn (nm "Attribute")))) [],
    field (blk "Discounts that have been applied on the checkout.")
       "discountApplications" [
        inputValue (blk "Returns up to the first `n` elements from the list.")
           "first" (nm "Int") none [],
        inputValue (blk "Returns the elements that come after the specified cursor.")
           "after" (nm "String") none [],
        inputValue (blk "Returns up to the last `n` elements from the list.")
           "last" (nm "Int") none [],
        inputValue (blk "Returns the elements that come before the specified cursor.")
           "before" (nm "String") none [],
        inputValue (blk "Reverse the order of the underlying list.")
           "reverse" (nm "Boolean") (some (.boolean false)) []]
       (nn (nm "DiscountApplicationConnection")) [],
    field (blk "The email attached to this checkout.")
       "email" [] (nm "String") [],
    field (blk "A globally-unique identifier.")
       "id" [] (nn (nm "ID")) [],
    field (blk "A list of line item objects, each one containing information about an item in the checkout.")
       "lineItems" [
        inputValue (blk "Returns up to the first `n` elements from the list.")
           "first" (nm "Int") none [],
        inputValue (blk "Returns the elements that come after the specified cursor.")
           "after" (nm "String") none [],
        inputValue (blk "Returns up to the last `n` elements from the list.")
           "last" (nm "Int") none [],
        inputValue (blk "Returns the elements that come before the specified cursor.")
           "before" (nm "String") none [],
        inputValue (blk "Reverse the order of the underlying list.")
           "reverse" (nm "Boolean") (some (.boolean false)) []]
       (nn (nm "CheckoutLineItemConnection")) [],
    field (blk "The sum of all the prices of all the items in the checkout. Duties, taxes, shipping and discounts excluded.")
       "lineItemsSubtotalPrice" [] (nn (nm "MoneyV2")) [],
    field (blk "The note associated with the checkout.")
       "note" [] (nm "String") [],
    field (blk "The resulting order from a paid checkout.")
       "order" [] (nm "Order") [],
    field (blk "The Order Status Page for this Checkout, null when checkout is not completed.")
       "orderStatusUrl" [] (nm "URL") [],
    field (blk "The amount left to be paid. This is equal to the cost of the line items, taxes and shipping minus discounts and gift cards.")
       "paymentDue" [] (nn (nm "Money")) [deprecated "Use `paymentDueV2` instead"],
    field (blk "The amount left to be paid. This is equal to the cost of the line items, duties, taxes and shipping minus discounts and gift cards.")
       "paymentDueV2" [] (nn (nm "MoneyV2")) [],
    field (blk "Whether or not the Checkout is ready and can be completed. Checkouts may\nhave asynchronous operations that can take time to finish. If you want\nto complete a checkout or ensure all the fields are populated and up to\ndate, polling is required until the value is true.")
       "ready" [] (nn (nm "Boolean")) [],
    field (blk "States whether or not the fulfillment requires shipping.")
       "requiresShipping" [] (nn (nm "Boolean")) [],
    field (blk "The shipping address to where the line items will be shipped.")
       "shippingAddress" [] (nm "MailingAddress") [],
    field (blk "The discounts that have been allocated onto the shipping line by discount applications.")
       "shippingDiscountAllocations" [] (nn (ls (nn (nm "DiscountAllocation")))) [],
    field (blk "Once a shipping rate is selected by the customer it is transitioned to a `shipping_line` object.")
       "shippingLine" [] (nm "ShippingRate") [],
    field (blk "Price of the checkout before shipping and taxes.")
       "subtotalPrice" [] (nn (nm "Money")) [deprecated "Use `subtotalPriceV2` instead"],
    field (blk "Price of the checkout before duties, shipping and taxes.")
       "subtotalPriceV2" [] (nn (nm "MoneyV2")) [],
    field (blk "Specifies if the Checkout is tax exempt.")
       "taxExempt" [] (nn (nm "Boolean")) [],
    field (blk "Specifies if taxes are included in the line item and shipping line prices.")
       "taxesIncluded" [] (nn (nm "Boolean")) [],
    field (blk "The sum of all the duties applied to the line items in the checkout.")
       "totalDuties" [] (nm "MoneyV2") [],
    field (blk "The sum of all the prices of all the items in the checkout, taxes and discounts included.")
       "totalPrice" [] (nn (nm "Money")) [deprecated "Use `totalPriceV2` instead"],
    field (blk "The sum of all the prices of all the items in the checkout, duties, taxes and discounts included.")
       "totalPriceV2" [] (nn (nm "MoneyV2")) [],
    field (blk "The sum of all the taxes applied to the line items and shipping lines in the checkout.")
       "totalTax" [] (nn (nm "Money")) [deprecated "Use `totalTaxV2` instead"],
    field (blk "The sum of all the taxes applied to the line items and shipping lines in the checkout.")
       "totalTaxV2" [] (nn (nm "MoneyV2")) [],
    field (blk "The date and time when the checkout was last updated.")
       "updatedAt" [] (nn (nm "DateTime")) [],
    field (blk "The url pointing to the checkout accessible from the web.")
       "webUrl" [] (nn (nm "URL")) []]

/-- Lines 848 to 865 of the module: input CheckoutAttributesUpdateInput. -/
def text.CheckoutAttributesUpdateInput : List String := [
  "\"\"\"Specifies the fields required to update a checkout's attributes.\"\"\"",
  "input CheckoutAttributesUpdateInput \x7b",
  "  \"\"\"",
  "  The text of an optional note that a shop owner can attach to the checkout.",
  "  \"\"\"",
  "  note: String",
  "  \"\"\"A list of extra information that is added to the checkout.\"\"\"",
  "  customAttributes: [AttributeInput!]",
  "  \"\"\"",
  "  Allows setting partial addresses on a Checkout, skipping the full validation of attributes.",
  "  The required attributes are city, province, and country.",
  "  Full validation of the addresses is still done at completion time. Defaults to \\`false\\` with",
  "  each operation.",
  "  ",
  "  \"\"\"",
  "  allowPartialAddresses: Boolean = false",
  "\x7d",
  ""]

/-- The input CheckoutAttributesUpdateInput declared by lines 848 to 865. -/
def CheckoutAttributesUpdateInput : Definition :=
  .inputObjectType (blk "Specifies the fields required to update a checkout's attributes.")
    "CheckoutAttributesUpdateInput" [] [
    inputValue (blk "The text of an optional note that a shop owner can attach to the checkout.")
       "note" (nm "String") none [],
    inputValue (blk "A list of extra information that is added to the checkout.")
       "customAttributes" (ls (nn (nm "AttributeInput"))) none [],
    inputValue (blk "Allows setting partial addresses on a Checkout, skipping the full validation of attributes.\nThe required attributes are city, province, and country.\nFull validation of the addresses is still done at completion time. Defaults to `false` with\neach operation.")
       "allowPartialAddresses" (nm "Boolean") (some (.boolean false)) []]

/-- Lines 866 to 875 of the module: type CheckoutAttributesUpdatePayload. -/
def text.CheckoutAttributesUpdatePayload : List String := [
  "\"\"\"Return type for \\`checkoutAttributesUpdate\\` mutation.\"\"\"",
  "type CheckoutAttributesUpdatePayload \x7b",
  "  \"\"\"The updated checkout object.\"\"\"",
  "  checkout: Checkout!",
  "  \"\"\"The list of errors that occurred from executing the mutation.\"\"\"",
  "  checkoutUserErrors: [CheckoutUserError!]!",
  "  \"\"\"The list of errors that occurred from executing the mutation.\"\"\"",
  "  userErrors: [UserError!]! @deprecated(reason: \"Use \\`checkoutUserErrors\\` instead\")",
  "\x7d",
  ""]

/-- The type CheckoutAttributesUpdatePayload declared by lines 866 to 875. -/
def CheckoutAttributesUpdatePayload : Definition :=
  .objectType (blk "Return type for `checkoutAttributesUpdate` mutation.")
    "CheckoutAttributesUpdatePayload" [] [] [
    field (blk "The updated checkout object.")
       "checkout" [] (nn (nm "Checkout")) [],
    field (blk "The list of errors that occurred from executing the mutation.")
       "checkoutUserErrors" [] (nn (ls (nn (nm "CheckoutUserError")))) [],
    field (blk "The list of errors that occurred from executing the mutation.")
       "userErrors" [] (nn (ls (nn (nm "UserError")))) [deprecated "Use `checkoutUserErrors` instead"]]

/-- Lines 876 to 893 of the module: input CheckoutAttributesUpdateV2Input. -/
def text.CheckoutAttributesUpdateV2Input : List String := [
  "\"\"\"Specifies the fields required to update a checkout's attributes.\"\"\"",
  "input CheckoutAttributesUpdateV2Input \x7b",
  "  \"\"\"",
  "  The text of an optional note that a shop owner can attach to the checkout.",
  "  \"\"\"",
  "  note: String",
  "  \"\"\"A list of extra information that is added to the checkout.\"\"\"",
  "  customAttributes: [AttributeInput!]",
  "  \"\"\"",
  "  Allows setting partial addresses on a Checkout, skipping the full validation of attributes.",
  "  The required attributes are city, province, and country.",
  "  Full validation of the addresses is still done at completion time. Defaults to \\`false\\` with ",
  "  each operation.",
  "  ",
  "  \"\"\"",
  "  allowPartialAddresses: Boolean = false",
  "\x7d",
  ""]

/-- The input CheckoutAttributesUpdateV2Input declared by lines 876 to 893. -/
def CheckoutAttributesUpdateV2Input : Definition :=
  .inputObjectType (blk "Specifies the fields required to update a checkout's attributes.")
    "CheckoutAttributesUpdateV2Input" [] [
    inputValue (blk "The text of an optional note that a shop owner can attach to the checkout.")
       "note" (nm "String") none [],
    inputValue (blk "A list of extra information that is added to the checkout.")
       "customAttributes" (ls (nn (nm "AttributeInput"))) none [],
    inputValue (blk "Allows setting partial addresses on a Checkout, skipping the full validation of attributes.\nThe required attributes are city, province, and country.\nFull validation of the addresses is still done at completion time. Defaults to `false` with \neach operation.")
       "allowPartialAddresses" (nm "Boolean") (some (.boolean false)) []]

/-- Lines 894 to 903 of the module: type CheckoutAttributesUpdateV2Payload. -/
def text.CheckoutAttributesUpdateV2Payload : List String := [
  "\"\"\"Return type for \\`checkoutAttributesUpdateV2\\` mutation.\"\"\"",
  "type CheckoutAttributesUpdateV2Payload \x7b",
  "  \"\"\"The updated checkout object.\"\"\"",
  "  checkout: Checkout",
  "  \"\"\"The list of errors that occurred from executing the mutation.\"\"\"",
  "  checkoutUserErrors: [CheckoutUserError!]!",
  "  \"\"\"The list of errors that occurred from executing the mutation.\"\"\"",
  "  userErrors: [UserError!]! @deprecated(reason: \"Use \\`checkoutUserErrors\\` instead\")",
  "\x7d",
  ""]

/-- The type CheckoutAttributesUpdateV2Payload declared by lines 894 to 903. -/
def CheckoutAttributesUpdateV2Payload : Definition :=
  .objectType (blk "Return type for `checkoutAttributesUpdateV2` mutation.")
    "CheckoutAttributesUpdateV2Payload" [] [] [
    field (blk "The updated checkout object.")
       "checkout" [] (nm "Checkout") [],
    field (blk "The list of errors that occurred from executing the mutation.")
       "checkoutUserErrors" [] (nn (ls (nn (nm "CheckoutUserError")))) [],
    field (blk "The list of errors that occurred from executing the mutation.")
       "userErrors" [] (nn (ls (nn (nm "UserError")))) [deprecated "Use `checkoutUserErrors` instead"]]

/-- Lines 904 to 909 of the module: type CheckoutBuyerIdentity. -/
def text.CheckoutBuyerIdentity : List String := [
  "\"\"\"The identity of the customer associated with the checkout.\"\"\"",
  "type CheckoutBuyerIdentity \x7b",
  "  \"\"\"The country code for the checkout. For example, \\`CA\\`.\"\"\"",
  "  countryCode: CountryCode",
  "\x7d",
  ""]

/-- The type CheckoutBuyerIdentity declared by lines 904 to 909. -/
def CheckoutBuyerIdentity : Definition :=
  .objectType (blk "The identity of the customer associated with the checkout.")
    "CheckoutBuyerIdentity" [] [] [
    field (blk "The country code for the checkout. For example, `CA`.")
       "countryCode" [] (nm "CountryCode") []]

/-- Lines 910 to 920 of the module: input CheckoutBuyerIdentityInput. -/
def text.CheckoutBuyerIdentityInput : List String := [
  "\"\"\"Specifies the identity of the customer associated with the checkout.\"\"\"",
  "input CheckoutBuyerIdentityInput \x7b",
  "  \"\"\"",
  "  The country code of one of the shop's",
  "  [enabled countries](https://help.shopify.com/en/manual/payments/shopify-payments/multi-currency/setup).",
  "  For example, \\`CA\\`. Including this field creates a checkout in the specified country's currency.",
  "  ",
  "  \"\"\"",
  "  countryCode: CountryCode!",
  "\x7d",
  ""]

/-- The input CheckoutBuyerIdentityInput declared by lines 910 to 920. -/
def CheckoutBuyerIdentityInput : Definition :=
  .inputObjectType (blk "Specifies the identity of the customer associated with the checkout.")
    "CheckoutBuyerIdentityInput" [] [
    inputValue (blk "The country code of one of the shop's\n[enabled countries](https://help.shopify.com/en/manual/payments/shopify-payments/multi-currency/setup).\nFor example, `CA`. Including this field creates a checkout in the specified country's currency.")
       "countryCode" (nn (nm "CountryCode")) none []]

/-- Lines 921 to 930 of the module: type CheckoutCompleteFreePayload. -/
def text.CheckoutCompleteFreePayload : List String := [
  "\"\"\"Return type for \\`checkoutCompleteFree\\` mutation.\"\"\"",
  "type CheckoutCompleteFreePayload \x7b",
  "  \"\"\"The updated checkout object.\"\"\"",
  "  checkout: Checkout",
  "  \"\"\"The list of errors that occurred from executing the mutation.\"\"\"",
  "  checkoutUserErrors: [CheckoutUserError!]!",
  "  \"\"\"The list of errors that occurred from executing the mutation.\"\"\"",
  "  userErrors: [UserError!]! @deprecated(reason: \"Use \\`checkoutUserErrors\\` instead\")",
  "\x7d",
  ""]

/-- The type CheckoutCompleteFreePayload declared by lines 921 to 930. -/
def CheckoutCompleteFreePayload : Definition :=
  .objectType (blk "Return type for `checkoutCompleteFree` mutation.")
    "CheckoutCompleteFreePayload" [] [] [
    field (blk "The updated checkout object.")
       "checkout" [] (nm "Checkout") [],
    field (blk "The list of errors that occurred from executing the mutation.")
       "checkoutUserErrors" [] (nn (ls (nn (nm "CheckoutUserError")))) [],
    field (blk "The list of errors that occurred from executing the mutation.")
       "userErrors" [] (nn (ls (nn (nm "UserError")))) [deprecated "Use `checkoutUserErrors` instead"]]

/-- Lines 931 to 942 of the module: type CheckoutCompleteWithCreditCardPayload. -/
def text.CheckoutCompleteWithCreditCardPayload : List String := [
  "\"\"\"Return type for \\`checkoutCompleteWithCreditCard\\` mutation.\"\"\"",
  "type CheckoutCompleteWithCreditCardPayload \x7b",
  "  \"\"\"The checkout on which the payment was applied.\"\"\"",
  "  checkout: Checkout!",
  "  \"\"\"The list of errors that occurred from executing the mutation.\"\"\"",
  "  checkoutUserErrors: [CheckoutUserError!]!",
  "  \"\"\"A representation of the attempted payment.\"\"\"",
  "  payment: Payment",
  "  \"\"\"The list of errors that occurred from executing the mutation.\"\"\"",
  "  userErrors: [UserError!]! @deprecated(reason: \"Use \\`checkoutUserErrors\\` instead\")",
  "\x7d",
  ""]

/-- The type CheckoutCompleteWithCreditCardPayload declared by lines 931 to 942. -/
def CheckoutCompleteWithCreditCardPayload : Definition :=
  .objectType (blk "Return type for `checkoutCompleteWithCreditCard` mutation.")
    "CheckoutCompleteWithCreditCardPayload" [] [] [
    field (blk "The checkout on which the payment was applied.")
       "checkout" [] (nn (nm "Checkout")) [],
    field (blk "The list of errors that occurred from executing the mutation.")
       "checkoutUserErrors" [] (nn (ls (nn (nm "CheckoutUserError")))) [],
    field (blk "A representation of the attempted payment.")
       "payment" [] (nm "Payment") [],
    field (blk "The list of errors that occurred from executing the mutation.")
       "userErrors" [] (nn (ls (nn (nm "UserError")))) [deprecated "Use `checkoutUserErrors` instead"]]

/-- Lines 943 to 954 of the module: type CheckoutCompleteWithCreditCardV2Payload. -/
def text.CheckoutCompleteWithCreditCardV2Payload : List String := [
  "\"\"\"Return type for \\`checkoutCompleteWithCreditCardV2\\` mutation.\"\"\"",
  "type CheckoutCompleteWithCreditCardV2Payload \x7b",
  "  \"\"\"The checkout on which the payment was applied.\"\"\"",
  "  checkout: Checkout",
  "  \"\"\"The list of errors that occurred from executing the mutation.\"\"\"",
  "  checkoutUserErrors: [CheckoutUserError!]!",
  "  \"\"\"A representation of the attempted payment.\"\"\"",
  "  payment: Payment",
  "  \"\"\"The list of errors that occurred from executing the mutation.\"\"\"",
  "  userErrors: [UserError!]! @deprecated(reason: \"Use \\`checkoutUserErrors\\` instead\")",
  "\x7d",
  ""]

/-- The type CheckoutCompleteWithCreditCardV2Payload declared by lines 943 to 954. -/
def CheckoutCompleteWithCreditCardV2Payload : Definition :=
  .objectType (blk "Return type for `checkoutCompleteWithCreditCardV2` mutation.")
    "CheckoutCompleteWithCreditCardV2Payload" [] [] [
    field (blk "The checkout on which the payment was applied.")
       "checkout" [] (nm "Checkout") [],
    field (blk "The list of errors that occurred from executing the mutation.")
       "checkoutUserErrors" [] (nn (ls (nn (nm "CheckoutUserError")))) [],
    field (blk "A representation of the attempted payment.")
       "payment" [] (nm "Payment") [],
    field (blk "The list of errors that occurred from executing the mutation.")
       "userErrors" [] (nn (ls (nn (nm "UserError")))) [deprecated "Use `checkoutUserErrors` instead"]]

/-- Lines 955 to 966 of the module: type CheckoutCompleteWithTokenizedPaymentPayload. -/
def text.CheckoutCompleteWithTokenizedPaymentPayload : List String := [
  "\"\"\"Return type for \\`checkoutCompleteWithTokenizedPayment\\` mutation.\"\"\"",
  "type CheckoutCompleteWithTokenizedPaymentPayload \x7b",
  "  \"\"\"The checkout on which the payment was applied.\"\"\"",
  "  checkout: Checkout!",
  "  \"\"\"The list of errors that occurred from executing the mutation.\"\"\"",
  "  checkoutUserErrors: [CheckoutUserError!]!",
  "  \"\"\"A representation of the attempted payment.\"\"\"",
  "  payment: Payment",
  "  \"\"\"The list of errors that occurred from executing the mutation.\"\"\"",
  "  userErrors: [UserError!]! @deprecated(reason: \"Use \\`checkoutUserErrors\\` instead\")",
  "\x7d",
  ""]

/-- The type CheckoutCompleteWithTokenizedPaymentPayload declared by lines 955 to 966. -/
def CheckoutCompleteWithTokenizedPaymentPayload : Definition :=
  .objectType (blk "Return type for `checkoutCompleteWithTokenizedPayment` mutation.")
    "CheckoutCompleteWithTokenizedPaymentPayload" [] [] [
    field (blk "The checkout on which the payment was applied.")
       "checkout" [] (nn (nm "Checkout")) [],
    field (blk "The list of errors that occurred from executing the mutation.")
       "checkoutUserErrors" [] (nn (ls (nn (nm "CheckoutUserError")))) [],
    field (blk "A representation of the attempted payment.")
       "payment" [] (nm "Payment") [],
    field (blk "The list of errors that occurred from executing the mutation.")
       "userErrors" [] (nn (ls (nn (nm "UserError")))) [deprecated "Use `checkoutUserErrors` instead"]]

/-- Lines 967 to 978 of the module: type CheckoutCompleteWithTokenizedPaymentV2Payload. -/
def text.CheckoutCompleteWithTokenizedPaymentV2Payload : List String := [
  "\"\"\"Return type for \\`checkoutCompleteWithTokenizedPaymentV2\\` mutation.\"\"\"",
  "type CheckoutCompleteWithTokenizedPaymentV2Payload \x7b",
  "  \"\"\"The checkout on which the payment was applied.\"\"\"",
  "  checkout: Checkout",
  "  \"\"\"The list of errors that occurred from executing the mutation.\"\"\"",
  "  checkoutUserErrors: [CheckoutUserError!]!",
  "  \"\"\"A representation of the attempted payment.\"\"\"",
  "  payment: Payment",
  "  \"\"\"The list of errors that occurred from executing the mutation.\"\"\"",
  "  userErrors: [UserError!]! @deprecated(reason: \"Use \\`checkoutUserErrors\\` instead\")",
  "\x7d",
  ""]

/-- The type CheckoutCompleteWithTokenizedPaymentV2Payload declared by lines 967 to 978. -/
def CheckoutCompleteWithTokenizedPaymentV2Payload : Definition :=
  .objectType (blk "Return type for `checkoutCompleteWithTokenizedPaymentV2` mutation.")
    "CheckoutCompleteWithTokenizedPaymentV2Payload" [] [] [
    field (blk "The checkout on which the payment was applied.")
       "checkout" [] (nm "Checkout") [],
    field (blk "The list of errors that occurred from executing the mutation.")
       "checkoutUserErrors" [] (nn (ls (nn (nm "CheckoutUserError")))) [],
    field (blk "A representation of the attempted payment.")
       "payment" [] (nm "Payment") [],
    field (blk "The list of errors that occurred from executing the mutation.")
       "userErrors" [] (nn (ls (nn (nm "UserError")))) [deprecated "Use `checkoutUserErrors` instead"]]

/-- Lines 979 to 990 of the module: type CheckoutCompleteWithTokenizedPaymentV3Payload. -/
def text.CheckoutCompleteWithTokenizedPaymentV3Payload : List String := [
  "\"\"\"Return type for \\`checkoutCompleteWithTokenizedPaymentV3\\` mutation.\"\"\"",
  "type CheckoutCompleteWithTokenizedPaymentV3Payload \x7b",
  "  \"\"\"The checkout on which the payment was applied.\"\"\"",
  "  checkout: Checkout",
  "  \"\"\"The list of errors that occurred from executing the mutation.\"\"\"",
  "  checkoutUserErrors: [CheckoutUserError!]!",
  "  \"\"\"A representation of the attempted payment.\"\"\"",
  "  payment: Payment",
  "  \"\"\"The list of errors that occurred from executing the mutation.\"\"\"",
  "  userErrors: [UserError!]! @deprecated(reason: \"Use \\`checkoutUserErrors\\` instead\")",
  "\x7d",
  ""]

/-- The type CheckoutCompleteWithTokenizedPaymentV3Payload declared by lines 979 to 990. -/
def CheckoutCompleteWithTokenizedPaymentV3Payload : Definition :=
  .objectType (blk "Return type for `checkoutCompleteWithTokenizedPaymentV3` mutation.")
    "CheckoutCompleteWithTokenizedPaymentV3Payload" [] [] [
    field (blk "The checkout on which the payment was applied.")
       "checkout" [] (nm "Checkout") [],
    field (blk "The list of errors that occurred from executing the mutation.")
       "checkoutUserErrors" [] (nn (ls (nn (nm "CheckoutUserError")))) [],
    field (blk "A representation of the attempted payment.")
       "payment" [] (nm "Payment") [],
    field (blk "The list of errors that occurred from executing the mutation.")
       "userErrors" [] (nn (ls (nn (nm "UserError")))) [deprecated "Use `checkoutUserErrors` instead"]]

/-- Lines 991 to 1024 of the module: input CheckoutCreateInput. -/
def text.CheckoutCreateInput : List String := [
  "\"\"\"Specifies the fields required to create a checkout.\"\"\"",
  "input CheckoutCreateInput \x7b",
  "  \"\"\"The email with which the customer wants to checkout.\"\"\"",
  "  email: String",
  "  \"\"\"",
  "  A list of line item objects, each one containing information about an item in the checkout.",
  "  \"\"\"",
  "  lineItems: [CheckoutLineItemInput!]",
  "  \"\"\"The shipping address to where the line items will be shipped.\"\"\"",
  "  shippingAddress: MailingAddressInput",
  "  \"\"\"",
  "  The text of an optional note that a shop owner can attach to the checkout.",
  "  \"\"\"",
  "  note: String",
  "  \"\"\"A list of extra information that is added to the checkout.\"\"\"",
  "  customAttributes: [AttributeInput!]",
  "  \"\"\"",
  "  Allows setting partial addresses on a Checkout, skipping the full validation of attributes.",
  "  The required attributes are city, province, and country.",
  "  Full validation of addresses is still done at completion time. Defaults to \\`null\\`.",
  "  ",
  "  \"\"\"",
  "  allowPartialAddresses: Boolean",
  "  \"\"\"",
  "  The three-letter currency code of one of the shop's enabled presentment currencies.",
  "  Including this field creates a checkout in the specified currency. By default, new",
  "  checkouts are created in the shop's primary currency.",
  "   This argument is deprecated: Use \\`country\\` field instead.",
  "  \"\"\"",
  "  presentmentCurrencyCode: CurrencyCode",
  "  \"\"\"The identity of the customer associated with the checkout.\"\"\"",
  "  buyerIdentity: CheckoutBuyerIdentityInput",
  "\x7d",
  ""]

/-- The input CheckoutCreateInput declared by lines 991 to 1024. -/
def CheckoutCreateInput : Definition :=
  .inputObjectType (blk "Specifies the fields required to create a checkout.")
    "CheckoutCreateInput" [] [
    inputValue (blk "The email with which the customer wants to checkout.")
       "email" (nm "String") none [],
    inputValue (blk "A list of line item objects, each one containing information about an item in the checkout.")
       "lineItems" (ls (nn (nm "CheckoutLineItemInput"))) none [],
    inputValue (blk "The shipping address to where the line items will be shipped.")
       "shippingAddress" (nm "MailingAddressInput") none [],
    inputValue (blk "The text of an optional note that a shop owner can attach to the checkout.")
       "note" (nm "String") none [],
    inputValue (blk "A list of extra information that is added to the checkout.")
       "customAttributes" (ls (nn (nm "AttributeInput"))) none [],
    inputValue (blk "Allows setting partial addresses on a Checkout, skipping the full validation of attributes.\nThe required attributes are city, province, and country.\nFull validation of addresses is still done at completion time. Defaults to `null`.")
       "allowPartialAddresses" (nm "Boolean") none [],
    inputValue (blk "The three-letter currency code of one of the shop's enabled presentment currencies.\nIncluding this field creates a checkout in the specified currency. By default, new\ncheckouts are created in the shop's primary currency.\n This argument is deprecated: Use `country` field instead.")
       "presentmentCurrencyCode" (nm "CurrencyCode") none [],
    inputValue (blk "The identity of the customer associated with the checkout.")
       "buyerIdentity" (nm "CheckoutBuyerIdentityInput") none []]

/-- Lines 1025 to 1036 of the module: type CheckoutCreatePayload. -/
def text.CheckoutCreatePayload : List String := [
  "\"\"\"Return type for \\`checkoutCreate\\` mutation.\"\"\"",
  "type CheckoutCreatePayload \x7b",
  "  \"\"\"The new checkout object.\"\"\"",
  "  checkout: Checkout",
  "  \"\"\"The list of errors that occurred from executing the mutation.\"\"\"",
  "  checkoutUserErrors: [CheckoutUserError!]!",
  "  \"\"\"The checkout queue token. Available only to selected stores.\"\"\"",
  "  queueToken: String",
  "  \"\"\"The list of errors that occurred from executing the mutation.\"\"\"",
  "  userErrors: [UserError!]! @deprecated(reason: \"Use \\`checkoutUserErrors\\` instead\")",
  "\x7d",
  ""]

/-- The type CheckoutCreatePayload declared by lines 1025 to 1036. -/
def CheckoutCreatePayload : Definition :=
  .objectType (blk "Return type for `checkoutCreate` mutation.")
    "CheckoutCreatePayload" [] [] [
    field (blk "The new checkout object.")
       "checkout" [] (nm "Checkout") [],
    field (blk "The list of errors that occurred from executing the mutation.")
       "checkoutUserErrors" [] (nn (ls (nn (nm "CheckoutUserError")))) [],
    field (blk "The checkout queue token. Available only to selected stores.")
       "queueToken" [] (nm "String") [],
    field (blk "The list of errors that occurred from executing the mutation.")
       "userErrors" [] (nn (ls (nn (nm "UserError")))) [deprecated "Use `checkoutUserErrors` instead"]]

/-- Lines 1037 to 1046 of the module: type CheckoutCustomerAssociatePayload. -/
def text.CheckoutCustomerAssociatePayload : List String := [
  "\"\"\"Return type for \\`checkoutCustomerAssociate\\` mutation.\"\"\"",
  "type CheckoutCustomerAssociatePayload \x7b",
  "  \"\"\"The updated checkout object.\"\"\"",
  "  checkout: Checkout!",
  "  \"\"\"The associated customer object.\"\"\"",
  "  customer: Customer",
  "  \"\"\"The list of errors that occurred from executing the mutation.\"\"\"",
  "  userErrors: [UserError!]!",
  "\x7d",
  ""]

/-- The type CheckoutCustomerAssociatePayload declared by lines 1037 to 1046. -/
def CheckoutCustomerAssociatePayload : Definition :=
  .objectType (blk "Return type for `checkoutCustomerAssociate` mutation.")
    "CheckoutCustomerAssociatePayload" [] [] [
    field (blk "The updated checkout object.")
       "checkout" [] (nn (nm "Checkout")) [],
    field (blk "The associated customer object.")
       "customer" [] (nm "Customer") [],
    field (blk "The list of errors that occurred from executing the mutation.")
       "userErrors" [] (nn (ls (nn (nm "UserError")))) []]

/-- Lines 1047 to 1058 of the module: type CheckoutCustomerAssociateV2Payload. -/
def text.CheckoutCustomerAssociateV2Payload : List String := [
  "\"\"\"Return type for \\`checkoutCustomerAssociateV2\\` mutation.\"\"\"",
  "type CheckoutCustomerAssociateV2Payload \x7b",
  "  \"\"\"The updated checkout object.\"\"\"",
  "  checkout: Checkout",
  "  \"\"\"The list of errors that occurred from executing the mutation.\"\"\"",
  "  checkoutUserErrors: [CheckoutUserError!]!",
  "  \"\"\"The associated customer object.\"\"\"",
  "  customer: Customer",
  "  \"\"\"The list of errors that occurred from executing the mutation.\"\"\"",
  "  userErrors: [UserError!]! @deprecated(reason: \"Use \\`checkoutUserErrors\\` instead\")",
  "\x7d",
  ""]

/-- The type CheckoutCustomerAssociateV2Payload declared by lines 1047 to 1058. -/
def CheckoutCustomerAssociateV2Payload : Definition :=
  .objectType (blk "Return type for `checkoutCustomerAssociateV2` mutation.")
    "CheckoutCustomerAssociateV2Payload" [] [] [
    field (blk "The updated checkout object.")
       "checkout" [] (nm "Checkout") [],
    field (blk "The list of errors that occurred from executing the mutation.")
       "checkoutUserErrors" [] (nn (ls (nn (nm "CheckoutUserError")))) [],
    field (blk "The associated customer object.")
       "customer" [] (nm "Customer") [],
    field (blk "The list of errors that occurred from executing the mutation.")
       "userErrors" [] (nn (ls (nn (nm "UserError")))) [deprecated "Use `checkoutUserErrors` instead"]]

/-- Lines 1059 to 1068 of the module: type CheckoutCustomerDisassociatePayload. -/
def text.CheckoutCustomerDisassociatePayload : List String := [
  "\"\"\"Return type for \\`checkoutCustomerDisassociate\\` mutation.\"\"\"",
  "type CheckoutCustomerDisassociatePayload \x7b",
  "  \"\"\"The updated checkout object.\"\"\"",
  "  checkout: Checkout!",
  "  \"\"\"The list of errors that occurred from executing the mutation.\"\"\"",
  "  checkoutUserErrors: [CheckoutUserError!]!",
  "  \"\"\"The list of errors that occurred from executing the mutation.\"\"\"",
  "  userErrors: [UserError!]! @deprecated(reason: \"Use \\`checkoutUserErrors\\` instead\")",
  "\x7d",
  ""]

/-- The type CheckoutCustomerDisassociatePayload declared by lines 1059 to 1068. -/
def CheckoutCustomerDisassociatePayload : Definition :=
  .objectType (blk "Return type for `checkoutCustomerDisassociate` mutation.")
    "CheckoutCustomerDisassociatePayload" [] [] [
    field (blk "The updated checkout object.")
       "checkout" [] (nn (nm "Checkout")) [],
    field (blk "The list of errors that occurred from executing the mutation.")
       "checkoutUserErrors" [] (nn (ls (nn (nm "CheckoutUserError")))) [],
    field (blk "The list of errors that occurred from executing the mutation.")
       "userErrors" [] (nn (ls (nn (nm "UserError")))) [deprecated "Use `checkoutUserErrors` instead"]]

/-- Lines 1069 to 1078 of the module: type CheckoutCustomerDisassociateV2Payload. -/
def text.CheckoutCustomerDisassociateV2Payload : List String := [
  "\"\"\"Return type for \\`checkoutCustomerDisassociateV2\\` mutation.\"\"\"",
  "type CheckoutCustomerDisassociateV2Payload \x7b",
  "  \"\"\"The updated checkout object.\"\"\"",
  "  checkout: Checkout",
  "  \"\"\"The list of errors that occurred from executing the mutation.\"\"\"",
  "  checkoutUserErrors: [CheckoutUserError!]!",
  "  \"\"\"The list of errors that occurred from executing the mutation.\"\"\"",
  "  userErrors: [UserError!]! @deprecated(reason: \"Use \\`checkoutUserErrors\\` instead\")",
  "\x7d",
  ""]

/-- The type CheckoutCustomerDisassociateV2Payload declared by lines 1069 to 1078. -/
def CheckoutCustomerDisassociateV2Payload : Definition :=
  .objectType (blk "Return type for `checkoutCustomerDisassociateV2` mutation.")
    "CheckoutCustomerDisassociateV2Payload" [] [] [
    field (blk "The updated checkout object.")
       "checkout" [] (nm "Checkout") [],
    field (blk "The list of errors that occurred from executing the mutation.")
       "checkoutUserErrors" [] (nn (ls (nn (nm "CheckoutUserError")))) [],
    field (blk "The list of errors that occurred from executing the mutation.")
       "userErrors" [] (nn (ls (nn (nm "UserError")))) [deprecated "Use `checkoutUserErrors` instead"]]

/-- Lines 1079 to 1088 of the module: type CheckoutDiscountCodeApplyPayload. -/
def text.CheckoutDiscountCodeApplyPayload : List String := [
  "\"\"\"Return type for \\`checkoutDiscountCodeApply\\` mutation.\"\"\"",
  "type CheckoutDiscountCodeApplyPayload \x7b",
  "  \"\"\"The updated checkout object.\"\"\"",
  "  checkout: Checkout!",
  "  \"\"\"The list of errors that occurred from executing the mutation.\"\"\"",
  "  checkoutUserErrors: [CheckoutUserError!]!",
  "  \"\"\"The list of errors that occurred from executing the mutation.\"\"\"",
  "  userErrors: [UserError!]! @deprecated(reason: \"Use \\`checkoutUserErrors\\` instead\")",
  "\x7d",
  ""]

/-- The type CheckoutDiscountCodeApplyPayload declared by lines 1079 to 1088. -/
def CheckoutDiscountCodeApplyPayload : Definition :=
  .objectType (blk "Return type for `checkoutDiscountCodeApply` mutation.")
    "CheckoutDiscountCodeApplyPayload" [] [] [
    field (blk "The updated checkout object.")
       "checkout" [] (nn (nm "Checkout")) [],
    field (blk "The list of errors that occurred from executing the mutation.")
       "checkoutUserErrors" [] (nn (ls (nn (nm "CheckoutUserError")))) [],
    field (blk "The list of errors that occurred from executing the mutation.")
       "userErrors" [] (nn (ls (nn (nm "UserError")))) [deprecated "Use `checkoutUserErrors` instead"]]

/-- Lines 1089 to 1098 of the module: type CheckoutDiscountCodeApplyV2Payload. -/
def text.CheckoutDiscountCodeApplyV2Payload : List String := [
  "\"\"\"Return type for \\`checkoutDiscountCodeApplyV2\\` mutation.\"\"\"",
  "type CheckoutDiscountCodeApplyV2Payload \x7b",
  "  \"\"\"The updated checkout object.\"\"\"",
  "  checkout: Checkout",
  "  \"\"\"The list of errors that occurred from executing the mutation.\"\"\"",
  "  checkoutUserErrors: [CheckoutUserError!]!",
  "  \"\"\"The list of errors that occurred from executing the mutation.\"\"\"",
  "  userErrors: [UserError!]! @deprecated(reason: \"Use \\`checkoutUserErrors\\` instead\")",
  "\x7d",
  ""]

/-- The type CheckoutDiscountCodeApplyV2Payload declared by lines 1089 to 1098. -/
def CheckoutDiscountCodeApplyV2Payload : Definition :=
  .objectType (blk "Return type for `checkoutDiscountCodeApplyV2` mutation.")
    "CheckoutDiscountCodeApplyV2Payload" [] [] [
    field (blk "The updated checkout object.")
       "checkout" [] (nm "Checkout") [],
    field (blk "The list of errors that occurred from executing the mutation.")
       "checkoutUserErrors" [] (nn (ls (nn (nm "CheckoutUserError")))) [],
    field (blk "The list of errors that occurred from executing the mutation.")
       "userErrors" [] (nn (ls (nn (nm "UserError")))) [deprecated "Use `checkoutUserErrors` instead"]]

/-- Lines 1099 to 1108 of the module: type CheckoutDiscountCodeRemovePayload. -/
def text.CheckoutDiscountCodeRemovePayload : List String := [
  "\"\"\"Return type for \\`checkoutDiscountCodeRemove\\` mutation.\"\"\"",
  "type CheckoutDiscountCodeRemovePayload \x7b",
  "  \"\"\"The updated checkout object.\"\"\"",
  "  checkout: Checkout",
  "  \"\"\"The list of errors that occurred from executing the mutation.\"\"\"",
  "  checkoutUserErrors: [CheckoutUserError!]!",
  "  \"\"\"The list of errors that occurred from executing the mutation.\"\"\"",
  "  userErrors: [UserError!]! @deprecated(reason: \"Use \\`checkoutUserErrors\\` instead\")",
  "\x7d",
  ""]

/-- The type CheckoutDiscountCodeRemovePayload declared by lines 1099 to 1108. -/
def CheckoutDiscountCodeRemovePayload : Definition :=
  .objectType (blk "Return type for `checkoutDiscountCodeRemove` mutation.")
    "CheckoutDiscountCodeRemovePayload" [] [] [
    field (blk "The updated checkout object.")
       "checkout" [] (nm "Checkout") [],
    field (blk "The list of errors that occurred from executing the mutation.")
       "checkoutUserErrors" [] (nn (ls (nn (nm "CheckoutUserError")))) [],
    field (blk "The list of errors that occurred from executing the mutation.")
       "userErrors" [] (nn (ls (nn (nm "UserError")))) [deprecated "Use `checkoutUserErrors` instead"]]

/-- Lines 1109 to 1118 of the module: type CheckoutEmailUpdatePayload. -/
def text.CheckoutEmailUpdatePayload : List String := [
  "\"\"\"Return type for \\`checkoutEmailUpdate\\` mutation.\"\"\"",
  "type CheckoutEmailUpdatePayload \x7b",
  "  \"\"\"The checkout object with the updated email.\"\"\"",
  "  checkout: Checkout!",
  "  \"\"\"The list of errors that occurred from executing the mutation.\"\"\"",
  "  checkoutUserErrors: [CheckoutUserError!]!",
  "  \"\"\"The list of errors that occurred from executing the mutation.\"\"\"",
  "  userErrors: [UserError!]! @deprecated(reason: \"Use \\`checkoutUserErrors\\` instead\")",
  "\x7d",
  ""]

/-- The type CheckoutEmailUpdatePayload declared by lines 1109 to 1118. -/
def CheckoutEmailUpdatePayload : Definition :=
  .objectType (blk "Return type for `checkoutEmailUpdate` mutation.")
    "CheckoutEmailUpdatePayload" [] [] [
    field (blk "The checkout object with the updated email.")
       "checkout" [] (nn (nm "Checkout")) [],
    field (blk "The list of errors that occurred from executing the mutation.")
       "checkoutUserErrors" [] (nn (ls (nn (nm "CheckoutUserError")))) [],
    field (blk "The list of errors that occurred from executing the mutation.")
       "userErrors" [] (nn (ls (nn (nm "UserError")))) [deprecated "Use `checkoutUserErrors` instead"]]

/-- Lines 1119 to 1128 of the module: type CheckoutEmailUpdateV2Payload. -/
def text.CheckoutEmailUpdateV2Payload : List String := [
  "\"\"\"Return type for \\`checkoutEmailUpdateV2\\` mutation.\"\"\"",
  "type CheckoutEmailUpdateV2Payload \x7b",
  "  \"\"\"The checkout object with the updated email.\"\"\"",
  "  checkout: Checkout",
  "  \"\"\"The list of errors that occurred from executing the mutation.\"\"\"",
  "  checkoutUserErrors: [CheckoutUserError!]!",
  "  \"\"\"The list of errors that occurred from executing the mutation.\"\"\"",
  "  userErrors: [UserError!]! @deprecated(reason: \"Use \\`checkoutUserErrors\\` instead\")",
  "\x7d",
  ""]

/-- The type CheckoutEmailUpdateV2Payload declared by lines 1119 to 1128. -/
def CheckoutEmailUpdateV2Payload : Definition :=
  .objectType (blk "Return type for `checkoutEmailUpdateV2` mutation.")
    "CheckoutEmailUpdateV2Payload" [] [] [
    field (blk "The checkout object with the updated email.")
       "checkout" [] (nm "Checkout") [],
    field (blk "The list of errors that occurred from executing the mutation.")
       "checkoutUserErrors" [] (nn (ls (nn (nm "CheckoutUserError")))) [],
    field (blk "The list of errors that occurred from executing the mutation.")
       "userErrors" [] (nn (ls (nn (nm "UserError")))) [deprecated "Use `checkoutUserErrors` instead"]]

/-- Lines 1129 to 1220 of the module: enum CheckoutErrorCode. -/
def text.CheckoutErrorCode : List String := [
  "\"\"\"Possible error codes that can be returned by \\`CheckoutUserError\\`.\"\"\"",
  "enum CheckoutErrorCode \x7b",
  "  \"\"\"The input value is blank.\"\"\"",
  "  BLANK",
  "  \"\"\"The input value is invalid.\"\"\"",
  "  INVALID",
  "  \"\"\"The input value is too long.\"\"\"",
  "  TOO_LONG",
  "  \"\"\"The input value needs to be blank.\"\"\"",
  "  PRESENT",
  "  \"\"\"The input value should be less than the maximum value allowed.\"\"\"",
  "  LESS_THAN",
  "  \"\"\"",
  "  The input value should be greater than or equal to the minimum value allowed.",
  "  \"\"\"",
  "  GREATER_THAN_OR_EQUAL_TO",
  "  \"\"\"",
  "  The input value should be less than or equal to the maximum value allowed.",
  "  \"\"\"",
  "  LESS_THAN_OR_EQUAL_TO",
  "  \"\"\"Checkout is already completed.\"\"\"",
  "  ALREADY_COMPLETED",
  "  \"\"\"Checkout is locked.\"\"\"",
  "  LOCKED",
  "  \"\"\"Input value is not supported.\"\"\"",
  "  NOT_SUPPORTED",
  "  \"\"\"Input email contains an invalid domain name.\"\"\"",
  "  BAD_DOMAIN",
  "  \"\"\"Input Zip is invalid for country provided.\"\"\"",
  "  INVALID_FOR_COUNTRY",
  "  \"\"\"Input Zip is invalid for country and province provided.\"\"\"",
  "  INVALID_FOR_COUNTRY_AND_PROVINCE",
  "  \"\"\"Invalid state in country.\"\"\"",
  "  INVALID_STATE_IN_COUNTRY",
  "  \"\"\"Invalid province in country.\"\"\"",
  "  INVALID_PROVINCE_IN_COUNTRY",
  "  \"\"\"Invalid region in country.\"\"\"",
  "  INVALID_REGION_IN_COUNTRY",
  "  \"\"\"Shipping rate expired.\"\"\"",
  "  SHIPPING_RATE_EXPIRED",
  "  \"\"\"Gift card cannot be applied to a checkout that contains a gift card.\"\"\"",
  "  GIFT_CARD_UNUSABLE",
  "  \"\"\"Gift card is disabled.\"\"\"",
  "  GIFT_CARD_DISABLED",
  "  \"\"\"Gift card code is invalid.\"\"\"",
  "  GIFT_CARD_CODE_INVALID",
  "  \"\"\"Gift card has already been applied.\"\"\"",
  "  GIFT_CARD_ALREADY_APPLIED",
  "  \"\"\"Gift card currency does not match checkout currency.\"\"\"",
  "  GIFT_CARD_CURRENCY_MISMATCH",
  "  \"\"\"Gift card is expired.\"\"\"",
  "  GIFT_CARD_EXPIRED",
  "  \"\"\"Gift card has no funds left.\"\"\"",
  "  GIFT_CARD_DEPLETED",
  "  \"\"\"Gift card was not found.\"\"\"",
  "  GIFT_CARD_NOT_FOUND",
  "  \"\"\"Cart does not meet discount requirements notice.\"\"\"",
  "  CART_DOES_NOT_MEET_DISCOUNT_REQUIREMENTS_NOTICE",
  "  \"\"\"Discount expired.\"\"\"",
  "  DISCOUNT_EXPIRED",
  "  \"\"\"Discount disabled.\"\"\"",
  "  DISCOUNT_DISABLED",
  "  \"\"\"Discount limit reached.\"\"\"",
  "  DISCOUNT_LIMIT_REACHED",
  "  \"\"\"Discount not found.\"\"\"",
  "  DISCOUNT_NOT_FOUND",
  "  \"\"\"Customer already used once per customer discount notice.\"\"\"",
  "  CUSTOMER_ALREADY_USED_ONCE_PER_CUSTOMER_DISCOUNT_NOTICE",
  "  \"\"\"Checkout is already completed.\"\"\"",
  "  EMPTY",
  "  \"\"\"Not enough in stock.\"\"\"",
  "  NOT_ENOUGH_IN_STOCK",
  "  \"\"\"Missing payment input.\"\"\"",
  "  MISSING_PAYMENT_INPUT",
  "  \"\"\"The amount of the payment does not match the value to be paid.\"\"\"",
  "  TOTAL_PRICE_MISMATCH",
  "  \"\"\"Line item was not found in checkout.\"\"\"",
  "  LINE_ITEM_NOT_FOUND",
  "  \"\"\"Unable to apply discount.\"\"\"",
  "  UNABLE_TO_APPLY",
  "  \"\"\"Discount already applied.\"\"\"",
  "  DISCOUNT_ALREADY_APPLIED",
  "  \"\"\"Throttled during checkout.\"\"\"",
  "  THROTTLED_DURING_CHECKOUT",
  "  \"\"\"Queue token has expired.\"\"\"",
  "  EXPIRED_QUEUE_TOKEN",
  "  \"\"\"Queue token is invalid.\"\"\"",
  "  INVALID_QUEUE_TOKEN",
  "  \"\"\"Cannot specify country and presentment currency code.\"\"\"",
  "  INVALID_COUNTRY_AND_CURRENCY",
  "\x7d",
  ""]

/-- The enum CheckoutErrorCode declared by lines 1129 to 1220. -/
def CheckoutErrorCode : Definition :=
  .enumType (blk "Possible error codes that can be returned by `CheckoutUserError`.")
    "CheckoutErrorCode" [] [
    enumValue (blk "The input value is blank.")
       "BLANK" [],
    enumValue (blk "The input value is invalid.")
       "INVALID" [],
    enumValue (blk "The input value is too long.")
       "TOO_LONG" [],
    enumValue (blk "The input value needs to be blank.")
       "PRESENT" [],
    enumValue (blk "The input value should be less than the maximum value allowed.")
       "LESS_THAN" [],
    enumValue (blk "The input value should be greater than or equal to the minimum value allowed.")
       "GREATER_THAN_OR_EQUAL_TO" [],
    enumValue (blk "The input value should be less than or equal to the maximum value allowed.")
       "LESS_THAN_OR_EQUAL_TO" [],
    enumValue (blk "Checkout is already completed.")
       "ALREADY_COMPLETED" [],
    enumValue (blk "Checkout is locked.")
       "LOCKED" [],
    enumValue (blk "Input value is not supported.")
       "NOT_SUPPORTED" [],
    enumValue (blk "Input email contains an invalid domain name.")
       "BAD_DOMAIN" [],
    enumValue (blk "Input Zip is invalid for country provided.")
       "INVALID_FOR_COUNTRY" [],
    enumValue (blk "Input Zip is invalid for country and province provided.")
       "INVALID_FOR_COUNTRY_AND_PROVINCE" [],
    enumValue (blk "Invalid state in country.")
       "INVALID_STATE_IN_COUNTRY" [],
    enumValue (blk "Invalid province in country.")
       "INVALID_PROVINCE_IN_COUNTRY" [],
    enumValue (blk "Invalid region in country.")
       "INVALID_REGION_IN_COUNTRY" [],
    enumValue (blk "Shipping rate expired.")
       "SHIPPING_RATE_EXPIRED" [],
    enumValue (blk "Gift card cannot be applied to a checkout that contains a gift card.")
       "GIFT_CARD_UNUSABLE" [],
    enumValue (blk "Gift card is disabled.")
       "GIFT_CARD_DISABLED" [],
    enumValue (blk "Gift card code is invalid.")
       "GIFT_CARD_CODE_INVALID" [],
    enumValue (blk "Gift card has already been applied.")
       "GIFT_CARD_ALREADY_APPLIED" [],
    enumValue (blk "Gift card currency does not match checkout currency.")
       "GIFT_CARD_CURRENCY_MISMATCH" [],
    enumValue (blk "Gift card is expired.")
       "GIFT_CARD_EXPIRED" [],
    enumValue (blk "Gift card has no funds left.")
       "GIFT_CARD_DEPLETED" [],
    enumValue (blk "Gift card was not found.")
       "GIFT_CARD_NOT_FOUND" [],
    enumValue (blk "Cart does not meet discount requirements notice.")
       "CART_DOES_NOT_MEET_DISCOUNT_REQUIREMENTS_NOTICE" [],
    enumValue (blk "Discount expired.")
       "DISCOUNT_EXPIRED" [],
    enumValue (blk "Discount disabled.")
       "DISCOUNT_DISABLED" [],
    enumValue (blk "Discount limit reached.")
       "DISCOUNT_LIMIT_REACHED" [],
    enumValue (blk "Discount not found.")
       "DISCOUNT_NOT_FOUND" [],
    enumValue (blk "Customer already used once per customer discount notice.")
       "CUSTOMER_ALREADY_USED_ONCE_PER_CUSTOMER_DISCOUNT_NOTICE" [],
    enumValue (blk "Checkout is already completed.")
       "EMPTY" [],
    enumValue (blk "Not enough in stock.")
       "NOT_ENOUGH_IN_STOCK" [],
    enumValue (blk "Missing payment input.")
       "MISSING_PAYMENT_INPUT" [],
    enumValue (blk "The amount of the payment does not match the value to be paid.")
       "TOTAL_PRICE_MISMATCH" [],
    enumValue (blk "Line item was not found in checkout.")
       "LINE_ITEM_NOT_FOUND" [],
    enumValue (blk "Unable to apply discount.")
       "UNABLE_TO_APPLY" [],
    enumValue (blk "Discount already applied.")
       "DISCOUNT_ALREADY_APPLIED" [],
    enumValue (blk "Throttled during checkout.")
       "THROTTLED_DURING_CHECKOUT" [],
    enumValue (blk "Queue token has expired.")
       "EXPIRED_QUEUE_TOKEN" [],
    enumValue (blk "Queue token is invalid.")
       "INVALID_QUEUE_TOKEN" [],
    enumValue (blk "Cannot specify country and presentment currency code.")
       "INVALID_COUNTRY_AND_CURRENCY" []]

/-- Lines 1221 to 1230 of the module: type CheckoutGiftCardApplyPayload. -/
def text.CheckoutGiftCardApplyPayload : List String := [
  "\"\"\"Return type for \\`checkoutGiftCardApply\\` mutation.\"\"\"",
  "type CheckoutGiftCardApplyPayload \x7b",
  "  \"\"\"The updated checkout object.\"\"\"",
  "  checkout: Checkout!",
  "  \"\"\"The list of errors that occurred from executing the mutation.\"\"\"",
  "  checkoutUserErrors: [CheckoutUserError!]!",
  "  \"\"\"The list of errors that occurred from executing the mutation.\"\"\"",
  "  userErrors: [UserError!]! @deprecated(reason: \"Use \\`checkoutUserErrors\\` instead\")",
  "\x7d",
  ""]

/-- The type CheckoutGiftCardApplyPayload declared by lines 1221 to 1230. -/
def CheckoutGiftCardApplyPayload : Definition :=
  .objectType (blk "Return type for `checkoutGiftCardApply` mutation.")
    "CheckoutGiftCardApplyPayload" [] [] [
    field (blk "The updated checkout object.")
       "checkout" [] (nn (nm "Checkout")) [],
    field (blk "The list of errors that occurred from executing the mutation.")
       "checkoutUserErrors" [] (nn (ls (nn (nm "CheckoutUserError")))) [],
    field (blk "The list of errors that occurred from executing the mutation.")
       "userErrors" [] (nn (ls (nn (nm "UserError")))) [deprecated "Use `checkoutUserErrors` instead"]]

/-- Lines 1231 to 1240 of the module: type CheckoutGiftCardRemovePayload. -/
def text.CheckoutGiftCardRemovePayload : List String := [
  "\"\"\"Return type for \\`checkoutGiftCardRemove\\` mutation.\"\"\"",
  "type CheckoutGiftCardRemovePayload \x7b",
  "  \"\"\"The updated checkout object.\"\"\"",
  "  checkout: Checkout!",
  "  \"\"\"The list of errors that occurred from executing the mutation.\"\"\"",
  "  checkoutUserErrors: [CheckoutUserError!]!",
  "  \"\"\"The list of errors that occurred from executing the mutation.\"\"\"",
  "  userErrors: [UserError!]! @deprecated(reason: \"Use \\`checkoutUserErrors\\` instead\")",
  "\x7d",
  ""]

/-- The type CheckoutGiftCardRemovePayload declared by lines 1231 to 1240. -/
def CheckoutGiftCardRemovePayload : Definition :=
  .objectType (blk "Return type for `checkoutGiftCardRemove` mutation.")
    "CheckoutGiftCardRemovePayload" [] [] [
    field (blk "The updated checkout object.")
       "checkout" [] (nn (nm "Checkout")) [],
    field (blk "The list of errors that occurred from executing the mutation.")
       "checkoutUserErrors" [] (nn (ls (nn (nm "CheckoutUserError")))) [],
    field (blk "The list of errors that occurred from executing the mutation.")
       "userErrors" [] (nn (ls (nn (nm "UserError")))) [deprecated "Use `checkoutUserErrors` instead"]]

/-- Lines 1241 to 1250 of the module: type CheckoutGiftCardRemoveV2Payload. -/
def text.CheckoutGiftCardRemoveV2Payload : List String := [
  "\"\"\"Return type for \\`checkoutGiftCardRemoveV2\\` mutation.\"\"\"",
  "type CheckoutGiftCardRemoveV2Payload \x7b",
  "  \"\"\"The updated checkout object.\"\"\"",
  "  checkout: Checkout",
  "  \"\"\"The list of errors that occurred from executing the mutation.\"\"\"",
  "  checkoutUserErrors: [CheckoutUserError!]!",
  "  \"\"\"The list of errors that occurred from executing the mutation.\"\"\"",
  "  userErrors: [UserError!]! @deprecated(reason: \"Use \\`checkoutUserErrors\\` instead\")",
  "\x7d",
  ""]

/-- The type CheckoutGiftCardRemoveV2Payload declared by lines 1241 to 1250. -/
def CheckoutGiftCardRemoveV2Payload : Definition :=
  .objectType (blk "Return type for `checkoutGiftCardRemoveV2` mutation.")
    "CheckoutGiftCardRemoveV2Payload" [] [] [
    field (blk "The updated checkout object.")
       "checkout" [] (nm "Checkout") [],
    field (blk "The list of errors that occurred from executing the mutation.")
       "checkoutUserErrors" [] (nn (ls (nn (nm "CheckoutUserError")))) [],
    field (blk "The list of errors that occurred from executing the mutation.")
       "userErrors" [] (nn (ls (nn (nm "UserError")))) [deprecated "Use `checkoutUserErrors` instead"]]

/-- Lines 1251 to 1260 of the module: type CheckoutGiftCardsAppendPayload. -/
def text.CheckoutGiftCardsAppendPayload : List String := [
  "\"\"\"Return type for \\`checkoutGiftCardsAppend\\` mutation.\"\"\"",
  "type CheckoutGiftCardsAppendPayload \x7b",
  "  \"\"\"The updated checkout object.\"\"\"",
  "  checkout: Checkout",
  "  \"\"\"The list of errors that occurred from executing the mutation.\"\"\"",
  "  checkoutUserErrors: [CheckoutUserError!]!",
  "  \"\"\"The list of errors that occurred from executing the mutation.\"\"\"",
  "  userErrors: [UserError!]! @deprecated(reason: \"Use \\`checkoutUserErrors\\` instead\")",
  "\x7d",
  ""]

/-- The type CheckoutGiftCardsAppendPayload declared by lines 1251 to 1260. -/
def CheckoutGiftCardsAppendPayload : Definition :=
  .objectType (blk "Return type for `checkoutGiftCardsAppend` mutation.")
    "CheckoutGiftCardsAppendPayload" [] [] [
    field (blk "The updated checkout object.")
       "checkout" [] (nm "Checkout") [],
    field (blk "The list of errors that occurred from executing the mutation.")
       "checkoutUserErrors" [] (nn (ls (nn (nm "CheckoutUserError")))) [],
    field (blk "The list of errors that occurred from executing the mutation.")
       "userErrors" [] (nn (ls (nn (nm "UserError")))) [deprecated "Use `checkoutUserErrors` instead"]]

/-- Lines 1261 to 1282 of the module: type CheckoutLineItem. -/
def text.CheckoutLineItem : List String := [
  "\"\"\"A single line item in the checkout, grouped by variant and attributes.\"\"\"",
  "type CheckoutLineItem implements Node \x7b",
  "  \"\"\"",
  "  Extra information in the form of an array of Key-Value pairs about the line item.",
  "  \"\"\"",
  "  customAttributes: [Attribute!]!",
  "  \"\"\"",
  "  The discounts that have been allocated onto the checkout line item by discount applications.",
  "  \"\"\"",
  "  discountAllocations: [DiscountAllocation!]!",
  "  \"\"\"A globally-unique identifier.\"\"\"",
  "  id: ID!",
  "  \"\"\"The quantity of the line item.\"\"\"",
  "  quantity: Int!",
  "  \"\"\"Title of the line item. Defaults to the product's title.\"\"\"",
  "  title: String!",
  "  \"\"\"Unit price of the line item.\"\"\"",
  "  unitPrice: MoneyV2",
  "  \"\"\"Product variant of the line item.\"\"\"",
  "  variant: ProductVariant",
  "\x7d",
  ""]

/-- The type CheckoutLineItem declared by lines 1261 to 1282. -/
def CheckoutLineItem : Definition :=
  .objectType (blk "A single line item in the checkout, grouped by variant and attributes.")
    "CheckoutLineItem" ["Node"] [] [
    field (blk "Extra information in the form of an array of Key-Value pairs about the line item.")
       "customAttributes" [] (nn (ls (nn (nm "Attribute")))) [],
    field (blk "The discounts that have been allocated onto the checkout line item by discount applications.")
       "discountAllocations" [] (nn (ls (nn (nm "DiscountAllocation")))) [],
    field (blk "A globally-unique identifier.")
       "id" [] (nn (nm "ID")) [],
    field (blk "The quantity of the line item.")
       "quantity" [] (nn (nm "Int")) [],
    field (blk "Title of the line item. Defaults to the product's title.")
       "title" [] (nn (nm "String")) [],
    field (blk "Unit price of the line item.")
       "unitPrice" [] (nm "MoneyV2") [],
    field (blk "Product variant of the line item.")
       "variant" [] (nm "ProductVariant") []]

/-- Lines 1283 to 1293 of the module: type CheckoutLineItemConnection. -/
def text.CheckoutLineItemConnection : List String := [
  "\"\"\"",
  "An auto-generated type for paginating through multiple CheckoutLineItems.",
  "",
  "\"\"\"",
  "type CheckoutLineItemConnection \x7b",
  "  \"\"\"A list of edges.\"\"\"",
  "  edges: [CheckoutLineItemEdge!]!",
  "  \"\"\"Information to aid in pagination.\"\"\"",
  "  pageInfo: PageInfo!",
  "\x7d",
  ""]

/-- The type CheckoutLineItemConnection declared by lines 1283 to 1293. -/
def CheckoutLineItemConnection : Definition :=
  .objectType (blk "An auto-generated type for paginating through multiple CheckoutLineItems.")
    "CheckoutLineItemConnection" [] [] [
    field (blk "A list of edges.")
       "edges" [] (nn (ls (nn (nm "CheckoutLineItemEdge")))) [],
    field (blk "Information to aid in pagination.")
       "pageInfo" [] (nn (nm "PageInfo")) []]

/-- Lines 1294 to 1304 of the module: type CheckoutLineItemEdge. -/
def text.CheckoutLineItemEdge : List String := [
  "\"\"\"",
  "An auto-generated type which holds one CheckoutLineItem and a cursor during pagination.",
  "",
  "\"\"\"",
  "type CheckoutLineItemEdge \x7b",
  "  \"\"\"A cursor for use in pagination.\"\"\"",
  "  cursor: String!",
  "  \"\"\"The item at the end of CheckoutLineItemEdge.\"\"\"",
  "  node: CheckoutLineItem!",
  "\x7d",
  ""]

/-- The type CheckoutLineItemEdge declared by lines 1294 to 1304. -/
def CheckoutLineItemEdge : Definition :=
  .objectType (blk "An auto-generated type which holds one CheckoutLineItem and a cursor during pagination.")
    "CheckoutLineItemEdge" [] [] [
    field (blk "A cursor for use in pagination.")
       "cursor" [] (nn (nm "String")) [],
    field (blk "The item at the end of CheckoutLineItemEdge.")
       "node" [] (nn (nm "CheckoutLineItem")) []]

/-- Lines 1305 to 1316 of the module: input CheckoutLineItemInput. -/
def text.CheckoutLineItemInput : List String := [
  "\"\"\"Specifies the input fields to create a line item on a checkout.\"\"\"",
  "input CheckoutLineItemInput \x7b",
  "  \"\"\"",
  "  Extra information in the form of an array of Key-Value pairs about the line item.",
  "  \"\"\"",
  "  customAttributes: [AttributeInput!]",
  "  \"\"\"The quantity of the line item.\"\"\"",
  "  quantity: Int!",
  "  \"\"\"The identifier of the product variant for the line item.\"\"\"",
  "  variantId: ID!",
  "\x7d",
  ""]

/-- The input CheckoutLineItemInput declared by lines 1305 to 1316. -/
def CheckoutLineItemInput : Definition :=
  .inputObjectType (blk "Specifies the input fields to create a line item on a checkout.")
    "CheckoutLineItemInput" [] [
    inputValue (blk "Extra information in the form of an array of Key-Value pairs about the line item.")
       "customAttributes" (ls (nn (nm "AttributeInput"))) none [],
    inputValue (blk "The quantity of the line item.")
       "quantity" (nn (nm "Int")) none [],
    inputValue (blk "The identifier of the product variant for the line item.")
       "variantId" (nn (nm "ID")) none []]

/-- Lines 1317 to 1330 of the module: input CheckoutLineItemUpdateInput. -/
def text.CheckoutLineItemUpdateInput : List String := [
  "\"\"\"Specifies the input fields to update a line item on the checkout.\"\"\"",
  "input CheckoutLineItemUpdateInput \x7b",
  "  \"\"\"The identifier of the line item.\"\"\"",
  "  id: ID",
  "  \"\"\"The variant identifier of the line item.\"\"\"",
  "  variantId: ID",
  "  \"\"\"The quantity of the line item.\"\"\"",
  "  quantity: Int",
  "  \"\"\"",
  "  Extra information in the form of an array of Key-Value pairs about the line item.",
  "  \"\"\"",
  "  customAttributes: [AttributeInput!]",
  "\x7d",
  ""]

/-- The input CheckoutLineItemUpdateInput declared by lines 1317 to 1330. -/
def CheckoutLineItemUpdateInput : Definition :=
  .inputObjectType (blk "Specifies the input fields to update a line item on the checkout.")
    "CheckoutLineItemUpdateInput" [] [
    inputValue (blk "The identifier of the line item.")
       "id" (nm "ID") none [],
    inputValue (blk "The variant identifier of the line item.")
       "variantId" (nm "ID") none [],
    inputValue (blk "The quantity of the line item.")
       "quantity" (nm "Int") none [],
    inputValue (blk "Extra information in the form of an array of Key-Value pairs about the line item.")
       "customAttributes" (ls (nn (nm "AttributeInput"))) none []]

/-- Lines 1331 to 1340 of the module: type CheckoutLineItemsAddPayload. -/
def text.CheckoutLineItemsAddPayload : List String := [
  "\"\"\"Return type for \\`checkoutLineItemsAdd\\` mutation.\"\"\"",
  "type CheckoutLineItemsAddPayload \x7b",
  "  \"\"\"The updated checkout object.\"\"\"",
  "  checkout: Checkout",
  "  \"\"\"The list of errors that occurred from executing the mutation.\"\"\"",
  "  checkoutUserErrors: [CheckoutUserError!]!",
  "  \"\"\"The list of errors that occurred from executing the mutation.\"\"\"",
  "  userErrors: [UserError!]! @deprecated(reason: \"Use \\`checkoutUserErrors\\` instead\")",
  "\x7d",
  ""]

/-- The type CheckoutLineItemsAddPayload declared by lines 1331 to 1340. -/
def CheckoutLineItemsAddPayload : Definition :=
  .objectType (blk "Return type for `checkoutLineItemsAdd` mutation.")
    "CheckoutLineItemsAddPayload" [] [] [
    field (blk "The updated checkout object.")
       "checkout" [] (nm "Checkout") [],
    field (blk "The list of errors that occurred from executing the mutation.")
       "checkoutUserErrors" [] (nn (ls (nn (nm "CheckoutUserError")))) [],
    field (blk "The list of errors that occurred from executing the mutation.")
       "userErrors" [] (nn (ls (nn (nm "UserError")))) [deprecated "Use `checkoutUserErrors` instead"]]

/-- Lines 1341 to 1350 of the module: type CheckoutLineItemsRemovePayload. -/
def text.CheckoutLineItemsRemovePayload : List String := [
  "\"\"\"Return type for \\`checkoutLineItemsRemove\\` mutation.\"\"\"",
  "type CheckoutLineItemsRemovePayload \x7b",
  "  \"\"\"The updated checkout object.\"\"\"",
  "  checkout: Checkout",
  "  \"\"\"The list of errors that occurred from executing the mutation.\"\"\"",
  "  checkoutUserErrors: [CheckoutUserError!]!",
  "  \"\"\"The list of errors that occurred from executing the mutation.\"\"\"",
  "  userErrors: [UserError!]! @deprecated(reason: \"Use \\`checkoutUserErrors\\` instead\")",
  "\x7d",
  ""]

/-- The type CheckoutLineItemsRemovePayload declared by lines 1341 to 1350. -/
def CheckoutLineItemsRemovePayload : Definition :=
  .objectType (blk "Return type for `checkoutLineItemsRemove` mutation.")
    "CheckoutLineItemsRemovePayload" [] [] [
    field (blk "The updated checkout object.")
       "checkout" [] (nm "Checkout") [],
    field (blk "The list of errors that occurred from executing the mutation.")
       "checkoutUserErrors" [] (nn (ls (nn (nm "CheckoutUserError")))) [],
    field (blk "The list of errors that occurred from executing the mutation.")
       "userErrors" [] (nn (ls (nn (nm "UserError")))) [deprecated "Use `checkoutUserErrors` instead"]]

/-- Lines 1351 to 1358 of the module: type CheckoutLineItemsReplacePayload. -/
def text.CheckoutLineItemsReplacePayload : List String := [
  "\"\"\"Return type for \\`checkoutLineItemsReplace\\` mutation.\"\"\"",
  "type CheckoutLineItemsReplacePayload \x7b",
  "  \"\"\"The updated checkout object.\"\"\"",
  "  checkout: Checkout",
  "  \"\"\"The list of errors that occurred from executing the mutation.\"\"\"",
  "  userErrors: [CheckoutUserError!]!",
  "\x7d",
  ""]

/-- The type CheckoutLineItemsReplacePayload declared by lines 1351 to 1358. -/
def CheckoutLineItemsReplacePayload : Definition :=
  .objectType (blk "Return type for `checkoutLineItemsReplace` mutation.")
    "CheckoutLineItemsReplacePayload" [] [] [
    field (blk "The updated checkout object.")
       "checkout" [] (nm "Checkout") [],
    field (blk "The list of errors that occurred from executing the mutation.")
       "userErrors" [] (nn (ls (nn (nm "CheckoutUserError")))) []]

/-- Lines 1359 to 1368 of the module: type CheckoutLineItemsUpdatePayload. -/
def text.CheckoutLineItemsUpdatePayload : List String := [
  "\"\"\"Return type for \\`checkoutLineItemsUpdate\\` mutation.\"\"\"",
  "type CheckoutLineItemsUpdatePayload \x7b",
  "  \"\"\"The updated checkout object.\"\"\"",
  "  checkout: Checkout",
  "  \"\"\"The list of errors that occurred from executing the mutation.\"\"\"",
  "  checkoutUserErrors: [CheckoutUserError!]!",
  "  \"\"\"The list of errors that occurred from executing the mutation.\"\"\"",
  "  userErrors: [UserError!]! @deprecated(reason: \"Use \\`checkoutUserErrors\\` instead\")",
  "\x7d",
  ""]

/-- The type CheckoutLineItemsUpdatePayload declared by lines 1359 to 1368. -/
def CheckoutLineItemsUpdatePayload : Definition :=
  .objectType (blk "Return type for `checkoutLineItemsUpdate` mutation.")
    "CheckoutLineItemsUpdatePayload" [] [] [
    field (blk "The updated checkout object.")
       "checkout" [] (nm "Checkout") [],
    field (blk "The list of errors that occurred from executing the mutation.")
       "checkoutUserErrors" [] (nn (ls (nn (nm "CheckoutUserError")))) [],
    field (blk "The list of errors that occurred from executing the mutation.")
       "userErrors" [] (nn (ls (nn (nm "UserError")))) [deprecated "Use `checkoutUserErrors` instead"]]

/-- Lines 1369 to 1378 of the module: type CheckoutShippingAddressUpdatePayload. -/
def text.CheckoutShippingAddressUpdatePayload : List String := [
  "\"\"\"Return type for \\`checkoutShippingAddressUpdate\\` mutation.\"\"\"",
  "type CheckoutShippingAddressUpdatePayload \x7b",
  "  \"\"\"The updated checkout object.\"\"\"",
  "  checkout: Checkout!",
  "  \"\"\"The list of errors that occurred from executing the mutation.\"\"\"",
  "  checkoutUserErrors: [CheckoutUserError!]!",
  "  \"\"\"The list of errors that occurred from executing the mutation.\"\"\"",
  "  userErrors: [UserError!]! @deprecated(reason: \"Use \\`checkoutUserErrors\\` instead\")",
  "\x7d",
  ""]

/-- The type CheckoutShippingAddressUpdatePayload declared by lines 1369 to 1378. -/
def CheckoutShippingAddressUpdatePayload : Definition :=
  .objectType (blk "Return type for `checkoutShippingAddressUpdate` mutation.")
    "CheckoutShippingAddressUpdatePayload" [] [] [
    field (blk "The updated checkout object.")
       "checkout" [] (nn (nm "Checkout")) [],
    field (blk "The list of errors that occurred from executing the mutation.")
       "checkoutUserErrors" [] (nn (ls (nn (nm "CheckoutUserError")))) [],
    field (blk "The list of errors that occurred from executing the mutation.")
       "userErrors" [] (nn (ls (nn (nm "UserError")))) [deprecated "Use `checkoutUserErrors` instead"]]

/-- Lines 1379 to 1388 of the module: type CheckoutShippingAddressUpdateV2Payload. -/
def text.CheckoutShippingAddressUpdateV2Payload : List String := [
  "\"\"\"Return type for \\`checkoutShippingAddressUpdateV2\\` mutation.\"\"\"",
  "type CheckoutShippingAddressUpdateV2Payload \x7b",
  "  \"\"\"The updated checkout object.\"\"\"",
  "  checkout: Checkout",
  "  \"\"\"The list of errors that occurred from executing the mutation.\"\"\"",
  "  checkoutUserErrors: [CheckoutUserError!]!",
  "  \"\"\"The list of errors that occurred from executing the mutation.\"\"\"",
  "  userErrors: [UserError!]! @deprecated(reason: \"Use \\`checkoutUserErrors\\` instead\")",
  "\x7d",
  ""]

/-- The type CheckoutShippingAddressUpdateV2Payload declared by lines 1379 to 1388. -/
def CheckoutShippingAddressUpdateV2Payload : Definition :=
  .objectType (blk "Return type for `checkoutShippingAddressUpdateV2` mutation.")
    "CheckoutShippingAddressUpdateV2Payload" [] [] [
    field (blk "The updated checkout object.")
       "checkout" [] (nm "Checkout") [],
    field (blk "The list of errors that occurred from executing the mutation.")
       "checkoutUserErrors" [] (nn (ls (nn (nm "CheckoutUserError")))) [],
    field (blk "The list of errors that occurred from executing the mutation.")
       "userErrors" [] (nn (ls (nn (nm "UserError")))) [deprecated "Use `checkoutUserErrors` instead"]]

/-- Lines 1389 to 1398 of the module: type CheckoutShippingLineUpdatePayload. -/
def text.CheckoutShippingLineUpdatePayload : List String := [
  "\"\"\"Return type for \\`checkoutShippingLineUpdate\\` mutation.\"\"\"",
  "type CheckoutShippingLineUpdatePayload \x7b",
  "  \"\"\"The updated checkout object.\"\"\"",
  "  checkout: Checkout",
  "  \"\"\"The list of errors that occurred from executing the mutation.\"\"\"",
  "  checkoutUserErrors: [CheckoutUserError!]!",
  "  \"\"\"The list of errors that occurred from executing the mutation.\"\"\"",
  "  userErrors: [UserError!]! @deprecated(reason: \"Use \\`checkoutUserErrors\\` instead\")",
  "\x7d",
  ""]

/-- The type CheckoutShippingLineUpdatePayload declared by lines 1389 to 1398. -/
def CheckoutShippingLineUpdatePayload : Definition :=
  .objectType (blk "Return type for `checkoutShippingLineUpdate` mutation.")
    "CheckoutShippingLineUpdatePayload" [] [] [
    field (blk "The updated checkout object.")
       "checkout" [] (nm "Checkout") [],
    field (blk "The list of errors that occurred from executing the mutation.")
       "checkoutUserErrors" [] (nn (ls (nn (nm "CheckoutUserError")))) [],
    field (blk "The list of errors that occurred from executing the mutation.")
       "userErrors" [] (nn (ls (nn (nm "UserError")))) [deprecated "Use `checkoutUserErrors` instead"]]

/-- Lines 1399 to 1410 of the module: type CheckoutUserError. -/
def text.CheckoutUserError : List String := [
  "\"\"\"",
  "Represents an error that happens during execution of a checkout mutation.",
  "\"\"\"",
  "type CheckoutUserError implements DisplayableError \x7b",
  "  \"\"\"The error code.\"\"\"",
  "  code: CheckoutErrorCode",
  "  \"\"\"The path to the input field that caused the error.\"\"\"",
  "  field: [String!]",
  "  \"\"\"The error message.\"\"\"",
  "  message: String!",
  "\x7d",
  ""]

/-- The type CheckoutUserError declared by lines 1399 to 1410. -/
def CheckoutUserError : Definition :=
  .objectType (blk "Represents an error that happens during execution of a checkout mutation.")
    "CheckoutUserError" ["DisplayableError"] [] [
    field (blk "The error code.")
       "code" [] (nm "CheckoutErrorCode") [],
    field (blk "The path to the input field that caused the error.")
       "field" [] (ls (nn (nm "String"))) [],
    field (blk "The error message.")
       "message" [] (nn (nm "String")) []]

/-- Lines 1411 to 1484 of the module: type Collection. -/
def text.Collection : List String := [
  "\"\"\"",
  "A collection represents a grouping of products that a shop owner can create to organize them or make their shops easier to browse.",
  "\"\"\"",
  "type Collection implements Node & HasMetafields & OnlineStorePublishable \x7b",
  "  \"\"\"",
  "  Stripped description of the collection, single line with HTML tags removed.",
  "  \"\"\"",
  "  description(",
  "    \"\"\"Truncates string after the given length.\"\"\"",
  "    truncateAt: Int",
  "  ): String!",
  "  \"\"\"The description of the collection, complete with HTML formatting.\"\"\"",
  "  descriptionHtml: HTML!",
  "  \"\"\"",
  "  A human-friendly unique string for the collection automatically generated from its title.",
  "  Limit of 255 characters.",
  "  ",
  "  \"\"\"",
  "  handle: String!",
  "  \"\"\"A globally-unique identifier.\"\"\"",
  "  id: ID!",
  "  \"\"\"Image associated with the collection.\"\"\"",
  "  image: Image",
  "  \"\"\"Returns a metafield found by namespace and key.\"\"\"",
  "  metafield(",
  "    \"\"\"Container for a set of metafields (maximum of 20 characters).\"\"\"",
  "    namespace: String!",
  "    \"\"\"Identifier for the metafield (maximum of 30 characters).\"\"\"",
  "    key: String!",
  "  ): Metafield",
  "  \"\"\"A paginated list of metafields associated with the resource.\"\"\"",
  "  metafields(",
  "    \"\"\"Container for a set of metafields (maximum of 20 characters).\"\"\"",
  "    namespace: String",
  "    \"\"\"Returns up to the first \\`n\\` elements from the list.\"\"\"",
  "    first: Int",
  "    \"\"\"Returns the elements that come after the specified cursor.\"\"\"",
  "    after: String",
  "    \"\"\"Returns up to the last \\`n\\` elements from the list.\"\"\"",
  "    last: Int",
  "    \"\"\"Returns the elements that come before the specified cursor.\"\"\"",
  "    before: String",
  "    \"\"\"Reverse the order of the underlying list.\"\"\"",
  "    reverse: Boolean = false",
  "  ): MetafieldConnection! @deprecated(reason: \"The \\`metafields\\` field will be removed in the future in favor of using [aliases](https://graphql.org/learn/queries/#aliases) with the \\`metafield\\` field.\\n\")",
  "  \"\"\"",
  "  The URL used for viewing the resource on the shop's Online Store. Returns \\`null\\` if the resource is currently not published to the Online Store sales channel.",
  "  \"\"\"",
  "  onlineStoreUrl: URL",
  "  \"\"\"List of products in the collection.\"\"\"",
  "  products(",
  "    \"\"\"Returns up to the first \\`n\\` elements from the list.\"\"\"",
  "    first: Int",
  "    \"\"\"Returns the elements that come after the specified cursor.\"\"\"",
  "    after: String",
  "    \"\"\"Returns up to the last \\`n\\` elements from the list.\"\"\"",
  "    last: Int",
  "    \"\"\"Returns the elements that come before the specified cursor.\"\"\"",
  "    before: String",
  "    \"\"\"Reverse the order of the underlying list.\"\"\"",
  "    reverse: Boolean = false",
  "    \"\"\"Sort the underlying list by the given key.\"\"\"",
  "    sortKey: ProductCollectionSortKeys = COLLECTION_DEFAULT",
  "    \"\"\"Returns a subset of products matching all product filters.\"\"\"",
  "    filters: [ProductFilter!]",
  "  ): ProductConnection!",
  "  \"\"\"The collection's SEO information.\"\"\"",
  "  seo: SEO!",
  "  \"\"\"The collection’s name. Limit of 255 characters.\"\"\"",
  "  title: String!",
  "  \"\"\"The date and time when the collection was last modified.\"\"\"",
  "  updatedAt: DateTime!",
  "\x7d",
  ""]

/-- The type Collection declared by lines 1411 to 1484. -/
def Collection : Definition :=
  .objectType (blk "A collection represents a grouping of products that a shop owner can create to organize them or make their shops easier to browse.")
    "Collection" ["Node", "HasMetafields", "OnlineStorePublishable"] [] [
    field (blk "Stripped description of the collection, single line with HTML tags removed.")
       "description" [
        inputValue (blk "Truncates string after the given length.")
           "truncateAt" (nm "Int") none []]
       (nn (nm "String")) [],
    field (blk "The description of the collection, complete with HTML formatting.")
       "descriptionHtml" [] (nn (nm "HTML")) [],
    field (blk "A human-friendly unique string for the collection automatically generated from its title.\nLimit of 255 characters.")
       "handle" [] (nn (nm "String")) [],
    field (blk "A globally-unique identifier.")
       "id" [] (nn (nm "ID")) [],
    field (blk "Image associated with the collection.")
       "image" [] (nm "Image") [],
    field (blk "Returns a metafield found by namespace and key.")
       "metafield" [
        inputValue (blk "Container for a set of metafields (maximum of 20 characters).")
           "namespace" (nn (nm "String")) none [],
        inputValue (blk "Identifier for the metafield (maximum of 30 characters).")
           "key" (nn (nm "String")) none []]
       (nm "Metafield") [],
    field (blk "A paginated list of metafields associated with the resource.")
       "metafields" [
        inputValue (blk "Container for a set of metafields (maximum of 20 characters).")
           "namespace" (nm "String") none [],
        inputValue (blk "Returns up to the first `n` elements from the list.")
           "first" (nm "Int") none [],
        inputValue (blk "Returns the elements that come after the specified cursor.")
           "after" (nm "String") none [],
        inputValue (blk "Returns up to the last `n` elements from the list.")
           "last" (nm "Int") none [],
        inputValue (blk "Returns the elements that come before the specified cursor.")
           "before" (nm "String") none [],
        inputValue (blk "Reverse the order of the underlying list.")
           "reverse" (nm "Boolean") (some (.boolean false)) []]
       (nn (nm "MetafieldConnection")) [deprecated "The `metafields` field will be removed in the future in favor of using [aliases](https://graphql.org/learn/queries/#aliases) with the `metafield` field.\n"],
    field (blk "The URL used for viewing the resource on the shop's Online Store. Returns `null` if the resource is currently not published to the Online Store sales channel.")
       "onlineStoreUrl" [] (nm "URL") [],
    field (blk "List of products in the collection.")
       "products" [
        inputValue (blk "Returns up to the first `n` elements from the list.")
           "first" (nm "Int") none [],
        inputValue (blk "Returns the elements that come after the specified cursor.")
           "after" (nm "String") none [],
        inputValue (blk "Returns up to the last `n` elements from the list.")
           "last" (nm "Int") none [],
        inputValue (blk "Returns the elements that come before the specified cursor.")
           "before" (nm "String") none [],
        inputValue (blk "Reverse the order of the underlying list.")
           "reverse" (nm "Boolean") (some (.boolean false)) [],
        inputValue (blk "Sort the underlying list by the given key.")
           "sortKey" (nm "ProductCollectionSortKeys") (some (.enum "COLLECTION_DEFAULT")) [],
        inputValue (blk "Returns a subset of products matching all product filters.")
           "filters" (ls (nn (nm "ProductFilter"))) none []]
       (nn (nm "ProductConnection")) [],
    field (blk "The collection's SEO information.")
       "seo" [] (nn (nm "SEO")) [],
    field (blk "The collection’s name. Limit of 255 characters.")
       "title" [] (nn (nm "String")) [],
    field (blk "The date and time when the collection was last modified.")
       "updatedAt" [] (nn (nm "DateTime")) []]

/-- Lines 1485 to 1495 of the module: type CollectionConnection. -/
def text.CollectionConnection : List String := [
  "\"\"\"",
  "An auto-generated type for paginating through multiple Collections.",
  "",
  "\"\"\"",
  "type CollectionConnection \x7b",
  "  \"\"\"A list of edges.\"\"\"",
  "  edges: [CollectionEdge!]!",
  "  \"\"\"Information to aid in pagination.\"\"\"",
  "  pageInfo: PageInfo!",
  "\x7d",
  ""]

/-- The type CollectionConnection declared by lines 1485 to 1495. -/
def CollectionConnection : Definition :=
  .objectType (blk "An auto-generated type for paginating through multiple Collections.")
    "CollectionConnection" [] [] [
    field (blk "A list of edges.")
       "edges" [] (nn (ls (nn (nm "CollectionEdge")))) [],
    field (blk "Information to aid in pagination.")
       "pageInfo" [] (nn (nm "PageInfo")) []]

/-- Lines 1496 to 1506 of the module: type CollectionEdge. -/
def text.CollectionEdge : List String := [
  "\"\"\"",
  "An auto-generated type which holds one Collection and a cursor during pagination.",
  "",
  "\"\"\"",
  "type CollectionEdge \x7b",
  "  \"\"\"A cursor for use in pagination.\"\"\"",
  "  cursor: String!",
  "  \"\"\"The item at the end of CollectionEdge.\"\"\"",
  "  node: Collection!",
  "\x7d",
  ""]

/-- The type CollectionEdge declared by lines 1496 to 1506. -/
def CollectionEdge : Definition :=
  .objectType (blk "An auto-generated type which holds one Collection and a cursor during pagination.")
    "CollectionEdge" [] [] [
    field (blk "A cursor for use in pagination.")
       "cursor" [] (nn (nm "String")) [],
    field (blk "The item at the end of CollectionEdge.")
       "node" [] (nn (nm "Collection")) []]

/-- Lines 1507 to 1523 of the module: enum CollectionSortKeys. -/
def text.CollectionSortKeys : List String := [
  "\"\"\"The set of valid sort keys for the Collection query.\"\"\"",
  "enum CollectionSortKeys \x7b",
  "  \"\"\"Sort by the \\`title\\` value.\"\"\"",
  "  TITLE",
  "  \"\"\"Sort by the \\`updated_at\\` value.\"\"\"",
  "  UPDATED_AT",
  "  \"\"\"Sort by the \\`id\\` value.\"\"\"",
  "  ID",
  "  \"\"\"",
  "  During a search (i.e. when the \\`query\\` parameter has been specified on the connection) this sorts the",
  "  results by relevance to the search term(s). When no search query is specified, this sort key is not",
  "  deterministic and should not be used.",
  "  ",
  "  \"\"\"",
  "  RELEVANCE",
  "\x7d",
  ""]

/-- The enum CollectionSortKeys declared by lines 1507 to 1523. -/
def CollectionSortKeys : Definition :=
  .enumType (blk "The set of valid sort keys for the Collection query.")
    "CollectionSortKeys" [] [
    enumValue (blk "Sort by the `title` value.")
       "TITLE" [],
    enumValue (blk "Sort by the `updated_at` value.")
       "UPDATED_AT" [],
    enumValue (blk "Sort by the `id` value.")
       "ID" [],
    enumValue (blk "During a search (i.e. when the `query` parameter has been specified on the connection) this sorts the\nresults by relevance to the search term(s). When no search query is specified, this sort key is not\ndeterministic and should not be used.")
       "RELEVANCE" []]

/-- Lines 1524 to 1538 of the module: type Comment. -/
def text.Comment : List String := [
  "\"\"\"A comment on an article.\"\"\"",
  "type Comment implements Node \x7b",
  "  \"\"\"The comment’s author.\"\"\"",
  "  author: CommentAuthor!",
  "  \"\"\"Stripped content of the comment, single line with HTML tags removed.\"\"\"",
  "  content(",
  "    \"\"\"Truncates string after the given length.\"\"\"",
  "    truncateAt: Int",
  "  ): String!",
  "  \"\"\"The content of the comment, complete with HTML formatting.\"\"\"",
  "  contentHtml: HTML!",
  "  \"\"\"A globally-unique identifier.\"\"\"",
  "  id: ID!",
  "\x7d",
  ""]

/-- The type Comment declared by lines 1524 to 1538. -/
def Comment : Definition :=
  .objectType (blk "A comment on an article.")
    "Comment" ["Node"] [] [
    field (blk "The comment’s author.")
       "author" [] (nn (nm "CommentAuthor")) [],
    field (blk "Stripped content of the comment, single line with HTML tags removed.")
       "content" [
        inputValue (blk "Truncates string after the given length.")
           "truncateAt" (nm "Int") none []]
       (nn (nm "String")) [],
    field (blk "The content of the comment, complete with HTML formatting.")
       "contentHtml" [] (nn (nm "HTML")) [],
    field (blk "A globally-unique identifier.")
       "id" [] (nn (nm "ID")) []]

/-- Lines 1539 to 1546 of the module: type CommentAuthor. -/
def text.CommentAuthor : List String := [
  "\"\"\"The author of a comment.\"\"\"",
  "type CommentAuthor \x7b",
  "  \"\"\"The author's email.\"\"\"",
  "  email: String!",
  "  \"\"\"The author’s name.\"\"\"",
  "  name: String!",
  "\x7d",
  ""]

/-- The type CommentAuthor declared by lines 1539 to 1546. -/
def CommentAuthor : Definition :=
  .objectType (blk "The author of a comment.")
    "CommentAuthor" [] [] [
    field (blk "The author's email.")
       "email" [] (nn (nm "String")) [],
    field (blk "The author’s name.")
       "name" [] (nn (nm "String")) []]

/-- Lines 1547 to 1557 of the module: type CommentConnection. -/
def text.CommentConnection : List String := [
  "\"\"\"",
  "An auto-generated type for paginating through multiple Comments.",
  "",
  "\"\"\"",
  "type CommentConnection \x7b",
  "  \"\"\"A list of edges.\"\"\"",
  "  edges: [CommentEdge!]!",
  "  \"\"\"Information to aid in pagination.\"\"\"",
  "  pageInfo: PageInfo!",
  "\x7d",
  ""]

/-- The type CommentConnection declared by lines 1547 to 1557. -/
def CommentConnection : Definition :=
  .objectType (blk "An auto-generated type for paginating through multiple Comments.")
    "CommentConnection" [] [] [
    field (blk "A list of edges.")
       "edges" [] (nn (ls (nn (nm "CommentEdge")))) [],
    field (blk "Information to aid in pagination.")
       "pageInfo" [] (nn (nm "PageInfo")) []]

/-- Lines 1558 to 1568 of the module: type CommentEdge. -/
def text.CommentEdge : List String := [
  "\"\"\"",
  "An auto-generated type which holds one Comment and a cursor during pagination.",
  "",
  "\"\"\"",
  "type CommentEdge \x7b",
  "  \"\"\"A cursor for use in pagination.\"\"\"",
  "  cursor: String!",
  "  \"\"\"The item at the end of CommentEdge.\"\"\"",
  "  node: Comment!",
  "\x7d",
  ""]

/-- The type CommentEdge declared by lines 1558 to 1568. -/
def CommentEdge : Definition :=
  .objectType (blk "An auto-generated type which holds one Comment and a cursor during pagination.")
    "CommentEdge" [] [] [
    field (blk "A cursor for use in pagination.")
       "cursor" [] (nn (nm "String")) [],
    field (blk "The item at the end of CommentEdge.")
       "node" [] (nn (nm "Comment")) []]

/-- Lines 1569 to 1580 of the module: type Country. -/
def text.Country : List String := [
  "\"\"\"A country.\"\"\"",
  "type Country \x7b",
  "  \"\"\"The currency of the country.\"\"\"",
  "  currency: Currency!",
  "  \"\"\"The ISO code of the country.\"\"\"",
  "  isoCode: CountryCode!",
  "  \"\"\"The name of the country.\"\"\"",
  "  name: String!",
  "  \"\"\"The unit system used in the country.\"\"\"",
  "  unitSystem: UnitSystem!",
  "\x7d",
  ""]

/-- The type Country declared by lines 1569 to 1580. -/
def Country : Definition :=
  .objectType (blk "A country.")
    "Country" [] [] [
    field (blk "The currency of the country.")
       "currency" [] (nn (nm "Currency")) [],
    field (blk "The ISO code of the country.")
       "isoCode" [] (nn (nm "CountryCode")) [],
    field (blk "The name of the country.")
       "name" [] (nn (nm "String")) [],
    field (blk "The unit system used in the country.")
       "unitSystem" [] (nn (nm "UnitSystem")) []]

/-- Lines 1581 to 2074 of the module: enum CountryCode. -/
def text.CountryCode : List String := [
  "\"\"\"ISO 3166-1 alpha-2 country codes with some differences.\"\"\"",
  "enum CountryCode \x7b",
  "  \"\"\"Afghanistan.\"\"\"",
  "  AF",
  "  \"\"\"Åland Islands.\"\"\"",
  "  AX",
  "  \"\"\"Albania.\"\"\"",
  "  AL",
  "  \"\"\"Algeria.\"\"\"",
  "  DZ",
  "  \"\"\"Andorra.\"\"\"",
  "  AD",
  "  \"\"\"Angola.\"\"\"",
  "  AO",
  "  \"\"\"Anguilla.\"\"\"",
  "  AI",
  "  \"\"\"Antigua & Barbuda.\"\"\"",
  "  AG",
  "  \"\"\"Argentina.\"\"\"",
  "  AR",
  "  \"\"\"Armenia.\"\"\"",
  "  AM",
  "  \"\"\"Aruba.\"\"\"",
  "  AW",
  "  \"\"\"Ascension Island.\"\"\"",
  "  AC",
  "  \"\"\"Australia.\"\"\"",
  "  AU",
  "  \"\"\"Austria.\"\"\"",
  "  AT",
  "  \"\"\"Azerbaijan.\"\"\"",
  "  AZ",
  "  \"\"\"Bahamas.\"\"\"",
  "  BS",
  "  \"\"\"Bahrain.\"\"\"",
  "  BH",
  "  \"\"\"Bangladesh.\"\"\"",
  "  BD",
  "  \"\"\"Barbados.\"\"\"",
  "  BB",
  "  \"\"\"Belarus.\"\"\"",
  "  BY",
  "  \"\"\"Belgium.\"\"\"",
  "  BE",
  "  \"\"\"Belize.\"\"\"",
  "  BZ",
  "  \"\"\"Benin.\"\"\"",
  "  BJ",
  "  \"\"\"Bermuda.\"\"\"",
  "  BM",
  "  \"\"\"Bhutan.\"\"\"",
  "  BT",
  "  \"\"\"Bolivia.\"\"\"",
  "  BO",
  "  \"\"\"Bosnia & Herzegovina.\"\"\"",
  "  BA",
  "  \"\"\"Botswana.\"\"\"",
  "  BW",
  "  \"\"\"Bouvet Island.\"\"\"",
  "  BV",
  "  \"\"\"Brazil.\"\"\"",
  "  BR",
  "  \"\"\"British Indian Ocean Territory.\"\"\"",
  "  IO",
  "  \"\"\"Brunei.\"\"\"",
  "  BN",
  "  \"\"\"Bulgaria.\"\"\"",
  "  BG",
  "  \"\"\"Burkina Faso.\"\"\"",
  "  BF",
  "  \"\"\"Burundi.\"\"\"",
  "  BI",
  "  \"\"\"Cambodia.\"\"\"",
  "  KH",
  "  \"\"\"Canada.\"\"\"",
  "  CA",
  "  \"\"\"Cape Verde.\"\"\"",
  "  CV",
  "  \"\"\"Caribbean Netherlands.\"\"\"",
  "  BQ",
  "  \"\"\"Cayman Islands.\"\"\"",
  "  KY",
  "  \"\"\"Central African Republic.\"\"\"",
  "  CF",
  "  \"\"\"Chad.\"\"\"",
  "  TD",
  "  \"\"\"Chile.\"\"\"",
  "  CL",
  "  \"\"\"China.\"\"\"",
  "  CN",
  "  \"\"\"Christmas Island.\"\"\"",
  "  CX",
  "  \"\"\"Cocos (Keeling) Islands.\"\"\"",
  "  CC",
  "  \"\"\"Colombia.\"\"\"",
  "  CO",
  "  \"\"\"Comoros.\"\"\"",
  "  KM",
  "  \"\"\"Congo - Brazzaville.\"\"\"",
  "  CG",
  "  \"\"\"Congo - Kinshasa.\"\"\"",
  "  CD",
  "  \"\"\"Cook Islands.\"\"\"",
  "  CK",
  "  \"\"\"Costa Rica.\"\"\"",
  "  CR",
  "  \"\"\"Croatia.\"\"\"",
  "  HR",
  "  \"\"\"Cuba.\"\"\"",
  "  CU",
  "  \"\"\"Curaçao.\"\"\"",
  "  CW",
  "  \"\"\"Cyprus.\"\"\"",
  "  CY",
  "  \"\"\"Czechia.\"\"\"",
  "  CZ",
  "  \"\"\"Côte d’Ivoire.\"\"\"",
  "  CI",
  "  \"\"\"Denmark.\"\"\"",
  "  DK",
  "  \"\"\"Djibouti.\"\"\"",
  "  DJ",
  "  \"\"\"Dominica.\"\"\"",
  "  DM",
  "  \"\"\"Dominican Republic.\"\"\"",
  "  DO",
  "  \"\"\"Ecuador.\"\"\"",
  "  EC",
  "  \"\"\"Egypt.\"\"\"",
  "  EG",
  "  \"\"\"El Salvador.\"\"\"",
  "  SV",
  "  \"\"\"Equatorial Guinea.\"\"\"",
  "  GQ",
  "  \"\"\"Eritrea.\"\"\"",
  "  ER",
  "  \"\"\"Estonia.\"\"\"",
  "  EE",
  "  \"\"\"Eswatini.\"\"\"",
  "  SZ",
  "  \"\"\"Ethiopia.\"\"\"",
  "  ET",
  "  \"\"\"Falkland Islands.\"\"\"",
  "  FK",
  "  \"\"\"Faroe Islands.\"\"\"",
  "  FO",
  "  \"\"\"Fiji.\"\"\"",
  "  FJ",
  "  \"\"\"Finland.\"\"\"",
  "  FI",
  "  \"\"\"France.\"\"\"",
  "  FR",
  "  \"\"\"French Guiana.\"\"\"",
  "  GF",
  "  \"\"\"French Polynesia.\"\"\"",
  "  PF",
  "  \"\"\"French Southern Territories.\"\"\"",
  "  TF",
  "  \"\"\"Gabon.\"\"\"",
  "  GA",
  "  \"\"\"Gambia.\"\"\"",
  "  GM",
  "  \"\"\"Georgia.\"\"\"",
  "  GE",
  "  \"\"\"Germany.\"\"\"",
  "  DE",
  "  \"\"\"Ghana.\"\"\"",
  "  GH",
  "  \"\"\"Gibraltar.\"\"\"",
  "  GI",
  "  \"\"\"Greece.\"\"\"",
  "  GR",
  "  \"\"\"Greenland.\"\"\"",
  "  GL",
  "  \"\"\"Grenada.\"\"\"",
  "  GD",
  "  \"\"\"Guadeloupe.\"\"\"",
  "  GP",
  "  \"\"\"Guatemala.\"\"\"",
  "  GT",
  "  \"\"\"Guernsey.\"\"\"",
  "  GG",
  "  \"\"\"Guinea.\"\"\"",
  "  GN",
  "  \"\"\"Guinea-Bissau.\"\"\"",
  "  GW",
  "  \"\"\"Guyana.\"\"\"",
  "  GY",
  "  \"\"\"Haiti.\"\"\"",
  "  HT",
  "  \"\"\"Heard & McDonald Islands.\"\"\"",
  "  HM",
  "  \"\"\"Vatican City.\"\"\"",
  "  VA",
  "  \"\"\"Honduras.\"\"\"",
  "  HN",
  "  \"\"\"Hong Kong SAR.\"\"\"",
  "  HK",
  "  \"\"\"Hungary.\"\"\"",
  "  HU",
  "  \"\"\"Iceland.\"\"\"",
  "  IS",
  "  \"\"\"India.\"\"\"",
  "  IN",
  "  \"\"\"Indonesia.\"\"\"",
  "  ID",
  "  \"\"\"Iran.\"\"\"",
  "  IR",
  "  \"\"\"Iraq.\"\"\"",
  "  IQ",
  "  \"\"\"Ireland.\"\"\"",
  "  IE",
  "  \"\"\"Isle of Man.\"\"\"",
  "  IM",
  "  \"\"\"Israel.\"\"\"",
  "  IL",
  "  \"\"\"Italy.\"\"\"",
  "  IT",
  "  \"\"\"Jamaica.\"\"\"",
  "  JM",
  "  \"\"\"Japan.\"\"\"",
  "  JP",
  "  \"\"\"Jersey.\"\"\"",
  "  JE",
  "  \"\"\"Jordan.\"\"\"",
  "  JO",
  "  \"\"\"Kazakhstan.\"\"\"",
  "  KZ",
  "  \"\"\"Kenya.\"\"\"",
  "  KE",
  "  \"\"\"Kiribati.\"\"\"",
  "  KI",
  "  \"\"\"North Korea.\"\"\"",
  "  KP",
  "  \"\"\"Kosovo.\"\"\"",
  "  XK",
  "  \"\"\"Kuwait.\"\"\"",
  "  KW",
  "  \"\"\"Kyrgyzstan.\"\"\"",
  "  KG",
  "  \"\"\"Laos.\"\"\"",
  "  LA",
  "  \"\"\"Latvia.\"\"\"",
  "  LV",
  "  \"\"\"Lebanon.\"\"\"",
  "  LB",
  "  \"\"\"Lesotho.\"\"\"",
  "  LS",
  "  \"\"\"Liberia.\"\"\"",
  "  LR",
  "  \"\"\"Libya.\"\"\"",
  "  LY",
  "  \"\"\"Liechtenstein.\"\"\"",
  "  LI",
  "  \"\"\"Lithuania.\"\"\"",
  "  LT",
  "  \"\"\"Luxembourg.\"\"\"",
  "  LU",
  "  \"\"\"Macao SAR.\"\"\"",
  "  MO",
  "  \"\"\"Madagascar.\"\"\"",
  "  MG",
  "  \"\"\"Malawi.\"\"\"",
  "  MW",
  "  \"\"\"Malaysia.\"\"\"",
  "  MY",
  "  \"\"\"Maldives.\"\"\"",
  "  MV",
  "  \"\"\"Mali.\"\"\"",
  "  ML",
  "  \"\"\"Malta.\"\"\"",
  "  MT",
  "  \"\"\"Martinique.\"\"\"",
  "  MQ",
  "  \"\"\"Mauritania.\"\"\"",
  "  MR",
  "  \"\"\"Mauritius.\"\"\"",
  "  MU",
  "  \"\"\"Mayotte.\"\"\"",
  "  YT",
  "  \"\"\"Mexico.\"\"\"",
  "  MX",
  "  \"\"\"Moldova.\"\"\"",
  "  MD",
  "  \"\"\"Monaco.\"\"\"",
  "  MC",
  "  \"\"\"Mongolia.\"\"\"",
  "  MN",
  "  \"\"\"Montenegro.\"\"\"",
  "  ME",
  "  \"\"\"Montserrat.\"\"\"",
  "  MS",
  "  \"\"\"Morocco.\"\"\"",
  "  MA",
  "  \"\"\"Mozambique.\"\"\"",
  "  MZ",
  "  \"\"\"Myanmar (Burma).\"\"\"",
  "  MM",
  "  \"\"\"Namibia.\"\"\"",
  "  NA",
  "  \"\"\"Nauru.\"\"\"",
  "  NR",
  "  \"\"\"Nepal.\"\"\"",
  "  NP",
  "  \"\"\"Netherlands.\"\"\"",
  "  NL",
  "  \"\"\"Netherlands Antilles.\"\"\"",
  "  AN",
  "  \"\"\"New Caledonia.\"\"\"",
  "  NC",
  "  \"\"\"New Zealand.\"\"\"",
  "  NZ",
  "  \"\"\"Nicaragua.\"\"\"",
  "  NI",
  "  \"\"\"Niger.\"\"\"",
  "  NE",
  "  \"\"\"Nigeria.\"\"\"",
  "  NG",
  "  \"\"\"Niue.\"\"\"",
  "  NU",
  "  \"\"\"Norfolk Island.\"\"\"",
  "  NF",
  "  \"\"\"North Macedonia.\"\"\"",
  "  MK",
  "  \"\"\"Norway.\"\"\"",
  "  NO",
  "  \"\"\"Oman.\"\"\"",
  "  OM",
  "  \"\"\"Pakistan.\"\"\"",
  "  PK",
  "  \"\"\"Palestinian Territories.\"\"\"",
  "  PS",
  "  \"\"\"Panama.\"\"\"",
  "  PA",
  "  \"\"\"Papua New Guinea.\"\"\"",
  "  PG",
  "  \"\"\"Paraguay.\"\"\"",
  "  PY",
  "  \"\"\"Peru.\"\"\"",
  "  PE",
  "  \"\"\"Philippines.\"\"\"",
  "  PH",
  "  \"\"\"Pitcairn Islands.\"\"\"",
  "  PN",
  "  \"\"\"Poland.\"\"\"",
  "  PL",
  "  \"\"\"Portugal.\"\"\"",
  "  PT",
  "  \"\"\"Qatar.\"\"\"",
  "  QA",
  "  \"\"\"Cameroon.\"\"\"",
  "  CM",
  "  \"\"\"Réunion.\"\"\"",
  "  RE",
  "  \"\"\"Romania.\"\"\"",
  "  RO",
  "  \"\"\"Russia.\"\"\"",
  "  RU",
  "  \"\"\"Rwanda.\"\"\"",
  "  RW",
  "  \"\"\"St. Barthélemy.\"\"\"",
  "  BL",
  "  \"\"\"St. Helena.\"\"\"",
  "  SH",
  "  \"\"\"St. Kitts & Nevis.\"\"\"",
  "  KN",
  "  \"\"\"St. Lucia.\"\"\"",
  "  LC",
  "  \"\"\"St. Martin.\"\"\"",
  "  MF",
  "  \"\"\"St. Pierre & Miquelon.\"\"\"",
  "  PM",
  "  \"\"\"Samoa.\"\"\"",
  "  WS",
  "  \"\"\"San Marino.\"\"\"",
  "  SM",
  "  \"\"\"São Tomé & Príncipe.\"\"\"",
  "  ST",
  "  \"\"\"Saudi Arabia.\"\"\"",
  "  SA",
  "  \"\"\"Senegal.\"\"\"",
  "  SN",
  "  \"\"\"Serbia.\"\"\"",
  "  RS",
  "  \"\"\"Seychelles.\"\"\"",
  "  SC",
  "  \"\"\"Sierra Leone.\"\"\"",
  "  SL",
  "  \"\"\"Singapore.\"\"\"",
  "  SG",
  "  \"\"\"Sint Maarten.\"\"\"",
  "  SX",
  "  \"\"\"Slovakia.\"\"\"",
  "  SK",
  "  \"\"\"Slovenia.\"\"\"",
  "  SI",
  "  \"\"\"Solomon Islands.\"\"\"",
  "  SB",
  "  \"\"\"Somalia.\"\"\"",
  "  SO",
  "  \"\"\"South Africa.\"\"\"",
  "  ZA",
  "  \"\"\"South Georgia & South Sandwich Islands.\"\"\"",
  "  GS",
  "  \"\"\"South Korea.\"\"\"",
  "  KR",
  "  \"\"\"South Sudan.\"\"\"",
  "  SS",
  "  \"\"\"Spain.\"\"\"",
  "  ES",
  "  \"\"\"Sri Lanka.\"\"\"",
  "  LK",
  "  \"\"\"St. Vincent & Grenadines.\"\"\"",
  "  VC",
  "  \"\"\"Sudan.\"\"\"",
  "  SD",
  "  \"\"\"Suriname.\"\"\"",
  "  SR",
  "  \"\"\"Svalbard & Jan Mayen.\"\"\"",
  "  SJ",
  "  \"\"\"Sweden.\"\"\"",
  "  SE",
  "  \"\"\"Switzerland.\"\"\"",
  "  CH",
  "  \"\"\"Syria.\"\"\"",
  "  SY",
  "  \"\"\"Taiwan.\"\"\"",
  "  TW",
  "  \"\"\"Tajikistan.\"\"\"",
  "  TJ",
  "  \"\"\"Tanzania.\"\"\"",
  "  TZ",
  "  \"\"\"Thailand.\"\"\"",
  "  TH",
  "  \"\"\"Timor-Leste.\"\"\"",
  "  TL",
  "  \"\"\"Togo.\"\"\"",
  "  TG",
  "  \"\"\"Tokelau.\"\"\"",
  "  TK",
  "  \"\"\"Tonga.\"\"\"",
  "  TO",
  "  \"\"\"Trinidad & Tobago.\"\"\"",
  "  TT",
  "  \"\"\"Tristan da Cunha.\"\"\"",
  "  TA",
  "  \"\"\"Tunisia.\"\"\"",
  "  TN",
  "  \"\"\"Turkey.\"\"\"",
  "  TR",
  "  \"\"\"Turkmenistan.\"\"\"",
  "  TM",
  "  \"\"\"Turks & Caicos Islands.\"\"\"",
  "  TC",
  "  \"\"\"Tuvalu.\"\"\"",
  "  TV",
  "  \"\"\"Uganda.\"\"\"",
  "  UG",
  "  \"\"\"Ukraine.\"\"\"",
  "  UA",
  "  \"\"\"United Arab Emirates.\"\"\"",
  "  AE",
  "  \"\"\"United Kingdom.\"\"\"",
  "  GB",
  "  \"\"\"United States.\"\"\"",
  "  US",
  "  \"\"\"U.S. Outlying Islands.\"\"\"",
  "  UM",
  "  \"\"\"Uruguay.\"\"\"",
  "  UY",
  "  \"\"\"Uzbekistan.\"\"\"",
  "  UZ",
  "  \"\"\"Vanuatu.\"\"\"",
  "  VU",
  "  \"\"\"Venezuela.\"\"\"",
  "  VE",
  "  \"\"\"Vietnam.\"\"\"",
  "  VN",
  "  \"\"\"British Virgin Islands.\"\"\"",
  "  VG",
  "  \"\"\"Wallis & Futuna.\"\"\"",
  "  WF",
  "  \"\"\"Western Sahara.\"\"\"",
  "  EH",
  "  \"\"\"Yemen.\"\"\"",
  "  YE",
  "  \"\"\"Zambia.\"\"\"",
  "  ZM",
  "  \"\"\"Zimbabwe.\"\"\"",
  "  ZW",
  "  \"\"\"Unknown Region.\"\"\"",
  "  ZZ",
  "\x7d",
  ""]

/-- The enum CountryCode declared by lines 1581 to 2074. -/
def CountryCode : Definition :=
  .enumType (blk "ISO 3166-1 alpha-2 country codes with some differences.")
    "CountryCode" [] [
    enumValue (blk "Afghanistan.")
       "AF" [],
    enumValue (blk "Åland Islands.")
       "AX" [],
    enumValue (blk "Albania.")
       "AL" [],
    enumValue (blk "Algeria.")
       "DZ" [],
    enumValue (blk "Andorra.")
       "AD" [],
    enumValue (blk "Angola.")
       "AO" [],
    enumValue (blk "Anguilla.")
       "AI" [],
    enumValue (blk "Antigua & Barbuda.")
       "AG" [],
    enumValue (blk "Argentina.")
       "AR" [],
    enumValue (blk "Armenia.")
       "AM" [],
    enumValue (blk "Aruba.")
       "AW" [],
    enumValue (blk "Ascension Island.")
       "AC" [],
    enumValue (blk "Australia.")
       "AU" [],
    enumValue (blk "Austria.")
       "AT" [],
    enumValue (blk "Azerbaijan.")
       "AZ" [],
    enumValue (blk "Bahamas.")
       "BS" [],
    enumValue (blk "Bahrain.")
       "BH" [],
    enumValue (blk "Bangladesh.")
       "BD" [],
    enumValue (blk "Barbados.")
       "BB" [],
    enumValue (blk "Belarus.")
       "BY" [],
    enumValue (blk "Belgium.")
       "BE" [],
    enumValue (blk "Belize.")
       "BZ" [],
    enumValue (blk "Benin.")
       "BJ" [],
    enumValue (blk "Bermuda.")
       "BM" [],
    enumValue (blk "Bhutan.")
       "BT" [],
    enumValue (blk "Bolivia.")
       "BO" [],
    enumValue (blk "Bosnia & Herzegovina.")
       "BA" [],
    enumValue (blk "Botswana.")
       "BW" [],
    enumValue (blk "Bouvet Island.")
       "BV" [],
    enumValue (blk "Brazil.")
       "BR" [],
    enumValue (blk "British Indian Ocean Territory.")
       "IO" [],
    enumValue (blk "Brunei.")
       "BN" [],
    enumValue (blk "Bulgaria.")
       "BG" [],
    enumValue (blk "Burkina Faso.")
       "BF" [],
    enumValue (blk "Burundi.")
       "BI" [],
    enumValue (blk "Cambodia.")
       "KH" [],
    enumValue (blk "Canada.")
       "CA" [],
    enumValue (blk "Cape Verde.")
       "CV" [],
    enumValue (blk "Caribbean Netherlands.")
       "BQ" [],
    enumValue (blk "Cayman Islands.")
       "KY" [],
    enumValue (blk "Central African Republic.")
       "CF" [],
    enumValue (blk "Chad.")
       "TD" [],
    enumValue (blk "Chile.")
       "CL" [],
    enumValue (blk "China.")
       "CN" [],
    enumValue (blk "Christmas Island.")
       "CX" [],
    enumValue (blk "Cocos (Keeling) Islands.")
       "CC" [],
    enumValue (blk "Colombia.")
       "CO" [],
    enumValue (blk "Comoros.")
       "KM" [],
    enumValue (blk "Congo - Brazzaville.")
       "CG" [],
    enumValue (blk "Congo - Kinshasa.")
       "CD" [],
    enumValue (blk "Cook Islands.")
       "CK" [],
    enumValue (blk "Costa Rica.")
       "CR" [],
    enumValue (blk "Croatia.")
       "HR" [],
    enumValue (blk "Cuba.")
       "CU" [],
    enumValue (blk "Curaçao.")
       "CW" [],
    enumValue (blk "Cyprus.")
       "CY" [],
    enumValue (blk "Czechia.")
       "CZ" [],
    enumValue (blk "Côte d’Ivoire.")
       "CI" [],
    enumValue (blk "Denmark.")
       "DK" [],
    enumValue (blk "Djibouti.")
       "DJ" [],
    enumValue (blk "Dominica.")
       "DM" [],
    enumValue (blk "Dominican Republic.")
       "DO" [],
    enumValue (blk "Ecuador.")
       "EC" [],
    enumValue (blk "Egypt.")
       "EG" [],
    enumValue (blk "El Salvador.")
       "SV" [],
    enumValue (blk "Equatorial Guinea.")
       "GQ" [],
    enumValue (blk "Eritrea.")
       "ER" [],
    enumValue (blk "Estonia.")
       "EE" [],
    enumValue (blk "Eswatini.")
       "SZ" [],
    enumValue (blk "Ethiopia.")
       "ET" [],
    enumValue (blk "Falkland Islands.")
       "FK" [],
    enumValue (blk "Faroe Islands.")
       "FO" [],
    enumValue (blk "Fiji.")
       "FJ" [],
    enumValue (blk "Finland.")
       "FI" [],
    enumValue (blk "France.")
       "FR" [],
    enumValue (blk "French Guiana.")
       "GF" [],
    enumValue (blk "French Polynesia.")
       "PF" [],
    enumValue (blk "French Southern Territories.")
       "TF" [],
    enumValue (blk "Gabon.")
       "GA" [],
    enumValue (blk "Gambia.")
       "GM" [],
    enumValue (blk "Georgia.")
       "GE" [],
    enumValue (blk "Germany.")
       "DE" [],
    enumValue (blk "Ghana.")
       "GH" [],
    enumValue (blk "Gibraltar.")
       "GI" [],
    enumValue (blk "Greece.")
       "GR" [],
    enumValue (blk "Greenland.")
       "GL" [],
    enumValue (blk "Grenada.")
       "GD" [],
    enumValue (blk "Guadeloupe.")
       "GP" [],
    enumValue (blk "Guatemala.")
       "GT" [],
    enumValue (blk "Guernsey.")
       "GG" [],
    enumValue (blk "Guinea.")
       "GN" [],
    enumValue (blk "Guinea-Bissau.")
       "GW" [],
    enumValue (blk "Guyana.")
       "GY" [],
    enumValue (blk "Haiti.")
       "HT" [],
    enumValue (blk "Heard & McDonald Islands.")
       "HM" [],
    enumValue (blk "Vatican City.")
       "VA" [],
    enumValue (blk "Honduras.")
       "HN" [],
    enumValue (blk "Hong Kong SAR.")
       "HK" [],
    enumValue (blk "Hungary.")
       "HU" [],
    enumValue (blk "Iceland.")
       "IS" [],
    enumValue (blk "India.")
       "IN" [],
    enumValue (blk "Indonesia.")
       "ID" [],
    enumValue (blk "Iran.")
       "IR" [],
    enumValue (blk "Iraq.")
       "IQ" [],
    enumValue (blk "Ireland.")
       "IE" [],
    enumValue (blk "Isle of Man.")
       "IM" [],
    enumValue (blk "Israel.")
       "IL" [],
    enumValue (blk "Italy.")
       "IT" [],
    enumValue (blk "Jamaica.")
       "JM" [],
    enumValue (blk "Japan.")
       "JP" [],
    enumValue (blk "Jersey.")
       "JE" [],
    enumValue (blk "Jordan.")
       "JO" [],
    enumValue (blk "Kazakhstan.")
       "KZ" [],
    enumValue (blk "Kenya.")
       "KE" [],
    enumValue (blk "Kiribati.")
       "KI" [],
    enumValue (blk "North Korea.")
       "KP" [],
    enumValue (blk "Kosovo.")
       "XK" [],
    enumValue (blk "Kuwait.")
       "KW" [],
    enumValue (blk "Kyrgyzstan.")
       "KG" [],
    enumValue (blk "Laos.")
       "LA" [],
    enumValue (blk "Latvia.")
       "LV" [],
    enumValue (blk "Lebanon.")
       "LB" [],
    enumValue (blk "Lesotho.")
       "LS" [],
    enumValue (blk "Liberia.")
       "LR" [],
    enumValue (blk "Libya.")
       "LY" [],
    enumValue (blk "Liechtenstein.")
       "LI" [],
    enumValue (blk "Lithuania.")
       "LT" [],
    enumValue (blk "Luxembourg.")
       "LU" [],
    enumValue (blk "Macao SAR.")
       "MO" [],
    enumValue (blk "Madagascar.")
       "MG" [],
    enumValue (blk "Malawi.")
       "MW" [],
    enumValue (blk "Malaysia.")
       "MY" [],
    enumValue (blk "Maldives.")
       "MV" [],
    enumValue (blk "Mali.")
       "ML" [],
    enumValue (blk "Malta.")
       "MT" [],
    enumValue (blk "Martinique.")
       "MQ" [],
    enumValue (blk "Mauritania.")
       "MR" [],
    enumValue (blk "Mauritius.")
       "MU" [],
    enumValue (blk "Mayotte.")
       "YT" [],
    enumValue (blk "Mexico.")
       "MX" [],
    enumValue (blk "Moldova.")
       "MD" [],
    enumValue (blk "Monaco.")
       "MC" [],
    enumValue (blk "Mongolia.")
       "MN" [],
    enumValue (blk "Montenegro.")
       "ME" [],
    enumValue (blk "Montserrat.")
       "MS" [],
    enumValue (blk "Morocco.")
       "MA" [],
    enumValue (blk "Mozambique.")
       "MZ" [],
    enumValue (blk "Myanmar (Burma).")
       "MM" [],
    enumValue (blk "Namibia.")
       "NA" [],
    enumValue (blk "Nauru.")
       "NR" [],
    enumValue (blk "Nepal.")
       "NP" [],
    enumValue (blk "Netherlands.")
       "NL" [],
    enumValue (blk "Netherlands Antilles.")
       "AN" [],
    enumValue (blk "New Caledonia.")
       "NC" [],
    enumValue (blk "New Zealand.")
       "NZ" [],
    enumValue (blk "Nicaragua.")
       "NI" [],
    enumValue (blk "Niger.")
       "NE" [],
    enumValue (blk "Nigeria.")
       "NG" [],
    enumValue (blk "Niue.")
       "NU" [],
    enumValue (blk "Norfolk Island.")
       "NF" [],
    enumValue (blk "North Macedonia.")
       "MK" [],
    enumValue (blk "Norway.")
       "NO" [],
    enumValue (blk "Oman.")
       "OM" [],
    enumValue (blk "Pakistan.")
       "PK" [],
    enumValue (blk "Palestinian Territories.")
       "PS" [],
    enumValue (blk "Panama.")
       "PA" [],
    enumValue (blk "Papua New Guinea.")
       "PG" [],
    enumValue (blk "Paraguay.")
       "PY" [],
    enumValue (blk "Peru.")
       "PE" [],
    enumValue (blk "Philippines.")
       "PH" [],
    enumValue (blk "Pitcairn Islands.")
       "PN" [],
    enumValue (blk "Poland.")
       "PL" [],
    enumValue (blk "Portugal.")
       "PT" [],
    enumValue (blk "Qatar.")
       "QA" [],
    enumValue (blk "Cameroon.")
       "CM" [],
    enumValue (blk "Réunion.")
       "RE" [],
    enumValue (blk "Romania.")
       "RO" [],
    enumValue (blk "Russia.")
       "RU" [],
    enumValue (blk "Rwanda.")
       "RW" [],
    enumValue (blk "St. Barthélemy.")
       "BL" [],
    enumValue (blk "St. Helena.")
       "SH" [],
    enumValue (blk "St. Kitts & Nevis.")
       "KN" [],
    enumValue (blk "St. Lucia.")
       "LC" [],
    enumValue (blk "St. Martin.")
       "MF" [],
    enumValue (blk "St. Pierre & Miquelon.")
       "PM" [],
    enumValue (blk "Samoa.")
       "WS" [],
    enumValue (blk "San Marino.")
       "SM" [],
    enumValue (blk "São Tomé & Príncipe.")
       "ST" [],
    enumValue (blk "Saudi Arabia.")
       "SA" [],
    enumValue (blk "Senegal.")
       "SN" [],
    enumValue (blk "Serbia.")
       "RS" [],
    enumValue (blk "Seychelles.")
       "SC" [],
    enumValue (blk "Sierra Leone.")
       "SL" [],
    enumValue (blk "Singapore.")
       "SG" [],
    enumValue (blk "Sint Maarten.")
       "SX" [],
    enumValue (blk "Slovakia.")
       "SK" [],
    enumValue (blk "Slovenia.")
       "SI" [],
    enumValue (blk "Solomon Islands.")
       "SB" [],
    enumValue (blk "Somalia.")
       "SO" [],
    enumValue (blk "South Africa.")
       "ZA" [],
    enumValue (blk "South Georgia & South Sandwich Islands.")
       "GS" [],
    enumValue (blk "South Korea.")
       "KR" [],
    enumValue (blk "South Sudan.")
       "SS" [],
    enumValue (blk "Spain.")
       "ES" [],
    enumValue (blk "Sri Lanka.")
       "LK" [],
    enumValue (blk "St. Vincent & Grenadines.")
       "VC" [],
    enumValue (blk "Sudan.")
       "SD" [],
    enumValue (blk "Suriname.")
       "SR" [],
    enumValue (blk "Svalbard & Jan Mayen.")
       "SJ" [],
    enumValue (blk "Sweden.")
       "SE" [],
    enumValue (blk "Switzerland.")
       "CH" [],
    enumValue (blk "Syria.")
       "SY" [],
    enumValue (blk "Taiwan.")
       "TW" [],
    enumValue (blk "Tajikistan.")
       "TJ" [],
    enumValue (blk "Tanzania.")
       "TZ" [],
    enumValue (blk "Thailand.")
       "TH" [],
    enumValue (blk "Timor-Leste.")
       "TL" [],
    enumValue (blk "Togo.")
       "TG" [],
    enumValue (blk "Tokelau.")
       "TK" [],
    enumValue (blk "Tonga.")
       "TO" [],
    enumValue (blk "Trinidad & Tobago.")
       "TT" [],
    enumValue (blk "Tristan da Cunha.")
       "TA" [],
    enumValue (blk "Tunisia.")
       "TN" [],
    enumValue (blk "Turkey.")
       "TR" [],
    enumValue (blk "Turkmenistan.")
       "TM" [],
    enumValue (blk "Turks & Caicos Islands.")
       "TC" [],
    enumValue (blk "Tuvalu.")
       "TV" [],
    enumValue (blk "Uganda.")
       "UG" [],
    enumValue (blk "Ukraine.")
       "UA" [],
    enumValue (blk "United Arab Emirates.")
       "AE" [],
    enumValue (blk "United Kingdom.")
       "GB" [],
    enumValue (blk "United States.")
       "US" [],
    enumValue (blk "U.S. Outlying Islands.")
       "UM" [],
    enumValue (blk "Uruguay.")
       "UY" [],
    enumValue (blk "Uzbekistan.")
       "UZ" [],
    enumValue (blk "Vanuatu.")
       "VU" [],
    enumValue (blk "Venezuela.")
       "VE" [],
    enumValue (blk "Vietnam.")
       "VN" [],
    enumValue (blk "British Virgin Islands.")
       "VG" [],
    enumValue (blk "Wallis & Futuna.")
       "WF" [],
    enumValue (blk "Western Sahara.")
       "EH" [],
    enumValue (blk "Yemen.")
       "YE" [],
    enumValue (blk "Zambia.")
       "ZM" [],
    enumValue (blk "Zimbabwe.")
       "ZW" [],
    enumValue (blk "Unknown Region.")
       "ZZ" []]

/-- Lines 2075 to 2094 of the module: type CreditCard. -/
def text.CreditCard : List String := [
  "\"\"\"Credit card information used for a payment.\"\"\"",
  "type CreditCard \x7b",
  "  \"\"\"The brand of the credit card.\"\"\"",
  "  brand: String",
  "  \"\"\"The expiry month of the credit card.\"\"\"",
  "  expiryMonth: Int",
  "  \"\"\"The expiry year of the credit card.\"\"\"",
  "  expiryYear: Int",
  "  \"\"\"The credit card's BIN number.\"\"\"",
  "  firstDigits: String",
  "  \"\"\"The first name of the card holder.\"\"\"",
  "  firstName: String",
  "  \"\"\"The last 4 digits of the credit card.\"\"\"",
  "  lastDigits: String",
  "  \"\"\"The last name of the card holder.\"\"\"",
  "  lastName: String",
  "  \"\"\"The masked credit card number with only the last 4 digits displayed.\"\"\"",
  "  maskedNumber: String",
  "\x7d",
  ""]

/-- The type CreditCard declared by lines 2075 to 2094. -/
def CreditCard : Definition :=
  .objectType (blk "Credit card information used for a payment.")
    "CreditCard" [] [] [
    field (blk "The brand of the credit card.")
       "brand" [] (nm "String") [],
    field (blk "The expiry month of the credit card.")
       "expiryMonth" [] (nm "Int") [],
    field (blk "The expiry year of the credit card.")
       "expiryYear" [] (nm "Int") [],
    field (blk "The credit card's BIN number.")
       "firstDigits" [] (nm "String") [],
    field (blk "The first name of the card holder.")
       "firstName" [] (nm "String") [],
    field (blk "The last 4 digits of the credit card.")
       "lastDigits" [] (nm "String") [],
    field (blk "The last name of the card holder.")
       "lastName" [] (nm "String") [],
    field (blk "The masked credit card number with only the last 4 digits displayed.")
       "maskedNumber" [] (nm "String") []]

/-- Lines 2095 to 2114 of the module: input CreditCardPaymentInput. -/
def text.CreditCardPaymentInput : List String := [
  "\"\"\"",
  "Specifies the fields required to complete a checkout with",
  "a Shopify vaulted credit card payment.",
  "",
  "\"\"\"",
  "input CreditCardPaymentInput \x7b",
  "  \"\"\"The amount of the payment.\"\"\"",
  "  amount: Money!",
  "  \"\"\"",
  "  A unique client generated key used to avoid duplicate charges. When a duplicate payment is found, the original is returned instead of creating a new one. For more information, refer to [Idempotent requests](https://shopify.dev/api/usage/idempotent-requests).",
  "  \"\"\"",
  "  idempotencyKey: String!",
  "  \"\"\"The billing address for the payment.\"\"\"",
  "  billingAddress: MailingAddressInput!",
  "  \"\"\"The ID returned by Shopify's Card Vault.\"\"\"",
  "  vaultId: String!",
  "  \"\"\"Executes the payment in test mode if possible. Defaults to \\`false\\`.\"\"\"",
  "  test: Boolean = false",
  "\x7d",
  ""]

/-- The input CreditCardPaymentInput declared by lines 2095 to 2114. -/
def CreditCardPaymentInput : Definition :=
  .inputObjectType (blk "Specifies the fields required to complete a checkout with\na Shopify vaulted credit card payment.")
    "CreditCardPaymentInput" [] [
    inputValue (blk "The amount of the payment.")
       "amount" (nn (nm "Money")) none [],
    inputValue (blk "A unique client generated key used to avoid duplicate charges. When a duplicate payment is found, the original is returned instead of creating a new one. For more information, refer to [Idempotent requests](https://shopify.dev/api/usage/idempotent-requests).")
       "idempotencyKey" (nn (nm "String")) none [],
    inputValue (blk "The billing address for the payment.")
       "billingAddress" (nn (nm "MailingAddressInput")) none [],
    inputValue (blk "The ID returned by Shopify's Card Vault.")
       "vaultId" (nn (nm "String")) none [],
    inputValue (blk "Executes the payment in test mode if possible. Defaults to `false`.")
       "test" (nm "Boolean") (some (.boolean false)) []]

/-- Lines 2115 to 2134 of the module: input CreditCardPaymentInputV2. -/
def text.CreditCardPaymentInputV2 : List String := [
  "\"\"\"",
  "Specifies the fields required to complete a checkout with",
  "a Shopify vaulted credit card payment.",
  "",
  "\"\"\"",
  "input CreditCardPaymentInputV2 \x7b",
  "  \"\"\"The amount and currency of the payment.\"\"\"",
  "  paymentAmount: MoneyInput!",
  "  \"\"\"",
  "  A unique client generated key used to avoid duplicate charges. When a duplicate payment is found, the original is returned instead of creating a new one. For more information, refer to [Idempotent requests](https://shopify.dev/api/usage/idempotent-requests).",
  "  \"\"\"",
  "  idempotencyKey: String!",
  "  \"\"\"The billing address for the payment.\"\"\"",
  "  billingAddress: MailingAddressInput!",
  "  \"\"\"The ID returned by Shopify's Card Vault.\"\"\"",
  "  vaultId: String!",
  "  \"\"\"Executes the payment in test mode if possible. Defaults to \\`false\\`.\"\"\"",
  "  test: Boolean = false",
  "\x7d",
  ""]

/-- The input CreditCardPaymentInputV2 declared by lines 2115 to 2134. -/
def CreditCardPaymentInputV2 : Definition :=
  .inputObjectType (blk "Specifies the fields required to complete a checkout with\na Shopify vaulted credit card payment.")
    "CreditCardPaymentInputV2" [] [
    inputValue (blk "The amount and currency of the payment.")
       "paymentAmount" (nn (nm "MoneyInput")) none [],
    inputValue (blk "A unique client generated key used to avoid duplicate charges. When a duplicate payment is found, the original is returned instead of creating a new one. For more information, refer to [Idempotent requests](https://shopify.dev/api/usage/idempotent-requests).")
       "idempotencyKey" (nn (nm "String")) none [],
    inputValue (blk "The billing address for the payment.")
       "billingAddress" (nn (nm "MailingAddressInput")) none [],
    inputValue (blk "The ID returned by Shopify's Card Vault.")
       "vaultId" (nn (nm "String")) none [],
    inputValue (blk "Executes the payment in test mode if possible. Defaults to `false`.")
       "test" (nm "Boolean") (some (.boolean false)) []]

/-- Lines 2135 to 2148 of the module: enum CropRegion. -/
def text.CropRegion : List String := [
  "\"\"\"The part of the image that should remain after cropping.\"\"\"",
  "enum CropRegion \x7b",
  "  \"\"\"Keep the center of the image.\"\"\"",
  "  CENTER",
  "  \"\"\"Keep the top of the image.\"\"\"",
  "  TOP",
  "  \"\"\"Keep the bottom of the image.\"\"\"",
  "  BOTTOM",
  "  \"\"\"Keep the left of the image.\"\"\"",
  "  LEFT",
  "  \"\"\"Keep the right of the image.\"\"\"",
  "  RIGHT",
  "\x7d",
  ""]

/-- The enum CropRegion declared by lines 2135 to 2148. -/
def CropRegion : Definition :=
  .enumType (blk "The part of the image that should remain after cropping.")
    "CropRegion" [] [
    enumValue (blk "Keep the center of the image.")
       "CENTER" [],
    enumValue (blk "Keep the top of the image.")
       "TOP" [],
    enumValue (blk "Keep the bottom of the image.")
       "BOTTOM" [],
    enumValue (blk "Keep the left of the image.")
       "LEFT" [],
    enumValue (blk "Keep the right of the image.")
       "RIGHT" []]

/-- Lines 2149 to 2158 of the module: type Currency. -/
def text.Currency : List String := [
  "\"\"\"A currency.\"\"\"",
  "type Currency \x7b",
  "  \"\"\"The ISO code of the currency.\"\"\"",
  "  isoCode: CurrencyCode!",
  "  \"\"\"The name of the currency.\"\"\"",
  "  name: String!",
  "  \"\"\"The symbol of the currency.\"\"\"",
  "  symbol: String!",
  "\x7d",
  ""]

/-- The type Currency declared by lines 2149 to 2158. -/
def Currency : Definition :=
  .objectType (blk "A currency.")
    "Currency" [] [] [
    field (blk "The ISO code of the currency.")
       "isoCode" [] (nn (nm "CurrencyCode")) [],
    field (blk "The name of the currency.")
       "name" [] (nn (nm "String")) [],
    field (blk "The symbol of the currency.")
       "symbol" [] (nn (nm "String")) []]

/-- Lines 2159 to 2484 of the module: enum CurrencyCode. -/
def text.CurrencyCode : List String := [
  "\"\"\"",
  "The three-letter currency codes that represent the world currencies used in stores. These include standard ISO 4217 codes, legacy codes,",
  "and non-standard codes.",
  "",
  "\"\"\"",
  "enum CurrencyCode \x7b",
  "  \"\"\"United States Dollars (USD).\"\"\"",
  "  USD",
  "  \"\"\"Euro (EUR).\"\"\"",
  "  EUR",
  "  \"\"\"United Kingdom Pounds (GBP).\"\"\"",
  "  GBP",
  "  \"\"\"Canadian Dollars (CAD).\"\"\"",
  "  CAD",
  "  \"\"\"Afghan Afghani (AFN).\"\"\"",
  "  AFN",
  "  \"\"\"Albanian Lek (ALL).\"\"\"",
  "  ALL",
  "  \"\"\"Algerian Dinar (DZD).\"\"\"",
  "  DZD",
  "  \"\"\"Angolan Kwanza (AOA).\"\"\"",
  "  AOA",
  "  \"\"\"Argentine Pesos (ARS).\"\"\"",
  "  ARS",
  "  \"\"\"Armenian Dram (AMD).\"\"\"",
  "  AMD",
  "  \"\"\"Aruban Florin (AWG).\"\"\"",
  "  AWG",
  "  \"\"\"Australian Dollars (AUD).\"\"\"",
  "  AUD",
  "  \"\"\"Barbadian Dollar (BBD).\"\"\"",
  "  BBD",
  "  \"\"\"Azerbaijani Manat (AZN).\"\"\"",
  "  AZN",
  "  \"\"\"Bangladesh Taka (BDT).\"\"\"",
  "  BDT",
  "  \"\"\"Bahamian Dollar (BSD).\"\"\"",
  "  BSD",
  "  \"\"\"Bahraini Dinar (BHD).\"\"\"",
  "  BHD",
  "  \"\"\"Burundian Franc (BIF).\"\"\"",
  "  BIF",
  "  \"\"\"Belize Dollar (BZD).\"\"\"",
  "  BZD",
  "  \"\"\"Bermudian Dollar (BMD).\"\"\"",
  "  BMD",
  "  \"\"\"Bhutanese Ngultrum (BTN).\"\"\"",
  "  BTN",
  "  \"\"\"Bosnia and Herzegovina Convertible Mark (BAM).\"\"\"",
  "  BAM",
  "  \"\"\"Brazilian Real (BRL).\"\"\"",
  "  BRL",
  "  \"\"\"Bolivian Boliviano (BOB).\"\"\"",
  "  BOB",
  "  \"\"\"Botswana Pula (BWP).\"\"\"",
  "  BWP",
  "  \"\"\"Brunei Dollar (BND).\"\"\"",
  "  BND",
  "  \"\"\"Bulgarian Lev (BGN).\"\"\"",
  "  BGN",
  "  \"\"\"Burmese Kyat (MMK).\"\"\"",
  "  MMK",
  "  \"\"\"Cambodian Riel.\"\"\"",
  "  KHR",
  "  \"\"\"Cape Verdean escudo (CVE).\"\"\"",
  "  CVE",
  "  \"\"\"Cayman Dollars (KYD).\"\"\"",
  "  KYD",
  "  \"\"\"Central African CFA Franc (XAF).\"\"\"",
  "  XAF",
  "  \"\"\"Chilean Peso (CLP).\"\"\"",
  "  CLP",
  "  \"\"\"Chinese Yuan Renminbi (CNY).\"\"\"",
  "  CNY",
  "  \"\"\"Colombian Peso (COP).\"\"\"",
  "  COP",
  "  \"\"\"Comorian Franc (KMF).\"\"\"",
  "  KMF",
  "  \"\"\"Congolese franc (CDF).\"\"\"",
  "  CDF",
  "  \"\"\"Costa Rican Colones (CRC).\"\"\"",
  "  CRC",
  "  \"\"\"Croatian Kuna (HRK).\"\"\"",
  "  HRK",
  "  \"\"\"Czech Koruny (CZK).\"\"\"",
  "  CZK",
  "  \"\"\"Danish Kroner (DKK).\"\"\"",
  "  DKK",
  "  \"\"\"Dominican Peso (DOP).\"\"\"",
  "  DOP",
  "  \"\"\"East Caribbean Dollar (XCD).\"\"\"",
  "  XCD",
  "  \"\"\"Egyptian Pound (EGP).\"\"\"",
  "  EGP",
  "  \"\"\"Ethiopian Birr (ETB).\"\"\"",
  "  ETB",
  "  \"\"\"CFP Franc (XPF).\"\"\"",
  "  XPF",
  "  \"\"\"Fijian Dollars (FJD).\"\"\"",
  "  FJD",
  "  \"\"\"Gambian Dalasi (GMD).\"\"\"",
  "  GMD",
  "  \"\"\"Ghanaian Cedi (GHS).\"\"\"",
  "  GHS",
  "  \"\"\"Guatemalan Quetzal (GTQ).\"\"\"",
  "  GTQ",
  "  \"\"\"Guyanese Dollar (GYD).\"\"\"",
  "  GYD",
  "  \"\"\"Georgian Lari (GEL).\"\"\"",
  "  GEL",
  "  \"\"\"Haitian Gourde (HTG).\"\"\"",
  "  HTG",
  "  \"\"\"Honduran Lempira (HNL).\"\"\"",
  "  HNL",
  "  \"\"\"Hong Kong Dollars (HKD).\"\"\"",
  "  HKD",
  "  \"\"\"Hungarian Forint (HUF).\"\"\"",
  "  HUF",
  "  \"\"\"Icelandic Kronur (ISK).\"\"\"",
  "  ISK",
  "  \"\"\"Indian Rupees (INR).\"\"\"",
  "  INR",
  "  \"\"\"Indonesian Rupiah (IDR).\"\"\"",
  "  IDR",
  "  \"\"\"Israeli New Shekel (NIS).\"\"\"",
  "  ILS",
  "  \"\"\"Iraqi Dinar (IQD).\"\"\"",
  "  IQD",
  "  \"\"\"Jamaican Dollars (JMD).\"\"\"",
  "  JMD",
  "  \"\"\"Japanese Yen (JPY).\"\"\"",
  "  JPY",
  "  \"\"\"Jersey Pound.\"\"\"",
  "  JEP",
  "  \"\"\"Jordanian Dinar (JOD).\"\"\"",
  "  JOD",
  "  \"\"\"Kazakhstani Tenge (KZT).\"\"\"",
  "  KZT",
  "  \"\"\"Kenyan Shilling (KES).\"\"\"",
  "  KES",
  "  \"\"\"Kuwaiti Dinar (KWD).\"\"\"",
  "  KWD",
  "  \"\"\"Kyrgyzstani Som (KGS).\"\"\"",
  "  KGS",
  "  \"\"\"Laotian Kip (LAK).\"\"\"",
  "  LAK",
  "  \"\"\"Latvian Lati (LVL).\"\"\"",
  "  LVL",
  "  \"\"\"Lebanese Pounds (LBP).\"\"\"",
  "  LBP",
  "  \"\"\"Lesotho Loti (LSL).\"\"\"",
  "  LSL",
  "  \"\"\"Liberian Dollar (LRD).\"\"\"",
  "  LRD",
  "  \"\"\"Lithuanian Litai (LTL).\"\"\"",
  "  LTL",
  "  \"\"\"Malagasy Ariary (MGA).\"\"\"",
  "  MGA",
  "  \"\"\"Macedonia Denar (MKD).\"\"\"",
  "  MKD",
  "  \"\"\"Macanese Pataca (MOP).\"\"\"",
  "  MOP",
  "  \"\"\"Malawian Kwacha (MWK).\"\"\"",
  "  MWK",
  "  \"\"\"Maldivian Rufiyaa (MVR).\"\"\"",
  "  MVR",
  "  \"\"\"Mexican Pesos (MXN).\"\"\"",
  "  MXN",
  "  \"\"\"Malaysian Ringgits (MYR).\"\"\"",
  "  MYR",
  "  \"\"\"Mauritian Rupee (MUR).\"\"\"",
  "  MUR",
  "  \"\"\"Moldovan Leu (MDL).\"\"\"",
  "  MDL",
  "  \"\"\"Moroccan Dirham.\"\"\"",
  "  MAD",
  "  \"\"\"Mongolian Tugrik.\"\"\"",
  "  MNT",
  "  \"\"\"Mozambican Metical.\"\"\"",
  "  MZN",
  "  \"\"\"Namibian Dollar.\"\"\"",
  "  NAD",
  "  \"\"\"Nepalese Rupee (NPR).\"\"\"",
  "  NPR",
  "  \"\"\"Netherlands Antillean Guilder.\"\"\"",
  "  ANG",
  "  \"\"\"New Zealand Dollars (NZD).\"\"\"",
  "  NZD",
  "  \"\"\"Nicaraguan Córdoba (NIO).\"\"\"",
  "  NIO",
  "  \"\"\"Nigerian Naira (NGN).\"\"\"",
  "  NGN",
  "  \"\"\"Norwegian Kroner (NOK).\"\"\"",
  "  NOK",
  "  \"\"\"Omani Rial (OMR).\"\"\"",
  "  OMR",
  "  \"\"\"Panamian Balboa (PAB).\"\"\"",
  "  PAB",
  "  \"\"\"Pakistani Rupee (PKR).\"\"\"",
  "  PKR",
  "  \"\"\"Papua New Guinean Kina (PGK).\"\"\"",
  "  PGK",
  "  \"\"\"Paraguayan Guarani (PYG).\"\"\"",
  "  PYG",
  "  \"\"\"Peruvian Nuevo Sol (PEN).\"\"\"",
  "  PEN",
  "  \"\"\"Philippine Peso (PHP).\"\"\"",
  "  PHP",
  "  \"\"\"Polish Zlotych (PLN).\"\"\"",
  "  PLN",
  "  \"\"\"Qatari Rial (QAR).\"\"\"",
  "  QAR",
  "  \"\"\"Romanian Lei (RON).\"\"\"",
  "  RON",
  "  \"\"\"Russian Rubles (RUB).\"\"\"",
  "  RUB",
  "  \"\"\"Rwandan Franc (RWF).\"\"\"",
  "  RWF",
  "  \"\"\"Samoan Tala (WST).\"\"\"",
  "  WST",
  "  \"\"\"Saudi Riyal (SAR).\"\"\"",
  "  SAR",
  "  \"\"\"Sao Tome And Principe Dobra (STD).\"\"\"",
  "  STD",
  "  \"\"\"Serbian dinar (RSD).\"\"\"",
  "  RSD",
  "  \"\"\"Seychellois Rupee (SCR).\"\"\"",
  "  SCR",
  "  \"\"\"Singapore Dollars (SGD).\"\"\"",
  "  SGD",
  "  \"\"\"Sudanese Pound (SDG).\"\"\"",
  "  SDG",
  "  \"\"\"Syrian Pound (SYP).\"\"\"",
  "  SYP",
  "  \"\"\"South African Rand (ZAR).\"\"\"",
  "  ZAR",
  "  \"\"\"South Korean Won (KRW).\"\"\"",
  "  KRW",
  "  \"\"\"South Sudanese Pound (SSP).\"\"\"",
  "  SSP",
  "  \"\"\"Solomon Islands Dollar (SBD).\"\"\"",
  "  SBD",
  "  \"\"\"Sri Lankan Rupees (LKR).\"\"\"",
  "  LKR",
  "  \"\"\"Surinamese Dollar (SRD).\"\"\"",
  "  SRD",
  "  \"\"\"Swazi Lilangeni (SZL).\"\"\"",
  "  SZL",
  "  \"\"\"Swedish Kronor (SEK).\"\"\"",
  "  SEK",
  "  \"\"\"Swiss Francs (CHF).\"\"\"",
  "  CHF",
  "  \"\"\"Taiwan Dollars (TWD).\"\"\"",
  "  TWD",
  "  \"\"\"Thai baht (THB).\"\"\"",
  "  THB",
  "  \"\"\"Tanzanian Shilling (TZS).\"\"\"",
  "  TZS",
  "  \"\"\"Trinidad and Tobago Dollars (TTD).\"\"\"",
  "  TTD",
  "  \"\"\"Tunisian Dinar (TND).\"\"\"",
  "  TND",
  "  \"\"\"Turkish Lira (TRY).\"\"\"",
  "  TRY",
  "  \"\"\"Turkmenistani Manat (TMT).\"\"\"",
  "  TMT",
  "  \"\"\"Ugandan Shilling (UGX).\"\"\"",
  "  UGX",
  "  \"\"\"Ukrainian Hryvnia (UAH).\"\"\"",
  "  UAH",
  "  \"\"\"United Arab Emirates Dirham (AED).\"\"\"",
  "  AED",
  "  \"\"\"Uruguayan Pesos (UYU).\"\"\"",
  "  UYU",
  "  \"\"\"Uzbekistan som (UZS).\"\"\"",
  "  UZS",
  "  \"\"\"Vanuatu Vatu (VUV).\"\"\"",
  "  VUV",
  "  \"\"\"Vietnamese đồng (VND).\"\"\"",
  "  VND",
  "  \"\"\"West African CFA franc (XOF).\"\"\"",
  "  XOF",
  "  \"\"\"Yemeni Rial (YER).\"\"\"",
  "  YER",
  "  \"\"\"Zambian Kwacha (ZMW).\"\"\"",
  "  ZMW",
  "  \"\"\"Belarusian Ruble (BYN).\"\"\"",
  "  BYN",
  "  \"\"\"Belarusian Ruble (BYR).\"\"\"",
  "  BYR",
  "  \"\"\"Djiboutian Franc (DJF).\"\"\"",
  "  DJF",
  "  \"\"\"Eritrean Nakfa (ERN).\"\"\"",
  "  ERN",
  "  \"\"\"Falkland Islands Pounds (FKP).\"\"\"",
  "  FKP",
  "  \"\"\"Gibraltar Pounds (GIP).\"\"\"",
  "  GIP",
  "  \"\"\"Guinean Franc (GNF).\"\"\"",
  "  GNF",
  "  \"\"\"Iranian Rial (IRR).\"\"\"",
  "  IRR",
  "  \"\"\"Kiribati Dollar (KID).\"\"\"",
  "  KID",
  "  \"\"\"Libyan Dinar (LYD).\"\"\"",
  "  LYD",
  "  \"\"\"Mauritanian Ouguiya (MRU).\"\"\"",
  "  MRU",
  "  \"\"\"Sierra Leonean Leone (SLL).\"\"\"",
  "  SLL",
  "  \"\"\"Saint Helena Pounds (SHP).\"\"\"",
  "  SHP",
  "  \"\"\"Somali Shilling (SOS).\"\"\"",
  "  SOS",
  "  \"\"\"Tajikistani Somoni (TJS).\"\"\"",
  "  TJS",
  "  \"\"\"Tongan Pa'anga (TOP).\"\"\"",
  "  TOP",
  "  \"\"\"Venezuelan Bolivares (VEF).\"\"\"",
  "  VEF",
  "  \"\"\"Venezuelan Bolivares (VES).\"\"\"",
  "  VES",
  "  \"\"\"Unrecognized currency.\"\"\"",
  "  XXX",
  "\x7d",
  ""]

/-- The enum CurrencyCode declared by lines 2159 to 2484. -/
def CurrencyCode : Definition :=
  .enumType (blk "The three-letter currency codes that represent the world currencies used in stores. These include standard ISO 4217 codes, legacy codes,\nand non-standard codes.")
    "CurrencyCode" [] [
    enumValue (blk "United States Dollars (USD).")
       "USD" [],
    enumValue (blk "Euro (EUR).")
       "EUR" [],
    enumValue (blk "United Kingdom Pounds (GBP).")
       "GBP" [],
    enumValue (blk "Canadian Dollars (CAD).")
       "CAD" [],
    enumValue (blk "Afghan Afghani (AFN).")
       "AFN" [],
    enumValue (blk "Albanian Lek (ALL).")
       "ALL" [],
    enumValue (blk "Algerian Dinar (DZD).")
       "DZD" [],
    enumValue (blk "Angolan Kwanza (AOA).")
       "AOA" [],
    enumValue (blk "Argentine Pesos (ARS).")
       "ARS" [],
    enumValue (blk "Armenian Dram (AMD).")
       "AMD" [],
    enumValue (blk "Aruban Florin (AWG).")
       "AWG" [],
    enumValue (blk "Australian Dollars (AUD).")
       "AUD" [],
    enumValue (blk "Barbadian Dollar (BBD).")
       "BBD" [],
    enumValue (blk "Azerbaijani Manat (AZN).")
       "AZN" [],
    enumValue (blk "Bangladesh Taka (BDT).")
       "BDT" [],
    enumValue (blk "Bahamian Dollar (BSD).")
       "BSD" [],
    enumValue (blk "Bahraini Dinar (BHD).")
       "BHD" [],
    enumValue (blk "Burundian Franc (BIF).")
       "BIF" [],
    enumValue (blk "Belize Dollar (BZD).")
       "BZD" [],
    enumValue (blk "Bermudian Dollar (BMD).")
       "BMD" [],
    enumValue (blk "Bhutanese Ngultrum (BTN).")
       "BTN" [],
    enumValue (blk "Bosnia and Herzegovina Convertible Mark (BAM).")
       "BAM" [],
    enumValue (blk "Brazilian Real (BRL).")
       "BRL" [],
    enumValue (blk "Bolivian Boliviano (BOB).")
       "BOB" [],
    enumValue (blk "Botswana Pula (BWP).")
       "BWP" [],
    enumValue (blk "Brunei Dollar (BND).")
       "BND" [],
    enumValue (blk "Bulgarian Lev (BGN).")
       "BGN" [],
    enumValue (blk "Burmese Kyat (MMK).")
       "MMK" [],
    enumValue (blk "Cambodian Riel.")
       "KHR" [],
    enumValue (blk "Cape Verdean escudo (CVE).")
       "CVE" [],
    enumValue (blk "Cayman Dollars (KYD).")
       "KYD" [],
    enumValue (blk "Central African CFA Franc (XAF).")
       "XAF" [],
    enumValue (blk "Chilean Peso (CLP).")
       "CLP" [],
    enumValue (blk "Chinese Yuan Renminbi (CNY).")
       "CNY" [],
    enumValue (blk "Colombian Peso (COP).")
       "COP" [],
    enumValue (blk "Comorian Franc (KMF).")
       "KMF" [],
    enumValue (blk "Congolese franc (CDF).")
       "CDF" [],
    enumValue (blk "Costa Rican Colones (CRC).")
       "CRC" [],
    enumValue (blk "Croatian Kuna (HRK).")
       "HRK" [],
    enumValue (blk "Czech Koruny (CZK).")
       "CZK" [],
    enumValue (blk "Danish Kroner (DKK).")
       "DKK" [],
    enumValue (blk "Dominican Peso (DOP).")
       "DOP" [],
    enumValue (blk "East Caribbean Dollar (XCD).")
       "XCD" [],
    enumValue (blk "Egyptian Pound (EGP).")
       "EGP" [],
    enumValue (blk "Ethiopian Birr (ETB).")
       "ETB" [],
    enumValue (blk "CFP Franc (XPF).")
       "XPF" [],
    enumValue (blk "Fijian Dollars (FJD).")
       "FJD" [],
    enumValue (blk "Gambian Dalasi (GMD).")
       "GMD" [],
    enumValue (blk "Ghanaian Cedi (GHS).")
       "GHS" [],
    enumValue (blk "Guatemalan Quetzal (GTQ).")
       "GTQ" [],
    enumValue (blk "Guyanese Dollar (GYD).")
       "GYD" [],
    enumValue (blk "Georgian Lari (GEL).")
       "GEL" [],
    enumValue (blk "Haitian Gourde (HTG).")
       "HTG" [],
    enumValue (blk "Honduran Lempira (HNL).")
       "HNL" [],
    enumValue (blk "Hong Kong Dollars (HKD).")
       "HKD" [],
    enumValue (blk "Hungarian Forint (HUF).")
       "HUF" [],
    enumValue (blk "Icelandic Kronur (ISK).")
       "ISK" [],
    enumValue (blk "Indian Rupees (INR).")
       "INR" [],
    enumValue (blk "Indonesian Rupiah (IDR).")
       "IDR" [],
    enumValue (blk "Israeli New Shekel (NIS).")
       "ILS" [],
    enumValue (blk "Iraqi Dinar (IQD).")
       "IQD" [],
    enumValue (blk "Jamaican Dollars (JMD).")
       "JMD" [],
    enumValue (blk "Japanese Yen (JPY).")
       "JPY" [],
    enumValue (blk "Jersey Pound.")
       "JEP" [],
    enumValue (blk "Jordanian Dinar (JOD).")
       "JOD" [],
    enumValue (blk "Kazakhstani Tenge (KZT).")
       "KZT" [],
    enumValue (blk "Kenyan Shilling (KES).")
       "KES" [],
    enumValue (blk "Kuwaiti Dinar (KWD).")
       "KWD" [],
    enumValue (blk "Kyrgyzstani Som (KGS).")
       "KGS" [],
    enumValue (blk "Laotian Kip (LAK).")
       "LAK" [],
    enumValue (blk "Latvian Lati (LVL).")
       "LVL" [],
    enumValue (blk "Lebanese Pounds (LBP).")
       "LBP" [],
    enumValue (blk "Lesotho Loti (LSL).")
       "LSL" [],
    enumValue (blk "Liberian Dollar (LRD).")
       "LRD" [],
    enumValue (blk "Lithuanian Litai (LTL).")
       "LTL" [],
    enumValue (blk "Malagasy Ariary (MGA).")
       "MGA" [],
    enumValue (blk "Macedonia Denar (MKD).")
       "MKD" [],
    enumValue (blk "Macanese Pataca (MOP).")
       "MOP" [],
    enumValue (blk "Malawian Kwacha (MWK).")
       "MWK" [],
    enumValue (blk "Maldivian Rufiyaa (MVR).")
       "MVR" [],
    enumValue (blk "Mexican Pesos (MXN).")
       "MXN" [],
    enumValue (blk "Malaysian Ringgits (MYR).")
       "MYR" [],
    enumValue (blk "Mauritian Rupee (MUR).")
       "MUR" [],
    enumValue (blk "Moldovan Leu (MDL).")
       "MDL" [],
    enumValue (blk "Moroccan Dirham.")
       "MAD" [],
    enumValue (blk "Mongolian Tugrik.")
       "MNT" [],
    enumValue (blk "Mozambican Metical.")
       "MZN" [],
    enumValue (blk "Namibian Dollar.")
       "NAD" [],
    enumValue (blk "Nepalese Rupee (NPR).")
       "NPR" [],
    enumValue (blk "Netherlands Antillean Guilder.")
       "ANG" [],
    enumValue (blk "New Zealand Dollars (NZD).")
       "NZD" [],
    enumValue (blk "Nicaraguan Córdoba (NIO).")
       "NIO" [],
    enumValue (blk "Nigerian Naira (NGN).")
       "NGN" [],
    enumValue (blk "Norwegian Kroner (NOK).")
       "NOK" [],
    enumValue (blk "Omani Rial (OMR).")
       "OMR" [],
    enumValue (blk "Panamian Balboa (PAB).")
       "PAB" [],
    enumValue (blk "Pakistani Rupee (PKR).")
       "PKR" [],
    enumValue (blk "Papua New Guinean Kina (PGK).")
       "PGK" [],
    enumValue (blk "Paraguayan Guarani (PYG).")
       "PYG" [],
    enumValue (blk "Peruvian Nuevo Sol (PEN).")
       "PEN" [],
    enumValue (blk "Philippine Peso (PHP).")
       "PHP" [],
    enumValue (blk "Polish Zlotych (PLN).")
       "PLN" [],
    enumValue (blk "Qatari Rial (QAR).")
       "QAR" [],
    enumValue (blk "Romanian Lei (RON).")
       "RON" [],
    enumValue (blk "Russian Rubles (RUB).")
       "RUB" [],
    enumValue (blk "Rwandan Franc (RWF).")
       "RWF" [],
    enumValue (blk "Samoan Tala (WST).")
       "WST" [],
    enumValue (blk "Saudi Riyal (SAR).")
       "SAR" [],
    enumValue (blk "Sao Tome And Principe Dobra (STD).")
       "STD" [],
    enumValue (blk "Serbian dinar (RSD).")
       "RSD" [],
    enumValue (blk "Seychellois Rupee (SCR).")
       "SCR" [],
    enumValue (blk "Singapore Dollars (SGD).")
       "SGD" [],
    enumValue (blk "Sudanese Pound (SDG).")
       "SDG" [],
    enumValue (blk "Syrian Pound (SYP).")
       "SYP" [],
    enumValue (blk "South African Rand (ZAR).")
       "ZAR" [],
    enumValue (blk "South Korean Won (KRW).")
       "KRW" [],
    enumValue (blk "South Sudanese Pound (SSP).")
       "SSP" [],
    enumValue (blk "Solomon Islands Dollar (SBD).")
       "SBD" [],
    enumValue (blk "Sri Lankan Rupees (LKR).")
       "LKR" [],
    enumValue (blk "Surinamese Dollar (SRD).")
       "SRD" [],
    enumValue (blk "Swazi Lilangeni (SZL).")
       "SZL" [],
    enumValue (blk "Swedish Kronor (SEK).")
       "SEK" [],
    enumValue (blk "Swiss Francs (CHF).")
       "CHF" [],
    enumValue (blk "Taiwan Dollars (TWD).")
       "TWD" [],
    enumValue (blk "Thai baht (THB).")
       "THB" [],
    enumValue (blk "Tanzanian Shilling (TZS).")
       "TZS" [],
    enumValue (blk "Trinidad and Tobago Dollars (TTD).")
       "TTD" [],
    enumValue (blk "Tunisian Dinar (TND).")
       "TND" [],
    enumValue (blk "Turkish Lira (TRY).")
       "TRY" [],
    enumValue (blk "Turkmenistani Manat (TMT).")
       "TMT" [],
    enumValue (blk "Ugandan Shilling (UGX).")
       "UGX" [],
    enumValue (blk "Ukrainian Hryvnia (UAH).")
       "UAH" [],
    enumValue (blk "United Arab Emirates Dirham (AED).")
       "AED" [],
    enumValue (blk "Uruguayan Pesos (UYU).")
       "UYU" [],
    enumValue (blk "Uzbekistan som (UZS).")
       "UZS" [],
    enumValue (blk "Vanuatu Vatu (VUV).")
       "VUV" [],
    enumValue (blk "Vietnamese đồng (VND).")
       "VND" [],
    enumValue (blk "West African CFA franc (XOF).")
       "XOF" [],
    enumValue (blk "Yemeni Rial (YER).")
       "YER" [],
    enumValue (blk "Zambian Kwacha (ZMW).")
       "ZMW" [],
    enumValue (blk "Belarusian Ruble (BYN).")
       "BYN" [],
    enumValue (blk "Belarusian Ruble (BYR).")
       "BYR" [],
    enumValue (blk "Djiboutian Franc (DJF).")
       "DJF" [],
    enumValue (blk "Eritrean Nakfa (ERN).")
       "ERN" [],
    enumValue (blk "Falkland Islands Pounds (FKP).")
       "FKP" [],
    enumValue (blk "Gibraltar Pounds (GIP).")
       "GIP" [],
    enumValue (blk "Guinean Franc (GNF).")
       "GNF" [],
    enumValue (blk "Iranian Rial (IRR).")
       "IRR" [],
    enumValue (blk "Kiribati Dollar (KID).")
       "KID" [],
    enumValue (blk "Libyan Dinar (LYD).")
       "LYD" [],
    enumValue (blk "Mauritanian Ouguiya (MRU).")
       "MRU" [],
    enumValue (blk "Sierra Leonean Leone (SLL).")
       "SLL" [],
    enumValue (blk "Saint Helena Pounds (SHP).")
       "SHP" [],
    enumValue (blk "Somali Shilling (SOS).")
       "SOS" [],
    enumValue (blk "Tajikistani Somoni (TJS).")
       "TJS" [],
    enumValue (blk "Tongan Pa'anga (TOP).")
       "TOP" [],
    enumValue (blk "Venezuelan Bolivares (VEF).")
       "VEF" [],
    enumValue (blk "Venezuelan Bolivares (VES).")
       "VES" [],
    enumValue (blk "Unrecognized currency.")
       "XXX" []]

/-- Lines 2485 to 2579 of the module: type Customer. -/
def text.Customer : List String := [
  "\"\"\"",
  "A customer represents a customer account with the shop. Customer accounts store contact information for the customer, saving logged-in customers the trouble of having to provide it at every checkout.",
  "\"\"\"",
  "type Customer implements HasMetafields \x7b",
  "  \"\"\"",
  "  Indicates whether the customer has consented to be sent marketing material via email.",
  "  \"\"\"",
  "  acceptsMarketing: Boolean!",
  "  \"\"\"A list of addresses for the customer.\"\"\"",
  "  addresses(",
  "    \"\"\"Returns up to the first \\`n\\` elements from the list.\"\"\"",
  "    first: Int",
  "    \"\"\"Returns the elements that come after the specified cursor.\"\"\"",
  "    after: String",
  "    \"\"\"Returns up to the last \\`n\\` elements from the list.\"\"\"",
  "    last: Int",
  "    \"\"\"Returns the elements that come before the specified cursor.\"\"\"",
  "    before: String",
  "    \"\"\"Reverse the order of the underlying list.\"\"\"",
  "    reverse: Boolean = false",
  "  ): MailingAddressConnection!",
  "  \"\"\"The date and time when the customer was created.\"\"\"",
  "  createdAt: DateTime!",
  "  \"\"\"The customer’s default address.\"\"\"",
  "  defaultAddress: MailingAddress",
  "  \"\"\"The customer’s name, email or phone number.\"\"\"",
  "  displayName: String!",
  "  \"\"\"The customer’s email address.\"\"\"",
  "  email: String",
  "  \"\"\"The customer’s first name.\"\"\"",
  "  firstName: String",
  "  \"\"\"A unique identifier for the customer.\"\"\"",
  "  id: ID!",
  "  \"\"\"The customer's most recently updated, incomplete checkout.\"\"\"",
  "  lastIncompleteCheckout: Checkout",
  "  \"\"\"The customer’s last name.\"\"\"",
  "  lastName: String",
  "  \"\"\"Returns a metafield found by namespace and key.\"\"\"",
  "  metafield(",
  "    \"\"\"Container for a set of metafields (maximum of 20 characters).\"\"\"",
  "    namespace: String!",
  "    \"\"\"Identifier for the metafield (maximum of 30 characters).\"\"\"",
  "    key: String!",
  "  ): Metafield",
  "  \"\"\"A paginated list of metafields associated with the resource.\"\"\"",
  "  metafields(",
  "    \"\"\"Container for a set of metafields (maximum of 20 characters).\"\"\"",
  "    namespace: String",
  "    \"\"\"Returns up to the first \\`n\\` elements from the list.\"\"\"",
  "    first: Int",
  "    \"\"\"Returns the elements that come after the specified cursor.\"\"\"",
  "    after: String",
  "    \"\"\"Returns up to the last \\`n\\` elements from the list.\"\"\"",
  "    last: Int",
  "    \"\"\"Returns the elements that come before the specified cursor.\"\"\"",
  "    before: String",
  "    \"\"\"Reverse the order of the underlying list.\"\"\"",
  "    reverse: Boolean = false",
  "  ): MetafieldConnection! @deprecated(reason: \"The \\`metafields\\` field will be removed in the future in favor of using [aliases](https://graphql.org/learn/queries/#aliases) with the \\`metafield\\` field.\\n\")",
  "  \"\"\"The orders associated with the customer.\"\"\"",
  "  orders(",
  "    \"\"\"Returns up to the first \\`n\\` elements from the list.\"\"\"",
  "    first: Int",
  "    \"\"\"Returns the elements that come after the specified cursor.\"\"\"",
  "    after: String",
  "    \"\"\"Returns up to the last \\`n\\` elements from the list.\"\"\"",
  "    last: Int",
  "    \"\"\"Returns the elements that come before the specified cursor.\"\"\"",
  "    before: String",
  "    \"\"\"Reverse the order of the underlying list.\"\"\"",
  "    reverse: Boolean = false",
  "    \"\"\"Sort the underlying list by the given key.\"\"\"",
  "    sortKey: OrderSortKeys = ID",
  "    \"\"\"",
  "    Supported filter parameters:",
  "     - \\`processed_at\\`",
  "    ",
  "    See the detailed [search syntax](https://shopify.dev/api/usage/search-syntax)",
  "    for more information about using filters.",
  "    ",
  "    \"\"\"",
  "    query: String",
  "  ): OrderConnection!",
  "  \"\"\"The customer’s phone number.\"\"\"",
  "  phone: String",
  "  \"\"\"",
  "  A comma separated list of tags that have been added to the customer.",
  "  Additional access scope required: unauthenticated_read_customer_tags.",
  "  ",
  "  \"\"\"",
  "  tags: [String!]!",
  "  \"\"\"The date and time when the customer information was updated.\"\"\"",
  "  updatedAt: DateTime!",
  "\x7d",
  ""]

/-- The type Customer declared by lines 2485 to 2579. -/
def Customer : Definition :=
  .objectType (blk "A customer represents a customer account with the shop. Customer accounts store contact information for the customer, saving logged-in customers the trouble of having to provide it at every checkout.")
    "Customer" ["HasMetafields"] [] [
    field (blk "Indicates whether the customer has consented to be sent marketing material via email.")
       "acceptsMarketing" [] (nn (nm "Boolean")) [],
    field (blk "A list of addresses for the customer.")
       "addresses" [
        inputValue (blk "Returns up to the first `n` elements from the list.")
           "first" (nm "Int") none [],
        inputValue (blk "Returns the elements that come after the specified cursor.")
           "after" (nm "String") none [],
        inputValue (blk "Returns up to the last `n` elements from the list.")
           "last" (nm "Int") none [],
        inputValue (blk "Returns the elements that come before the specified cursor.")
           "before" (nm "String") none [],
        inputValue (blk "Reverse the order of the underlying list.")
           "reverse" (nm "Boolean") (some (.boolean false)) []]
       (nn (nm "MailingAddressConnection")) [],
    field (blk "The date and time when the customer was created.")
       "createdAt" [] (nn (nm "DateTime")) [],
    field (blk "The customer’s default address.")
       "defaultAddress" [] (nm "MailingAddress") [],
    field (blk "The customer’s name, email or phone number.")
       "displayName" [] (nn (nm "String")) [],
    field (blk "The customer’s email address.")
       "email" [] (nm "String") [],
    field (blk "The customer’s first name.")
       "firstName" [] (nm "String") [],
    field (blk "A unique identifier for the customer.")
       "id" [] (nn (nm "ID")) [],
    field (blk "The customer's most recently updated, incomplete checkout.")
       "lastIncompleteCheckout" [] (nm "Checkout") [],
    field (blk "The customer’s last name.")
       "lastName" [] (nm "String") [],
    field (blk "Returns a metafield found by namespace and key.")
       "metafield" [
        inputValue (blk "Container for a set of metafields (maximum of 20 characters).")
           "namespace" (nn (nm "String")) none [],
        inputValue (blk "Identifier for the metafield (maximum of 30 characters).")
           "key" (nn (nm "String")) none []]
       (nm "Metafield") [],
    field (blk "A paginated list of metafields associated with the resource.")
       "metafields" [
        inputValue (blk "Container for a set of metafields (maximum of 20 characters).")
           "namespace" (nm "String") none [],
        inputValue (blk "Returns up to the first `n` elements from the list.")
           "first" (nm "Int") none [],
        inputValue (blk "Returns the elements that come after the specified cursor.")
           "after" (nm "String") none [],
        inputValue (blk "Returns up to the last `n` elements from the list.")
           "last" (nm "Int") none [],
        inputValue (blk "Returns the elements that come before the specified cursor.")
           "before" (nm "String") none [],
        inputValue (blk "Reverse the order of the underlying list.")
           "reverse" (nm "Boolean") (some (.boolean false)) []]
       (nn (nm "MetafieldConnection")) [deprecated "The `metafields` field will be removed in the future in favor of using [aliases](https://graphql.org/learn/queries/#aliases) with the `metafield` field.\n"],
    field (blk "The orders associated with the customer.")
       "orders" [
        inputValue (blk "Returns up to the first `n` elements from the list.")
           "first" (nm "Int") none [],
        inputValue (blk "Returns the elements that come after the specified cursor.")
           "after" (nm "String") none [],
        inputValue (blk "Returns up to the last `n` elements from the list.")
           "last" (nm "Int") none [],
        inputValue (blk "Returns the elements that come before the specified cursor.")
           "before" (nm "String") none [],
        inputValue (blk "Reverse the order of the underlying list.")
           "reverse" (nm "Boolean") (some (.boolean false)) [],
        inputValue (blk "Sort the underlying list by the given key.")
           "sortKey" (nm "OrderSortKeys") (some (.enum "ID")) [],
        inputValue (blk "Supported filter parameters:\n - `processed_at`\n\nSee the detailed [search syntax](https://shopify.dev/api/usage/search-syntax)\nfor more information about using filters.")
           "query" (nm "String") none []]
       (nn (nm "OrderConnection")) [],
    field (blk "The customer’s phone number.")
       "phone" [] (nm "String") [],
    field (blk "A comma separated list of tags that have been added to the customer.\nAdditional access scope required: unauthenticated_read_customer_tags.")
       "tags" [] (nn (ls (nn (nm "String")))) [],
    field (blk "The date and time when the customer information was updated.")
       "updatedAt" [] (nn (nm "DateTime")) []]

/-- Lines 2580 to 2589 of the module: type CustomerAccessToken. -/
def text.CustomerAccessToken : List String := [
  "\"\"\"",
  "A CustomerAccessToken represents the unique token required to make modifications to the customer object.",
  "\"\"\"",
  "type CustomerAccessToken \x7b",
  "  \"\"\"The customer’s access token.\"\"\"",
  "  accessToken: String!",
  "  \"\"\"The date and time when the customer access token expires.\"\"\"",
  "  expiresAt: DateTime!",
  "\x7d",
  ""]

/-- The type CustomerAccessToken declared by lines 2580 to 2589. -/
def CustomerAccessToken : Definition :=
  .objectType (blk "A CustomerAccessToken represents the unique token required to make modifications to the customer object.")
    "CustomerAccessToken" [] [] [
    field (blk "The customer’s access token.")
       "accessToken" [] (nn (nm "String")) [],
    field (blk "The date and time when the customer access token expires.")
       "expiresAt" [] (nn (nm "DateTime")) []]

/-- Lines 2590 to 2597 of the module: input CustomerAccessTokenCreateInput. -/
def text.CustomerAccessTokenCreateInput : List String := [
  "\"\"\"Specifies the input fields required to create a customer access token.\"\"\"",
  "input CustomerAccessTokenCreateInput \x7b",
  "  \"\"\"The email associated to the customer.\"\"\"",
  "  email: String!",
  "  \"\"\"The login password to be used by the customer.\"\"\"",
  "  password: String!",
  "\x7d",
  ""]

/-- The input CustomerAccessTokenCreateInput declared by lines 2590 to 2597. -/
def CustomerAccessTokenCreateInput : Definition :=
  .inputObjectType (blk "Specifies the input fields required to create a customer access token.")
    "CustomerAccessTokenCreateInput" [] [
    inputValue (blk "The email associated to the customer.")
       "email" (nn (nm "String")) none [],
    inputValue (blk "The login password to be used by the customer.")
       "password" (nn (nm "String")) none []]

/-- Lines 2598 to 2607 of the module: type CustomerAccessTokenCreatePayload. -/
def text.CustomerAccessTokenCreatePayload : List String := [
  "\"\"\"Return type for \\`customerAccessTokenCreate\\` mutation.\"\"\"",
  "type CustomerAccessTokenCreatePayload \x7b",
  "  \"\"\"The newly created customer access token object.\"\"\"",
  "  customerAccessToken: CustomerAccessToken",
  "  \"\"\"The list of errors that occurred from executing the mutation.\"\"\"",
  "  customerUserErrors: [CustomerUserError!]!",
  "  \"\"\"The list of errors that occurred from executing the mutation.\"\"\"",
  "  userErrors: [UserError!]! @deprecated(reason: \"Use \\`customerUserErrors\\` instead\")",
  "\x7d",
  ""]

/-- The type CustomerAccessTokenCreatePayload declared by lines 2598 to 2607. -/
def CustomerAccessTokenCreatePayload : Definition :=
  .objectType (blk "Return type for `customerAccessTokenCreate` mutation.")
    "CustomerAccessTokenCreatePayload" [] [] [
    field (blk "The newly created customer access token object.")
       "customerAccessToken" [] (nm "CustomerAccessToken") [],
    field (blk "The list of errors that occurred from executing the mutation.")
       "customerUserErrors" [] (nn (ls (nn (nm "CustomerUserError")))) [],
    field (blk "The list of errors that occurred from executing the mutation.")
       "userErrors" [] (nn (ls (nn (nm "UserError")))) [deprecated "Use `customerUserErrors` instead"]]

/-- Lines 2608 to 2615 of the module: type CustomerAccessTokenCreateWithMultipassPayload. -/
def text.CustomerAccessTokenCreateWithMultipassPayload : List String := [
  "\"\"\"Return type for \\`customerAccessTokenCreateWithMultipass\\` mutation.\"\"\"",
  "type CustomerAccessTokenCreateWithMultipassPayload \x7b",
  "  \"\"\"An access token object associated with the customer.\"\"\"",
  "  customerAccessToken: CustomerAccessToken",
  "  \"\"\"The list of errors that occurred from executing the mutation.\"\"\"",
  "  customerUserErrors: [CustomerUserError!]!",
  "\x7d",
  ""]

/-- The type CustomerAccessTokenCreateWithMultipassPayload declared by lines 2608 to 2615. -/
def CustomerAccessTokenCreateWithMultipassPayload : Definition :=
  .objectType (blk "Return type for `customerAccessTokenCreateWithMultipass` mutation.")
    "CustomerAccessTokenCreateWithMultipassPayload" [] [] [
    field (blk "An access token object associated with the customer.")
       "customerAccessToken" [] (nm "CustomerAccessToken") [],
    field (blk "The list of errors that occurred from executing the mutation.")
       "customerUserErrors" [] (nn (ls (nn (nm "CustomerUserError")))) []]

/-- Lines 2616 to 2625 of the module: type CustomerAccessTokenDeletePayload. -/
def text.CustomerAccessTokenDeletePayload : List String := [
  "\"\"\"Return type for \\`customerAccessTokenDelete\\` mutation.\"\"\"",
  "type CustomerAccessTokenDeletePayload \x7b",
  "  \"\"\"The destroyed access token.\"\"\"",
  "  deletedAccessToken: String",
  "  \"\"\"ID of the destroyed customer access token.\"\"\"",
  "  deletedCustomerAccessTokenId: String",
  "  \"\"\"The list of errors that occurred from executing the mutation.\"\"\"",
  "  userErrors: [UserError!]!",
  "\x7d",
  ""]

/-- The type CustomerAccessTokenDeletePayload declared by lines 2616 to 2625. -/
def CustomerAccessTokenDeletePayload : Definition :=
  .objectType (blk "Return type for `customerAccessTokenDelete` mutation.")
    "CustomerAccessTokenDeletePayload" [] [] [
    field (blk "The destroyed access token.")
       "deletedAccessToken" [] (nm "String") [],
    field (blk "ID of the destroyed customer access token.")
       "deletedCustomerAccessTokenId" [] (nm "String") [],
    field (blk "The list of errors that occurred from executing the mutation.")
       "userErrors" [] (nn (ls (nn (nm "UserError")))) []]

/-- Lines 2626 to 2633 of the module: type CustomerAccessTokenRenewPayload. -/
def text.CustomerAccessTokenRenewPayload : List String := [
  "\"\"\"Return type for \\`customerAccessTokenRenew\\` mutation.\"\"\"",
  "type CustomerAccessTokenRenewPayload \x7b",
  "  \"\"\"The renewed customer access token object.\"\"\"",
  "  customerAccessToken: CustomerAccessToken",
  "  \"\"\"The list of errors that occurred from executing the mutation.\"\"\"",
  "  userErrors: [UserError!]!",
  "\x7d",
  ""]

/-- The type CustomerAccessTokenRenewPayload declared by lines 2626 to 2633. -/
def CustomerAccessTokenRenewPayload : Definition :=
  .objectType (blk "Return type for `customerAccessTokenRenew` mutation.")
    "CustomerAccessTokenRenewPayload" [] [] [
    field (blk "The renewed customer access token object.")
       "customerAccessToken" [] (nm "CustomerAccessToken") [],
    field (blk "The list of errors that occurred from executing the mutation.")
       "userErrors" [] (nn (ls (nn (nm "UserError")))) []]

/-- Lines 2634 to 2643 of the module: type CustomerActivateByUrlPayload. -/
def text.CustomerActivateByUrlPayload : List String := [
  "\"\"\"Return type for \\`customerActivateByUrl\\` mutation.\"\"\"",
  "type CustomerActivateByUrlPayload \x7b",
  "  \"\"\"The customer that was activated.\"\"\"",
  "  customer: Customer",
  "  \"\"\"A new customer access token for the customer.\"\"\"",
  "  customerAccessToken: CustomerAccessToken",
  "  \"\"\"The list of errors that occurred from executing the mutation.\"\"\"",
  "  customerUserErrors: [CustomerUserError!]!",
  "\x7d",
  ""]

/-- The type CustomerActivateByUrlPayload declared by lines 2634 to 2643. -/
def CustomerActivateByUrlPayload : Definition :=
  .objectType (blk "Return type for `customerActivateByUrl` mutation.")
    "CustomerActivateByUrlPayload" [] [] [
    field (blk "The customer that was activated.")
       "customer" [] (nm "Customer") [],
    field (blk "A new customer access token for the customer.")
       "customerAccessToken" [] (nm "CustomerAccessToken") [],
    field (blk "The list of errors that occurred from executing the mutation.")
       "customerUserErrors" [] (nn (ls (nn (nm "CustomerUserError")))) []]

/-- Lines 2644 to 2651 of the module: input CustomerActivateInput. -/
def text.CustomerActivateInput : List String := [
  "\"\"\"Specifies the input fields required to activate a customer.\"\"\"",
  "input CustomerActivateInput \x7b",
  "  \"\"\"The activation token required to activate the customer.\"\"\"",
  "  activationToken: String!",
  "  \"\"\"New password that will be set during activation.\"\"\"",
  "  password: String!",
  "\x7d",
  ""]

/-- The input CustomerActivateInput declared by lines 2644 to 2651. -/
def CustomerActivateInput : Definition :=
  .inputObjectType (blk "Specifies the input fields required to activate a customer.")
    "CustomerActivateInput" [] [
    inputValue (blk "The activation token required to activate the customer.")
       "activationToken" (nn (nm "String")) none [],
    inputValue (blk "New password that will be set during activation.")
       "password" (nn (nm "String")) none []]

/-- Lines 2652 to 2663 of the module: type CustomerActivatePayload. -/
def text.CustomerActivatePayload : List String := [
  "\"\"\"Return type for \\`customerActivate\\` mutation.\"\"\"",
  "type CustomerActivatePayload \x7b",
  "  \"\"\"The customer object.\"\"\"",
  "  customer: Customer",
  "  \"\"\"A newly created customer access token object for the customer.\"\"\"",
  "  customerAccessToken: CustomerAccessToken",
  "  \"\"\"The list of errors that occurred from executing the mutation.\"\"\"",
  "  customerUserErrors: [CustomerUserError!]!",
  "  \"\"\"The list of errors that occurred from executing the mutation.\"\"\"",
  "  userErrors: [UserError!]! @deprecated(reason: \"Use \\`customerUserErrors\\` instead\")",
  "\x7d",
  ""]

/-- The type CustomerActivatePayload declared by lines 2652 to 2663. -/
def CustomerActivatePayload : Definition :=
  .objectType (blk "Return type for `customerActivate` mutation.")
    "CustomerActivatePayload" [] [] [
    field (blk "The customer object.")
       "customer" [] (nm "Customer") [],
    field (blk "A newly created customer access token object for the customer.")
       "customerAccessToken" [] (nm "CustomerAccessToken") [],
    field (blk "The list of errors that occurred from executing the mutation.")
       "customerUserErrors" [] (nn (ls (nn (nm "CustomerUserError")))) [],
    field (blk "The list of errors that occurred from executing the mutation.")
       "userErrors" [] (nn (ls (nn (nm "UserError")))) [deprecated "Use `customerUserErrors` instead"]]

/-- Lines 2664 to 2673 of the module: type CustomerAddressCreatePayload. -/
def text.CustomerAddressCreatePayload : List String := [
  "\"\"\"Return type for \\`customerAddressCreate\\` mutation.\"\"\"",
  "type CustomerAddressCreatePayload \x7b",
  "  \"\"\"The new customer address object.\"\"\"",
  "  customerAddress: MailingAddress",
  "  \"\"\"The list of errors that occurred from executing the mutation.\"\"\"",
  "  customerUserErrors: [CustomerUserError!]!",
  "  \"\"\"The list of errors that occurred from executing the mutation.\"\"\"",
  "  userErrors: [UserError!]! @deprecated(reason: \"Use \\`customerUserErrors\\` instead\")",
  "\x7d",
  ""]

/-- The type CustomerAddressCreatePayload declared by lines 2664 to 2673. -/
def CustomerAddressCreatePayload : Definition :=
  .objectType (blk "Return type for `customerAddressCreate` mutation.")
    "CustomerAddressCreatePayload" [] [] [
    field (blk "The new customer address object.")
       "customerAddress" [] (nm "MailingAddress") [],
    field (blk "The list of errors that occurred from executing the mutation.")
       "customerUserErrors" [] (nn (ls (nn (nm "CustomerUserError")))) [],
    field (blk "The list of errors that occurred from executing the mutation.")
       "userErrors" [] (nn (ls (nn (nm "UserError")))) [deprecated "Use `customerUserErrors` instead"]]

/-- Lines 2674 to 2683 of the module: type CustomerAddressDeletePayload. -/
def text.CustomerAddressDeletePayload : List String := [
  "\"\"\"Return type for \\`customerAddressDelete\\` mutation.\"\"\"",
  "type CustomerAddressDeletePayload \x7b",
  "  \"\"\"The list of errors that occurred from executing the mutation.\"\"\"",
  "  customerUserErrors: [CustomerUserError!]!",
  "  \"\"\"ID of the deleted customer address.\"\"\"",
  "  deletedCustomerAddressId: String",
  "  \"\"\"The list of errors that occurred from executing the mutation.\"\"\"",
  "  userErrors: [UserError!]! @deprecated(reason: \"Use \\`customerUserErrors\\` instead\")",
  "\x7d",
  ""]

/-- The type CustomerAddressDeletePayload declared by lines 2674 to 2683. -/
def CustomerAddressDeletePayload : Definition :=
  .objectType (blk "Return type for `customerAddressDelete` mutation.")
    "CustomerAddressDeletePayload" [] [] [
    field (blk "The list of errors that occurred from executing the mutation.")
       "customerUserErrors" [] (nn (ls (nn (nm "CustomerUserError")))) [],
    field (blk "ID of the deleted customer address.")
       "deletedCustomerAddressId" [] (nm "String") [],
    field (blk "The list of errors that occurred from executing the mutation.")
       "userErrors" [] (nn (ls (nn (nm "UserError")))) [deprecated "Use `customerUserErrors` instead"]]

/-- Lines 2684 to 2693 of the module: type CustomerAddressUpdatePayload. -/
def text.CustomerAddressUpdatePayload : List String := [
  "\"\"\"Return type for \\`customerAddressUpdate\\` mutation.\"\"\"",
  "type CustomerAddressUpdatePayload \x7b",
  "  \"\"\"The customer’s updated mailing address.\"\"\"",
  "  customerAddress: MailingAddress",
  "  \"\"\"The list of errors that occurred from executing the mutation.\"\"\"",
  "  customerUserErrors: [CustomerUserError!]!",
  "  \"\"\"The list of errors that occurred from executing the mutation.\"\"\"",
  "  userErrors: [UserError!]! @deprecated(reason: \"Use \\`customerUserErrors\\` instead\")",
  "\x7d",
  ""]

/-- The type CustomerAddressUpdatePayload declared by lines 2684 to 2693. -/
def CustomerAddressUpdatePayload : Definition :=
  .objectType (blk "Return type for `customerAddressUpdate` mutation.")
    "CustomerAddressUpdatePayload" [] [] [
    field (blk "The customer’s updated mailing address.")
       "customerAddress" [] (nm "MailingAddress") [],
    field (blk "The list of errors that occurred from executing the mutation.")
       "customerUserErrors" [] (nn (ls (nn (nm "CustomerUserError")))) [],
    field (blk "The list of errors that occurred from executing the mutation.")
       "userErrors" [] (nn (ls (nn (nm "UserError")))) [deprecated "Use `customerUserErrors` instead"]]

/-- Lines 2694 to 2716 of the module: input CustomerCreateInput. -/
def text.CustomerCreateInput : List String := [
  "\"\"\"The fields required to create a new customer.\"\"\"",
  "input CustomerCreateInput \x7b",
  "  \"\"\"The customer’s first name.\"\"\"",
  "  firstName: String",
  "  \"\"\"The customer’s last name.\"\"\"",
  "  lastName: String",
  "  \"\"\"The customer’s email.\"\"\"",
  "  email: String!",
  "  \"\"\"",
  "  A unique phone number for the customer.",
  "  ",
  "  Formatted using E.164 standard. For example, _+16135551111_.",
  "  ",
  "  \"\"\"",
  "  phone: String",
  "  \"\"\"The login password used by the customer.\"\"\"",
  "  password: String!",
  "  \"\"\"",
  "  Indicates whether the customer has consented to be sent marketing material via email.",
  "  \"\"\"",
  "  acceptsMarketing: Boolean",
  "\x7d",
  ""]

/-- The input CustomerCreateInput declared by lines 2694 to 2716. -/
def CustomerCreateInput : Definition :=
  .inputObjectType (blk "The fields required to create a new customer.")
    "CustomerCreateInput" [] [
    inputValue (blk "The customer’s first name.")
       "firstName" (nm "String") none [],
    inputValue (blk "The customer’s last name.")
       "lastName" (nm "String") none [],
    inputValue (blk "The customer’s email.")
       "email" (nn (nm "String")) none [],
    inputValue (blk "A unique phone number for the customer.\n\nFormatted using E.164 standard. For example, _+16135551111_.")
       "phone" (nm "String") none [],
    inputValue (blk "The login password used by the customer.")
       "password" (nn (nm "String")) none [],
    inputValue (blk "Indicates whether the customer has consented to be sent marketing material via email.")
       "acceptsMarketing" (nm "Boolean") none []]

/-- Lines 2717 to 2726 of the module: type CustomerCreatePayload. -/
def text.CustomerCreatePayload : List String := [
  "\"\"\"Return type for \\`customerCreate\\` mutation.\"\"\"",
  "type CustomerCreatePayload \x7b",
  "  \"\"\"The created customer object.\"\"\"",
  "  customer: Customer",
  "  \"\"\"The list of errors that occurred from executing the mutation.\"\"\"",
  "  customerUserErrors: [CustomerUserError!]!",
  "  \"\"\"The list of errors that occurred from executing the mutation.\"\"\"",
  "  userErrors: [UserError!]! @deprecated(reason: \"Use \\`customerUserErrors\\` instead\")",
  "\x7d",
  ""]

/-- The type CustomerCreatePayload declared by lines 2717 to 2726. -/
def CustomerCreatePayload : Definition :=
  .objectType (blk "Return type for `customerCreate` mutation.")
    "CustomerCreatePayload" [] [] [
    field (blk "The created customer object.")
       "customer" [] (nm "Customer") [],
    field (blk "The list of errors that occurred from executing the mutation.")
       "customerUserErrors" [] (nn (ls (nn (nm "CustomerUserError")))) [],
    field (blk "The list of errors that occurred from executing the mutation.")
       "userErrors" [] (nn (ls (nn (nm "UserError")))) [deprecated "Use `customerUserErrors` instead"]]

/-- Lines 2727 to 2736 of the module: type CustomerDefaultAddressUpdatePayload. -/
def text.CustomerDefaultAddressUpdatePayload : List String := [
  "\"\"\"Return type for \\`customerDefaultAddressUpdate\\` mutation.\"\"\"",
  "type CustomerDefaultAddressUpdatePayload \x7b",
  "  \"\"\"The updated customer object.\"\"\"",
  "  customer: Customer",
  "  \"\"\"The list of errors that occurred from executing the mutation.\"\"\"",
  "  customerUserErrors: [CustomerUserError!]!",
  "  \"\"\"The list of errors that occurred from executing the mutation.\"\"\"",
  "  userErrors: [UserError!]! @deprecated(reason: \"Use \\`customerUserErrors\\` instead\")",
  "\x7d",
  ""]

/-- The type CustomerDefaultAddressUpdatePayload declared by lines 2727 to 2736. -/
def CustomerDefaultAddressUpdatePayload : Definition :=
  .objectType (blk "Return type for `customerDefaultAddressUpdate` mutation.")
    "CustomerDefaultAddressUpdatePayload" [] [] [
    field (blk "The updated customer object.")
       "customer" [] (nm "Customer") [],
    field (blk "The list of errors that occurred from executing the mutation.")
       "customerUserErrors" [] (nn (ls (nn (nm "CustomerUserError")))) [],
    field (blk "The list of errors that occurred from executing the mutation.")
       "userErrors" [] (nn (ls (nn (nm "UserError")))) [deprecated "Use `customerUserErrors` instead"]]

/-- Lines 2737 to 2770 of the module: enum CustomerErrorCode. -/
def text.CustomerErrorCode : List String := [
  "\"\"\"Possible error codes that can be returned by \\`CustomerUserError\\`.\"\"\"",
  "enum CustomerErrorCode \x7b",
  "  \"\"\"The input value is blank.\"\"\"",
  "  BLANK",
  "  \"\"\"The input value is invalid.\"\"\"",
  "  INVALID",
  "  \"\"\"The input value is already taken.\"\"\"",
  "  TAKEN",
  "  \"\"\"The input value is too long.\"\"\"",
  "  TOO_LONG",
  "  \"\"\"The input value is too short.\"\"\"",
  "  TOO_SHORT",
  "  \"\"\"Unidentified customer.\"\"\"",
  "  UNIDENTIFIED_CUSTOMER",
  "  \"\"\"Customer is disabled.\"\"\"",
  "  CUSTOMER_DISABLED",
  "  \"\"\"Input password starts or ends with whitespace.\"\"\"",
  "  PASSWORD_STARTS_OR_ENDS_WITH_WHITESPACE",
  "  \"\"\"Input contains HTML tags.\"\"\"",
  "  CONTAINS_HTML_TAGS",
  "  \"\"\"Input contains URL.\"\"\"",
  "  CONTAINS_URL",
  "  \"\"\"Invalid activation token.\"\"\"",
  "  TOKEN_INVALID",
  "  \"\"\"Customer already enabled.\"\"\"",
  "  ALREADY_ENABLED",
  "  \"\"\"Address does not exist.\"\"\"",
  "  NOT_FOUND",
  "  \"\"\"Input email contains an invalid domain name.\"\"\"",
  "  BAD_DOMAIN",
  "  \"\"\"Multipass token is not valid.\"\"\"",
  "  INVALID_MULTIPASS_REQUEST",
  "\x7d",
  ""]

/-- The enum CustomerErrorCode declared by lines 2737 to 2770. -/
def CustomerErrorCode : Definition :=
  .enumType (blk "Possible error codes that can be returned by `CustomerUserError`.")
    "CustomerErrorCode" [] [
    enumValue (blk "The input value is blank.")
       "BLANK" [],
    enumValue (blk "The input value is invalid.")
       "INVALID" [],
    enumValue (blk "The input value is already taken.")
       "TAKEN" [],
    enumValue (blk "The input value is too long.")
       "TOO_LONG" [],
    enumValue (blk "The input value is too short.")
       "TOO_SHORT" [],
    enumValue (blk "Unidentified customer.")
       "UNIDENTIFIED_CUSTOMER" [],
    enumValue (blk "Customer is disabled.")
       "CUSTOMER_DISABLED" [],
    enumValue (blk "Input password starts or ends with whitespace.")
       "PASSWORD_STARTS_OR_ENDS_WITH_WHITESPACE" [],
    enumValue (blk "Input contains HTML tags.")
       "CONTAINS_HTML_TAGS" [],
    enumValue (blk "Input contains URL.")
       "CONTAINS_URL" [],
    enumValue (blk "Invalid activation token.")
       "TOKEN_INVALID" [],
    enumValue (blk "Customer already enabled.")
       "ALREADY_ENABLED" [],
    enumValue (blk "Address does not exist.")
       "NOT_FOUND" [],
    enumValue (blk "Input email contains an invalid domain name.")
       "BAD_DOMAIN" [],
    enumValue (blk "Multipass token is not valid.")
       "INVALID_MULTIPASS_REQUEST" []]

/-- Lines 2771 to 2778 of the module: type CustomerRecoverPayload. -/
def text.CustomerRecoverPayload : List String := [
  "\"\"\"Return type for \\`customerRecover\\` mutation.\"\"\"",
  "type CustomerRecoverPayload \x7b",
  "  \"\"\"The list of errors that occurred from executing the mutation.\"\"\"",
  "  customerUserErrors: [CustomerUserError!]!",
  "  \"\"\"The list of errors that occurred from executing the mutation.\"\"\"",
  "  userErrors: [UserError!]! @deprecated(reason: \"Use \\`customerUserErrors\\` instead\")",
  "\x7d",
  ""]

/-- The type CustomerRecoverPayload declared by lines 2771 to 2778. -/
def CustomerRecoverPayload : Definition :=
  .objectType (blk "Return type for `customerRecover` mutation.")
    "CustomerRecoverPayload" [] [] [
    field (blk "The list of errors that occurred from executing the mutation.")
       "customerUserErrors" [] (nn (ls (nn (nm "CustomerUserError")))) [],
    field (blk "The list of errors that occurred from executing the mutation.")
       "userErrors" [] (nn (ls (nn (nm "UserError")))) [deprecated "Use `customerUserErrors` instead"]]

/-- Lines 2779 to 2790 of the module: type CustomerResetByUrlPayload. -/
def text.CustomerResetByUrlPayload : List String := [
  "\"\"\"Return type for \\`customerResetByUrl\\` mutation.\"\"\"",
  "type CustomerResetByUrlPayload \x7b",
  "  \"\"\"The customer object which was reset.\"\"\"",
  "  customer: Customer",
  "  \"\"\"A newly created customer access token object for the customer.\"\"\"",
  "  customerAccessToken: CustomerAccessToken",
  "  \"\"\"The list of errors that occurred from executing the mutation.\"\"\"",
  "  customerUserErrors: [CustomerUserError!]!",
  "  \"\"\"The list of errors that occurred from executing the mutation.\"\"\"",
  "  userErrors: [UserError!]! @deprecated(reason: \"Use \\`customerUserErrors\\` instead\")",
  "\x7d",
  ""]

/-- The type CustomerResetByUrlPayload declared by lines 2779 to 2790. -/
def CustomerResetByUrlPayload : Definition :=
  .objectType (blk "Return type for `customerResetByUrl` mutation.")
    "CustomerResetByUrlPayload" [] [] [
    field (blk "The customer object which was reset.")
       "customer" [] (nm "Customer") [],
    field (blk "A newly created customer access token object for the customer.")
       "customerAccessToken" [] (nm "CustomerAccessToken") [],
    field (blk "The list of errors that occurred from executing the mutation.")
       "customerUserErrors" [] (nn (ls (nn (nm "CustomerUserError")))) [],
    field (blk "The list of errors that occurred from executing the mutation.")
       "userErrors" [] (nn (ls (nn (nm "UserError")))) [deprecated "Use `customerUserErrors` instead"]]

/-- Lines 2791 to 2798 of the module: input CustomerResetInput. -/
def text.CustomerResetInput : List String := [
  "\"\"\"Specifies the fields required to reset a customer’s password.\"\"\"",
  "input CustomerResetInput \x7b",
  "  \"\"\"The reset token required to reset the customer’s password.\"\"\"",
  "  resetToken: String!",
  "  \"\"\"New password that will be set as part of the reset password process.\"\"\"",
  "  password: String!",
  "\x7d",
  ""]

/-- The input CustomerResetInput declared by lines 2791 to 2798. -/
def CustomerResetInput : Definition :=
  .inputObjectType (blk "Specifies the fields required to reset a customer’s password.")
    "CustomerResetInput" [] [
    inputValue (blk "The reset token required to reset the customer’s password.")
       "resetToken" (nn (nm "String")) none [],
    inputValue (blk "New password that will be set as part of the reset password process.")
       "password" (nn (nm "String")) none []]

/-- Lines 2799 to 2810 of the module: type CustomerResetPayload. -/
def text.CustomerResetPayload : List String := [
  "\"\"\"Return type for \\`customerReset\\` mutation.\"\"\"",
  "type CustomerResetPayload \x7b",
  "  \"\"\"The customer object which was reset.\"\"\"",
  "  customer: Customer",
  "  \"\"\"A newly created customer access token object for the customer.\"\"\"",
  "  customerAccessToken: CustomerAccessToken",
  "  \"\"\"The list of errors that occurred from executing the mutation.\"\"\"",
  "  customerUserErrors: [CustomerUserError!]!",
  "  \"\"\"The list of errors that occurred from executing the mutation.\"\"\"",
  "  userErrors: [UserError!]! @deprecated(reason: \"Use \\`customerUserErrors\\` instead\")",
  "\x7d",
  ""]

/-- The type CustomerResetPayload declared by lines 2799 to 2810. -/
def CustomerResetPayload : Definition :=
  .objectType (blk "Return type for `customerReset` mutation.")
    "CustomerResetPayload" [] [] [
    field (blk "The customer object which was reset.")
       "customer" [] (nm "Customer") [],
    field (blk "A newly created customer access token object for the customer.")
       "customerAccessToken" [] (nm "CustomerAccessToken") [],
    field (blk "The list of errors that occurred from executing the mutation.")
       "customerUserErrors" [] (nn (ls (nn (nm "CustomerUserError")))) [],
    field (blk "The list of errors that occurred from executing the mutation.")
       "userErrors" [] (nn (ls (nn (nm "UserError")))) [deprecated "Use `customerUserErrors` instead"]]

/-- Lines 2811 to 2833 of the module: input CustomerUpdateInput. -/
def text.CustomerUpdateInput : List String := [
  "\"\"\"Specifies the fields required to update the Customer information.\"\"\"",
  "input CustomerUpdateInput \x7b",
  "  \"\"\"The customer’s first name.\"\"\"",
  "  firstName: String",
  "  \"\"\"The customer’s last name.\"\"\"",
  "  lastName: String",
  "  \"\"\"The customer’s email.\"\"\"",
  "  email: String",
  "  \"\"\"",
  "  A unique phone number for the customer.",
  "  ",
  "  Formatted using E.164 standard. For example, _+16135551111_. To remove the phone number, specify \\`null\\`.",
  "  ",
  "  \"\"\"",
  "  phone: String",
  "  \"\"\"The login password used by the customer.\"\"\"",
  "  password: String",
  "  \"\"\"",
  "  Indicates whether the customer has consented to be sent marketing material via email.",
  "  \"\"\"",
  "  acceptsMarketing: Boolean",
  "\x7d",
  ""]

/-- The input CustomerUpdateInput declared by lines 2811 to 2833. -/
def CustomerUpdateInput : Definition :=
  .inputObjectType (blk "Specifies the fields required to update the Customer information.")
    "CustomerUpdateInput" [] [
    inputValue (blk "The customer’s first name.")
       "firstName" (nm "String") none [],
    inputValue (blk "The customer’s last name.")
       "lastName" (nm "String") none [],
    inputValue (blk "The customer’s email.")
       "email" (nm "String") none [],
    inputValue (blk "A unique phone number for the customer.\n\nFormatted using E.164 standard. For example, _+16135551111_. To remove the phone number, specify `null`.")
       "phone" (nm "String") none [],
    inputValue (blk "The login password used by the customer.")
       "password" (nm "String") none [],
    inputValue (blk "Indicates whether the customer has consented to be sent marketing material via email.")
       "acceptsMarketing" (nm "Boolean") none []]

/-- Lines 2834 to 2849 of the module: type CustomerUpdatePayload. -/
def text.CustomerUpdatePayload : List String := [
  "\"\"\"Return type for \\`customerUpdate\\` mutation.\"\"\"",
  "type CustomerUpdatePayload \x7b",
  "  \"\"\"The updated customer object.\"\"\"",
  "  customer: Customer",
  "  \"\"\"",
  "  The newly created customer access token. If the customer's password is updated, all previous access tokens",
  "  (including the one used to perform this mutation) become invalid, and a new token is generated.",
  "  ",
  "  \"\"\"",
  "  customerAccessToken: CustomerAccessToken",
  "  \"\"\"The list of errors that occurred from executing the mutation.\"\"\"",
  "  customerUserErrors: [CustomerUserError!]!",
  "  \"\"\"The list of errors that occurred from executing the mutation.\"\"\"",
  "  userErrors: [UserError!]! @deprecated(reason: \"Use \\`customerUserErrors\\` instead\")",
  "\x7d",
  ""]

/-- The type CustomerUpdatePayload declared by lines 2834 to 2849. -/
def CustomerUpdatePayload : Definition :=
  .objectType (blk "Return type for `customerUpdate` mutation.")
    "CustomerUpdatePayload" [] [] [
    field (blk "The updated customer object.")
       "customer" [] (nm "Customer") [],
    field (blk "The newly created customer access token. If the customer's password is updated, all previous access tokens\n(including the one used to perform this mutation) become invalid, and a new token is generated.")
       "customerAccessToken" [] (nm "CustomerAccessToken") [],
    field (blk "The list of errors that occurred from executing the mutation.")
       "customerUserErrors" [] (nn (ls (nn (nm "CustomerUserError")))) [],
    field (blk "The list of errors that occurred from executing the mutation.")
       "userErrors" [] (nn (ls (nn (nm "UserError")))) [deprecated "Use `customerUserErrors` instead"]]

/-- Lines 2850 to 2861 of the module: type CustomerUserError. -/
def text.CustomerUserError : List String := [
  "\"\"\"",
  "Represents an error that happens during execution of a customer mutation.",
  "\"\"\"",
  "type CustomerUserError implements DisplayableError \x7b",
  "  \"\"\"The error code.\"\"\"",
  "  code: CustomerErrorCode",
  "  \"\"\"The path to the input field that caused the error.\"\"\"",
  "  field: [String!]",
  "  \"\"\"The error message.\"\"\"",
  "  message: String!",
  "\x7d",
  ""]

/-- The type CustomerUserError declared by lines 2850 to 2861. -/
def CustomerUserError : Definition :=
  .objectType (blk "Represents an error that happens during execution of a customer mutation.")
    "CustomerUserError" ["DisplayableError"] [] [
    field (blk "The error code.")
       "code" [] (nm "CustomerErrorCode") [],
    field (blk "The path to the input field that caused the error.")
       "field" [] (ls (nn (nm "String"))) [],
    field (blk "The error message.")
       "message" [] (nn (nm "String")) []]

/-- Lines 2862 to 2869 of the module: scalar DateTime. -/
def text.DateTime : List String := [
  "\"\"\"",
  "Represents an [ISO 8601](https://en.wikipedia.org/wiki/ISO_8601)-encoded date and time string.",
  "For example, 3:30 pm on September 7, 2019 in the time zone of UTC (Coordinated Universal Time) is",
  "represented as \\`\"2019-09-07T15:50:00Z\\`\".",
  "",
  "\"\"\"",
  "scalar DateTime",
  ""]

/-- The scalar DateTime declared by lines 2862 to 2869. -/
def DateTime : Definition :=
  .scalarType (blk "Represents an [ISO 8601](https://en.wikipedia.org/wiki/ISO_8601)-encoded date and time string.\nFor example, 3:30 pm on September 7, 2019 in the time zone of UTC (Coordinated Universal Time) is\nrepresented as `\"2019-09-07T15:50:00Z`\".")
    "DateTime" []

/-- Lines 2870 to 2877 of the module: scalar Decimal. -/
def text.Decimal : List String := [
  "\"\"\"",
  "A signed decimal number, which supports arbitrary precision and is serialized as a string.",
  "",
  "Example values: \\`\"29.99\"\\`, \\`\"29.999\"\\`.",
  "",
  "\"\"\"",
  "scalar Decimal",
  ""]

/-- The scalar Decimal declared by lines 2870 to 2877. -/
def Decimal : Definition :=
  .scalarType (blk "A signed decimal number, which supports arbitrary precision and is serialized as a string.\n\nExample values: `\"29.99\"`, `\"29.999\"`.")
    "Decimal" []

/-- Lines 2878 to 2893 of the module: enum DigitalWallet. -/
def text.DigitalWallet : List String := [
  "\"\"\"",
  "Digital wallet, such as Apple Pay, which can be used for accelerated checkouts.",
  "\"\"\"",
  "enum DigitalWallet \x7b",
  "  \"\"\"Apple Pay.\"\"\"",
  "  APPLE_PAY",
  "  \"\"\"Android Pay.\"\"\"",
  "  ANDROID_PAY",
  "  \"\"\"Google Pay.\"\"\"",
  "  GOOGLE_PAY",
  "  \"\"\"Shopify Pay.\"\"\"",
  "  SHOPIFY_PAY",
  "  \"\"\"Facebook Pay.\"\"\"",
  "  FACEBOOK_PAY",
  "\x7d",
  ""]

/-- The enum DigitalWallet declared by lines 2878 to 2893. -/
def DigitalWallet : Definition :=
  .enumType (blk "Digital wallet, such as Apple Pay, which can be used for accelerated checkouts.")
    "DigitalWallet" [] [
    enumValue (blk "Apple Pay.")
       "APPLE_PAY" [],
    enumValue (blk "Android Pay.")
       "ANDROID_PAY" [],
    enumValue (blk "Google Pay.")
       "GOOGLE_PAY" [],
    enumValue (blk "Shopify Pay.")
       "SHOPIFY_PAY" [],
    enumValue (blk "Facebook Pay.")
       "FACEBOOK_PAY" []]

/-- Lines 2894 to 2904 of the module: type DiscountAllocation. -/
def text.DiscountAllocation : List String := [
  "\"\"\"",
  "An amount discounting the line that has been allocated by a discount.",
  "",
  "\"\"\"",
  "type DiscountAllocation \x7b",
  "  \"\"\"Amount of discount allocated.\"\"\"",
  "  allocatedAmount: MoneyV2!",
  "  \"\"\"The discount this allocated amount originated from.\"\"\"",
  "  discountApplication: DiscountApplication!",
  "\x7d",
  ""]

/-- The type DiscountAllocation declared by lines 2894 to 2904. -/
def DiscountAllocation : Definition :=
  .objectType (blk "An amount discounting the line that has been allocated by a discount.")
    "DiscountAllocation" [] [] [
    field (blk "Amount of discount allocated.")
       "allocatedAmount" [] (nn (nm "MoneyV2")) [],
    field (blk "The discount this allocated amount originated from.")
       "discountApplication" [] (nn (nm "DiscountApplication")) []]

/-- Lines 2905 to 2922 of the module: interface DiscountApplication. -/
def text.DiscountApplication : List String := [
  "\"\"\"",
  "Discount applications capture the intentions of a discount source at",
  "the time of application.",
  "",
  "\"\"\"",
  "interface DiscountApplication \x7b",
  "  \"\"\"",
  "  The method by which the discount's value is allocated to its entitled items.",
  "  \"\"\"",
  "  allocationMethod: DiscountApplicationAllocationMethod!",
  "  \"\"\"Which lines of targetType that the discount is allocated over.\"\"\"",
  "  targetSelection: DiscountApplicationTargetSelection!",
  "  \"\"\"The type of line that the discount is applicable towards.\"\"\"",
  "  targetType: DiscountApplicationTargetType!",
  "  \"\"\"The value of the discount application.\"\"\"",
  "  value: PricingValue!",
  "\x7d",
  ""]

/-- The interface DiscountApplication declared by lines 2905 to 2922. -/
def DiscountApplication : Definition :=
  .interfaceType (blk "Discount applications capture the intentions of a discount source at\nthe time of application.")
    "DiscountApplication" [] [] [
    field (blk "The method by which the discount's value is allocated to its entitled items.")
       "allocationMethod" [] (nn (nm "DiscountApplicationAllocationMethod")) [],
    field (blk "Which lines of targetType that the discount is allocated over.")
       "targetSelection" [] (nn (nm "DiscountApplicationTargetSelection")) [],
    field (blk "The type of line that the discount is applicable towards.")
       "targetType" [] (nn (nm "DiscountApplicationTargetType")) [],
    field (blk "The value of the discount application.")
       "value" [] (nn (nm "PricingValue")) []]

/-- Lines 2923 to 2934 of the module: enum DiscountApplicationAllocationMethod. -/
def text.DiscountApplicationAllocationMethod : List String := [
  "\"\"\"",
  "The method by which the discount's value is allocated onto its entitled lines.",
  "\"\"\"",
  "enum DiscountApplicationAllocationMethod \x7b",
  "  \"\"\"The value is spread across all entitled lines.\"\"\"",
  "  ACROSS",
  "  \"\"\"The value is applied onto every entitled line.\"\"\"",
  "  EACH",
  "  \"\"\"The value is specifically applied onto a particular line.\"\"\"",
  "  ONE",
  "\x7d",
  ""]

/-- The enum DiscountApplicationAllocationMethod declared by lines 2923 to 2934. -/
def DiscountApplicationAllocationMethod : Definition :=
  .enumType (blk "The method by which the discount's value is allocated onto its entitled lines.")
    "DiscountApplicationAllocationMethod" [] [
    enumValue (blk "The value is spread across all entitled lines.")
       "ACROSS" [],
    enumValue (blk "The value is applied onto every entitled line.")
       "EACH" [],
    enumValue (blk "The value is specifically applied onto a particular line.")
       "ONE" []]

/-- Lines 2935 to 2945 of the module: type DiscountApplicationConnection. -/
def text.DiscountApplicationConnection : List String := [
  "\"\"\"",
  "An auto-generated type for paginating through multiple DiscountApplications.",
  "",
  "\"\"\"",
  "type DiscountApplicationConnection \x7b",
  "  \"\"\"A list of edges.\"\"\"",
  "  edges: [DiscountApplicationEdge!]!",
  "  \"\"\"Information to aid in pagination.\"\"\"",
  "  pageInfo: PageInfo!",
  "\x7d",
  ""]

/-- The type DiscountApplicationConnection declared by lines 2935 to 2945. -/
def DiscountApplicationConnection : Definition :=
  .objectType (blk "An auto-generated type for paginating through multiple DiscountApplications.")
    "DiscountApplicationConnection" [] [] [
    field (blk "A list of edges.")
       "edges" [] (nn (ls (nn (nm "DiscountApplicationEdge")))) [],
    field (blk "Information to aid in pagination.")
       "pageInfo" [] (nn (nm "PageInfo")) []]

/-- Lines 2946 to 2956 of the module: type DiscountApplicationEdge. -/
def text.DiscountApplicationEdge : List String := [
  "\"\"\"",
  "An auto-generated type which holds one DiscountApplication and a cursor during pagination.",
  "",
  "\"\"\"",
  "type DiscountApplicationEdge \x7b",
  "  \"\"\"A cursor for use in pagination.\"\"\"",
  "  cursor: String!",
  "  \"\"\"The item at the end of DiscountApplicationEdge.\"\"\"",
  "  node: DiscountApplication!",
  "\x7d",
  ""]

/-- The type DiscountApplicationEdge declared by lines 2946 to 2956. -/
def DiscountApplicationEdge : Definition :=
  .objectType (blk "An auto-generated type which holds one DiscountApplication and a cursor during pagination.")
    "DiscountApplicationEdge" [] [] [
    field (blk "A cursor for use in pagination.")
       "cursor" [] (nn (nm "String")) [],
    field (blk "The item at the end of DiscountApplicationEdge.")
       "node" [] (nn (nm "DiscountApplication")) []]

/-- Lines 2957 to 2970 of the module: enum DiscountApplicationTargetSelection. -/
def text.DiscountApplicationTargetSelection : List String := [
  "\"\"\"",
  "Which lines on the order that the discount is allocated over, of the type",
  "defined by the Discount Application's target_type.",
  "",
  "\"\"\"",
  "enum DiscountApplicationTargetSelection \x7b",
  "  \"\"\"The discount is allocated onto all the lines.\"\"\"",
  "  ALL",
  "  \"\"\"The discount is allocated onto only the lines it is entitled for.\"\"\"",
  "  ENTITLED",
  "  \"\"\"The discount is allocated onto explicitly chosen lines.\"\"\"",
  "  EXPLICIT",
  "\x7d",
  ""]

/-- The enum DiscountApplicationTargetSelection declared by lines 2957 to 2970. -/
def DiscountApplicationTargetSelection : Definition :=
  .enumType (blk "Which lines on the order that the discount is allocated over, of the type\ndefined by the Discount Application's target_type.")
    "DiscountApplicationTargetSelection" [] [
    enumValue (blk "The discount is allocated onto all the lines.")
       "ALL" [],
    enumValue (blk "The discount is allocated onto only the lines it is entitled for.")
       "ENTITLED" [],
    enumValue (blk "The discount is allocated onto explicitly chosen lines.")
       "EXPLICIT" []]

/-- Lines 2971 to 2981 of the module: enum DiscountApplicationTargetType. -/
def text.DiscountApplicationTargetType : List String := [
  "\"\"\"",
  "The type of line (i.e. line item or shipping line) on an order that the discount is applicable towards.",
  "",
  "\"\"\"",
  "enum DiscountApplicationTargetType \x7b",
  "  \"\"\"The discount applies onto line items.\"\"\"",
  "  LINE_ITEM",
  "  \"\"\"The discount applies onto shipping lines.\"\"\"",
  "  SHIPPING_LINE",
  "\x7d",
  ""]

/-- The enum DiscountApplicationTargetType declared by lines 2971 to 2981. -/
def DiscountApplicationTargetType : Definition :=
  .enumType (blk "The type of line (i.e. line item or shipping line) on an order that the discount is applicable towards.")
    "DiscountApplicationTargetType" [] [
    enumValue (blk "The discount applies onto line items.")
       "LINE_ITEM" [],
    enumValue (blk "The discount applies onto shipping lines.")
       "SHIPPING_LINE" []]

/-- Lines 2982 to 3005 of the module: type DiscountCodeApplication. -/
def text.DiscountCodeApplication : List String := [
  "\"\"\"",
  "Discount code applications capture the intentions of a discount code at",
  "the time that it is applied.",
  "",
  "\"\"\"",
  "type DiscountCodeApplication implements DiscountApplication \x7b",
  "  \"\"\"",
  "  The method by which the discount's value is allocated to its entitled items.",
  "  \"\"\"",
  "  allocationMethod: DiscountApplicationAllocationMethod!",
  "  \"\"\"Specifies whether the discount code was applied successfully.\"\"\"",
  "  applicable: Boolean!",
  "  \"\"\"",
  "  The string identifying the discount code that was used at the time of application.",
  "  \"\"\"",
  "  code: String!",
  "  \"\"\"Which lines of targetType that the discount is allocated over.\"\"\"",
  "  targetSelection: DiscountApplicationTargetSelection!",
  "  \"\"\"The type of line that the discount is applicable towards.\"\"\"",
  "  targetType: DiscountApplicationTargetType!",
  "  \"\"\"The value of the discount application.\"\"\"",
  "  value: PricingValue!",
  "\x7d",
  ""]

/-- The type DiscountCodeApplication declared by lines 2982 to 3005. -/
def DiscountCodeApplication : Definition :=
  .objectType (blk "Discount code applications capture the intentions of a discount code at\nthe time that it is applied.")
    "DiscountCodeApplication" ["DiscountApplication"] [] [
    field (blk "The method by which the discount's value is allocated to its entitled items.")
       "allocationMethod" [] (nn (nm "DiscountApplicationAllocationMethod")) [],
    field (blk "Specifies whether the discount code was applied successfully.")
       "applicable" [] (nn (nm "Boolean")) [],
    field (blk "The string identifying the discount code that was used at the time of application.")
       "code" [] (nn (nm "String")) [],
    field (blk "Which lines of targetType that the discount is allocated over.")
       "targetSelection" [] (nn (nm "DiscountApplicationTargetSelection")) [],
    field (blk "The type of line that the discount is applicable towards.")
       "targetType" [] (nn (nm "DiscountApplicationTargetType")) [],
    field (blk "The value of the discount application.")
       "value" [] (nn (nm "PricingValue")) []]

/-- Lines 3006 to 3013 of the module: interface DisplayableError. -/
def text.DisplayableError : List String := [
  "\"\"\"Represents an error in the input of a mutation.\"\"\"",
  "interface DisplayableError \x7b",
  "  \"\"\"The path to the input field that caused the error.\"\"\"",
  "  field: [String!]",
  "  \"\"\"The error message.\"\"\"",
  "  message: String!",
  "\x7d",
  ""]

/-- The interface DisplayableError declared by lines 3006 to 3013. -/
def DisplayableError : Definition :=
  .interfaceType (blk "Represents an error in the input of a mutation.")
    "DisplayableError" [] [] [
    field (blk "The path to the input field that caused the error.")
       "field" [] (ls (nn (nm "String"))) [],
    field (blk "The error message.")
       "message" [] (nn (nm "String")) []]

/-- Lines 3014 to 3023 of the module: type Domain. -/
def text.Domain : List String := [
  "\"\"\"Represents a web address.\"\"\"",
  "type Domain \x7b",
  "  \"\"\"The host name of the domain (eg: \\`example.com\\`).\"\"\"",
  "  host: String!",
  "  \"\"\"Whether SSL is enabled or not.\"\"\"",
  "  sslEnabled: Boolean!",
  "  \"\"\"The URL of the domain (eg: \\`https://example.com\\`).\"\"\"",
  "  url: URL!",
  "\x7d",
  ""]

/-- The type Domain declared by lines 3014 to 3023. -/
def Domain : Definition :=
  .objectType (blk "Represents a web address.")
    "Domain" [] [] [
    field (blk "The host name of the domain (eg: `example.com`).")
       "host" [] (nn (nm "String")) [],
    field (blk "Whether SSL is enabled or not.")
       "sslEnabled" [] (nn (nm "Boolean")) [],
    field (blk "The URL of the domain (eg: `https://example.com`).")
       "url" [] (nn (nm "URL")) []]

/-- Lines 3024 to 3043 of the module: type ExternalVideo. -/
def text.ExternalVideo : List String := [
  "\"\"\"Represents a video hosted outside of Shopify.\"\"\"",
  "type ExternalVideo implements Node & Media \x7b",
  "  \"\"\"A word or phrase to share the nature or contents of a media.\"\"\"",
  "  alt: String",
  "  \"\"\"The embed URL of the video for the respective host.\"\"\"",
  "  embedUrl: URL!",
  "  \"\"\"The URL.\"\"\"",
  "  embeddedUrl: URL! @deprecated(reason: \"Use \\`originUrl\\` instead\")",
  "  \"\"\"The host of the external video.\"\"\"",
  "  host: MediaHost!",
  "  \"\"\"A globally-unique identifier.\"\"\"",
  "  id: ID!",
  "  \"\"\"The media content type.\"\"\"",
  "  mediaContentType: MediaContentType!",
  "  \"\"\"The origin URL of the video on the respective host.\"\"\"",
  "  originUrl: URL!",
  "  \"\"\"The preview image for the media.\"\"\"",
  "  previewImage: Image",
  "\x7d",
  ""]

/-- The type ExternalVideo declared by lines 3024 to 3043. -/
def ExternalVideo : Definition :=
  .objectType (blk "Represents a video hosted outside of Shopify.")
    "ExternalVideo" ["Node", "Media"] [] [
    field (blk "A word or phrase to share the nature or contents of a media.")
       "alt" [] (nm "String") [],
    field (blk "The embed URL of the video for the respective host.")
       "embedUrl" [] (nn (nm "URL")) [],
    field (blk "The URL.")
       "embeddedUrl" [] (nn (nm "URL")) [deprecated "Use `originUrl` instead"],
    field (blk "The host of the external video.")
       "host" [] (nn (nm "MediaHost")) [],
    field (blk "A globally-unique identifier.")
       "id" [] (nn (nm "ID")) [],
    field (blk "The media content type.")
       "mediaContentType" [] (nn (nm "MediaContentType")) [],
    field (blk "The origin URL of the video on the respective host.")
       "originUrl" [] (nn (nm "URL")) [],
    field (blk "The preview image for the media.")
       "previewImage" [] (nm "Image") []]

/-- Lines 3044 to 3055 of the module: type Filter. -/
def text.Filter : List String := [
  "\"\"\"A filter that is supported on the parent field.\"\"\"",
  "type Filter \x7b",
  "  \"\"\"A unique identifier.\"\"\"",
  "  id: String!",
  "  \"\"\"A human-friendly string for this filter.\"\"\"",
  "  label: String!",
  "  \"\"\"An enumeration that denotes the type of data this filter represents.\"\"\"",
  "  type: FilterType!",
  "  \"\"\"The list of values for this filter.\"\"\"",
  "  values: [FilterValue!]!",
  "\x7d",
  ""]

/-- The type Filter declared by lines 3044 to 3055. -/
def Filter : Definition :=
  .objectType (blk "A filter that is supported on the parent field.")
    "Filter" [] [] [
    field (blk "A unique identifier.")
       "id" [] (nn (nm "String")) [],
    field (blk "A human-friendly string for this filter.")
       "label" [] (nn (nm "String")) [],
    field (blk "An enumeration that denotes the type of data this filter represents.")
       "type" [] (nn (nm "FilterType")) [],
    field (blk "The list of values for this filter.")
       "values" [] (nn (ls (nn (nm "FilterValue")))) []]

/-- Lines 3056 to 3063 of the module: enum FilterType. -/
def text.FilterType : List String := [
  "\"\"\"Denotes the type of data this filter group represents.\"\"\"",
  "enum FilterType \x7b",
  "  \"\"\"A list of selectable values.\"\"\"",
  "  LIST",
  "  \"\"\"A range of prices.\"\"\"",
  "  PRICE_RANGE",
  "\x7d",
  ""]

/-- The enum FilterType declared by lines 3056 to 3063. -/
def FilterType : Definition :=
  .enumType (blk "Denotes the type of data this filter group represents.")
    "FilterType" [] [
    enumValue (blk "A list of selectable values.")
       "LIST" [],
    enumValue (blk "A range of prices.")
       "PRICE_RANGE" []]

/-- Lines 3064 to 3080 of the module: type FilterValue. -/
def text.FilterValue : List String := [
  "\"\"\"A selectable value within a filter.\"\"\"",
  "type FilterValue \x7b",
  "  \"\"\"The number of results that match this filter value.\"\"\"",
  "  count: Int!",
  "  \"\"\"A unique identifier.\"\"\"",
  "  id: String!",
  "  \"\"\"",
  "  An input object that can be used to filter by this value on the parent field.",
  "  ",
  "  The value is provided as a helper for building dynamic filtering UI. For example, if you have a list of selected \\`FilterValue\\` objects, you can combine their respective \\`input\\` values to use in a subsequent query.",
  "  ",
  "  \"\"\"",
  "  input: JSON!",
  "  \"\"\"A human-friendly string for this filter value.\"\"\"",
  "  label: String!",
  "\x7d",
  ""]

/-- The type FilterValue declared by lines 3064 to 3080. -/
def FilterValue : Definition :=
  .objectType (blk "A selectable value within a filter.")
    "FilterValue" [] [] [
    field (blk "The number of results that match this filter value.")
       "count" [] (nn (nm "Int")) [],
    field (blk "A unique identifier.")
       "id" [] (nn (nm "String")) [],
    field (blk "An input object that can be used to filter by this value on the parent field.\n\nThe value is provided as a helper for building dynamic filtering UI. For example, if you have a list of selected `FilterValue` objects, you can combine their respective `input` values to use in a subsequent query.")
       "input" [] (nn (nm "JSON")) [],
    field (blk "A human-friendly string for this filter value.")
       "label" [] (nn (nm "String")) []]

/-- Lines 3081 to 3108 of the module: type Fulfillment. -/
def text.Fulfillment : List String := [
  "\"\"\"Represents a single fulfillment in an order.\"\"\"",
  "type Fulfillment \x7b",
  "  \"\"\"List of the fulfillment's line items.\"\"\"",
  "  fulfillmentLineItems(",
  "    \"\"\"Returns up to the first \\`n\\` elements from the list.\"\"\"",
  "    first: Int",
  "    \"\"\"Returns the elements that come after the specified cursor.\"\"\"",
  "    after: String",
  "    \"\"\"Returns up to the last \\`n\\` elements from the list.\"\"\"",
  "    last: Int",
  "    \"\"\"Returns the elements that come before the specified cursor.\"\"\"",
  "    before: String",
  "    \"\"\"Reverse the order of the underlying list.\"\"\"",
  "    reverse: Boolean = false",
  "  ): FulfillmentLineItemConnection!",
  "  \"\"\"The name of the tracking company.\"\"\"",
  "  trackingCompany: String",
  "  \"\"\"",
  "  Tracking information associated with the fulfillment,",
  "  such as the tracking number and tracking URL.",
  "  ",
  "  \"\"\"",
  "  trackingInfo(",
  "    \"\"\"Truncate the array result to this size.\"\"\"",
  "    first: Int",
  "  ): [FulfillmentTrackingInfo!]!",
  "\x7d",
  ""]

/-- The type Fulfillment declared by lines 3081 to 3108. -/
def Fulfillment : Definition :=
  .objectType (blk "Represents a single fulfillment in an order.")
    "Fulfillment" [] [] [
    field (blk "List of the fulfillment's line items.")
       "fulfillmentLineItems" [
        inputValue (blk "Returns up to the first `n` elements from the list.")
           "first" (nm "Int") none [],
        inputValue (blk "Returns the elements that come after the specified cursor.")
           "after" (nm "String") none [],
        inputValue (blk "Returns up to the last `n` elements from the list.")
           "last" (nm "Int") none [],
        inputValue (blk "Returns the elements that come before the specified cursor.")
           "before" (nm "String") none [],
        inputValue (blk "Reverse the order of the underlying list.")
           "reverse" (nm "Boolean") (some (.boolean false)) []]
       (nn (nm "FulfillmentLineItemConnection")) [],
    field (blk "The name of the tracking company.")
       "trackingCompany" [] (nm "String") [],
    field (blk "Tracking information associated with the fulfillment,\nsuch as the tracking number and tracking URL.")
       "trackingInfo" [
        inputValue (blk "Truncate the array result to this size.")
           "first" (nm "Int") none []]
       (nn (ls (nn (nm "FulfillmentTrackingInfo")))) []]

/-- Lines 3109 to 3118 of the module: type FulfillmentLineItem. -/
def text.FulfillmentLineItem : List String := [
  "\"\"\"",
  "Represents a single line item in a fulfillment. There is at most one fulfillment line item for each order line item.",
  "\"\"\"",
  "type FulfillmentLineItem \x7b",
  "  \"\"\"The associated order's line item.\"\"\"",
  "  lineItem: OrderLineItem!",
  "  \"\"\"The amount fulfilled in this fulfillment.\"\"\"",
  "  quantity: Int!",
  "\x7d",
  ""]

/-- The type FulfillmentLineItem declared by lines 3109 to 3118. -/
def FulfillmentLineItem : Definition :=
  .objectType (blk "Represents a single line item in a fulfillment. There is at most one fulfillment line item for each order line item.")
    "FulfillmentLineItem" [] [] [
    field (blk "The associated order's line item.")
       "lineItem" [] (nn (nm "OrderLineItem")) [],
    field (blk "The amount fulfilled in this fulfillment.")
       "quantity" [] (nn (nm "Int")) []]

/-- Lines 3119 to 3129 of the module: type FulfillmentLineItemConnection. -/
def text.FulfillmentLineItemConnection : List String := [
  "\"\"\"",
  "An auto-generated type for paginating through multiple FulfillmentLineItems.",
  "",
  "\"\"\"",
  "type FulfillmentLineItemConnection \x7b",
  "  \"\"\"A list of edges.\"\"\"",
  "  edges: [FulfillmentLineItemEdge!]!",
  "  \"\"\"Information to aid in pagination.\"\"\"",
  "  pageInfo: PageInfo!",
  "\x7d",
  ""]

/-- The type FulfillmentLineItemConnection declared by lines 3119 to 3129. -/
def FulfillmentLineItemConnection : Definition :=
  .objectType (blk "An auto-generated type for paginating through multiple FulfillmentLineItems.")
    "FulfillmentLineItemConnection" [] [] [
    field (blk "A list of edges.")
       "edges" [] (nn (ls (nn (nm "FulfillmentLineItemEdge")))) [],
    field (blk "Information to aid in pagination.")
       "pageInfo" [] (nn (nm "PageInfo")) []]

/-- Lines 3130 to 3140 of the module: type FulfillmentLineItemEdge. -/
def text.FulfillmentLineItemEdge : List String := [
  "\"\"\"",
  "An auto-generated type which holds one FulfillmentLineItem and a cursor during pagination.",
  "",
  "\"\"\"",
  "type FulfillmentLineItemEdge \x7b",
  "  \"\"\"A cursor for use in pagination.\"\"\"",
  "  cursor: String!",
  "  \"\"\"The item at the end of FulfillmentLineItemEdge.\"\"\"",
  "  node: FulfillmentLineItem!",
  "\x7d",
  ""]

/-- The type FulfillmentLineItemEdge declared by lines 3130 to 3140. -/
def FulfillmentLineItemEdge : Definition :=
  .objectType (blk "An auto-generated type which holds one FulfillmentLineItem and a cursor during pagination.")
    "FulfillmentLineItemEdge" [] [] [
    field (blk "A cursor for use in pagination.")
       "cursor" [] (nn (nm "String")) [],
    field (blk "The item at the end of FulfillmentLineItemEdge.")
       "node" [] (nn (nm "FulfillmentLineItem")) []]

/-- Lines 3141 to 3148 of the module: type FulfillmentTrackingInfo. -/
def text.FulfillmentTrackingInfo : List String := [
  "\"\"\"Tracking information associated with the fulfillment.\"\"\"",
  "type FulfillmentTrackingInfo \x7b",
  "  \"\"\"The tracking number of the fulfillment.\"\"\"",
  "  number: String",
  "  \"\"\"The URL to track the fulfillment.\"\"\"",
  "  url: URL",
  "\x7d",
  ""]

/-- The type FulfillmentTrackingInfo declared by lines 3141 to 3148. -/
def FulfillmentTrackingInfo : Definition :=
  .objectType (blk "Tracking information associated with the fulfillment.")
    "FulfillmentTrackingInfo" [] [] [
    field (blk "The tracking number of the fulfillment.")
       "number" [] (nm "String") [],
    field (blk "The URL to track the fulfillment.")
       "url" [] (nm "URL") []]

/-- Lines 3149 to 3156 of the module: input GeoCoordinateInput. -/
def text.GeoCoordinateInput : List String := [
  "\"\"\"Used to specify a geographical location.\"\"\"",
  "input GeoCoordinateInput \x7b",
  "  \"\"\"The coordinate's latitude value.\"\"\"",
  "  latitude: Float!",
  "  \"\"\"The coordinate's longitude value.\"\"\"",
  "  longitude: Float!",
  "\x7d",
  ""]

/-- The input GeoCoordinateInput declared by lines 3149 to 3156. -/
def GeoCoordinateInput : Definition :=
  .inputObjectType (blk "Used to specify a geographical location.")
    "GeoCoordinateInput" [] [
    inputValue (blk "The coordinate's latitude value.")
       "latitude" (nn (nm "Float")) none [],
    inputValue (blk "The coordinate's longitude value.")
       "longitude" (nn (nm "Float")) none []]

/-- Lines 3157 to 3165 of the module: scalar HTML. -/
def text.HTML : List String := [
  "\"\"\"",
  "A string containing HTML code. Refer to the [HTML spec](https://html.spec.whatwg.org/#elements-3) for a",
  "complete list of HTML elements.",
  "",
  "Example value: \\`\"<p>Grey cotton knit sweater.</p>\"\\`.",
  "",
  "\"\"\"",
  "scalar HTML",
  ""]

/-- The scalar HTML declared by lines 3157 to 3165. -/
def HTML : Definition :=
  .scalarType (blk "A string containing HTML code. Refer to the [HTML spec](https://html.spec.whatwg.org/#elements-3) for a\ncomplete list of HTML elements.\n\nExample value: `\"<p>Grey cotton knit sweater.</p>\"`.")
    "HTML" []

/-- Lines 3166 to 3193 of the module: interface HasMetafields. -/
def text.HasMetafields : List String := [
  "\"\"\"",
  "Represents information about the metafields associated to the specified resource.",
  "\"\"\"",
  "interface HasMetafields \x7b",
  "  \"\"\"Returns a metafield found by namespace and key.\"\"\"",
  "  metafield(",
  "    \"\"\"Container for a set of metafields (maximum of 20 characters).\"\"\"",
  "    namespace: String!",
  "    \"\"\"Identifier for the metafield (maximum of 30 characters).\"\"\"",
  "    key: String!",
  "  ): Metafield",
  "  \"\"\"A paginated list of metafields associated with the resource.\"\"\"",
  "  metafields(",
  "    \"\"\"Container for a set of metafields (maximum of 20 characters).\"\"\"",
  "    namespace: String",
  "    \"\"\"Returns up to the first \\`n\\` elements from the list.\"\"\"",
  "    first: Int",
  "    \"\"\"Returns the elements that come after the specified cursor.\"\"\"",
  "    after: String",
  "    \"\"\"Returns up to the last \\`n\\` elements from the list.\"\"\"",
  "    last: Int",
  "    \"\"\"Returns the elements that come before the specified cursor.\"\"\"",
  "    before: String",
  "    \"\"\"Reverse the order of the underlying list.\"\"\"",
  "    reverse: Boolean = false",
  "  ): MetafieldConnection! @deprecated(reason: \"The \\`metafields\\` field will be removed in the future in favor of using [aliases](https://graphql.org/learn/queries/#aliases) with the \\`metafield\\` field.\\n\")",
  "\x7d",
  ""]

/-- The interface HasMetafields declared by lines 3166 to 3193. -/
def HasMetafields : Definition :=
  .interfaceType (blk "Represents information about the metafields associated to the specified resource.")
    "HasMetafields" [] [] [
    field (blk "Returns a metafield found by namespace and key.")
       "metafield" [
        inputValue (blk "Container for a set of metafields (maximum of 20 characters).")
           "namespace" (nn (nm "String")) none [],
        inputValue (blk "Identifier for the metafield (maximum of 30 characters).")
           "key" (nn (nm "String")) none []]
       (nm "Metafield") [],
    field (blk "A paginated list of metafields associated with the resource.")
       "metafields" [
        inputValue (blk "Container for a set of metafields (maximum of 20 characters).")
           "namespace" (nm "String") none [],
        inputValue (blk "Returns up to the first `n` elements from the list.")
           "first" (nm "Int") none [],
        inputValue (blk "Returns the elements that come after the specified cursor.")
           "after" (nm "String") none [],
        inputValue (blk "Returns up to the last `n` elements from the list.")
           "last" (nm "Int") none [],
        inputValue (blk "Returns the elements that come before the specified cursor.")
           "before" (nm "String") none [],
        inputValue (blk "Reverse the order of the underlying list.")
           "reverse" (nm "Boolean") (some (.boolean false)) []]
       (nn (nm "MetafieldConnection")) [deprecated "The `metafields` field will be removed in the future in favor of using [aliases](https://graphql.org/learn/queries/#aliases) with the `metafield` field.\n"]]

/-- Lines 3194 to 3255 of the module: type Image. -/
def text.Image : List String := [
  "\"\"\"Represents an image resource.\"\"\"",
  "type Image \x7b",
  "  \"\"\"A word or phrase to share the nature or contents of an image.\"\"\"",
  "  altText: String",
  "  \"\"\"",
  "  The original height of the image in pixels. Returns \\`null\\` if the image is not hosted by Shopify.",
  "  \"\"\"",
  "  height: Int",
  "  \"\"\"A unique identifier for the image.\"\"\"",
  "  id: ID",
  "  \"\"\"",
  "  The location of the original image as a URL.",
  "  ",
  "  If there are any existing transformations in the original source URL, they will remain and not be stripped.",
  "  ",
  "  \"\"\"",
  "  originalSrc: URL! @deprecated(reason: \"Use \\`url\\` instead\")",
  "  \"\"\"The location of the image as a URL.\"\"\"",
  "  src: URL! @deprecated(reason: \"Use \\`url\\` instead\")",
  "  \"\"\"",
  "  The location of the transformed image as a URL.",
  "  ",
  "  All transformation arguments are considered \"best-effort\". If they can be applied to an image, they will be.",
  "  Otherwise any transformations which an image type does not support will be ignored.",
  "  ",
  "  \"\"\"",
  "  transformedSrc(",
  "    \"\"\"Image width in pixels between 1 and 5760.\"\"\"",
  "    maxWidth: Int",
  "    \"\"\"Image height in pixels between 1 and 5760.\"\"\"",
  "    maxHeight: Int",
  "    \"\"\"Crops the image according to the specified region.\"\"\"",
  "    crop: CropRegion",
  "    \"\"\"",
  "    Image size multiplier for high-resolution retina displays. Must be between 1 and 3.",
  "    \"\"\"",
  "    scale: Int = 1",
  "    \"\"\"",
  "    Best effort conversion of image into content type (SVG -> PNG, Anything -> JPG, Anything -> WEBP are supported).",
  "    \"\"\"",
  "    preferredContentType: ImageContentType",
  "  ): URL! @deprecated(reason: \"Use \\`url(transform:)\\` instead\")",
  "  \"\"\"",
  "  The location of the image as a URL.",
  "  ",
  "  If no transform options are specified, then the original image will be preserved including any pre-applied transforms.",
  "  ",
  "  All transformation options are considered \"best-effort\". Any transformation that the original image type doesn't support will be ignored.",
  "  ",
  "  If you need multiple variations of the same image, then you can use [GraphQL aliases](https://graphql.org/learn/queries/#aliases).",
  "  ",
  "  \"\"\"",
  "  url(",
  "    \"\"\"A set of options to transform the original image.\"\"\"",
  "    transform: ImageTransformInput",
  "  ): URL!",
  "  \"\"\"",
  "  The original width of the image in pixels. Returns \\`null\\` if the image is not hosted by Shopify.",
  "  \"\"\"",
  "  width: Int",
  "\x7d",
  ""]

/-- The type Image declared by lines 3194 to 3255. -/
def Image : Definition :=
  .objectType (blk "Represents an image resource.")
    "Image" [] [] [
    field (blk "A word or phrase to share the nature or contents of an image.")
       "altText" [] (nm "String") [],
    field (blk "The original height of the image in pixels. Returns `null` if the image is not hosted by Shopify.")
       "height" [] (nm "Int") [],
    field (blk "A unique identifier for the image.")
       "id" [] (nm "ID") [],
    field (blk "The location of the original image as a URL.\n\nIf there are any existing transformations in the original source URL, they will remain and not be stripped.")
       "originalSrc" [] (nn (nm "URL")) [deprecated "Use `url` instead"],
    field (blk "The location of the image as a URL.")
       "src" [] (nn (nm "URL")) [deprecated "Use `url` instead"],
    field (blk "The location of the transformed image as a URL.\n\nAll transformation arguments are considered \"best-effort\". If they can be applied to an image, they will be.\nOtherwise any transformations which an image type does not support will be ignored.")
       "transformedSrc" [
        inputValue (blk "Image width in pixels between 1 and 5760.")
           "maxWidth" (nm "Int") none [],
        inputValue (blk "Image height in pixels between 1 and 5760.")
           "maxHeight" (nm "Int") none [],
        inputValue (blk "Crops the image according to the specified region.")
           "crop" (nm "CropRegion") none [],
        inputValue (blk "Image size multiplier for high-resolution retina displays. Must be between 1 and 3.")
           "scale" (nm "Int") (some (.int "1")) [],
        inputValue (blk "Best effort conversion of image into content type (SVG -> PNG, Anything -> JPG, Anything -> WEBP are supported).")
           "preferredContentType" (nm "ImageContentType") none []]
       (nn (nm "URL")) [deprecated "Use `url(transform:)` instead"],
    field (blk "The location of the image as a URL.\n\nIf no transform options are specified, then the original image will be preserved including any pre-applied transforms.\n\nAll transformation options are considered \"best-effort\". Any transformation that the original image type doesn't support will be ignored.\n\nIf you need multiple variations of the same image, then you can use [GraphQL aliases](https://graphql.org/learn/queries/#aliases).")
       "url" [
        inputValue (blk "A set of options to transform the original image.")
           "transform" (nm "ImageTransformInput") none []]
       (nn (nm "URL")) [],
    field (blk "The original width of the image in pixels. Returns `null` if the image is not hosted by Shopify.")
       "width" [] (nm "Int") []]

/-- Lines 3256 to 3266 of the module: type ImageConnection. -/
def text.ImageConnection : List String := [
  "\"\"\"",
  "An auto-generated type for paginating through multiple Images.",
  "",
  "\"\"\"",
  "type ImageConnection \x7b",
  "  \"\"\"A list of edges.\"\"\"",
  "  edges: [ImageEdge!]!",
  "  \"\"\"Information to aid in pagination.\"\"\"",
  "  pageInfo: PageInfo!",
  "\x7d",
  ""]

/-- The type ImageConnection declared by lines 3256 to 3266. -/
def ImageConnection : Definition :=
  .objectType (blk "An auto-generated type for paginating through multiple Images.")
    "ImageConnection" [] [] [
    field (blk "A list of edges.")
       "edges" [] (nn (ls (nn (nm "ImageEdge")))) [],
    field (blk "Information to aid in pagination.")
       "pageInfo" [] (nn (nm "PageInfo")) []]

/-- Lines 3267 to 3276 of the module: enum ImageContentType. -/
def text.ImageContentType : List String := [
  "\"\"\"List of supported image content types.\"\"\"",
  "enum ImageContentType \x7b",
  "  \"\"\"A PNG image.\"\"\"",
  "  PNG",
  "  \"\"\"A JPG image.\"\"\"",
  "  JPG",
  "  \"\"\"A WEBP image.\"\"\"",
  "  WEBP",
  "\x7d",
  ""]

/-- The enum ImageContentType declared by lines 3267 to 3276. -/
def ImageContentType : Definition :=
  .enumType (blk "List of supported image content types.")
    "ImageContentType" [] [
    enumValue (blk "A PNG image.")
       "PNG" [],
    enumValue (blk "A JPG image.")
       "JPG" [],
    enumValue (blk "A WEBP image.")
       "WEBP" []]

/-- Lines 3277 to 3287 of the module: type ImageEdge. -/
def text.ImageEdge : List String := [
  "\"\"\"",
  "An auto-generated type which holds one Image and a cursor during pagination.",
  "",
  "\"\"\"",
  "type ImageEdge \x7b",
  "  \"\"\"A cursor for use in pagination.\"\"\"",
  "  cursor: String!",
  "  \"\"\"The item at the end of ImageEdge.\"\"\"",
  "  node: Image!",
  "\x7d",
  ""]

/-- The type ImageEdge declared by lines 3277 to 3287. -/
def ImageEdge : Definition :=
  .objectType (blk "An auto-generated type which holds one Image and a cursor during pagination.")
    "ImageEdge" [] [] [
    field (blk "A cursor for use in pagination.")
       "cursor" [] (nn (nm "String")) [],
    field (blk "The item at the end of ImageEdge.")
       "node" [] (nn (nm "Image")) []]

/-- Lines 3288 to 3319 of the module: input ImageTransformInput. -/
def text.ImageTransformInput : List String := [
  "\"\"\"",
  "The available options for transforming an image.",
  "",
  "All transformation options are considered \"best-effort\". Any transformation that the original image type doesn't support will be ignored.",
  "",
  "\"\"\"",
  "input ImageTransformInput \x7b",
  "  \"\"\"Crop the image according to the specified region.\"\"\"",
  "  crop: CropRegion",
  "  \"\"\"",
  "  Image width in pixels between 1 and 5760.",
  "  ",
  "  \"\"\"",
  "  maxWidth: Int",
  "  \"\"\"",
  "  Image height in pixels between 1 and 5760.",
  "  ",
  "  \"\"\"",
  "  maxHeight: Int",
  "  \"\"\"",
  "  Image size multiplier for high-resolution retina displays. Must be within 1..3.",
  "  ",
  "  \"\"\"",
  "  scale: Int = 1",
  "  \"\"\"",
  "  Convert the source image into the preferred content type.",
  "  Supported conversions: \\`.svg\\` to \\`.png\\`, any file type to \\`.jpg\\`, and any file type to \\`.webp\\`.",
  "  ",
  "  \"\"\"",
  "  preferredContentType: ImageContentType",
  "\x7d",
  ""]

/-- The input ImageTransformInput declared by lines 3288 to 3319. -/
def ImageTransformInput : Definition :=
  .inputObjectType (blk "The available options for transforming an image.\n\nAll transformation options are considered \"best-effort\". Any transformation that the original image type doesn't support will be ignored.")
    "ImageTransformInput" [] [
    inputValue (blk "Crop the image according to the specified region.")
       "crop" (nm "CropRegion") none [],
    inputValue (blk "Image width in pixels between 1 and 5760.")
       "maxWidth" (nm "Int") none [],
    inputValue (blk "Image height in pixels between 1 and 5760.")
       "maxHeight" (nm "Int") none [],
    inputValue (blk "Image size multiplier for high-resolution retina displays. Must be within 1..3.")
       "scale" (nm "Int") (some (.int "1")) [],
    inputValue (blk "Convert the source image into the preferred content type.\nSupported conversions: `.svg` to `.png`, any file type to `.jpg`, and any file type to `.webp`.")
       "preferredContentType" (nm "ImageContentType") none []]

/-- Lines 3320 to 3337 of the module: scalar JSON. -/
def text.JSON : List String := [
  "\"\"\"",
  "A [JSON](https://www.json.org/json-en.html) object.",
  "",
  "Example value:",
  "\\`\x7b",
  "  \"product\": \x7b",
  "    \"id\": \"gid://shopify/Product/1346443542550\",",
  "    \"title\": \"White T-shirt\",",
  "    \"options\": [\x7b",
  "      \"name\": \"Size\",",
  "      \"values\": [\"M\", \"L\"]",
  "    \x7d]",
  "  \x7d",
  "\x7d\\`",
  "",
  "\"\"\"",
  "scalar JSON",
  ""]

/-- The scalar JSON declared by lines 3320 to 3337. -/
def JSON : Definition :=
  .scalarType (blk "A [JSON](https://www.json.org/json-en.html) object.\n\nExample value:\n`\x7b\n  \"product\": \x7b\n    \"id\": \"gid://shopify/Product/1346443542550\",\n    \"title\": \"White T-shirt\",\n    \"options\": [\x7b\n      \"name\": \"Size\",\n      \"values\": [\"M\", \"L\"]\n    \x7d]\n  \x7d\n\x7d`")
    "JSON" []

/-- Lines 3338 to 3347 of the module: type Localization. -/
def text.Localization : List String := [
  "\"\"\"Information about the localized experiences configured for the shop.\"\"\"",
  "type Localization \x7b",
  "  \"\"\"List of countries with enabled localized experiences.\"\"\"",
  "  availableCountries: [Country!]!",
  "  \"\"\"",
  "  The country of the active localized experience. Use the \\`@inContext\\` directive to change this value.",
  "  \"\"\"",
  "  country: Country!",
  "\x7d",
  ""]

/-- The type Localization declared by lines 3338 to 3347. -/
def Localization : Definition :=
  .objectType (blk "Information about the localized experiences configured for the shop.")
    "Localization" [] [] [
    field (blk "List of countries with enabled localized experiences.")
       "availableCountries" [] (nn (ls (nn (nm "Country")))) [],
    field (blk "The country of the active localized experience. Use the `@inContext` directive to change this value.")
       "country" [] (nn (nm "Country")) []]

/-- Lines 3348 to 3357 of the module: type Location. -/
def text.Location : List String := [
  "\"\"\"Represents a location where product inventory is held.\"\"\"",
  "type Location implements Node \x7b",
  "  \"\"\"The address of the location.\"\"\"",
  "  address: LocationAddress!",
  "  \"\"\"A globally-unique identifier.\"\"\"",
  "  id: ID!",
  "  \"\"\"The name of the location.\"\"\"",
  "  name: String!",
  "\x7d",
  ""]

/-- The type Location declared by lines 3348 to 3357. -/
def Location : Definition :=
  .objectType (blk "Represents a location where product inventory is held.")
    "Location" ["Node"] [] [
    field (blk "The address of the location.")
       "address" [] (nn (nm "LocationAddress")) [],
    field (blk "A globally-unique identifier.")
       "id" [] (nn (nm "ID")) [],
    field (blk "The name of the location.")
       "name" [] (nn (nm "String")) []]

/-- Lines 3358 to 3391 of the module: type LocationAddress. -/
def text.LocationAddress : List String := [
  "\"\"\"",
  "Represents the address of a location.",
  "",
  "\"\"\"",
  "type LocationAddress \x7b",
  "  \"\"\"The first line of the address for the location.\"\"\"",
  "  address1: String",
  "  \"\"\"The second line of the address for the location.\"\"\"",
  "  address2: String",
  "  \"\"\"The city of the location.\"\"\"",
  "  city: String",
  "  \"\"\"The country of the location.\"\"\"",
  "  country: String",
  "  \"\"\"The country code of the location.\"\"\"",
  "  countryCode: String",
  "  \"\"\"A formatted version of the address for the location.\"\"\"",
  "  formatted: [String!]!",
  "  \"\"\"The latitude coordinates of the location.\"\"\"",
  "  latitude: Float",
  "  \"\"\"The longitude coordinates of the location.\"\"\"",
  "  longitude: Float",
  "  \"\"\"The phone number of the location.\"\"\"",
  "  phone: String",
  "  \"\"\"The province of the location.\"\"\"",
  "  province: String",
  "  \"\"\"",
  "  The code for the province, state, or district of the address of the location.",
  "  ",
  "  \"\"\"",
  "  provinceCode: String",
  "  \"\"\"The ZIP code of the location.\"\"\"",
  "  zip: String",
  "\x7d",
  ""]

/-- The type LocationAddress declared by lines 3358 to 3391. -/
def LocationAddress : Definition :=
  .objectType (blk "Represents the address of a location.")
    "LocationAddress" [] [] [
    field (blk "The first line of the address for the location.")
       "address1" [] (nm "String") [],
    field (blk "The second line of the address for the location.")
       "address2" [] (nm "String") [],
    field (blk "The city of the location.")
       "city" [] (nm "String") [],
    field (blk "The country of the location.")
       "country" [] (nm "String") [],
    field (blk "The country code of the location.")
       "countryCode" [] (nm "String") [],
    field (blk "A formatted version of the address for the location.")
       "formatted" [] (nn (ls (nn (nm "String")))) [],
    field (blk "The latitude coordinates of the location.")
       "latitude" [] (nm "Float") [],
    field (blk "The longitude coordinates of the location.")
       "longitude" [] (nm "Float") [],
    field (blk "The phone number of the location.")
       "phone" [] (nm "String") [],
    field (blk "The province of the location.")
       "province" [] (nm "String") [],
    field (blk "The code for the province, state, or district of the address of the location.")
       "provinceCode" [] (nm "String") [],
    field (blk "The ZIP code of the location.")
       "zip" [] (nm "String") []]

/-- Lines 3392 to 3402 of the module: type LocationConnection. -/
def text.LocationConnection : List String := [
  "\"\"\"",
  "An auto-generated type for paginating through multiple Locations.",
  "",
  "\"\"\"",
  "type LocationConnection \x7b",
  "  \"\"\"A list of edges.\"\"\"",
  "  edges: [LocationEdge!]!",
  "  \"\"\"Information to aid in pagination.\"\"\"",
  "  pageInfo: PageInfo!",
  "\x7d",
  ""]

/-- The type LocationConnection declared by lines 3392 to 3402. -/
def LocationConnection : Definition :=
  .objectType (blk "An auto-generated type for paginating through multiple Locations.")
    "LocationConnection" [] [] [
    field (blk "A list of edges.")
       "edges" [] (nn (ls (nn (nm "LocationEdge")))) [],
    field (blk "Information to aid in pagination.")
       "pageInfo" [] (nn (nm "PageInfo")) []]

/-- Lines 3403 to 3413 of the module: type LocationEdge. -/
def text.LocationEdge : List String := [
  "\"\"\"",
  "An auto-generated type which holds one Location and a cursor during pagination.",
  "",
  "\"\"\"",
  "type LocationEdge \x7b",
  "  \"\"\"A cursor for use in pagination.\"\"\"",
  "  cursor: String!",
  "  \"\"\"The item at the end of LocationEdge.\"\"\"",
  "  node: Location!",
  "\x7d",
  ""]

/-- The type LocationEdge declared by lines 3403 to 3413. -/
def LocationEdge : Definition :=
  .objectType (blk "An auto-generated type which holds one Location and a cursor during pagination.")
    "LocationEdge" [] [] [
    field (blk "A cursor for use in pagination.")
       "cursor" [] (nn (nm "String")) [],
    field (blk "The item at the end of LocationEdge.")
       "node" [] (nn (nm "Location")) []]

/-- Lines 3414 to 3425 of the module: enum LocationSortKeys. -/
def text.LocationSortKeys : List String := [
  "\"\"\"The set of valid sort keys for the Location query.\"\"\"",
  "enum LocationSortKeys \x7b",
  "  \"\"\"Sort by the \\`id\\` value.\"\"\"",
  "  ID",
  "  \"\"\"Sort by the \\`name\\` value.\"\"\"",
  "  NAME",
  "  \"\"\"Sort by the \\`city\\` value.\"\"\"",
  "  CITY",
  "  \"\"\"Sort by the \\`distance\\` value.\"\"\"",
  "  DISTANCE",
  "\x7d",
  ""]

/-- The enum LocationSortKeys declared by lines 3414 to 3425. -/
def LocationSortKeys : Definition :=
  .enumType (blk "The set of valid sort keys for the Location query.")
    "LocationSortKeys" [] [
    enumValue (blk "Sort by the `id` value.")
       "ID" [],
    enumValue (blk "Sort by the `name` value.")
       "NAME" [],
    enumValue (blk "Sort by the `city` value.")
       "CITY" [],
    enumValue (blk "Sort by the `distance` value.")
       "DISTANCE" []]

/-- Lines 3426 to 3512 of the module: type MailingAddress. -/
def text.MailingAddress : List String := [
  "\"\"\"Represents a mailing address for customers and shipping.\"\"\"",
  "type MailingAddress implements Node \x7b",
  "  \"\"\"",
  "  The first line of the address. Typically the street address or PO Box number.",
  "  ",
  "  \"\"\"",
  "  address1: String",
  "  \"\"\"",
  "  The second line of the address. Typically the number of the apartment, suite, or unit.",
  "  ",
  "  \"\"\"",
  "  address2: String",
  "  \"\"\"",
  "  The name of the city, district, village, or town.",
  "  ",
  "  \"\"\"",
  "  city: String",
  "  \"\"\"",
  "  The name of the customer's company or organization.",
  "  ",
  "  \"\"\"",
  "  company: String",
  "  \"\"\"",
  "  The name of the country.",
  "  ",
  "  \"\"\"",
  "  country: String",
  "  \"\"\"",
  "  The two-letter code for the country of the address.",
  "  ",
  "  For example, US.",
  "  ",
  "  \"\"\"",
  "  countryCode: String @deprecated(reason: \"Use \\`countryCodeV2\\` instead\")",
  "  \"\"\"",
  "  The two-letter code for the country of the address.",
  "  ",
  "  For example, US.",
  "  ",
  "  \"\"\"",
  "  countryCodeV2: CountryCode",
  "  \"\"\"The first name of the customer.\"\"\"",
  "  firstName: String",
  "  \"\"\"",
  "  A formatted version of the address, customized by the provided arguments.",
  "  \"\"\"",
  "  formatted(",
  "    \"\"\"Whether to include the customer's name in the formatted address.\"\"\"",
  "    withName: Boolean = false",
  "    \"\"\"Whether to include the customer's company in the formatted address.\"\"\"",
  "    withCompany: Boolean = true",
  "  ): [String!]!",
  "  \"\"\"A comma-separated list of the values for city, province, and country.\"\"\"",
  "  formattedArea: String",
  "  \"\"\"A globally-unique identifier.\"\"\"",
  "  id: ID!",
  "  \"\"\"The last name of the customer.\"\"\"",
  "  lastName: String",
  "  \"\"\"The latitude coordinate of the customer address.\"\"\"",
  "  latitude: Float",
  "  \"\"\"The longitude coordinate of the customer address.\"\"\"",
  "  longitude: Float",
  "  \"\"\"",
  "  The full name of the customer, based on firstName and lastName.",
  "  ",
  "  \"\"\"",
  "  name: String",
  "  \"\"\"",
  "  A unique phone number for the customer.",
  "  ",
  "  Formatted using E.164 standard. For example, _+16135551111_.",
  "  ",
  "  \"\"\"",
  "  phone: String",
  "  \"\"\"The region of the address, such as the province, state, or district.\"\"\"",
  "  province: String",
  "  \"\"\"",
  "  The two-letter code for the region.",
  "  ",
  "  For example, ON.",
  "  ",
  "  \"\"\"",
  "  provinceCode: String",
  "  \"\"\"The zip or postal code of the address.\"\"\"",
  "  zip: String",
  "\x7d",
  ""]

/-- The type MailingAddress declared by lines 3426 to 3512. -/
def MailingAddress : Definition :=
  .objectType (blk "Represents a mailing address for customers and shipping.")
    "MailingAddress" ["Node"] [] [
    field (blk "The first line of the address. Typically the street address or PO Box number.")
       "address1" [] (nm "String") [],
    field (blk "The second line of the address. Typically the number of the apartment, suite, or unit.")
       "address2" [] (nm "String") [],
    field (blk "The name of the city, district, village, or town.")
       "city" [] (nm "String") [],
    field (blk "The name of the customer's company or organization.")
       "company" [] (nm "String") [],
    field (blk "The name of the country.")
       "country" [] (nm "String") [],
    field (blk "The two-letter code for the country of the address.\n\nFor example, US.")
       "countryCode" [] (nm "String") [deprecated "Use `countryCodeV2` instead"],
    field (blk "The two-letter code for the country of the address.\n\nFor example, US.")
       "countryCodeV2" [] (nm "CountryCode") [],
    field (blk "The first name of the customer.")
       "firstName" [] (nm "String") [],
    field (blk "A formatted version of the address, customized by the provided arguments.")
       "formatted" [
        inputValue (blk "Whether to include the customer's name in the formatted address.")
           "withName" (nm "Boolean") (some (.boolean false)) [],
        inputValue (blk "Whether to include the customer's company in the formatted address.")
           "withCompany" (nm "Boolean") (some (.boolean true)) []]
       (nn (ls (nn (nm "String")))) [],
    field (blk "A comma-separated list of the values for city, province, and country.")
       "formattedArea" [] (nm "String") [],
    field (blk "A globally-unique identifier.")
       "id" [] (nn (nm "ID")) [],
    field (blk "The last name of the customer.")
       "lastName" [] (nm "String") [],
    field (blk "The latitude coordinate of the customer address.")
       "latitude" [] (nm "Float") [],
    field (blk "The longitude coordinate of the customer address.")
       "longitude" [] (nm "Float") [],
    field (blk "The full name of the customer, based on firstName and lastName.")
       "name" [] (nm "String") [],
    field (blk "A unique phone number for the customer.\n\nFormatted using E.164 standard. For example, _+16135551111_.")
       "phone" [] (nm "String") [],
    field (blk "The region of the address, such as the province, state, or district.")
       "province" [] (nm "String") [],
    field (blk "The two-letter code for the region.\n\nFor example, ON.")
       "provinceCode" [] (nm "String") [],
    field (blk "The zip or postal code of the address.")
       "zip" [] (nm "String") []]

/-- Lines 3513 to 3523 of the module: type MailingAddressConnection. -/
def text.MailingAddressConnection : List String := [
  "\"\"\"",
  "An auto-generated type for paginating through multiple MailingAddresses.",
  "",
  "\"\"\"",
  "type MailingAddressConnection \x7b",
  "  \"\"\"A list of edges.\"\"\"",
  "  edges: [MailingAddressEdge!]!",
  "  \"\"\"Information to aid in pagination.\"\"\"",
  "  pageInfo: PageInfo!",
  "\x7d",
  ""]

/-- The type MailingAddressConnection declared by lines 3513 to 3523. -/
def MailingAddressConnection : Definition :=
  .objectType (blk "An auto-generated type for paginating through multiple MailingAddresses.")
    "MailingAddressConnection" [] [] [
    field (blk "A list of edges.")
       "edges" [] (nn (ls (nn (nm "MailingAddressEdge")))) [],
    field (blk "Information to aid in pagination.")
       "pageInfo" [] (nn (nm "PageInfo")) []]

/-- Lines 3524 to 3534 of the module: type MailingAddressEdge. -/
def text.MailingAddressEdge : List String := [
  "\"\"\"",
  "An auto-generated type which holds one MailingAddress and a cursor during pagination.",
  "",
  "\"\"\"",
  "type MailingAddressEdge \x7b",
  "  \"\"\"A cursor for use in pagination.\"\"\"",
  "  cursor: String!",
  "  \"\"\"The item at the end of MailingAddressEdge.\"\"\"",
  "  node: MailingAddress!",
  "\x7d",
  ""]

/-- The type MailingAddressEdge declared by lines 3524 to 3534. -/
def MailingAddressEdge : Definition :=
  .objectType (blk "An auto-generated type which holds one MailingAddress and a cursor during pagination.")
    "MailingAddressEdge" [] [] [
    field (blk "A cursor for use in pagination.")
       "cursor" [] (nn (nm "String")) [],
    field (blk "The item at the end of MailingAddressEdge.")
       "node" [] (nn (nm "MailingAddress")) []]

/-- Lines 3535 to 3575 of the module: input MailingAddressInput. -/
def text.MailingAddressInput : List String := [
  "\"\"\"Specifies the fields accepted to create or update a mailing address.\"\"\"",
  "input MailingAddressInput \x7b",
  "  \"\"\"",
  "  The first line of the address. Typically the street address or PO Box number.",
  "  ",
  "  \"\"\"",
  "  address1: String",
  "  \"\"\"",
  "  The second line of the address. Typically the number of the apartment, suite, or unit.",
  "  ",
  "  \"\"\"",
  "  address2: String",
  "  \"\"\"",
  "  The name of the city, district, village, or town.",
  "  ",
  "  \"\"\"",
  "  city: String",
  "  \"\"\"",
  "  The name of the customer's company or organization.",
  "  ",
  "  \"\"\"",
  "  company: String",
  "  \"\"\"The name of the country.\"\"\"",
  "  country: String",
  "  \"\"\"The first name of the customer.\"\"\"",
  "  firstName: String",
  "  \"\"\"The last name of the customer.\"\"\"",
  "  lastName: String",
  "  \"\"\"",
  "  A unique phone number for the customer.",
  "  ",
  "  Formatted using E.164 standard. For example, _+16135551111_.",
  "  ",
  "  \"\"\"",
  "  phone: String",
  "  \"\"\"The region of the address, such as the province, state, or district.\"\"\"",
  "  province: String",
  "  \"\"\"The zip or postal code of the address.\"\"\"",
  "  zip: String",
  "\x7d",
  ""]

/-- The input MailingAddressInput declared by lines 3535 to 3575. -/
def MailingAddressInput : Definition :=
  .inputObjectType (blk "Specifies the fields accepted to create or update a mailing address.")
    "MailingAddressInput" [] [
    inputValue (blk "The first line of the address. Typically the street address or PO Box number.")
       "address1" (nm "String") none [],
    inputValue (blk "The second line of the address. Typically the number of the apartment, suite, or unit.")
       "address2" (nm "String") none [],
    inputValue (blk "The name of the city, district, village, or town.")
       "city" (nm "String") none [],
    inputValue (blk "The name of the customer's company or organization.")
       "company" (nm "String") none [],
    inputValue (blk "The name of the country.")
       "country" (nm "String") none [],
    inputValue (blk "The first name of the customer.")
       "firstName" (nm "String") none [],
    inputValue (blk "The last name of the customer.")
       "lastName" (nm "String") none [],
    inputValue (blk "A unique phone number for the customer.\n\nFormatted using E.164 standard. For example, _+16135551111_.")
       "phone" (nm "String") none [],
    inputValue (blk "The region of the address, such as the province, state, or district.")
       "province" (nm "String") none [],
    inputValue (blk "The zip or postal code of the address.")
       "zip" (nm "String") none []]

/-- Lines 3576 to 3596 of the module: type ManualDiscountApplication. -/
def text.ManualDiscountApplication : List String := [
  "\"\"\"",
  "Manual discount applications capture the intentions of a discount that was manually created.",
  "",
  "\"\"\"",
  "type ManualDiscountApplication implements DiscountApplication \x7b",
  "  \"\"\"",
  "  The method by which the discount's value is allocated to its entitled items.",
  "  \"\"\"",
  "  allocationMethod: DiscountApplicationAllocationMethod!",
  "  \"\"\"The description of the application.\"\"\"",
  "  description: String",
  "  \"\"\"Which lines of targetType that the discount is allocated over.\"\"\"",
  "  targetSelection: DiscountApplicationTargetSelection!",
  "  \"\"\"The type of line that the discount is applicable towards.\"\"\"",
  "  targetType: DiscountApplicationTargetType!",
  "  \"\"\"The title of the application.\"\"\"",
  "  title: String!",
  "  \"\"\"The value of the discount application.\"\"\"",
  "  value: PricingValue!",
  "\x7d",
  ""]

/-- The type ManualDiscountApplication declared by lines 3576 to 3596. -/
def ManualDiscountApplication : Definition :=
  .objectType (blk "Manual discount applications capture the intentions of a discount that was manually created.")
    "ManualDiscountApplication" ["DiscountApplication"] [] [
    field (blk "The method by which the discount's value is allocated to its entitled items.")
       "allocationMethod" [] (nn (nm "DiscountApplicationAllocationMethod")) [],
    field (blk "The description of the application.")
       "description" [] (nm "String") [],
    field (blk "Which lines of targetType that the discount is allocated over.")
       "targetSelection" [] (nn (nm "DiscountApplicationTargetSelection")) [],
    field (blk "The type of line that the discount is applicable towards.")
       "targetType" [] (nn (nm "DiscountApplicationTargetType")) [],
    field (blk "The title of the application.")
       "title" [] (nn (nm "String")) [],
    field (blk "The value of the discount application.")
       "value" [] (nn (nm "PricingValue")) []]

/-- Lines 3597 to 3606 of the module: interface Media. -/
def text.Media : List String := [
  "\"\"\"Represents a media interface.\"\"\"",
  "interface Media \x7b",
  "  \"\"\"A word or phrase to share the nature or contents of a media.\"\"\"",
  "  alt: String",
  "  \"\"\"The media content type.\"\"\"",
  "  mediaContentType: MediaContentType!",
  "  \"\"\"The preview image for the media.\"\"\"",
  "  previewImage: Image",
  "\x7d",
  ""]

/-- The interface Media declared by lines 3597 to 3606. -/
def Media : Definition :=
  .interfaceType (blk "Represents a media interface.")
    "Media" [] [] [
    field (blk "A word or phrase to share the nature or contents of a media.")
       "alt" [] (nm "String") [],
    field (blk "The media content type.")
       "mediaContentType" [] (nn (nm "MediaContentType")) [],
    field (blk "The preview image for the media.")
       "previewImage" [] (nm "Image") []]

/-- Lines 3607 to 3617 of the module: type MediaConnection. -/
def text.MediaConnection : List String := [
  "\"\"\"",
  "An auto-generated type for paginating through multiple Media.",
  "",
  "\"\"\"",
  "type MediaConnection \x7b",
  "  \"\"\"A list of edges.\"\"\"",
  "  edges: [MediaEdge!]!",
  "  \"\"\"Information to aid in pagination.\"\"\"",
  "  pageInfo: PageInfo!",
  "\x7d",
  ""]

/-- The type MediaConnection declared by lines 3607 to 3617. -/
def MediaConnection : Definition :=
  .objectType (blk "An auto-generated type for paginating through multiple Media.")
    "MediaConnection" [] [] [
    field (blk "A list of edges.")
       "edges" [] (nn (ls (nn (nm "MediaEdge")))) [],
    field (blk "Information to aid in pagination.")
       "pageInfo" [] (nn (nm "PageInfo")) []]

/-- Lines 3618 to 3629 of the module: enum MediaContentType. -/
def text.MediaContentType : List String := [
  "\"\"\"The possible content types for a media object.\"\"\"",
  "enum MediaContentType \x7b",
  "  \"\"\"An externally hosted video.\"\"\"",
  "  EXTERNAL_VIDEO",
  "  \"\"\"A Shopify hosted image.\"\"\"",
  "  IMAGE",
  "  \"\"\"A 3d model.\"\"\"",
  "  MODEL_3D",
  "  \"\"\"A Shopify hosted video.\"\"\"",
  "  VIDEO",
  "\x7d",
  ""]

/-- The enum MediaContentType declared by lines 3618 to 3629. -/
def MediaContentType : Definition :=
  .enumType (blk "The possible content types for a media object.")
    "MediaContentType" [] [
    enumValue (blk "An externally hosted video.")
       "EXTERNAL_VIDEO" [],
    enumValue (blk "A Shopify hosted image.")
       "IMAGE" [],
    enumValue (blk "A 3d model.")
       "MODEL_3D" [],
    enumValue (blk "A Shopify hosted video.")
       "VIDEO" []]

/-- Lines 3630 to 3640 of the module: type MediaEdge. -/
def text.MediaEdge : List String := [
  "\"\"\"",
  "An auto-generated type which holds one Media and a cursor during pagination.",
  "",
  "\"\"\"",
  "type MediaEdge \x7b",
  "  \"\"\"A cursor for use in pagination.\"\"\"",
  "  cursor: String!",
  "  \"\"\"The item at the end of MediaEdge.\"\"\"",
  "  node: Media!",
  "\x7d",
  ""]

/-- The type MediaEdge declared by lines 3630 to 3640. -/
def MediaEdge : Definition :=
  .objectType (blk "An auto-generated type which holds one Media and a cursor during pagination.")
    "MediaEdge" [] [] [
    field (blk "A cursor for use in pagination.")
       "cursor" [] (nn (nm "String")) [],
    field (blk "The item at the end of MediaEdge.")
       "node" [] (nn (nm "Media")) []]

/-- Lines 3641 to 3648 of the module: enum MediaHost. -/
def text.MediaHost : List String := [
  "\"\"\"Host for a Media Resource.\"\"\"",
  "enum MediaHost \x7b",
  "  \"\"\"Host for YouTube embedded videos.\"\"\"",
  "  YOUTUBE",
  "  \"\"\"Host for Vimeo embedded videos.\"\"\"",
  "  VIMEO",
  "\x7d",
  ""]

/-- The enum MediaHost declared by lines 3641 to 3648. -/
def MediaHost : Definition :=
  .enumType (blk "Host for a Media Resource.")
    "MediaHost" [] [
    enumValue (blk "Host for YouTube embedded videos.")
       "YOUTUBE" [],
    enumValue (blk "Host for Vimeo embedded videos.")
       "VIMEO" []]

/-- Lines 3649 to 3662 of the module: type MediaImage. -/
def text.MediaImage : List String := [
  "\"\"\"Represents a Shopify hosted image.\"\"\"",
  "type MediaImage implements Node & Media \x7b",
  "  \"\"\"A word or phrase to share the nature or contents of a media.\"\"\"",
  "  alt: String",
  "  \"\"\"A globally-unique identifier.\"\"\"",
  "  id: ID!",
  "  \"\"\"The image for the media.\"\"\"",
  "  image: Image",
  "  \"\"\"The media content type.\"\"\"",
  "  mediaContentType: MediaContentType!",
  "  \"\"\"The preview image for the media.\"\"\"",
  "  previewImage: Image",
  "\x7d",
  ""]

/-- The type MediaImage declared by lines 3649 to 3662. -/
def MediaImage : Definition :=
  .objectType (blk "Represents a Shopify hosted image.")
    "MediaImage" ["Node", "Media"] [] [
    field (blk "A word or phrase to share the nature or contents of a media.")
       "alt" [] (nm "String") [],
    field (blk "A globally-unique identifier.")
       "id" [] (nn (nm "ID")) [],
    field (blk "The image for the media.")
       "image" [] (nm "Image") [],
    field (blk "The media content type.")
       "mediaContentType" [] (nn (nm "MediaContentType")) [],
    field (blk "The preview image for the media.")
       "previewImage" [] (nm "Image") []]

/-- Lines 3663 to 3665 of the module: union Merchandise. -/
def text.Merchandise : List String := [
  "\"\"\"The merchandise to be purchased at checkout.\"\"\"",
  "union Merchandise = ProductVariant",
  ""]

/-- The union Merchandise declared by lines 3663 to 3665. -/
def Merchandise : Definition :=
  .unionType (blk "The merchandise to be purchased at checkout.")
    "Merchandise" [] ["ProductVariant"]

/-- Lines 3666 to 3699 of the module: type Metafield. -/
def text.Metafield : List String := [
  "\"\"\"",
  "Metafields represent custom metadata attached to a resource. Metafields can be sorted into namespaces and are",
  "comprised of keys, values, and value types.",
  "",
  "\"\"\"",
  "type Metafield implements Node \x7b",
  "  \"\"\"The date and time when the storefront metafield was created.\"\"\"",
  "  createdAt: DateTime!",
  "  \"\"\"The description of a metafield.\"\"\"",
  "  description: String",
  "  \"\"\"A globally-unique identifier.\"\"\"",
  "  id: ID!",
  "  \"\"\"The key name for a metafield.\"\"\"",
  "  key: String!",
  "  \"\"\"The namespace for a metafield.\"\"\"",
  "  namespace: String!",
  "  \"\"\"The parent object that the metafield belongs to.\"\"\"",
  "  parentResource: MetafieldParentResource!",
  "  \"\"\"",
  "  Returns a reference object if the metafield definition's type is a resource reference.",
  "  \"\"\"",
  "  reference: MetafieldReference",
  "  \"\"\"",
  "  The type name of the metafield.",
  "  See the list of [supported types](https://shopify.dev/apps/metafields/definitions/types).",
  "  ",
  "  \"\"\"",
  "  type: String!",
  "  \"\"\"The date and time when the storefront metafield was updated.\"\"\"",
  "  updatedAt: DateTime!",
  "  \"\"\"The value of a metafield.\"\"\"",
  "  value: String!",
  "\x7d",
  ""]

/-- The type Metafield declared by lines 3666 to 3699. -/
def Metafield : Definition :=
  .objectType (blk "Metafields represent custom metadata attached to a resource. Metafields can be sorted into namespaces and are\ncomprised of keys, values, and value types.")
    "Metafield" ["Node"] [] [
    field (blk "The date and time when the storefront metafield was created.")
       "createdAt" [] (nn (nm "DateTime")) [],
    field (blk "The description of a metafield.")
       "description" [] (nm "String") [],
    field (blk "A globally-unique identifier.")
       "id" [] (nn (nm "ID")) [],
    field (blk "The key name for a metafield.")
       "key" [] (nn (nm "String")) [],
    field (blk "The namespace for a metafield.")
       "namespace" [] (nn (nm "String")) [],
    field (blk "The parent object that the metafield belongs to.")
       "parentResource" [] (nn (nm "MetafieldParentResource")) [],
    field (blk "Returns a reference object if the metafield definition's type is a resource reference.")
       "reference" [] (nm "MetafieldReference") [],
    field (blk "The type name of the metafield.\nSee the list of [supported types](https://shopify.dev/apps/metafields/definitions/types).")
       "type" [] (nn (nm "String")) [],
    field (blk "The date and time when the storefront metafield was updated.")
       "updatedAt" [] (nn (nm "DateTime")) [],
    field (blk "The value of a metafield.")
       "value" [] (nn (nm "String")) []]

/-- Lines 3700 to 3710 of the module: type MetafieldConnection. -/
def text.MetafieldConnection : List String := [
  "\"\"\"",
  "An auto-generated type for paginating through multiple Metafields.",
  "",
  "\"\"\"",
  "type MetafieldConnection \x7b",
  "  \"\"\"A list of edges.\"\"\"",
  "  edges: [MetafieldEdge!]!",
  "  \"\"\"Information to aid in pagination.\"\"\"",
  "  pageInfo: PageInfo!",
  "\x7d",
  ""]

/-- The type MetafieldConnection declared by lines 3700 to 3710. -/
def MetafieldConnection : Definition :=
  .objectType (blk "An auto-generated type for paginating through multiple Metafields.")
    "MetafieldConnection" [] [] [
    field (blk "A list of edges.")
       "edges" [] (nn (ls (nn (nm "MetafieldEdge")))) [],
    field (blk "Information to aid in pagination.")
       "pageInfo" [] (nn (nm "PageInfo")) []]

/-- Lines 3711 to 3721 of the module: type MetafieldEdge. -/
def text.MetafieldEdge : List String := [
  "\"\"\"",
  "An auto-generated type which holds one Metafield and a cursor during pagination.",
  "",
  "\"\"\"",
  "type MetafieldEdge \x7b",
  "  \"\"\"A cursor for use in pagination.\"\"\"",
  "  cursor: String!",
  "  \"\"\"The item at the end of MetafieldEdge.\"\"\"",
  "  node: Metafield!",
  "\x7d",
  ""]

/-- The type MetafieldEdge declared by lines 3711 to 3721. -/
def MetafieldEdge : Definition :=
  .objectType (blk "An auto-generated type which holds one Metafield and a cursor during pagination.")
    "MetafieldEdge" [] [] [
    field (blk "A cursor for use in pagination.")
       "cursor" [] (nn (nm "String")) [],
    field (blk "The item at the end of MetafieldEdge.")
       "node" [] (nn (nm "Metafield")) []]

/-- Lines 3722 to 3739 of the module: input MetafieldFilter. -/
def text.MetafieldFilter : List String := [
  "\"\"\"",
  "A filter used to view a subset of products in a collection matching a specific metafield value.",
  "",
  "Only the following metafield types are currently supported:",
  "- \\`number_integer\\`",
  "- \\`number_decimal\\`",
  "- \\`single_line_text_field\\`",
  "",
  "\"\"\"",
  "input MetafieldFilter \x7b",
  "  \"\"\"The namespace of the metafield to filter on.\"\"\"",
  "  namespace: String!",
  "  \"\"\"The key of the metafield to filter on.\"\"\"",
  "  key: String!",
  "  \"\"\"The value of the metafield.\"\"\"",
  "  value: String!",
  "\x7d",
  ""]

/-- The input MetafieldFilter declared by lines 3722 to 3739. -/
def MetafieldFilter : Definition :=
  .inputObjectType (blk "A filter used to view a subset of products in a collection matching a specific metafield value.\n\nOnly the following metafield types are currently supported:\n- `number_integer`\n- `number_decimal`\n- `single_line_text_field`")
    "MetafieldFilter" [] [
    inputValue (blk "The namespace of the metafield to filter on.")
       "namespace" (nn (nm "String")) none [],
    inputValue (blk "The key of the metafield to filter on.")
       "key" (nn (nm "String")) none [],
    inputValue (blk "The value of the metafield.")
       "value" (nn (nm "String")) none []]

/-- Lines 3740 to 3742 of the module: union MetafieldParentResource. -/
def text.MetafieldParentResource : List String := [
  "\"\"\"A resource that the metafield belongs to.\"\"\"",
  "union MetafieldParentResource = Article | Blog | Collection | Customer | Order | Page | Product | ProductVariant | Shop",
  ""]

/-- The union MetafieldParentResource declared by lines 3740 to 3742. -/
def MetafieldParentResource : Definition :=
  .unionType (blk "A resource that the metafield belongs to.")
    "MetafieldParentResource" [] ["Article", "Blog", "Collection", "Customer", "Order", "Page", "Product", "ProductVariant", "Shop"]

/-- Lines 3743 to 3748 of the module: union MetafieldReference. -/
def text.MetafieldReference : List String := [
  "\"\"\"",
  "Returns the resource which is being referred to by a metafield.",
  "",
  "\"\"\"",
  "union MetafieldReference = MediaImage | Page | Product | ProductVariant",
  ""]

/-- The union MetafieldReference declared by lines 3743 to 3748. -/
def MetafieldReference : Definition :=
  .unionType (blk "Returns the resource which is being referred to by a metafield.")
    "MetafieldReference" [] ["MediaImage", "Page", "Product", "ProductVariant"]

/-- Lines 3749 to 3762 of the module: type Model3d. -/
def text.Model3d : List String := [
  "\"\"\"Represents a Shopify hosted 3D model.\"\"\"",
  "type Model3d implements Node & Media \x7b",
  "  \"\"\"A word or phrase to share the nature or contents of a media.\"\"\"",
  "  alt: String",
  "  \"\"\"A globally-unique identifier.\"\"\"",
  "  id: ID!",
  "  \"\"\"The media content type.\"\"\"",
  "  mediaContentType: MediaContentType!",
  "  \"\"\"The preview image for the media.\"\"\"",
  "  previewImage: Image",
  "  \"\"\"The sources for a 3d model.\"\"\"",
  "  sources: [Model3dSource!]!",
  "\x7d",
  ""]

/-- The type Model3d declared by lines 3749 to 3762. -/
def Model3d : Definition :=
  .objectType (blk "Represents a Shopify hosted 3D model.")
    "Model3d" ["Node", "Media"] [] [
    field (blk "A word or phrase to share the nature or contents of a media.")
       "alt" [] (nm "String") [],
    field (blk "A globally-unique identifier.")
       "id" [] (nn (nm "ID")) [],
    field (blk "The media content type.")
       "mediaContentType" [] (nn (nm "MediaContentType")) [],
    field (blk "The preview image for the media.")
       "previewImage" [] (nm "Image") [],
    field (blk "The sources for a 3d model.")
       "sources" [] (nn (ls (nn (nm "Model3dSource")))) []]

/-- Lines 3763 to 3774 of the module: type Model3dSource. -/
def text.Model3dSource : List String := [
  "\"\"\"Represents a source for a Shopify hosted 3d model.\"\"\"",
  "type Model3dSource \x7b",
  "  \"\"\"The filesize of the 3d model.\"\"\"",
  "  filesize: Int!",
  "  \"\"\"The format of the 3d model.\"\"\"",
  "  format: String!",
  "  \"\"\"The MIME type of the 3d model.\"\"\"",
  "  mimeType: String!",
  "  \"\"\"The URL of the 3d model.\"\"\"",
  "  url: String!",
  "\x7d",
  ""]

/-- The type Model3dSource declared by lines 3763 to 3774. -/
def Model3dSource : Definition :=
  .objectType (blk "Represents a source for a Shopify hosted 3d model.")
    "Model3dSource" [] [] [
    field (blk "The filesize of the 3d model.")
       "filesize" [] (nn (nm "Int")) [],
    field (blk "The format of the 3d model.")
       "format" [] (nn (nm "String")) [],
    field (blk "The MIME type of the 3d model.")
       "mimeType" [] (nn (nm "String")) [],
    field (blk "The URL of the 3d model.")
       "url" [] (nn (nm "String")) []]

/-- Lines 3775 to 3779 of the module: scalar Money. -/
def text.Money : List String := [
  "\"\"\"",
  "A monetary value string without a currency symbol or code. Example value: \\`\"100.57\"\\`.",
  "\"\"\"",
  "scalar Money",
  ""]

/-- The scalar Money declared by lines 3775 to 3779. -/
def Money : Definition :=
  .scalarType (blk "A monetary value string without a currency symbol or code. Example value: `\"100.57\"`.")
    "Money" []

/-- Lines 3780 to 3787 of the module: input MoneyInput. -/
def text.MoneyInput : List String := [
  "\"\"\"Specifies the fields for a monetary value with currency.\"\"\"",
  "input MoneyInput \x7b",
  "  \"\"\"Decimal money amount.\"\"\"",
  "  amount: Decimal!",
  "  \"\"\"Currency of the money.\"\"\"",
  "  currencyCode: CurrencyCode!",
  "\x7d",
  ""]

/-- The input MoneyInput declared by lines 3780 to 3787. -/
def MoneyInput : Definition :=
  .inputObjectType (blk "Specifies the fields for a monetary value with currency.")
    "MoneyInput" [] [
    inputValue (blk "Decimal money amount.")
       "amount" (nn (nm "Decimal")) none [],
    inputValue (blk "Currency of the money.")
       "currencyCode" (nn (nm "CurrencyCode")) none []]

/-- Lines 3788 to 3798 of the module: type MoneyV2. -/
def text.MoneyV2 : List String := [
  "\"\"\"",
  "A monetary value with currency.",
  "",
  "\"\"\"",
  "type MoneyV2 \x7b",
  "  \"\"\"Decimal money amount.\"\"\"",
  "  amount: Decimal!",
  "  \"\"\"Currency of the money.\"\"\"",
  "  currencyCode: CurrencyCode!",
  "\x7d",
  ""]

/-- The type MoneyV2 declared by lines 3788 to 3798. -/
def MoneyV2 : Definition :=
  .objectType (blk "A monetary value with currency.")
    "MoneyV2" [] [] [
    field (blk "Decimal money amount.")
       "amount" [] (nn (nm "Decimal")) [],
    field (blk "Currency of the money.")
       "currencyCode" [] (nn (nm "CurrencyCode")) []]

/-- Lines 3799 to 4193 of the module: type Mutation. -/
def text.Mutation : List String := [
  "\"\"\"",
  "The schema’s entry-point for mutations. This acts as the public, top-level API from which all mutation queries must start.",
  "\"\"\"",
  "type Mutation \x7b",
  "  \"\"\"Updates the attributes on a cart.\"\"\"",
  "  cartAttributesUpdate(",
  "    \"\"\"",
  "    An array of key-value pairs that contains additional information about the cart.",
  "    \"\"\"",
  "    attributes: [AttributeInput!]!",
  "    \"\"\"The ID of the cart.\"\"\"",
  "    cartId: ID!",
  "  ): CartAttributesUpdatePayload",
  "  \"\"\"",
  "  Updates customer information associated with a cart.",
  "  Buyer identity is used to determine",
  "  [international pricing](https://shopify.dev/custom-storefronts/products/international-pricing#create-a-checkout)",
  "  and should match the customer's shipping address.",
  "  ",
  "  \"\"\"",
  "  cartBuyerIdentityUpdate(",
  "    \"\"\"The ID of the cart.\"\"\"",
  "    cartId: ID!",
  "    \"\"\"",
  "    The customer associated with the cart. Used to determine [international pricing](https://shopify.dev/custom-storefronts/products/international-pricing#create-a-checkout). Buyer identity should match the customer's shipping address.",
  "    \"\"\"",
  "    buyerIdentity: CartBuyerIdentityInput!",
  "  ): CartBuyerIdentityUpdatePayload",
  "  \"\"\"Creates a new cart.\"\"\"",
  "  cartCreate(",
  "    \"\"\"The fields used to create a cart.\"\"\"",
  "    input: CartInput",
  "  ): CartCreatePayload",
  "  \"\"\"Updates the discount codes applied to the cart.\"\"\"",
  "  cartDiscountCodesUpdate(",
  "    \"\"\"The ID of the cart.\"\"\"",
  "    cartId: ID!",
  "    \"\"\"The discount codes to apply to the cart.\"\"\"",
  "    discountCodes: [String!]",
  "  ): CartDiscountCodesUpdatePayload",
  "  \"\"\"Adds a merchandise line to the cart.\"\"\"",
  "  cartLinesAdd(",
  "    \"\"\"A list of merchandise lines to add to the cart.\"\"\"",
  "    lines: [CartLineInput!]!",
  "    \"\"\"The ID of the cart.\"\"\"",
  "    cartId: ID!",
  "  ): CartLinesAddPayload",
  "  \"\"\"Removes one or more merchandise lines from the cart.\"\"\"",
  "  cartLinesRemove(",
  "    \"\"\"The ID of the cart.\"\"\"",
  "    cartId: ID!",
  "    \"\"\"The merchandise line IDs to remove.\"\"\"",
  "    lineIds: [ID!]!",
  "  ): CartLinesRemovePayload",
  "  \"\"\"Updates one or more merchandise lines on a cart.\"\"\"",
  "  cartLinesUpdate(",
  "    \"\"\"The ID of the cart.\"\"\"",
  "    cartId: ID!",
  "    \"\"\"The merchandise lines to update.\"\"\"",
  "    lines: [CartLineUpdateInput!]!",
  "  ): CartLinesUpdatePayload",
  "  \"\"\"Updates the note on the cart.\"\"\"",
  "  cartNoteUpdate(",
  "    \"\"\"The ID of the cart.\"\"\"",
  "    cartId: ID!",
  "    \"\"\"The note on the cart.\"\"\"",
  "    note: String",
  "  ): CartNoteUpdatePayload",
  "  \"\"\"",
  "  Updates the attributes of a checkout if \\`allowPartialAddresses\\` is \\`true\\`.",
  "  \"\"\"",
  "  checkoutAttributesUpdate(",
  "    \"\"\"The ID of the checkout.\"\"\"",
  "    checkoutId: ID!",
  "    \"\"\"The fields used to update a checkout's attributes.\"\"\"",
  "    input: CheckoutAttributesUpdateInput!",
  "  ): CheckoutAttributesUpdatePayload @deprecated(reason: \"Use \\`checkoutAttributesUpdateV2\\` instead\")",
  "  \"\"\"",
  "  Updates the attributes of a checkout if \\`allowPartialAddresses\\` is \\`true\\`.",
  "  \"\"\"",
  "  checkoutAttributesUpdateV2(",
  "    \"\"\"The ID of the checkout.\"\"\"",
  "    checkoutId: ID!",
  "    \"\"\"The checkout attributes to update.\"\"\"",
  "    input: CheckoutAttributesUpdateV2Input!",
  "  ): CheckoutAttributesUpdateV2Payload",
  "  \"\"\"",
  "  Completes a checkout without providing payment information. You can use this mutation for free items or items whose purchase price is covered by a gift card.",
  "  \"\"\"",
  "  checkoutCompleteFree(",
  "    \"\"\"The ID of the checkout.\"\"\"",
  "    checkoutId: ID!",
  "  ): CheckoutCompleteFreePayload",
  "  \"\"\"Completes a checkout using a credit card token from Shopify's Vault.\"\"\"",
  "  checkoutCompleteWithCreditCard(",
  "    \"\"\"The ID of the checkout.\"\"\"",
  "    checkoutId: ID!",
  "    \"\"\"The credit card info to apply as a payment.\"\"\"",
  "    payment: CreditCardPaymentInput!",
  "  ): CheckoutCompleteWithCreditCardPayload @deprecated(reason: \"Use \\`checkoutCompleteWithCreditCardV2\\` instead\")",
  "  \"\"\"",
  "  Completes a checkout using a credit card token from Shopify's card vault. Before you can complete checkouts using CheckoutCompleteWithCreditCardV2, you need to  [_request payment processing_](https://shopify.dev/apps/channels/getting-started#request-payment-processing).",
  "  \"\"\"",
  "  checkoutCompleteWithCreditCardV2(",
  "    \"\"\"The ID of the checkout.\"\"\"",
  "    checkoutId: ID!",
  "    \"\"\"The credit card info to apply as a payment.\"\"\"",
  "    payment: CreditCardPaymentInputV2!",
  "  ): CheckoutCompleteWithCreditCardV2Payload",
  "  \"\"\"Completes a checkout with a tokenized payment.\"\"\"",
  "  checkoutCompleteWithTokenizedPayment(",
  "    \"\"\"The ID of the checkout.\"\"\"",
  "    checkoutId: ID!",
  "    \"\"\"The info to apply as a tokenized payment.\"\"\"",
  "    payment: TokenizedPaymentInput!",
  "  ): CheckoutCompleteWithTokenizedPaymentPayload @deprecated(reason: \"Use \\`checkoutCompleteWithTokenizedPaymentV2\\` instead\")",
  "  \"\"\"Completes a checkout with a tokenized payment.\"\"\"",
  "  checkoutCompleteWithTokenizedPaymentV2(",
  "    \"\"\"The ID of the checkout.\"\"\"",
  "    checkoutId: ID!",
  "    \"\"\"The info to apply as a tokenized payment.\"\"\"",
  "    payment: TokenizedPaymentInputV2!",
  "  ): CheckoutCompleteWithTokenizedPaymentV2Payload @deprecated(reason: \"Use \\`checkoutCompleteWithTokenizedPaymentV3\\` instead\")",
  "  \"\"\"Completes a checkout with a tokenized payment.\"\"\"",
  "  checkoutCompleteWithTokenizedPaymentV3(",
  "    \"\"\"The ID of the checkout.\"\"\"",
  "    checkoutId: ID!",
  "    \"\"\"The info to apply as a tokenized payment.\"\"\"",
  "    payment: TokenizedPaymentInputV3!",
  "  ): CheckoutCompleteWithTokenizedPaymentV3Payload",
  "  \"\"\"Creates a new checkout.\"\"\"",
  "  checkoutCreate(",
  "    \"\"\"The fields used to create a checkout.\"\"\"",
  "    input: CheckoutCreateInput!",
  "    \"\"\"The checkout queue token. Available only to selected stores.\"\"\"",
  "    queueToken: String",
  "  ): CheckoutCreatePayload",
  "  \"\"\"Associates a customer to the checkout.\"\"\"",
  "  checkoutCustomerAssociate(",
  "    \"\"\"The ID of the checkout.\"\"\"",
  "    checkoutId: ID!",
  "    \"\"\"The customer access token of the customer to associate.\"\"\"",
  "    customerAccessToken: String!",
  "  ): CheckoutCustomerAssociatePayload @deprecated(reason: \"Use \\`checkoutCustomerAssociateV2\\` instead\")",
  "  \"\"\"Associates a customer to the checkout.\"\"\"",
  "  checkoutCustomerAssociateV2(",
  "    \"\"\"The ID of the checkout.\"\"\"",
  "    checkoutId: ID!",
  "    \"\"\"The customer access token of the customer to associate.\"\"\"",
  "    customerAccessToken: String!",
  "  ): CheckoutCustomerAssociateV2Payload",
  "  \"\"\"Disassociates the current checkout customer from the checkout.\"\"\"",
  "  checkoutCustomerDisassociate(",
  "    \"\"\"The ID of the checkout.\"\"\"",
  "    checkoutId: ID!",
  "  ): CheckoutCustomerDisassociatePayload @deprecated(reason: \"Use \\`checkoutCustomerDisassociateV2\\` instead\")",
  "  \"\"\"Disassociates the current checkout customer from the checkout.\"\"\"",
  "  checkoutCustomerDisassociateV2(",
  "    \"\"\"The ID of the checkout.\"\"\"",
  "    checkoutId: ID!",
  "  ): CheckoutCustomerDisassociateV2Payload",
  "  \"\"\"Applies a discount to an existing checkout using a discount code.\"\"\"",
  "  checkoutDiscountCodeApply(",
  "    \"\"\"The discount code to apply to the checkout.\"\"\"",
  "    discountCode: String!",
  "    \"\"\"The ID of the checkout.\"\"\"",
  "    checkoutId: ID!",
  "  ): CheckoutDiscountCodeApplyPayload @deprecated(reason: \"Use \\`checkoutDiscountCodeApplyV2\\` instead\")",
  "  \"\"\"Applies a discount to an existing checkout using a discount code.\"\"\"",
  "  checkoutDiscountCodeApplyV2(",
  "    \"\"\"The discount code to apply to the checkout.\"\"\"",
  "    discountCode: String!",
  "    \"\"\"The ID of the checkout.\"\"\"",
  "    checkoutId: ID!",
  "  ): CheckoutDiscountCodeApplyV2Payload",
  "  \"\"\"Removes the applied discount from an existing checkout.\"\"\"",
  "  checkoutDiscountCodeRemove(",
  "    \"\"\"The ID of the checkout.\"\"\"",
  "    checkoutId: ID!",
  "  ): CheckoutDiscountCodeRemovePayload",
  "  \"\"\"Updates the email on an existing checkout.\"\"\"",
  "  checkoutEmailUpdate(",
  "    \"\"\"The ID of the checkout.\"\"\"",
  "    checkoutId: ID!",
  "    \"\"\"The email to update the checkout with.\"\"\"",
  "    email: String!",
  "  ): CheckoutEmailUpdatePayload @deprecated(reason: \"Use \\`checkoutEmailUpdateV2\\` instead\")",
  "  \"\"\"Updates the email on an existing checkout.\"\"\"",
  "  checkoutEmailUpdateV2(",
  "    \"\"\"The ID of the checkout.\"\"\"",
  "    checkoutId: ID!",
  "    \"\"\"The email to update the checkout with.\"\"\"",
  "    email: String!",
  "  ): CheckoutEmailUpdateV2Payload",
  "  \"\"\"",
  "  Applies a gift card to an existing checkout using a gift card code. This will replace all currently applied gift cards.",
  "  \"\"\"",
  "  checkoutGiftCardApply(",
  "    \"\"\"The code of the gift card to apply on the checkout.\"\"\"",
  "    giftCardCode: String!",
  "    \"\"\"The ID of the checkout.\"\"\"",
  "    checkoutId: ID!",
  "  ): CheckoutGiftCardApplyPayload @deprecated(reason: \"Use \\`checkoutGiftCardsAppend\\` instead\")",
  "  \"\"\"Removes an applied gift card from the checkout.\"\"\"",
  "  checkoutGiftCardRemove(",
  "    \"\"\"The ID of the Applied Gift Card to remove from the Checkout.\"\"\"",
  "    appliedGiftCardId: ID!",
  "    \"\"\"The ID of the checkout.\"\"\"",
  "    checkoutId: ID!",
  "  ): CheckoutGiftCardRemovePayload @deprecated(reason: \"Use \\`checkoutGiftCardRemoveV2\\` instead\")",
  "  \"\"\"Removes an applied gift card from the checkout.\"\"\"",
  "  checkoutGiftCardRemoveV2(",
  "    \"\"\"The ID of the Applied Gift Card to remove from the Checkout.\"\"\"",
  "    appliedGiftCardId: ID!",
  "    \"\"\"The ID of the checkout.\"\"\"",
  "    checkoutId: ID!",
  "  ): CheckoutGiftCardRemoveV2Payload",
  "  \"\"\"Appends gift cards to an existing checkout.\"\"\"",
  "  checkoutGiftCardsAppend(",
  "    \"\"\"A list of gift card codes to append to the checkout.\"\"\"",
  "    giftCardCodes: [String!]!",
  "    \"\"\"The ID of the checkout.\"\"\"",
  "    checkoutId: ID!",
  "  ): CheckoutGiftCardsAppendPayload",
  "  \"\"\"Adds a list of line items to a checkout.\"\"\"",
  "  checkoutLineItemsAdd(",
  "    \"\"\"A list of line item objects to add to the checkout.\"\"\"",
  "    lineItems: [CheckoutLineItemInput!]!",
  "    \"\"\"The ID of the checkout.\"\"\"",
  "    checkoutId: ID!",
  "  ): CheckoutLineItemsAddPayload",
  "  \"\"\"Removes line items from an existing checkout.\"\"\"",
  "  checkoutLineItemsRemove(",
  "    \"\"\"The checkout on which to remove line items.\"\"\"",
  "    checkoutId: ID!",
  "    \"\"\"Line item ids to remove.\"\"\"",
  "    lineItemIds: [ID!]!",
  "  ): CheckoutLineItemsRemovePayload",
  "  \"\"\"Sets a list of line items to a checkout.\"\"\"",
  "  checkoutLineItemsReplace(",
  "    \"\"\"A list of line item objects to set on the checkout.\"\"\"",
  "    lineItems: [CheckoutLineItemInput!]!",
  "    \"\"\"The ID of the checkout.\"\"\"",
  "    checkoutId: ID!",
  "  ): CheckoutLineItemsReplacePayload",
  "  \"\"\"Updates line items on a checkout.\"\"\"",
  "  checkoutLineItemsUpdate(",
  "    \"\"\"The checkout on which to update line items.\"\"\"",
  "    checkoutId: ID!",
  "    \"\"\"Line items to update.\"\"\"",
  "    lineItems: [CheckoutLineItemUpdateInput!]!",
  "  ): CheckoutLineItemsUpdatePayload",
  "  \"\"\"Updates the shipping address of an existing checkout.\"\"\"",
  "  checkoutShippingAddressUpdate(",
  "    \"\"\"The shipping address to where the line items will be shipped.\"\"\"",
  "    shippingAddress: MailingAddressInput!",
  "    \"\"\"The ID of the checkout.\"\"\"",
  "    checkoutId: ID!",
  "  ): CheckoutShippingAddressUpdatePayload @deprecated(reason: \"Use \\`checkoutShippingAddressUpdateV2\\` instead\")",
  "  \"\"\"Updates the shipping address of an existing checkout.\"\"\"",
  "  checkoutShippingAddressUpdateV2(",
  "    \"\"\"The shipping address to where the line items will be shipped.\"\"\"",
  "    shippingAddress: MailingAddressInput!",
  "    \"\"\"The ID of the checkout.\"\"\"",
  "    checkoutId: ID!",
  "  ): CheckoutShippingAddressUpdateV2Payload",
  "  \"\"\"Updates the shipping lines on an existing checkout.\"\"\"",
  "  checkoutShippingLineUpdate(",
  "    \"\"\"The ID of the checkout.\"\"\"",
  "    checkoutId: ID!",
  "    \"\"\"",
  "    A unique identifier to a Checkout’s shipping provider, price, and title combination, enabling the customer to select the availableShippingRates.",
  "    \"\"\"",
  "    shippingRateHandle: String!",
  "  ): CheckoutShippingLineUpdatePayload",
  "  \"\"\"",
  "  Creates a customer access token.",
  "  The customer access token is required to modify the customer object in any way.",
  "  ",
  "  \"\"\"",
  "  customerAccessTokenCreate(",
  "    \"\"\"The fields used to create a customer access token.\"\"\"",
  "    input: CustomerAccessTokenCreateInput!",
  "  ): CustomerAccessTokenCreatePayload",
  "  \"\"\"",
  "  Creates a customer access token using a multipass token instead of email and password.",
  "  A customer record is created if customer does not exist. If a customer record already",
  "  exists but the record is disabled, then it's enabled.",
  "  ",
  "  \"\"\"",
  "  customerAccessTokenCreateWithMultipass(",
  "    \"\"\"A valid multipass token to be authenticated.\"\"\"",
  "    multipassToken: String!",
  "  ): CustomerAccessTokenCreateWithMultipassPayload",
  "  \"\"\"Permanently destroys a customer access token.\"\"\"",
  "  customerAccessTokenDelete(",
  "    \"\"\"The access token used to identify the customer.\"\"\"",
  "    customerAccessToken: String!",
  "  ): CustomerAccessTokenDeletePayload",
  "  \"\"\"",
  "  Renews a customer access token.",
  "  ",
  "  Access token renewal must happen *before* a token expires.",
  "  If a token has already expired, a new one should be created instead via \\`customerAccessTokenCreate\\`.",
  "  ",
  "  \"\"\"",
  "  customerAccessTokenRenew(",
  "    \"\"\"The access token used to identify the customer.\"\"\"",
  "    customerAccessToken: String!",
  "  ): CustomerAccessTokenRenewPayload",
  "  \"\"\"Activates a customer.\"\"\"",
  "  customerActivate(",
  "    \"\"\"Specifies the customer to activate.\"\"\"",
  "    id: ID!",
  "    \"\"\"The fields used to activate a customer.\"\"\"",
  "    input: CustomerActivateInput!",
  "  ): CustomerActivatePayload",
  "  \"\"\"",
  "  Activates a customer with the activation url received from \\`customerCreate\\`.",
  "  \"\"\"",
  "  customerActivateByUrl(",
  "    \"\"\"The customer activation URL.\"\"\"",
  "    activationUrl: URL!",
  "    \"\"\"A new password set during activation.\"\"\"",
  "    password: String!",
  "  ): CustomerActivateByUrlPayload",
  "  \"\"\"Creates a new address for a customer.\"\"\"",
  "  customerAddressCreate(",
  "    \"\"\"The access token used to identify the customer.\"\"\"",
  "    customerAccessToken: String!",
  "    \"\"\"The customer mailing address to create.\"\"\"",
  "    address: MailingAddressInput!",
  "  ): CustomerAddressCreatePayload",
  "  \"\"\"Permanently deletes the address of an existing customer.\"\"\"",
  "  customerAddressDelete(",
  "    \"\"\"Specifies the address to delete.\"\"\"",
  "    id: ID!",
  "    \"\"\"The access token used to identify the customer.\"\"\"",
  "    customerAccessToken: String!",
  "  ): CustomerAddressDeletePayload",
  "  \"\"\"Updates the address of an existing customer.\"\"\"",
  "  customerAddressUpdate(",
  "    \"\"\"The access token used to identify the customer.\"\"\"",
  "    customerAccessToken: String!",
  "    \"\"\"Specifies the customer address to update.\"\"\"",
  "    id: ID!",
  "    \"\"\"The customer’s mailing address.\"\"\"",
  "    address: MailingAddressInput!",
  "  ): CustomerAddressUpdatePayload",
  "  \"\"\"Creates a new customer.\"\"\"",
  "  customerCreate(",
  "    \"\"\"The fields used to create a new customer.\"\"\"",
  "    input: CustomerCreateInput!",
  "  ): CustomerCreatePayload",
  "  \"\"\"Updates the default address of an existing customer.\"\"\"",
  "  customerDefaultAddressUpdate(",
  "    \"\"\"The access token used to identify the customer.\"\"\"",
  "    customerAccessToken: String!",
  "    \"\"\"ID of the address to set as the new default for the customer.\"\"\"",
  "    addressId: ID!",
  "  ): CustomerDefaultAddressUpdatePayload",
  "  \"\"\"",
  "  Sends a reset password email to the customer, as the first step in the reset password process.",
  "  \"\"\"",
  "  customerRecover(",
  "    \"\"\"The email address of the customer to recover.\"\"\"",
  "    email: String!",
  "  ): CustomerRecoverPayload",
  "  \"\"\"",
  "  Resets a customer’s password with a token received from \\`CustomerRecover\\`.",
  "  \"\"\"",
  "  customerReset(",
  "    \"\"\"Specifies the customer to reset.\"\"\"",
  "    id: ID!",
  "    \"\"\"The fields used to reset a customer’s password.\"\"\"",
  "    input: CustomerResetInput!",
  "  ): CustomerResetPayload",
  "  \"\"\"",
  "  Resets a customer’s password with the reset password url received from \\`CustomerRecover\\`.",
  "  \"\"\"",
  "  customerResetByUrl(",
  "    \"\"\"The customer's reset password url.\"\"\"",
  "    resetUrl: URL!",
  "    \"\"\"New password that will be set as part of the reset password process.\"\"\"",
  "    password: String!",
  "  ): CustomerResetByUrlPayload",
  "  \"\"\"Updates an existing customer.\"\"\"",
  "  customerUpdate(",
  "    \"\"\"The access token used to identify the customer.\"\"\"",
  "    customerAccessToken: String!",
  "    \"\"\"The customer object input.\"\"\"",
  "    customer: CustomerUpdateInput!",
  "  ): CustomerUpdatePayload",
  "\x7d",
  ""]

/-- The type Mutation declared by lines 3799 to 4193. -/
def Mutation : Definition :=
  .objectType (blk "The schema’s entry-point for mutations. This acts as the public, top-level API from which all mutation queries must start.")
    "Mutation" [] [] [
    field (blk "Updates the attributes on a cart.")
       "cartAttributesUpdate" [
        inputValue (blk "An array of key-value pairs that contains additional information about the cart.")
           "attributes" (nn (ls (nn (nm "AttributeInput")))) none [],
        inputValue (blk "The ID of the cart.")
           "cartId" (nn (nm "ID")) none []]
       (nm "CartAttributesUpdatePayload") [],
    field (blk "Updates customer information associated with a cart.\nBuyer identity is used to determine\n[international pricing](https://shopify.dev/custom-storefronts/products/international-pricing#create-a-checkout)\nand should match the customer's shipping address.")
       "cartBuyerIdentityUpdate" [
        inputValue (blk "The ID of the cart.")
           "cartId" (nn (nm "ID")) none [],
        inputValue (blk "The customer associated with the cart. Used to determine [international pricing](https://shopify.dev/custom-storefronts/products/international-pricing#create-a-checkout). Buyer identity should match the customer's shipping address.")
           "buyerIdentity" (nn (nm "CartBuyerIdentityInput")) none []]
       (nm "CartBuyerIdentityUpdatePayload") [],
    field (blk "Creates a new cart.")
       "cartCreate" [
        inputValue (blk "The fields used to create a cart.")
           "input" (nm "CartInput") none []]
       (nm "CartCreatePayload") [],
    field (blk "Updates the discount codes applied to the cart.")
       "cartDiscountCodesUpdate" [
        inputValue (blk "The ID of the cart.")
           "cartId" (nn (nm "ID")) none [],
        inputValue (blk "The discount codes to apply to the cart.")
           "discountCodes" (ls (nn (nm "String"))) none []]
       (nm "CartDiscountCodesUpdatePayload") [],
    field (blk "Adds a merchandise line to the cart.")
       "cartLinesAdd" [
        inputValue (blk "A list of merchandise lines to add to the cart.")
           "lines" (nn (ls (nn (nm "CartLineInput")))) none [],
        inputValue (blk "The ID of the cart.")
           "cartId" (nn (nm "ID")) none []]
       (nm "CartLinesAddPayload") [],
    field (blk "Removes one or more merchandise lines from the cart.")
       "cartLinesRemove" [
        inputValue (blk "The ID of the cart.")
           "cartId" (nn (nm "ID")) none [],
        inputValue (blk "The merchandise line IDs to remove.")
           "lineIds" (nn (ls (nn (nm "ID")))) none []]
       (nm "CartLinesRemovePayload") [],
    field (blk "Updates one or more merchandise lines on a cart.")
       "cartLinesUpdate" [
        inputValue (blk "The ID of the cart.")
           "cartId" (nn (nm "ID")) none [],
        inputValue (blk "The merchandise lines to update.")
           "lines" (nn (ls (nn (nm "CartLineUpdateInput")))) none []]
       (nm "CartLinesUpdatePayload") [],
    field (blk "Updates the note on the cart.")
       "cartNoteUpdate" [
        inputValue (blk "The ID of the cart.")
           "cartId" (nn (nm "ID")) none [],
        inputValue (blk "The note on the cart.")
           "note" (nm "String") none []]
       (nm "CartNoteUpdatePayload") [],
    field (blk "Updates the attributes of a checkout if `allowPartialAddresses` is `true`.")
       "checkoutAttributesUpdate" [
        inputValue (blk "The ID of the checkout.")
           "checkoutId" (nn (nm "ID")) none [],
        inputValue (blk "The fields used to update a checkout's attributes.")
           "input" (nn (nm "CheckoutAttributesUpdateInput")) none []]
       (nm "CheckoutAttributesUpdatePayload") [deprecated "Use `checkoutAttributesUpdateV2` instead"],
    field (blk "Updates the attributes of a checkout if `allowPartialAddresses` is `true`.")
       "checkoutAttributesUpdateV2" [
        inputValue (blk "The ID of the checkout.")
           "checkoutId" (nn (nm "ID")) none [],
        inputValue (blk "The checkout attributes to update.")
           "input" (nn (nm "CheckoutAttributesUpdateV2Input")) none []]
       (nm "CheckoutAttributesUpdateV2Payload") [],
    field (blk "Completes a checkout without providing payment information. You can use this mutation for free items or items whose purchase price is covered by a gift card.")
       "checkoutCompleteFree" [
        inputValue (blk "The ID of the checkout.")
           "checkoutId" (nn (nm "ID")) none []]
       (nm "CheckoutCompleteFreePayload") [],
    field (blk "Completes a checkout using a credit card token from Shopify's Vault.")
       "checkoutCompleteWithCreditCard" [
        inputValue (blk "The ID of the checkout.")
           "checkoutId" (nn (nm "ID")) none [],
        inputValue (blk "The credit card info to apply as a payment.")
           "payment" (nn (nm "CreditCardPaymentInput")) none []]
       (nm "CheckoutCompleteWithCreditCardPayload") [deprecated "Use `checkoutCompleteWithCreditCardV2` instead"],
    field (blk "Completes a checkout using a credit card token from Shopify's card vault. Before you can complete checkouts using CheckoutCompleteWithCreditCardV2, you need to  [_request payment processing_](https://shopify.dev/apps/channels/getting-started#request-payment-processing).")
       "checkoutCompleteWithCreditCardV2" [
        inputValue (blk "The ID of the checkout.")
           "checkoutId" (nn (nm "ID")) none [],
        inputValue (blk "The credit card info to apply as a payment.")
           "payment" (nn (nm "CreditCardPaymentInputV2")) none []]
       (nm "CheckoutCompleteWithCreditCardV2Payload") [],
    field (blk "Completes a checkout with a tokenized payment.")
       "checkoutCompleteWithTokenizedPayment" [
        inputValue (blk "The ID of the checkout.")
           "checkoutId" (nn (nm "ID")) none [],
        inputValue (blk "The info to apply as a tokenized payment.")
           "payment" (nn (nm "TokenizedPaymentInput")) none []]
       (nm "CheckoutCompleteWithTokenizedPaymentPayload") [deprecated "Use `checkoutCompleteWithTokenizedPaymentV2` instead"],
    field (blk "Completes a checkout with a tokenized payment.")
       "checkoutCompleteWithTokenizedPaymentV2" [
        inputValue (blk "The ID of the checkout.")
           "checkoutId" (nn (nm "ID")) none [],
        inputValue (blk "The info to apply as a tokenized payment.")
           "payment" (nn (nm "TokenizedPaymentInputV2")) none []]
       (nm "CheckoutCompleteWithTokenizedPaymentV2Payload") [deprecated "Use `checkoutCompleteWithTokenizedPaymentV3` instead"],
    field (blk "Completes a checkout with a tokenized payment.")
       "checkoutCompleteWithTokenizedPaymentV3" [
        inputValue (blk "The ID of the checkout.")
           "checkoutId" (nn (nm "ID")) none [],
        inputValue (blk "The info to apply as a tokenized payment.")
           "payment" (nn (nm "TokenizedPaymentInputV3")) none []]
       (nm "CheckoutCompleteWithTokenizedPaymentV3Payload") [],
    field (blk "Creates a new checkout.")
       "checkoutCreate" [
        inputValue (blk "The fields used to create a checkout.")
           "input" (nn (nm "CheckoutCreateInput")) none [],
        inputValue (blk "The checkout queue token. Available only to selected stores.")
           "queueToken" (nm "String") none []]
       (nm "CheckoutCreatePayload") [],
    field (blk "Associates a customer to the checkout.")
       "checkoutCustomerAssociate" [
        inputValue (blk "The ID of the checkout.")
           "checkoutId" (nn (nm "ID")) none [],
        inputValue (blk "The customer access token of the customer to associate.")
           "customerAccessToken" (nn (nm "String")) none []]
       (nm "CheckoutCustomerAssociatePayload") [deprecated "Use `checkoutCustomerAssociateV2` instead"],
    field (blk "Associates a customer to the checkout.")
       "checkoutCustomerAssociateV2" [
        inputValue (blk "The ID of the checkout.")
           "checkoutId" (nn (nm "ID")) none [],
        inputValue (blk "The customer access token of the customer to associate.")
           "customerAccessToken" (nn (nm "String")) none []]
       (nm "CheckoutCustomerAssociateV2Payload") [],
    field (blk "Disassociates the current checkout customer from the checkout.")
       "checkoutCustomerDisassociate" [
        inputValue (blk "The ID of the checkout.")
           "checkoutId" (nn (nm "ID")) none []]
       (nm "CheckoutCustomerDisassociatePayload") [deprecated "Use `checkoutCustomerDisassociateV2` instead"],
    field (blk "Disassociates the current checkout customer from the checkout.")
       "checkoutCustomerDisassociateV2" [
        inputValue (blk "The ID of the checkout.")
           "checkoutId" (nn (nm "ID")) none []]
       (nm "CheckoutCustomerDisassociateV2Payload") [],
    field (blk "Applies a discount to an existing checkout using a discount code.")
       "checkoutDiscountCodeApply" [
        inputValue (blk "The discount code to apply to the checkout.")
           "discountCode" (nn (nm "String")) none [],
        inputValue (blk "The ID of the checkout.")
           "checkoutId" (nn (nm "ID")) none []]
       (nm "CheckoutDiscountCodeApplyPayload") [deprecated "Use `checkoutDiscountCodeApplyV2` instead"],
    field (blk "Applies a discount to an existing checkout using a discount code.")
       "checkoutDiscountCodeApplyV2" [
        inputValue (blk "The discount code to apply to the checkout.")
           "discountCode" (nn (nm "String")) none [],
        inputValue (blk "The ID of the checkout.")
           "checkoutId" (nn (nm "ID")) none []]
       (nm "CheckoutDiscountCodeApplyV2Payload") [],
    field (blk "Removes the applied discount from an existing checkout.")
       "checkoutDiscountCodeRemove" [
        inputValue (blk "The ID of the checkout.")
           "checkoutId" (nn (nm "ID")) none []]
       (nm "CheckoutDiscountCodeRemovePayload") [],
    field (blk "Updates the email on an existing checkout.")
       "checkoutEmailUpdate" [
        inputValue (blk "The ID of the checkout.")
           "checkoutId" (nn (nm "ID")) none [],
        inputValue (blk "The email to update the checkout with.")
           "email" (nn (nm "String")) none []]
       (nm "CheckoutEmailUpdatePayload") [deprecated "Use `checkoutEmailUpdateV2` instead"],
    field (blk "Updates the email on an existing checkout.")
       "checkoutEmailUpdateV2" [
        inputValue (blk "The ID of the checkout.")
           "checkoutId" (nn (nm "ID")) none [],
        inputValue (blk "The email to update the checkout with.")
           "email" (nn (nm "String")) none []]
       (nm "CheckoutEmailUpdateV2Payload") [],
    field (blk "Applies a gift card to an existing checkout using a gift card code. This will replace all currently applied gift cards.")
       "checkoutGiftCardApply" [
        inputValue (blk "The code of the gift card to apply on the checkout.")
           "giftCardCode" (nn (nm "String")) none [],
        inputValue (blk "The ID of the checkout.")
           "checkoutId" (nn (nm "ID")) none []]
       (nm "CheckoutGiftCardApplyPayload") [deprecated "Use `checkoutGiftCardsAppend` instead"],
    field (blk "Removes an applied gift card from the checkout.")
       "checkoutGiftCardRemove" [
        inputValue (blk "The ID of the Applied Gift Card to remove from the Checkout.")
           "appliedGiftCardId" (nn (nm "ID")) none [],
        inputValue (blk "The ID of the checkout.")
           "checkoutId" (nn (nm "ID")) none []]
       (nm "CheckoutGiftCardRemovePayload") [deprecated "Use `checkoutGiftCardRemoveV2` instead"],
    field (blk "Removes an applied gift card from the checkout.")
       "checkoutGiftCardRemoveV2" [
        inputValue (blk "The ID of the Applied Gift Card to remove from the Checkout.")
           "appliedGiftCardId" (nn (nm "ID")) none [],
        inputValue (blk "The ID of the checkout.")
           "checkoutId" (nn (nm "ID")) none []]
       (nm "CheckoutGiftCardRemoveV2Payload") [],
    field (blk "Appends gift cards to an existing checkout.")
       "checkoutGiftCardsAppend" [
        inputValue (blk "A list of gift card codes to append to the checkout.")
           "giftCardCodes" (nn (ls (nn (nm "String")))) none [],
        inputValue (blk "The ID of the checkout.")
           "checkoutId" (nn (nm "ID")) none []]
       (nm "CheckoutGiftCardsAppendPayload") [],
    field (blk "Adds a list of line items to a checkout.")
       "checkoutLineItemsAdd" [
        inputValue (blk "A list of line item objects to add to the checkout.")
           "lineItems" (nn (ls (nn (nm "CheckoutLineItemInput")))) none [],
        inputValue (blk "The ID of the checkout.")
           "checkoutId" (nn (nm "ID")) none []]
       (nm "CheckoutLineItemsAddPayload") [],
    field (blk "Removes line items from an existing checkout.")
       "checkoutLineItemsRemove" [
        inputValue (blk "The checkout on which to remove line items.")
           "checkoutId" (nn (nm "ID")) none [],
        inputValue (blk "Line item ids to remove.")
           "lineItemIds" (nn (ls (nn (nm "ID")))) none []]
       (nm "CheckoutLineItemsRemovePayload") [],
    field (blk "Sets a list of line items to a checkout.")
       "checkoutLineItemsReplace" [
        inputValue (blk "A list of line item objects to set on the checkout.")
           "lineItems" (nn (ls (nn (nm "CheckoutLineItemInput")))) none [],
        inputValue (blk "The ID of the checkout.")
           "checkoutId" (nn (nm "ID")) none []]
       (nm "CheckoutLineItemsReplacePayload") [],
    field (blk "Updates line items on a checkout.")
       "checkoutLineItemsUpdate" [
        inputValue (blk "The checkout on which to update line items.")
           "checkoutId" (nn (nm "ID")) none [],
        inputValue (blk "Line items to update.")
           "lineItems" (nn (ls (nn (nm "CheckoutLineItemUpdateInput")))) none []]
       (nm "CheckoutLineItemsUpdatePayload") [],
    field (blk "Updates the shipping address of an existing checkout.")
       "checkoutShippingAddressUpdate" [
        inputValue (blk "The shipping address to where the line items will be shipped.")
           "shippingAddress" (nn (nm "MailingAddressInput")) none [],
        inputValue (blk "The ID of the checkout.")
           "checkoutId" (nn (nm "ID")) none []]
       (nm "CheckoutShippingAddressUpdatePayload") [deprecated "Use `checkoutShippingAddressUpdateV2` instead"],
    field (blk "Updates the shipping address of an existing checkout.")
       "checkoutShippingAddressUpdateV2" [
        inputValue (blk "The shipping address to where the line items will be shipped.")
           "shippingAddress" (nn (nm "MailingAddressInput")) none [],
        inputValue (blk "The ID of the checkout.")
           "checkoutId" (nn (nm "ID")) none []]
       (nm "CheckoutShippingAddressUpdateV2Payload") [],
    field (blk "Updates the shipping lines on an existing checkout.")
       "checkoutShippingLineUpdate" [
        inputValue (blk "The ID of the checkout.")
           "checkoutId" (nn (nm "ID")) none [],
        inputValue (blk "A unique identifier to a Checkout’s shipping provider, price, and title combination, enabling the customer to select the availableShippingRates.")
           "shippingRateHandle" (nn (nm "String")) none []]
       (nm "CheckoutShippingLineUpdatePayload") [],
    field (blk "Creates a customer access token.\nThe customer access token is required to modify the customer object in any way.")
       "customerAccessTokenCreate" [
        inputValue (blk "The fields used to create a customer access token.")
           "input" (nn (nm "CustomerAccessTokenCreateInput")) none []]
       (nm "CustomerAccessTokenCreatePayload") [],
    field (blk "Creates a customer access token using a multipass token instead of email and password.\nA customer record is created if customer does not exist. If a customer record already\nexists but the record is disabled, then it's enabled.")
       "customerAccessTokenCreateWithMultipass" [
        inputValue (blk "A valid multipass token to be authenticated.")
           "multipassToken" (nn (nm "String")) none []]
       (nm "CustomerAccessTokenCreateWithMultipassPayload") [],
    field (blk "Permanently destroys a customer access token.")
       "customerAccessTokenDelete" [
        inputValue (blk "The access token used to identify the customer.")
           "customerAccessToken" (nn (nm "String")) none []]
       (nm "CustomerAccessTokenDeletePayload") [],
    field (blk "Renews a customer access token.\n\nAccess token renewal must happen *before* a token expires.\nIf a token has already expired, a new one should be created instead via `customerAccessTokenCreate`.")
       "customerAccessTokenRenew" [
        inputValue (blk "The access token used to identify the customer.")
           "customerAccessToken" (nn (nm "String")) none []]
       (nm "CustomerAccessTokenRenewPayload") [],
    field (blk "Activates a customer.")
       "customerActivate" [
        inputValue (blk "Specifies the customer to activate.")
           "id" (nn (nm "ID")) none [],
        inputValue (blk "The fields used to activate a customer.")
           "input" (nn (nm "CustomerActivateInput")) none []]
       (nm "CustomerActivatePayload") [],
    field (blk "Activates a customer with the activation url received from `customerCreate`.")
       "customerActivateByUrl" [
        inputValue (blk "The customer activation URL.")
           "activationUrl" (nn (nm "URL")) none [],
        inputValue (blk "A new password set during activation.")
           "password" (nn (nm "String")) none []]
       (nm "CustomerActivateByUrlPayload") [],
    field (blk "Creates a new address for a customer.")
       "customerAddressCreate" [
        inputValue (blk "The access token used to identify the customer.")
           "customerAccessToken" (nn (nm "String")) none [],
        inputValue (blk "The customer mailing address to create.")
           "address" (nn (nm "MailingAddressInput")) none []]
       (nm "CustomerAddressCreatePayload") [],
    field (blk "Permanently deletes the address of an existing customer.")
       "customerAddressDelete" [
        inputValue (blk "Specifies the address to delete.")
           "id" (nn (nm "ID")) none [],
        inputValue (blk "The access token used to identify the customer.")
           "customerAccessToken" (nn (nm "String")) none []]
       (nm "CustomerAddressDeletePayload") [],
    field (blk "Updates the address of an existing customer.")
       "customerAddressUpdate" [
        inputValue (blk "The access token used to identify the customer.")
           "customerAccessToken" (nn (nm "String")) none [],
        inputValue (blk "Specifies the customer address to update.")
           "id" (nn (nm "ID")) none [],
        inputValue (blk "The customer’s mailing address.")
           "address" (nn (nm "MailingAddressInput")) none []]
       (nm "CustomerAddressUpdatePayload") [],
    field (blk "Creates a new customer.")
       "customerCreate" [
        inputValue (blk "The fields used to create a new customer.")
           "input" (nn (nm "CustomerCreateInput")) none []]
       (nm "CustomerCreatePayload") [],
    field (blk "Updates the default address of an existing customer.")
       "customerDefaultAddressUpdate" [
        inputValue (blk "The access token used to identify the customer.")
           "customerAccessToken" (nn (nm "String")) none [],
        inputValue (blk "ID of the address to set as the new default for the customer.")
           "addressId" (nn (nm "ID")) none []]
       (nm "CustomerDefaultAddressUpdatePayload") [],
    field (blk "Sends a reset password email to the customer, as the first step in the reset password process.")
       "customerRecover" [
        inputValue (blk "The email address of the customer to recover.")
           "email" (nn (nm "String")) none []]
       (nm "CustomerRecoverPayload") [],
    field (blk "Resets a customer’s password with a token received from `CustomerRecover`.")
       "customerReset" [
        inputValue (blk "Specifies the customer to reset.")
           "id" (nn (nm "ID")) none [],
        inputValue (blk "The fields used to reset a customer’s password.")
           "input" (nn (nm "CustomerResetInput")) none []]
       (nm "CustomerResetPayload") [],
    field (blk "Resets a customer’s password with the reset password url received from `CustomerRecover`.")
       "customerResetByUrl" [
        inputValue (blk "The customer's reset password url.")
           "resetUrl" (nn (nm "URL")) none [],
        inputValue (blk "New password that will be set as part of the reset password process.")
           "password" (nn (nm "String")) none []]
       (nm "CustomerResetByUrlPayload") [],
    field (blk "Updates an existing customer.")
       "customerUpdate" [
        inputValue (blk "The access token used to identify the customer.")
           "customerAccessToken" (nn (nm "String")) none [],
        inputValue (blk "The customer object input.")
           "customer" (nn (nm "CustomerUpdateInput")) none []]
       (nm "CustomerUpdatePayload") []]

/-- Lines 4194 to 4205 of the module: interface Node. -/
def text.Node : List String := [
  "\"\"\"",
  "An object with an ID field to support global identification, in accordance with the",
  "[Relay specification](https://relay.dev/graphql/objectidentification.htm#sec-Node-Interface).",
  "This interface is used by the [node](https://shopify.dev/api/admin-graphql/unstable/queries/node)",
  "and [nodes](https://shopify.dev/api/admin-graphql/unstable/queries/nodes) queries.",
  "",
  "\"\"\"",
  "interface Node \x7b",
  "  \"\"\"A globally-unique identifier.\"\"\"",
  "  id: ID!",
  "\x7d",
  ""]

/-- The interface Node declared by lines 4194 to 4205. -/
def Node : Definition :=
  .interfaceType (blk "An object with an ID field to support global identification, in accordance with the\n[Relay specification](https://relay.dev/graphql/objectidentification.htm#sec-Node-Interface).\nThis interface is used by the [node](https://shopify.dev/api/admin-graphql/unstable/queries/node)\nand [nodes](https://shopify.dev/api/admin-graphql/unstable/queries/nodes) queries.")
    "Node" [] [] [
    field (blk "A globally-unique identifier.")
       "id" [] (nn (nm "ID")) []]

/-- Lines 4206 to 4215 of the module: interface OnlineStorePublishable. -/
def text.OnlineStorePublishable : List String := [
  "\"\"\"",
  "Represents a resource that can be published to the Online Store sales channel.",
  "\"\"\"",
  "interface OnlineStorePublishable \x7b",
  "  \"\"\"",
  "  The URL used for viewing the resource on the shop's Online Store. Returns \\`null\\` if the resource is currently not published to the Online Store sales channel.",
  "  \"\"\"",
  "  onlineStoreUrl: URL",
  "\x7d",
  ""]

/-- The interface OnlineStorePublishable declared by lines 4206 to 4215. -/
def OnlineStorePublishable : Definition :=
  .interfaceType (blk "Represents a resource that can be published to the Online Store sales channel.")
    "OnlineStorePublishable" [] [] [
    field (blk "The URL used for viewing the resource on the shop's Online Store. Returns `null` if the resource is currently not published to the Online Store sales channel.")
       "onlineStoreUrl" [] (nm "URL") []]

/-- Lines 4216 to 4368 of the module: type Order. -/
def text.Order : List String := [
  "\"\"\"",
  "An order is a customer’s completed request to purchase one or more products from a shop. An order is created when a customer completes the checkout process, during which time they provides an email address, billing address and payment information.",
  "\"\"\"",
  "type Order implements Node & HasMetafields \x7b",
  "  \"\"\"",
  "  The reason for the order's cancellation. Returns \\`null\\` if the order wasn't canceled.",
  "  \"\"\"",
  "  cancelReason: OrderCancelReason",
  "  \"\"\"",
  "  The date and time when the order was canceled. Returns null if the order wasn't canceled.",
  "  \"\"\"",
  "  canceledAt: DateTime",
  "  \"\"\"The code of the currency used for the payment.\"\"\"",
  "  currencyCode: CurrencyCode!",
  "  \"\"\"",
  "  The subtotal of line items and their discounts, excluding line items that have been removed. Does not contain order-level discounts, duties, shipping costs, or shipping discounts. Taxes are not included unless the order is a taxes-included order.",
  "  \"\"\"",
  "  currentSubtotalPrice: MoneyV2!",
  "  \"\"\"The total cost of duties for the order, including refunds.\"\"\"",
  "  currentTotalDuties: MoneyV2",
  "  \"\"\"",
  "  The total amount of the order, including duties, taxes and discounts, minus amounts for line items that have been removed.",
  "  \"\"\"",
  "  currentTotalPrice: MoneyV2!",
  "  \"\"\"",
  "  The total of all taxes applied to the order, excluding taxes for returned line items.",
  "  \"\"\"",
  "  currentTotalTax: MoneyV2!",
  "  \"\"\"The locale code in which this specific order happened.\"\"\"",
  "  customerLocale: String",
  "  \"\"\"The unique URL that the customer can use to access the order.\"\"\"",
  "  customerUrl: URL",
  "  \"\"\"Discounts that have been applied on the order.\"\"\"",
  "  discountApplications(",
  "    \"\"\"Returns up to the first \\`n\\` elements from the list.\"\"\"",
  "    first: Int",
  "    \"\"\"Returns the elements that come after the specified cursor.\"\"\"",
  "    after: String",
  "    \"\"\"Returns up to the last \\`n\\` elements from the list.\"\"\"",
  "    last: Int",
  "    \"\"\"Returns the elements that come before the specified cursor.\"\"\"",
  "    before: String",
  "    \"\"\"Reverse the order of the underlying list.\"\"\"",
  "    reverse: Boolean = false",
  "  ): DiscountApplicationConnection!",
  "  \"\"\"Whether the order has had any edits applied or not.\"\"\"",
  "  edited: Boolean!",
  "  \"\"\"The customer's email address.\"\"\"",
  "  email: String",
  "  \"\"\"The financial status of the order.\"\"\"",
  "  financialStatus: OrderFinancialStatus",
  "  \"\"\"The fulfillment status for the order.\"\"\"",
  "  fulfillmentStatus: OrderFulfillmentStatus!",
  "  \"\"\"A globally-unique identifier.\"\"\"",
  "  id: ID!",
  "  \"\"\"List of the order’s line items.\"\"\"",
  "  lineItems(",
  "    \"\"\"Returns up to the first \\`n\\` elements from the list.\"\"\"",
  "    first: Int",
  "    \"\"\"Returns the elements that come after the specified cursor.\"\"\"",
  "    after: String",
  "    \"\"\"Returns up to the last \\`n\\` elements from the list.\"\"\"",
  "    last: Int",
  "    \"\"\"Returns the elements that come before the specified cursor.\"\"\"",
  "    before: String",
  "    \"\"\"Reverse the order of the underlying list.\"\"\"",
  "    reverse: Boolean = false",
  "  ): OrderLineItemConnection!",
  "  \"\"\"Returns a metafield found by namespace and key.\"\"\"",
  "  metafield(",
  "    \"\"\"Container for a set of metafields (maximum of 20 characters).\"\"\"",
  "    namespace: String!",
  "    \"\"\"Identifier for the metafield (maximum of 30 characters).\"\"\"",
  "    key: String!",
  "  ): Metafield",
  "  \"\"\"A paginated list of metafields associated with the resource.\"\"\"",
  "  metafields(",
  "    \"\"\"Container for a set of metafields (maximum of 20 characters).\"\"\"",
  "    namespace: String",
  "    \"\"\"Returns up to the first \\`n\\` elements from the list.\"\"\"",
  "    first: Int",
  "    \"\"\"Returns the elements that come after the specified cursor.\"\"\"",
  "    after: String",
  "    \"\"\"Returns up to the last \\`n\\` elements from the list.\"\"\"",
  "    last: Int",
  "    \"\"\"Returns the elements that come before the specified cursor.\"\"\"",
  "    before: String",
  "    \"\"\"Reverse the order of the underlying list.\"\"\"",
  "    reverse: Boolean = false",
  "  ): MetafieldConnection! @deprecated(reason: \"The \\`metafields\\` field will be removed in the future in favor of using [aliases](https://graphql.org/learn/queries/#aliases) with the \\`metafield\\` field.\\n\")",
  "  \"\"\"",
  "  Unique identifier for the order that appears on the order.",
  "  For example, _#1000_ or _Store1001.",
  "  ",
  "  \"\"\"",
  "  name: String!",
  "  \"\"\"",
  "  A unique numeric identifier for the order for use by shop owner and customer.",
  "  \"\"\"",
  "  orderNumber: Int!",
  "  \"\"\"The total cost of duties charged at checkout.\"\"\"",
  "  originalTotalDuties: MoneyV2",
  "  \"\"\"The total price of the order before any applied edits.\"\"\"",
  "  originalTotalPrice: MoneyV2!",
  "  \"\"\"The customer's phone number for receiving SMS notifications.\"\"\"",
  "  phone: String",
  "  \"\"\"",
  "  The date and time when the order was imported.",
  "  This value can be set to dates in the past when importing from other systems.",
  "  If no value is provided, it will be auto-generated based on current date and time.",
  "  ",
  "  \"\"\"",
  "  processedAt: DateTime!",
  "  \"\"\"The address to where the order will be shipped.\"\"\"",
  "  shippingAddress: MailingAddress",
  "  \"\"\"",
  "  The discounts that have been allocated onto the shipping line by discount applications.",
  "  ",
  "  \"\"\"",
  "  shippingDiscountAllocations: [DiscountAllocation!]!",
  "  \"\"\"The unique URL for the order's status page.\"\"\"",
  "  statusUrl: URL!",
  "  \"\"\"Price of the order before shipping and taxes.\"\"\"",
  "  subtotalPrice: Money @deprecated(reason: \"Use \\`subtotalPriceV2\\` instead\")",
  "  \"\"\"Price of the order before duties, shipping and taxes.\"\"\"",
  "  subtotalPriceV2: MoneyV2",
  "  \"\"\"List of the order’s successful fulfillments.\"\"\"",
  "  successfulFulfillments(",
  "    \"\"\"Truncate the array result to this size.\"\"\"",
  "    first: Int",
  "  ): [Fulfillment!]",
  "  \"\"\"",
  "  The sum of all the prices of all the items in the order, taxes and discounts included (must be positive).",
  "  \"\"\"",
  "  totalPrice: Money! @deprecated(reason: \"Use \\`totalPriceV2\\` instead\")",
  "  \"\"\"",
  "  The sum of all the prices of all the items in the order, duties, taxes and discounts included (must be positive).",
  "  \"\"\"",
  "  totalPriceV2: MoneyV2!",
  "  \"\"\"The total amount that has been refunded.\"\"\"",
  "  totalRefunded: Money! @deprecated(reason: \"Use \\`totalRefundedV2\\` instead\")",
  "  \"\"\"The total amount that has been refunded.\"\"\"",
  "  totalRefundedV2: MoneyV2!",
  "  \"\"\"The total cost of shipping.\"\"\"",
  "  totalShippingPrice: Money! @deprecated(reason: \"Use \\`totalShippingPriceV2\\` instead\")",
  "  \"\"\"The total cost of shipping.\"\"\"",
  "  totalShippingPriceV2: MoneyV2!",
  "  \"\"\"The total cost of taxes.\"\"\"",
  "  totalTax: Money @deprecated(reason: \"Use \\`totalTaxV2\\` instead\")",
  "  \"\"\"The total cost of taxes.\"\"\"",
  "  totalTaxV2: MoneyV2",
  "\x7d",
  ""]

/-- The type Order declared by lines 4216 to 4368. -/
def Order : Definition :=
  .objectType (blk "An order is a customer’s completed request to purchase one or more products from a shop. An order is created when a customer completes the checkout process, during which time they provides an email address, billing address and payment information.")
    "Order" ["Node", "HasMetafields"] [] [
    field (blk "The reason for the order's cancellation. Returns `null` if the order wasn't canceled.")
       "cancelReason" [] (nm "OrderCancelReason") [],
    field (blk "The date and time when the order was canceled. Returns null if the order wasn't canceled.")
       "canceledAt" [] (nm "DateTime") [],
    field (blk "The code of the currency used for the payment.")
       "currencyCode" [] (nn (nm "CurrencyCode")) [],
    field (blk "The subtotal of line items and their discounts, excluding line items that have been removed. Does not contain order-level discounts, duties, shipping costs, or shipping discounts. Taxes are not included unless the order is a taxes-included order.")
       "currentSubtotalPrice" [] (nn (nm "MoneyV2")) [],
    field (blk "The total cost of duties for the order, including refunds.")
       "currentTotalDuties" [] (nm "MoneyV2") [],
    field (blk "The total amount of the order, including duties, taxes and discounts, minus amounts for line items that have been removed.")
       "currentTotalPrice" [] (nn (nm "MoneyV2")) [],
    field (blk "The total of all taxes applied to the order, excluding taxes for returned line items.")
       "currentTotalTax" [] (nn (nm "MoneyV2")) [],
    field (blk "The locale code in which this specific order happened.")
       "customerLocale" [] (nm "String") [],
    field (blk "The unique URL that the customer can use to access the order.")
       "customerUrl" [] (nm "URL") [],
    field (blk "Discounts that have been applied on the order.")
       "discountApplications" [
        inputValue (blk "Returns up to the first `n` elements from the list.")
           "first" (nm "Int") none [],
        inputValue (blk "Returns the elements that come after the specified cursor.")
           "after" (nm "String") none [],
        inputValue (blk "Returns up to the last `n` elements from the list.")
           "last" (nm "Int") none [],
        inputValue (blk "Returns the elements that come before the specified cursor.")
           "before" (nm "String") none [],
        inputValue (blk "Reverse the order of the underlying list.")
           "reverse" (nm "Boolean") (some (.boolean false)) []]
       (nn (nm "DiscountApplicationConnection")) [],
    field (blk "Whether the order has had any edits applied or not.")
       "edited" [] (nn (nm "Boolean")) [],
    field (blk "The customer's email address.")
       "email" [] (nm "String") [],
    field (blk "The financial status of the order.")
       "financialStatus" [] (nm "OrderFinancialStatus") [],
    field (blk "The fulfillment status for the order.")
       "fulfillmentStatus" [] (nn (nm "OrderFulfillmentStatus")) [],
    field (blk "A globally-unique identifier.")
       "id" [] (nn (nm "ID")) [],
    field (blk "List of the order’s line items.")
       "lineItems" [
        inputValue (blk "Returns up to the first `n` elements from the list.")
           "first" (nm "Int") none [],
        inputValue (blk "Returns the elements that come after the specified cursor.")
           "after" (nm "String") none [],
        inputValue (blk "Returns up to the last `n` elements from the list.")
           "last" (nm "Int") none [],
        inputValue (blk "Returns the elements that come before the specified cursor.")
           "before" (nm "String") none [],
        inputValue (blk "Reverse the order of the underlying list.")
           "reverse" (nm "Boolean") (some (.boolean false)) []]
       (nn (nm "OrderLineItemConnection")) [],
    field (blk "Returns a metafield found by namespace and key.")
       "metafield" [
        inputValue (blk "Container for a set of metafields (maximum of 20 characters).")
           "namespace" (nn (nm "String")) none [],
        inputValue (blk "Identifier for the metafield (maximum of 30 characters).")
           "key" (nn (nm "String")) none []]
       (nm "Metafield") [],
    field (blk "A paginated list of metafields associated with the resource.")
       "metafields" [
        inputValue (blk "Container for a set of metafields (maximum of 20 characters).")
           "namespace" (nm "String") none [],
        inputValue (blk "Returns up to the first `n` elements from the list.")
           "first" (nm "Int") none [],
        inputValue (blk "Returns the elements that come after the specified cursor.")
           "after" (nm "String") none [],
        inputValue (blk "Returns up to the last `n` elements from the list.")
           "last" (nm "Int") none [],
        inputValue (blk "Returns the elements that come before the specified cursor.")
           "before" (nm "String") none [],
        inputValue (blk "Reverse the order of the underlying list.")
           "reverse" (nm "Boolean") (some (.boolean false)) []]
       (nn (nm "MetafieldConnection")) [deprecated "The `metafields` field will be removed in the future in favor of using [aliases](https://graphql.org/learn/queries/#aliases) with the `metafield` field.\n"],
    field (blk "Unique identifier for the order that appears on the order.\nFor example, _#1000_ or _Store1001.")
       "name" [] (nn (nm "String")) [],
    field (blk "A unique numeric identifier for the order for use by shop owner and customer.")
       "orderNumber" [] (nn (nm "Int")) [],
    field (blk "The total cost of duties charged at checkout.")
       "originalTotalDuties" [] (nm "MoneyV2") [],
    field (blk "The total price of the order before any applied edits.")
       "originalTotalPrice" [] (nn (nm "MoneyV2")) [],
    field (blk "The customer's phone number for receiving SMS notifications.")
       "phone" [] (nm "String") [],
    field (blk "The date and time when the order was imported.\nThis value can be set to dates in the past when importing from other systems.\nIf no value is provided, it will be auto-generated based on current date and time.")
       "processedAt" [] (nn (nm "DateTime")) [],
    field (blk "The address to where the order will be shipped.")
       "shippingAddress" [] (nm "MailingAddress") [],
    field (blk "The discounts that have been allocated onto the shipping line by discount applications.")
       "shippingDiscountAllocations" [] (nn (ls (nn (nm "DiscountAllocation")))) [],
    field (blk "The unique URL for the order's status page.")
       "statusUrl" [] (nn (nm "URL")) [],
    field (blk "Price of the order before shipping and taxes.")
       "subtotalPrice" [] (nm "Money") [deprecated "Use `subtotalPriceV2` instead"],
    field (blk "Price of the order before duties, shipping and taxes.")
       "subtotalPriceV2" [] (nm "MoneyV2") [],
    field (blk "List of the order’s successful fulfillments.")
       "successfulFulfillments" [
        inputValue (blk "Truncate the array result to this size.")
           "first" (nm "Int") none []]
       (ls (nn (nm "Fulfillment"))) [],
    field (blk "The sum of all the prices of all the items in the order, taxes and discounts included (must be positive).")
       "totalPrice" [] (nn (nm "Money")) [deprecated "Use `totalPriceV2` instead"],
    field (blk "The sum of all the prices of all the items in the order, duties, taxes and discounts included (must be positive).")
       "totalPriceV2" [] (nn (nm "MoneyV2")) [],
    field (blk "The total amount that has been refunded.")
       "totalRefunded" [] (nn (nm "Money")) [deprecated "Use `totalRefundedV2` instead"],
    field (blk "The total amount that has been refunded.")
       "totalRefundedV2" [] (nn (nm "MoneyV2")) [],
    field (blk "The total cost of shipping.")
       "totalShippingPrice" [] (nn (nm "Money")) [deprecated "Use `totalShippingPriceV2` instead"],
    field (blk "The total cost of shipping.")
       "totalShippingPriceV2" [] (nn (nm "MoneyV2")) [],
    field (blk "The total cost of taxes.")
       "totalTax" [] (nm "Money") [deprecated "Use `totalTaxV2` instead"],
    field (blk "The total cost of taxes.")
       "totalTaxV2" [] (nm "MoneyV2") []]

/-- Lines 4369 to 4382 of the module: enum OrderCancelReason. -/
def text.OrderCancelReason : List String := [
  "\"\"\"Represents the reason for the order's cancellation.\"\"\"",
  "enum OrderCancelReason \x7b",
  "  \"\"\"The customer wanted to cancel the order.\"\"\"",
  "  CUSTOMER",
  "  \"\"\"The order was fraudulent.\"\"\"",
  "  FRAUD",
  "  \"\"\"There was insufficient inventory.\"\"\"",
  "  INVENTORY",
  "  \"\"\"Payment was declined.\"\"\"",
  "  DECLINED",
  "  \"\"\"The order was canceled for an unlisted reason.\"\"\"",
  "  OTHER",
  "\x7d",
  ""]

/-- The enum OrderCancelReason declared by lines 4369 to 4382. -/
def OrderCancelReason : Definition :=
  .enumType (blk "Represents the reason for the order's cancellation.")
    "OrderCancelReason" [] [
    enumValue (blk "The customer wanted to cancel the order.")
       "CUSTOMER" [],
    enumValue (blk "The order was fraudulent.")
       "FRAUD" [],
    enumValue (blk "There was insufficient inventory.")
       "INVENTORY" [],
    enumValue (blk "Payment was declined.")
       "DECLINED" [],
    enumValue (blk "The order was canceled for an unlisted reason.")
       "OTHER" []]

/-- Lines 4383 to 4393 of the module: type OrderConnection. -/
def text.OrderConnection : List String := [
  "\"\"\"",
  "An auto-generated type for paginating through multiple Orders.",
  "",
  "\"\"\"",
  "type OrderConnection \x7b",
  "  \"\"\"A list of edges.\"\"\"",
  "  edges: [OrderEdge!]!",
  "  \"\"\"Information to aid in pagination.\"\"\"",
  "  pageInfo: PageInfo!",
  "\x7d",
  ""]

/-- The type OrderConnection declared by lines 4383 to 4393. -/
def OrderConnection : Definition :=
  .objectType (blk "An auto-generated type for paginating through multiple Orders.")
    "OrderConnection" [] [] [
    field (blk "A list of edges.")
       "edges" [] (nn (ls (nn (nm "OrderEdge")))) [],
    field (blk "Information to aid in pagination.")
       "pageInfo" [] (nn (nm "PageInfo")) []]

/-- Lines 4394 to 4404 of the module: type OrderEdge. -/
def text.OrderEdge : List String := [
  "\"\"\"",
  "An auto-generated type which holds one Order and a cursor during pagination.",
  "",
  "\"\"\"",
  "type OrderEdge \x7b",
  "  \"\"\"A cursor for use in pagination.\"\"\"",
  "  cursor: String!",
  "  \"\"\"The item at the end of OrderEdge.\"\"\"",
  "  node: Order!",
  "\x7d",
  ""]

/-- The type OrderEdge declared by lines 4394 to 4404. -/
def OrderEdge : Definition :=
  .objectType (blk "An auto-generated type which holds one Order and a cursor during pagination.")
    "OrderEdge" [] [] [
    field (blk "A cursor for use in pagination.")
       "cursor" [] (nn (nm "String")) [],
    field (blk "The item at the end of OrderEdge.")
       "node" [] (nn (nm "Order")) []]

/-- Lines 4405 to 4424 of the module: enum OrderFinancialStatus. -/
def text.OrderFinancialStatus : List String := [
  "\"\"\"Represents the order's current financial status.\"\"\"",
  "enum OrderFinancialStatus \x7b",
  "  \"\"\"Displayed as **Pending**.\"\"\"",
  "  PENDING",
  "  \"\"\"Displayed as **Authorized**.\"\"\"",
  "  AUTHORIZED",
  "  \"\"\"Displayed as **Partially paid**.\"\"\"",
  "  PARTIALLY_PAID",
  "  \"\"\"Displayed as **Partially refunded**.\"\"\"",
  "  PARTIALLY_REFUNDED",
  "  \"\"\"Displayed as **Voided**.\"\"\"",
  "  VOIDED",
  "  \"\"\"Displayed as **Paid**.\"\"\"",
  "  PAID",
  "  \"\"\"Displayed as **Refunded**.\"\"\"",
  "  REFUNDED",
  "  \"\"\"Displayed as **Expired**.\"\"\"",
  "  EXPIRED",
  "\x7d",
  ""]

/-- The enum OrderFinancialStatus declared by lines 4405 to 4424. -/
def OrderFinancialStatus : Definition :=
  .enumType (blk "Represents the order's current financial status.")
    "OrderFinancialStatus" [] [
    enumValue (blk "Displayed as **Pending**.")
       "PENDING" [],
    enumValue (blk "Displayed as **Authorized**.")
       "AUTHORIZED" [],
    enumValue (blk "Displayed as **Partially paid**.")
       "PARTIALLY_PAID" [],
    enumValue (blk "Displayed as **Partially refunded**.")
       "PARTIALLY_REFUNDED" [],
    enumValue (blk "Displayed as **Voided**.")
       "VOIDED" [],
    enumValue (blk "Displayed as **Paid**.")
       "PAID" [],
    enumValue (blk "Displayed as **Refunded**.")
       "REFUNDED" [],
    enumValue (blk "Displayed as **Expired**.")
       "EXPIRED" []]

/-- Lines 4425 to 4466 of the module: enum OrderFulfillmentStatus. -/
def text.OrderFulfillmentStatus : List String := [
  "\"\"\"",
  "Represents the order's aggregated fulfillment status for display purposes.",
  "\"\"\"",
  "enum OrderFulfillmentStatus \x7b",
  "  \"\"\"",
  "  Displayed as **Unfulfilled**. None of the items in the order have been fulfilled.",
  "  \"\"\"",
  "  UNFULFILLED",
  "  \"\"\"",
  "  Displayed as **Partially fulfilled**. Some of the items in the order have been fulfilled.",
  "  \"\"\"",
  "  PARTIALLY_FULFILLED",
  "  \"\"\"",
  "  Displayed as **Fulfilled**. All of the items in the order have been fulfilled.",
  "  \"\"\"",
  "  FULFILLED",
  "  \"\"\"",
  "  Displayed as **Restocked**. All of the items in the order have been restocked. Replaced by \"UNFULFILLED\" status.",
  "  \"\"\"",
  "  RESTOCKED",
  "  \"\"\"",
  "  Displayed as **Pending fulfillment**. A request for fulfillment of some items awaits a response from the fulfillment service. Replaced by \"IN_PROGRESS\" status.",
  "  \"\"\"",
  "  PENDING_FULFILLMENT",
  "  \"\"\"",
  "  Displayed as **Open**. None of the items in the order have been fulfilled. Replaced by \"UNFULFILLED\" status.",
  "  \"\"\"",
  "  OPEN",
  "  \"\"\"",
  "  Displayed as **In progress**. Some of the items in the order have been fulfilled, or a request for fulfillment has been sent to the fulfillment service.",
  "  \"\"\"",
  "  IN_PROGRESS",
  "  \"\"\"",
  "  Displayed as **On hold**. All of the unfulfilled items in this order are on hold.",
  "  \"\"\"",
  "  ON_HOLD",
  "  \"\"\"",
  "  Displayed as **Scheduled**. All of the unfulfilled items in this order are scheduled for fulfillment at later time.",
  "  \"\"\"",
  "  SCHEDULED",
  "\x7d",
  ""]

/-- The enum OrderFulfillmentStatus declared by lines 4425 to 4466. -/
def OrderFulfillmentStatus : Definition :=
  .enumType (blk "Represents the order's aggregated fulfillment status for display purposes.")
    "OrderFulfillmentStatus" [] [
    enumValue (blk "Displayed as **Unfulfilled**. None of the items in the order have been fulfilled.")
       "UNFULFILLED" [],
    enumValue (blk "Displayed as **Partially fulfilled**. Some of the items in the order have been fulfilled.")
       "PARTIALLY_FULFILLED" [],
    enumValue (blk "Displayed as **Fulfilled**. All of the items in the order have been fulfilled.")
       "FULFILLED" [],
    enumValue (blk "Displayed as **Restocked**. All of the items in the order have been restocked. Replaced by \"UNFULFILLED\" status.")
       "RESTOCKED" [],
    enumValue (blk "Displayed as **Pending fulfillment**. A request for fulfillment of some items awaits a response from the fulfillment service. Replaced by \"IN_PROGRESS\" status.")
       "PENDING_FULFILLMENT" [],
    enumValue (blk "Displayed as **Open**. None of the items in the order have been fulfilled. Replaced by \"UNFULFILLED\" status.")
       "OPEN" [],
    enumValue (blk "Displayed as **In progress**. Some of the items in the order have been fulfilled, or a request for fulfillment has been sent to the fulfillment service.")
       "IN_PROGRESS" [],
    enumValue (blk "Displayed as **On hold**. All of the unfulfilled items in this order are on hold.")
       "ON_HOLD" [],
    enumValue (blk "Displayed as **Scheduled**. All of the unfulfilled items in this order are scheduled for fulfillment at later time.")
       "SCHEDULED" []]

/-- Lines 4467 to 4496 of the module: type OrderLineItem. -/
def text.OrderLineItem : List String := [
  "\"\"\"",
  "Represents a single line in an order. There is one line item for each distinct product variant.",
  "\"\"\"",
  "type OrderLineItem \x7b",
  "  \"\"\"",
  "  The number of entries associated to the line item minus the items that have been removed.",
  "  \"\"\"",
  "  currentQuantity: Int!",
  "  \"\"\"List of custom attributes associated to the line item.\"\"\"",
  "  customAttributes: [Attribute!]!",
  "  \"\"\"",
  "  The discounts that have been allocated onto the order line item by discount applications.",
  "  \"\"\"",
  "  discountAllocations: [DiscountAllocation!]!",
  "  \"\"\"",
  "  The total price of the line item, including discounts, and displayed in the presentment currency.",
  "  \"\"\"",
  "  discountedTotalPrice: MoneyV2!",
  "  \"\"\"",
  "  The total price of the line item, not including any discounts. The total price is calculated using the original unit price multiplied by the quantity, and it is displayed in the presentment currency.",
  "  \"\"\"",
  "  originalTotalPrice: MoneyV2!",
  "  \"\"\"The number of products variants associated to the line item.\"\"\"",
  "  quantity: Int!",
  "  \"\"\"The title of the product combined with title of the variant.\"\"\"",
  "  title: String!",
  "  \"\"\"The product variant object associated to the line item.\"\"\"",
  "  variant: ProductVariant",
  "\x7d",
  ""]

/-- The type OrderLineItem declared by lines 4467 to 4496. -/
def OrderLineItem : Definition :=
  .objectType (blk "Represents a single line in an order. There is one line item for each distinct product variant.")
    "OrderLineItem" [] [] [
    field (blk "The number of entries associated to the line item minus the items that have been removed.")
       "currentQuantity" [] (nn (nm "Int")) [],
    field (blk "List of custom attributes associated to the line item.")
       "customAttributes" [] (nn (ls (nn (nm "Attribute")))) [],
    field (blk "The discounts that have been allocated onto the order line item by discount applications.")
       "discountAllocations" [] (nn (ls (nn (nm "DiscountAllocation")))) [],
    field (blk "The total price of the line item, including discounts, and displayed in the presentment currency.")
       "discountedTotalPrice" [] (nn (nm "MoneyV2")) [],
    field (blk "The total price of the line item, not including any discounts. The total price is calculated using the original unit price multiplied by the quantity, and it is displayed in the presentment currency.")
       "originalTotalPrice" [] (nn (nm "MoneyV2")) [],
    field (blk "The number of products variants associated to the line item.")
       "quantity" [] (nn (nm "Int")) [],
    field (blk "The title of the product combined with title of the variant.")
       "title" [] (nn (nm "String")) [],
    field (blk "The product variant object associated to the line item.")
       "variant" [] (nm "ProductVariant") []]

/-- Lines 4497 to 4507 of the module: type OrderLineItemConnection. -/
def text.OrderLineItemConnection : List String := [
  "\"\"\"",
  "An auto-generated type for paginating through multiple OrderLineItems.",
  "",
  "\"\"\"",
  "type OrderLineItemConnection \x7b",
  "  \"\"\"A list of edges.\"\"\"",
  "  edges: [OrderLineItemEdge!]!",
  "  \"\"\"Information to aid in pagination.\"\"\"",
  "  pageInfo: PageInfo!",
  "\x7d",
  ""]

/-- The type OrderLineItemConnection declared by lines 4497 to 4507. -/
def OrderLineItemConnection : Definition :=
  .objectType (blk "An auto-generated type for paginating through multiple OrderLineItems.")
    "OrderLineItemConnection" [] [] [
    field (blk "A list of edges.")
       "edges" [] (nn (ls (nn (nm "OrderLineItemEdge")))) [],
    field (blk "Information to aid in pagination.")
       "pageInfo" [] (nn (nm "PageInfo")) []]

/-- Lines 4508 to 4518 of the module: type OrderLineItemEdge. -/
def text.OrderLineItemEdge : List String := [
  "\"\"\"",
  "An auto-generated type which holds one OrderLineItem and a cursor during pagination.",
  "",
  "\"\"\"",
  "type OrderLineItemEdge \x7b",
  "  \"\"\"A cursor for use in pagination.\"\"\"",
  "  cursor: String!",
  "  \"\"\"The item at the end of OrderLineItemEdge.\"\"\"",
  "  node: OrderLineItem!",
  "\x7d",
  ""]

/-- The type OrderLineItemEdge declared by lines 4508 to 4518. -/
def OrderLineItemEdge : Definition :=
  .objectType (blk "An auto-generated type which holds one OrderLineItem and a cursor during pagination.")
    "OrderLineItemEdge" [] [] [
    field (blk "A cursor for use in pagination.")
       "cursor" [] (nn (nm "String")) [],
    field (blk "The item at the end of OrderLineItemEdge.")
       "node" [] (nn (nm "OrderLineItem")) []]

/-- Lines 4519 to 4535 of the module: enum OrderSortKeys. -/
def text.OrderSortKeys : List String := [
  "\"\"\"The set of valid sort keys for the Order query.\"\"\"",
  "enum OrderSortKeys \x7b",
  "  \"\"\"Sort by the \\`processed_at\\` value.\"\"\"",
  "  PROCESSED_AT",
  "  \"\"\"Sort by the \\`total_price\\` value.\"\"\"",
  "  TOTAL_PRICE",
  "  \"\"\"Sort by the \\`id\\` value.\"\"\"",
  "  ID",
  "  \"\"\"",
  "  During a search (i.e. when the \\`query\\` parameter has been specified on the connection) this sorts the",
  "  results by relevance to the search term(s). When no search query is specified, this sort key is not",
  "  deterministic and should not be used.",
  "  ",
  "  \"\"\"",
  "  RELEVANCE",
  "\x7d",
  ""]

/-- The enum OrderSortKeys declared by lines 4519 to 4535. -/
def OrderSortKeys : Definition :=
  .enumType (blk "The set of valid sort keys for the Order query.")
    "OrderSortKeys" [] [
    enumValue (blk "Sort by the `processed_at` value.")
       "PROCESSED_AT" [],
    enumValue (blk "Sort by the `total_price` value.")
       "TOTAL_PRICE" [],
    enumValue (blk "Sort by the `id` value.")
       "ID" [],
    enumValue (blk "During a search (i.e. when the `query` parameter has been specified on the connection) this sorts the\nresults by relevance to the search term(s). When no search query is specified, this sort key is not\ndeterministic and should not be used.")
       "RELEVANCE" []]

/-- Lines 4536 to 4585 of the module: type Page. -/
def text.Page : List String := [
  "\"\"\"",
  "Shopify merchants can create pages to hold static HTML content. Each Page object represents a custom page on the online store.",
  "\"\"\"",
  "type Page implements Node & HasMetafields & OnlineStorePublishable \x7b",
  "  \"\"\"The description of the page, complete with HTML formatting.\"\"\"",
  "  body: HTML!",
  "  \"\"\"Summary of the page body.\"\"\"",
  "  bodySummary: String!",
  "  \"\"\"The timestamp of the page creation.\"\"\"",
  "  createdAt: DateTime!",
  "  \"\"\"",
  "  A human-friendly unique string for the page automatically generated from its title.",
  "  \"\"\"",
  "  handle: String!",
  "  \"\"\"A globally-unique identifier.\"\"\"",
  "  id: ID!",
  "  \"\"\"Returns a metafield found by namespace and key.\"\"\"",
  "  metafield(",
  "    \"\"\"Container for a set of metafields (maximum of 20 characters).\"\"\"",
  "    namespace: String!",
  "    \"\"\"Identifier for the metafield (maximum of 30 characters).\"\"\"",
  "    key: String!",
  "  ): Metafield",
  "  \"\"\"A paginated list of metafields associated with the resource.\"\"\"",
  "  metafields(",
  "    \"\"\"Container for a set of metafields (maximum of 20 characters).\"\"\"",
  "    namespace: String",
  "    \"\"\"Returns up to the first \\`n\\` elements from the list.\"\"\"",
  "    first: Int",
  "    \"\"\"Returns the elements that come after the specified cursor.\"\"\"",
  "    after: String",
  "    \"\"\"Returns up to the last \\`n\\` elements from the list.\"\"\"",
  "    last: Int",
  "    \"\"\"Returns the elements that come before the specified cursor.\"\"\"",
  "    before: String",
  "    \"\"\"Reverse the order of the underlying list.\"\"\"",
  "    reverse: Boolean = false",
  "  ): MetafieldConnection! @deprecated(reason: \"The \\`metafields\\` field will be removed in the future in favor of using [aliases](https://graphql.org/learn/queries/#aliases) with the \\`metafield\\` field.\\n\")",
  "  \"\"\"",
  "  The URL used for viewing the resource on the shop's Online Store. Returns \\`null\\` if the resource is currently not published to the Online Store sales channel.",
  "  \"\"\"",
  "  onlineStoreUrl: URL",
  "  \"\"\"The page's SEO information.\"\"\"",
  "  seo: SEO",
  "  \"\"\"The title of the page.\"\"\"",
  "  title: String!",
  "  \"\"\"The timestamp of the latest page update.\"\"\"",
  "  updatedAt: DateTime!",
  "\x7d",
  ""]

/-- The type Page declared by lines 4536 to 4585. -/
def Page : Definition :=
  .objectType (blk "Shopify merchants can create pages to hold static HTML content. Each Page object represents a custom page on the online store.")
    "Page" ["Node", "HasMetafields", "OnlineStorePublishable"] [] [
    field (blk "The description of the page, complete with HTML formatting.")
       "body" [] (nn (nm "HTML")) [],
    field (blk "Summary of the page body.")
       "bodySummary" [] (nn (nm "String")) [],
    field (blk "The timestamp of the page creation.")
       "createdAt" [] (nn (nm "DateTime")) [],
    field (blk "A human-friendly unique string for the page automatically generated from its title.")
       "handle" [] (nn (nm "String")) [],
    field (blk "A globally-unique identifier.")
       "id" [] (nn (nm "ID")) [],
    field (blk "Returns a metafield found by namespace and key.")
       "metafield" [
        inputValue (blk "Container for a set of metafields (maximum of 20 characters).")
           "namespace" (nn (nm "String")) none [],
        inputValue (blk "Identifier for the metafield (maximum of 30 characters).")
           "key" (nn (nm "String")) none []]
       (nm "Metafield") [],
    field (blk "A paginated list of metafields associated with the resource.")
       "metafields" [
        inputValue (blk "Container for a set of metafields (maximum of 20 characters).")
           "namespace" (nm "String") none [],
        inputValue (blk "Returns up to the first `n` elements from the list.")
           "first" (nm "Int") none [],
        inputValue (blk "Returns the elements that come after the specified cursor.")
           "after" (nm "String") none [],
        inputValue (blk "Returns up to the last `n` elements from the list.")
           "last" (nm "Int") none [],
        inputValue (blk "Returns the elements that come before the specified cursor.")
           "before" (nm "String") none [],
        inputValue (blk "Reverse the order of the underlying list.")
           "reverse" (nm "Boolean") (some (.boolean false)) []]
       (nn (nm "MetafieldConnection")) [deprecated "The `metafields` field will be removed in the future in favor of using [aliases](https://graphql.org/learn/queries/#aliases) with the `metafield` field.\n"],
    field (blk "The URL used for viewing the resource on the shop's Online Store. Returns `null` if the resource is currently not published to the Online Store sales channel.")
       "onlineStoreUrl" [] (nm "URL") [],
    field (blk "The page's SEO information.")
       "seo" [] (nm "SEO") [],
    field (blk "The title of the page.")
       "title" [] (nn (nm "String")) [],
    field (blk "The timestamp of the latest page update.")
       "updatedAt" [] (nn (nm "DateTime")) []]

/-- Lines 4586 to 4596 of the module: type PageConnection. -/
def text.PageConnection : List String := [
  "\"\"\"",
  "An auto-generated type for paginating through multiple Pages.",
  "",
  "\"\"\"",
  "type PageConnection \x7b",
  "  \"\"\"A list of edges.\"\"\"",
  "  edges: [PageEdge!]!",
  "  \"\"\"Information to aid in pagination.\"\"\"",
  "  pageInfo: PageInfo!",
  "\x7d",
  ""]

/-- The type PageConnection declared by lines 4586 to 4596. -/
def PageConnection : Definition :=
  .objectType (blk "An auto-generated type for paginating through multiple Pages.")
    "PageConnection" [] [] [
    field (blk "A list of edges.")
       "edges" [] (nn (ls (nn (nm "PageEdge")))) [],
    field (blk "Information to aid in pagination.")
       "pageInfo" [] (nn (nm "PageInfo")) []]

/-- Lines 4597 to 4607 of the module: type PageEdge. -/
def text.PageEdge : List String := [
  "\"\"\"",
  "An auto-generated type which holds one Page and a cursor during pagination.",
  "",
  "\"\"\"",
  "type PageEdge \x7b",
  "  \"\"\"A cursor for use in pagination.\"\"\"",
  "  cursor: String!",
  "  \"\"\"The item at the end of PageEdge.\"\"\"",
  "  node: Page!",
  "\x7d",
  ""]

/-- The type PageEdge declared by lines 4597 to 4607. -/
def PageEdge : Definition :=
  .objectType (blk "An auto-generated type which holds one Page and a cursor during pagination.")
    "PageEdge" [] [] [
    field (blk "A cursor for use in pagination.")
       "cursor" [] (nn (nm "String")) [],
    field (blk "The item at the end of PageEdge.")
       "node" [] (nn (nm "Page")) []]

/-- Lines 4608 to 4619 of the module: type PageInfo. -/
def text.PageInfo : List String := [
  "\"\"\"",
  "Returns information about pagination in a connection, in accordance with the",
  "[Relay specification](https://relay.dev/graphql/connections.htm#sec-undefined.PageInfo).",
  "",
  "\"\"\"",
  "type PageInfo \x7b",
  "  \"\"\"Whether there are more pages to fetch following the current page.\"\"\"",
  "  hasNextPage: Boolean!",
  "  \"\"\"Whether there are any pages prior to the current page.\"\"\"",
  "  hasPreviousPage: Boolean!",
  "\x7d",
  ""]

/-- The type PageInfo declared by lines 4608 to 4619. -/
def PageInfo : Definition :=
  .objectType (blk "Returns information about pagination in a connection, in accordance with the\n[Relay specification](https://relay.dev/graphql/connections.htm#sec-undefined.PageInfo).")
    "PageInfo" [] [] [
    field (blk "Whether there are more pages to fetch following the current page.")
       "hasNextPage" [] (nn (nm "Boolean")) [],
    field (blk "Whether there are any pages prior to the current page.")
       "hasPreviousPage" [] (nn (nm "Boolean")) []]

/-- Lines 4620 to 4636 of the module: enum PageSortKeys. -/
def text.PageSortKeys : List String := [
  "\"\"\"The set of valid sort keys for the Page query.\"\"\"",
  "enum PageSortKeys \x7b",
  "  \"\"\"Sort by the \\`title\\` value.\"\"\"",
  "  TITLE",
  "  \"\"\"Sort by the \\`updated_at\\` value.\"\"\"",
  "  UPDATED_AT",
  "  \"\"\"Sort by the \\`id\\` value.\"\"\"",
  "  ID",
  "  \"\"\"",
  "  During a search (i.e. when the \\`query\\` parameter has been specified on the connection) this sorts the",
  "  results by relevance to the search term(s). When no search query is specified, this sort key is not",
  "  deterministic and should not be used.",
  "  ",
  "  \"\"\"",
  "  RELEVANCE",
  "\x7d",
  ""]

/-- The enum PageSortKeys declared by lines 4620 to 4636. -/
def PageSortKeys : Definition :=
  .enumType (blk "The set of valid sort keys for the Page query.")
    "PageSortKeys" [] [
    enumValue (blk "Sort by the `title` value.")
       "TITLE" [],
    enumValue (blk "Sort by the `updated_at` value.")
       "UPDATED_AT" [],
    enumValue (blk "Sort by the `id` value.")
       "ID" [],
    enumValue (blk "During a search (i.e. when the `query` parameter has been specified on the connection) this sorts the\nresults by relevance to the search term(s). When no search query is specified, this sort key is not\ndeterministic and should not be used.")
       "RELEVANCE" []]

/-- Lines 4637 to 4677 of the module: type Payment. -/
def text.Payment : List String := [
  "\"\"\"A payment applied to a checkout.\"\"\"",
  "type Payment implements Node \x7b",
  "  \"\"\"The amount of the payment.\"\"\"",
  "  amount: Money! @deprecated(reason: \"Use \\`amountV2\\` instead\")",
  "  \"\"\"The amount of the payment.\"\"\"",
  "  amountV2: MoneyV2!",
  "  \"\"\"The billing address for the payment.\"\"\"",
  "  billingAddress: MailingAddress",
  "  \"\"\"The checkout to which the payment belongs.\"\"\"",
  "  checkout: Checkout!",
  "  \"\"\"The credit card used for the payment in the case of direct payments.\"\"\"",
  "  creditCard: CreditCard",
  "  \"\"\"",
  "  A message describing a processing error during asynchronous processing.",
  "  \"\"\"",
  "  errorMessage: String",
  "  \"\"\"A globally-unique identifier.\"\"\"",
  "  id: ID!",
  "  \"\"\"",
  "  A client-side generated token to identify a payment and perform idempotent operations.",
  "  For more information, refer to",
  "  [Idempotent requests](https://shopify.dev/api/usage/idempotent-requests).",
  "  ",
  "  \"\"\"",
  "  idempotencyKey: String",
  "  \"\"\"",
  "  The URL where the customer needs to be redirected so they can complete the 3D Secure payment flow.",
  "  \"\"\"",
  "  nextActionUrl: URL",
  "  \"\"\"Whether or not the payment is still processing asynchronously.\"\"\"",
  "  ready: Boolean!",
  "  \"\"\"",
  "  A flag to indicate if the payment is to be done in test mode for gateways that support it.",
  "  \"\"\"",
  "  test: Boolean!",
  "  \"\"\"",
  "  The actual transaction recorded by Shopify after having processed the payment with the gateway.",
  "  \"\"\"",
  "  transaction: Transaction",
  "\x7d",
  ""]

/-- The type Payment declared by lines 4637 to 4677. -/
def Payment : Definition :=
  .objectType (blk "A payment applied to a checkout.")
    "Payment" ["Node"] [] [
    field (blk "The amount of the payment.")
       "amount" [] (nn (nm "Money")) [deprecated "Use `amountV2` instead"],
    field (blk "The amount of the payment.")
       "amountV2" [] (nn (nm "MoneyV2")) [],
    field (blk "The billing address for the payment.")
       "billingAddress" [] (nm "MailingAddress") [],
    field (blk "The checkout to which the payment belongs.")
       "checkout" [] (nn (nm "Checkout")) [],
    field (blk "The credit card used for the payment in the case of direct payments.")
       "creditCard" [] (nm "CreditCard") [],
    field (blk "A message describing a processing error during asynchronous processing.")
       "errorMessage" [] (nm "String") [],
    field (blk "A globally-unique identifier.")
       "id" [] (nn (nm "ID")) [],
    field (blk "A client-side generated token to identify a payment and perform idempotent operations.\nFor more information, refer to\n[Idempotent requests](https://shopify.dev/api/usage/idempotent-requests).")
       "idempotencyKey" [] (nm "String") [],
    field (blk "The URL where the customer needs to be redirected so they can complete the 3D Secure payment flow.")
       "nextActionUrl" [] (nm "URL") [],
    field (blk "Whether or not the payment is still processing asynchronously.")
       "ready" [] (nn (nm "Boolean")) [],
    field (blk "A flag to indicate if the payment is to be done in test mode for gateways that support it.")
       "test" [] (nn (nm "Boolean")) [],
    field (blk "The actual transaction recorded by Shopify after having processed the payment with the gateway.")
       "transaction" [] (nm "Transaction") []]

/-- Lines 4678 to 4697 of the module: type PaymentSettings. -/
def text.PaymentSettings : List String := [
  "\"\"\"Settings related to payments.\"\"\"",
  "type PaymentSettings \x7b",
  "  \"\"\"List of the card brands which the shop accepts.\"\"\"",
  "  acceptedCardBrands: [CardBrand!]!",
  "  \"\"\"The url pointing to the endpoint to vault credit cards.\"\"\"",
  "  cardVaultUrl: URL!",
  "  \"\"\"The country where the shop is located.\"\"\"",
  "  countryCode: CountryCode!",
  "  \"\"\"The three-letter code for the shop's primary currency.\"\"\"",
  "  currencyCode: CurrencyCode!",
  "  \"\"\"",
  "  A list of enabled currencies (ISO 4217 format) that the shop accepts. Merchants can enable currencies from their Shopify Payments settings in the Shopify admin.",
  "  \"\"\"",
  "  enabledPresentmentCurrencies: [CurrencyCode!]!",
  "  \"\"\"The shop’s Shopify Payments account id.\"\"\"",
  "  shopifyPaymentsAccountId: String",
  "  \"\"\"List of the digital wallets which the shop supports.\"\"\"",
  "  supportedDigitalWallets: [DigitalWallet!]!",
  "\x7d",
  ""]

/-- The type PaymentSettings declared by lines 4678 to 4697. -/
def PaymentSettings : Definition :=
  .objectType (blk "Settings related to payments.")
    "PaymentSettings" [] [] [
    field (blk "List of the card brands which the shop accepts.")
       "acceptedCardBrands" [] (nn (ls (nn (nm "CardBrand")))) [],
    field (blk "The url pointing to the endpoint to vault credit cards.")
       "cardVaultUrl" [] (nn (nm "URL")) [],
    field (blk "The country where the shop is located.")
       "countryCode" [] (nn (nm "CountryCode")) [],
    field (blk "The three-letter code for the shop's primary currency.")
       "currencyCode" [] (nn (nm "CurrencyCode")) [],
    field (blk "A list of enabled currencies (ISO 4217 format) that the shop accepts. Merchants can enable currencies from their Shopify Payments settings in the Shopify admin.")
       "enabledPresentmentCurrencies" [] (nn (ls (nn (nm "CurrencyCode")))) [],
    field (blk "The shop’s Shopify Payments account id.")
       "shopifyPaymentsAccountId" [] (nm "String") [],
    field (blk "List of the digital wallets which the shop supports.")
       "supportedDigitalWallets" [] (nn (ls (nn (nm "DigitalWallet")))) []]

/-- Lines 4698 to 4711 of the module: enum PaymentTokenType. -/
def text.PaymentTokenType : List String := [
  "\"\"\"The valid values for the types of payment token.\"\"\"",
  "enum PaymentTokenType \x7b",
  "  \"\"\"Apple Pay token type.\"\"\"",
  "  APPLE_PAY",
  "  \"\"\"Vault payment token type.\"\"\"",
  "  VAULT",
  "  \"\"\"Shopify Pay token type.\"\"\"",
  "  SHOPIFY_PAY",
  "  \"\"\"Google Pay token type.\"\"\"",
  "  GOOGLE_PAY",
  "  \"\"\"Stripe token type.\"\"\"",
  "  STRIPE_VAULT_TOKEN",
  "\x7d",
  ""]

/-- The enum PaymentTokenType declared by lines 4698 to 4711. -/
def PaymentTokenType : Definition :=
  .enumType (blk "The valid values for the types of payment token.")
    "PaymentTokenType" [] [
    enumValue (blk "Apple Pay token type.")
       "APPLE_PAY" [],
    enumValue (blk "Vault payment token type.")
       "VAULT" [],
    enumValue (blk "Shopify Pay token type.")
       "SHOPIFY_PAY" [],
    enumValue (blk "Google Pay token type.")
       "GOOGLE_PAY" [],
    enumValue (blk "Stripe token type.")
       "STRIPE_VAULT_TOKEN" []]

/-- Lines 4712 to 4721 of the module: input PriceRangeFilter. -/
def text.PriceRangeFilter : List String := [
  "\"\"\"",
  "A filter used to view a subset of products in a collection matching a specific price range.",
  "\"\"\"",
  "input PriceRangeFilter \x7b",
  "  \"\"\"The minimum price in the range. Defaults to zero.\"\"\"",
  "  min: Float = 0",
  "  \"\"\"The maximum price in the range. Empty indicates no max price.\"\"\"",
  "  max: Float",
  "\x7d",
  ""]

/-- The input PriceRangeFilter declared by lines 4712 to 4721. -/
def PriceRangeFilter : Definition :=
  .inputObjectType (blk "A filter used to view a subset of products in a collection matching a specific price range.")
    "PriceRangeFilter" [] [
    inputValue (blk "The minimum price in the range. Defaults to zero.")
       "min" (nm "Float") (some (.int "0")) [],
    inputValue (blk "The maximum price in the range. Empty indicates no max price.")
       "max" (nm "Float") none []]

/-- Lines 4722 to 4727 of the module: type PricingPercentageValue. -/
def text.PricingPercentageValue : List String := [
  "\"\"\"The value of the percentage pricing object.\"\"\"",
  "type PricingPercentageValue \x7b",
  "  \"\"\"The percentage value of the object.\"\"\"",
  "  percentage: Float!",
  "\x7d",
  ""]

/-- The type PricingPercentageValue declared by lines 4722 to 4727. -/
def PricingPercentageValue : Definition :=
  .objectType (blk "The value of the percentage pricing object.")
    "PricingPercentageValue" [] [] [
    field (blk "The percentage value of the object.")
       "percentage" [] (nn (nm "Float")) []]

/-- Lines 4728 to 4730 of the module: union PricingValue. -/
def text.PricingValue : List String := [
  "\"\"\"The price value (fixed or percentage) for a discount application.\"\"\"",
  "union PricingValue = MoneyV2 | PricingPercentageValue",
  ""]

/-- The union PricingValue declared by lines 4728 to 4730. -/
def PricingValue : Definition :=
  .unionType (blk "The price value (fixed or percentage) for a discount application.")
    "PricingValue" [] ["MoneyV2", "PricingPercentageValue"]

/-- Lines 4731 to 4921 of the module: type Product. -/
def text.Product : List String := [
  "\"\"\"",
  "A product represents an individual item for sale in a Shopify store. Products are often physical, but they don't have to be.",
  "For example, a digital download (such as a movie, music or ebook file) also qualifies as a product, as do services (such as equipment rental, work for hire, customization of another product or an extended warranty).",
  "\"\"\"",
  "type Product implements Node & HasMetafields & OnlineStorePublishable \x7b",
  "  \"\"\"Indicates if at least one product variant is available for sale.\"\"\"",
  "  availableForSale: Boolean!",
  "  \"\"\"List of collections a product belongs to.\"\"\"",
  "  collections(",
  "    \"\"\"Returns up to the first \\`n\\` elements from the list.\"\"\"",
  "    first: Int",
  "    \"\"\"Returns the elements that come after the specified cursor.\"\"\"",
  "    after: String",
  "    \"\"\"Returns up to the last \\`n\\` elements from the list.\"\"\"",
  "    last: Int",
  "    \"\"\"Returns the elements that come before the specified cursor.\"\"\"",
  "    before: String",
  "    \"\"\"Reverse the order of the underlying list.\"\"\"",
  "    reverse: Boolean = false",
  "  ): CollectionConnection!",
  "  \"\"\"The compare at price of the product across all variants.\"\"\"",
  "  compareAtPriceRange: ProductPriceRange!",
  "  \"\"\"The date and time when the product was created.\"\"\"",
  "  createdAt: DateTime!",
  "  \"\"\"",
  "  Stripped description of the product, single line with HTML tags removed.",
  "  \"\"\"",
  "  description(",
  "    \"\"\"Truncates string after the given length.\"\"\"",
  "    truncateAt: Int",
  "  ): String!",
  "  \"\"\"The description of the product, complete with HTML formatting.\"\"\"",
  "  descriptionHtml: HTML!",
  "  \"\"\"",
  "  The featured image for the product.",
  "  ",
  "  This field is functionally equivalent to \\`images(first: 1)\\`.",
  "  ",
  "  \"\"\"",
  "  featuredImage: Image",
  "  \"\"\"",
  "  A human-friendly unique string for the Product automatically generated from its title.",
  "  They are used by the Liquid templating language to refer to objects.",
  "  ",
  "  \"\"\"",
  "  handle: String!",
  "  \"\"\"A globally-unique identifier.\"\"\"",
  "  id: ID!",
  "  \"\"\"List of images associated with the product.\"\"\"",
  "  images(",
  "    \"\"\"Returns up to the first \\`n\\` elements from the list.\"\"\"",
  "    first: Int",
  "    \"\"\"Returns the elements that come after the specified cursor.\"\"\"",
  "    after: String",
  "    \"\"\"Returns up to the last \\`n\\` elements from the list.\"\"\"",
  "    last: Int",
  "    \"\"\"Returns the elements that come before the specified cursor.\"\"\"",
  "    before: String",
  "    \"\"\"Reverse the order of the underlying list.\"\"\"",
  "    reverse: Boolean = false",
  "    \"\"\"Sort the underlying list by the given key.\"\"\"",
  "    sortKey: ProductImageSortKeys = POSITION",
  "  ): ImageConnection!",
  "  \"\"\"The media associated with the product.\"\"\"",
  "  media(",
  "    \"\"\"Returns up to the first \\`n\\` elements from the list.\"\"\"",
  "    first: Int",
  "    \"\"\"Returns the elements that come after the specified cursor.\"\"\"",
  "    after: String",
  "    \"\"\"Returns up to the last \\`n\\` elements from the list.\"\"\"",
  "    last: Int",
  "    \"\"\"Returns the elements that come before the specified cursor.\"\"\"",
  "    before: String",
  "    \"\"\"Reverse the order of the underlying list.\"\"\"",
  "    reverse: Boolean = false",
  "    \"\"\"Sort the underlying list by the given key.\"\"\"",
  "    sortKey: ProductMediaSortKeys = POSITION",
  "  ): MediaConnection!",
  "  \"\"\"Returns a metafield found by namespace and key.\"\"\"",
  "  metafield(",
  "    \"\"\"Container for a set of metafields (maximum of 20 characters).\"\"\"",
  "    namespace: String!",
  "    \"\"\"Identifier for the metafield (maximum of 30 characters).\"\"\"",
  "    key: String!",
  "  ): Metafield",
  "  \"\"\"A paginated list of metafields associated with the resource.\"\"\"",
  "  metafields(",
  "    \"\"\"Container for a set of metafields (maximum of 20 characters).\"\"\"",
  "    namespace: String",
  "    \"\"\"Returns up to the first \\`n\\` elements from the list.\"\"\"",
  "    first: Int",
  "    \"\"\"Returns the elements that come after the specified cursor.\"\"\"",
  "    after: String",
  "    \"\"\"Returns up to the last \\`n\\` elements from the list.\"\"\"",
  "    last: Int",
  "    \"\"\"Returns the elements that come before the specified cursor.\"\"\"",
  "    before: String",
  "    \"\"\"Reverse the order of the underlying list.\"\"\"",
  "    reverse: Boolean = false",
  "  ): MetafieldConnection! @deprecated(reason: \"The \\`metafields\\` field will be removed in the future in favor of using [aliases](https://graphql.org/learn/queries/#aliases) with the \\`metafield\\` field.\\n\")",
  "  \"\"\"",
  "  The URL used for viewing the resource on the shop's Online Store. Returns \\`null\\` if the resource is currently not published to the Online Store sales channel.",
  "  \"\"\"",
  "  onlineStoreUrl: URL",
  "  \"\"\"List of product options.\"\"\"",
  "  options(",
  "    \"\"\"Truncate the array result to this size.\"\"\"",
  "    first: Int",
  "  ): [ProductOption!]!",
  "  \"\"\"The price range.\"\"\"",
  "  priceRange: ProductPriceRange!",
  "  \"\"\"",
  "  A categorization that a product can be tagged with, commonly used for filtering and searching.",
  "  \"\"\"",
  "  productType: String!",
  "  \"\"\"The date and time when the product was published to the channel.\"\"\"",
  "  publishedAt: DateTime!",
  "  \"\"\"Whether the product can only be purchased with a selling plan.\"\"\"",
  "  requiresSellingPlan: Boolean!",
  "  \"\"\"",
  "  A list of a product's available selling plan groups. A selling plan group represents a selling method. For example, 'Subscribe and save' is a selling method where customers pay for goods or services per delivery. A selling plan group contains individual selling plans.",
  "  \"\"\"",
  "  sellingPlanGroups(",
  "    \"\"\"Returns up to the first \\`n\\` elements from the list.\"\"\"",
  "    first: Int",
  "    \"\"\"Returns the elements that come after the specified cursor.\"\"\"",
  "    after: String",
  "    \"\"\"Returns up to the last \\`n\\` elements from the list.\"\"\"",
  "    last: Int",
  "    \"\"\"Returns the elements that come before the specified cursor.\"\"\"",
  "    before: String",
  "    \"\"\"Reverse the order of the underlying list.\"\"\"",
  "    reverse: Boolean = false",
  "  ): SellingPlanGroupConnection!",
  "  \"\"\"The product's SEO information.\"\"\"",
  "  seo: SEO!",
  "  \"\"\"",
  "  A comma separated list of tags that have been added to the product.",
  "  Additional access scope required for private apps: unauthenticated_read_product_tags.",
  "  ",
  "  \"\"\"",
  "  tags: [String!]!",
  "  \"\"\"The product’s title.\"\"\"",
  "  title: String!",
  "  \"\"\"The total quantity of inventory in stock for this Product.\"\"\"",
  "  totalInventory: Int",
  "  \"\"\"",
  "  A path that includes all of the standardized and custom product types associated with a product.",
  "  The path increases in specificity from top to bottom. It begins with the standardized product type",
  "  and terminates with the custom product type. For example,",
  "  Clothing & Accessories > Clothing > Shirts & Tops > Polo Shirts.",
  "  ",
  "  \"\"\"",
  "  typePath: [ProductTypePathNode!]!",
  "  \"\"\"",
  "  The date and time when the product was last modified.",
  "  A product's \\`updatedAt\\` value can change for different reasons. For example, if an order",
  "  is placed for a product that has inventory tracking set up, then the inventory adjustment",
  "  is counted as an update.",
  "  ",
  "  \"\"\"",
  "  updatedAt: DateTime!",
  "  \"\"\"",
  "  Find a product’s variant based on its selected options.",
  "  This is useful for converting a user’s selection of product options into a single matching variant.",
  "  If there is not a variant for the selected options, \\`null\\` will be returned.",
  "  ",
  "  \"\"\"",
  "  variantBySelectedOptions(",
  "    \"\"\"The input fields used for a selected option.\"\"\"",
  "    selectedOptions: [SelectedOptionInput!]!",
  "  ): ProductVariant",
  "  \"\"\"List of the product’s variants.\"\"\"",
  "  variants(",
  "    \"\"\"Returns up to the first \\`n\\` elements from the list.\"\"\"",
  "    first: Int",
  "    \"\"\"Returns the elements that come after the specified cursor.\"\"\"",
  "    after: String",
  "    \"\"\"Returns up to the last \\`n\\` elements from the list.\"\"\"",
  "    last: Int",
  "    \"\"\"Returns the elements that come before the specified cursor.\"\"\"",
  "    before: String",
  "    \"\"\"Reverse the order of the underlying list.\"\"\"",
  "    reverse: Boolean = false",
  "    \"\"\"Sort the underlying list by the given key.\"\"\"",
  "    sortKey: ProductVariantSortKeys = POSITION",
  "  ): ProductVariantConnection!",
  "  \"\"\"The product’s vendor name.\"\"\"",
  "  vendor: String!",
  "\x7d",
  ""]

/-- The type Product declared by lines 4731 to 4921. -/
def Product : Definition :=
  .objectType (blk "A product represents an individual item for sale in a Shopify store. Products are often physical, but they don't have to be.\nFor example, a digital download (such as a movie, music or ebook file) also qualifies as a product, as do services (such as equipment rental, work for hire, customization of another product or an extended warranty).")
    "Product" ["Node", "HasMetafields", "OnlineStorePublishable"] [] [
    field (blk "Indicates if at least one product variant is available for sale.")
       "availableForSale" [] (nn (nm "Boolean")) [],
    field (blk "List of collections a product belongs to.")
       "collections" [
        inputValue (blk "Returns up to the first `n` elements from the list.")
           "first" (nm "Int") none [],
        inputValue (blk "Returns the elements that come after the specified cursor.")
           "after" (nm "String") none [],
        inputValue (blk "Returns up to the last `n` elements from the list.")
           "last" (nm "Int") none [],
        inputValue (blk "Returns the elements that come before the specified cursor.")
           "before" (nm "String") none [],
        inputValue (blk "Reverse the order of the underlying list.")
           "reverse" (nm "Boolean") (some (.boolean false)) []]
       (nn (nm "CollectionConnection")) [],
    field (blk "The compare at price of the product across all variants.")
       "compareAtPriceRange" [] (nn (nm "ProductPriceRange")) [],
    field (blk "The date and time when the product was created.")
       "createdAt" [] (nn (nm "DateTime")) [],
    field (blk "Stripped description of the product, single line with HTML tags removed.")
       "description" [
        inputValue (blk "Truncates string after the given length.")
           "truncateAt" (nm "Int") none []]
       (nn (nm "String")) [],
    field (blk "The description of the product, complete with HTML formatting.")
       "descriptionHtml" [] (nn (nm "HTML")) [],
    field (blk "The featured image for the product.\n\nThis field is functionally equivalent to `images(first: 1)`.")
       "featuredImage" [] (nm "Image") [],
    field (blk "A human-friendly unique string for the Product automatically generated from its title.\nThey are used by the Liquid templating language to refer to objects.")
       "handle" [] (nn (nm "String")) [],
    field (blk "A globally-unique identifier.")
       "id" [] (nn (nm "ID")) [],
    field (blk "List of images associated with the product.")
       "images" [
        inputValue (blk "Returns up to the first `n` elements from the list.")
           "first" (nm "Int") none [],
        inputValue (blk "Returns the elements that come after the specified cursor.")
           "after" (nm "String") none [],
        inputValue (blk "Returns up to the last `n` elements from the list.")
           "last" (nm "Int") none [],
        inputValue (blk "Returns the elements that come before the specified cursor.")
           "before" (nm "String") none [],
        inputValue (blk "Reverse the order of the underlying list.")
           "reverse" (nm "Boolean") (some (.boolean false)) [],
        inputValue (blk "Sort the underlying list by the given key.")
           "sortKey" (nm "ProductImageSortKeys") (some (.enum "POSITION")) []]
       (nn (nm "ImageConnection")) [],
    field (blk "The media associated with the product.")
       "media" [
        inputValue (blk "Returns up to the first `n` elements from the list.")
           "first" (nm "Int") none [],
        inputValue (blk "Returns the elements that come after the specified cursor.")
           "after" (nm "String") none [],
        inputValue (blk "Returns up to the last `n` elements from the list.")
           "last" (nm "Int") none [],
        inputValue (blk "Returns the elements that come before the specified cursor.")
           "before" (nm "String") none [],
        inputValue (blk "Reverse the order of the underlying list.")
           "reverse" (nm "Boolean") (some (.boolean false)) [],
        inputValue (blk "Sort the underlying list by the given key.")
           "sortKey" (nm "ProductMediaSortKeys") (some (.enum "POSITION")) []]
       (nn (nm "MediaConnection")) [],
    field (blk "Returns a metafield found by namespace and key.")
       "metafield" [
        inputValue (blk "Container for a set of metafields (maximum of 20 characters).")
           "namespace" (nn (nm "String")) none [],
        inputValue (blk "Identifier for the metafield (maximum of 30 characters).")
           "key" (nn (nm "String")) none []]
       (nm "Metafield") [],
    field (blk "A paginated list of metafields associated with the resource.")
       "metafields" [
        inputValue (blk "Container for a set of metafields (maximum of 20 characters).")
           "namespace" (nm "String") none [],
        inputValue (blk "Returns up to the first `n` elements from the list.")
           "first" (nm "Int") none [],
        inputValue (blk "Returns the elements that come after the specified cursor.")
           "after" (nm "String") none [],
        inputValue (blk "Returns up to the last `n` elements from the list.")
           "last" (nm "Int") none [],
        inputValue (blk "Returns the elements that come before the specified cursor.")
           "before" (nm "String") none [],
        inputValue (blk "Reverse the order of the underlying list.")
           "reverse" (nm "Boolean") (some (.boolean false)) []]
       (nn (nm "MetafieldConnection")) [deprecated "The `metafields` field will be removed in the future in favor of using [aliases](https://graphql.org/learn/queries/#aliases) with the `metafield` field.\n"],
    field (blk "The URL used for viewing the resource on the shop's Online Store. Returns `null` if the resource is currently not published to the Online Store sales channel.")
       "onlineStoreUrl" [] (nm "URL") [],
    field (blk "List of product options.")
       "options" [
        inputValue (blk "Truncate the array result to this size.")
           "first" (nm "Int") none []]
       (nn (ls (nn (nm "ProductOption")))) [],
    field (blk "The price range.")
       "priceRange" [] (nn (nm "ProductPriceRange")) [],
    field (blk "A categorization that a product can be tagged with, commonly used for filtering and searching.")
       "productType" [] (nn (nm "String")) [],
    field (blk "The date and time when the product was published to the channel.")
       "publishedAt" [] (nn (nm "DateTime")) [],
    field (blk "Whether the product can only be purchased with a selling plan.")
       "requiresSellingPlan" [] (nn (nm "Boolean")) [],
    field (blk "A list of a product's available selling plan groups. A selling plan group represents a selling method. For example, 'Subscribe and save' is a selling method where customers pay for goods or services per delivery. A selling plan group contains individual selling plans.")
       "sellingPlanGroups" [
        inputValue (blk "Returns up to the first `n` elements from the list.")
           "first" (nm "Int") none [],
        inputValue (blk "Returns the elements that come after the specified cursor.")
           "after" (nm "String") none [],
        inputValue (blk "Returns up to the last `n` elements from the list.")
           "last" (nm "Int") none [],
        inputValue (blk "Returns the elements that come before the specified cursor.")
           "before" (nm "String") none [],
        inputValue (blk "Reverse the order of the underlying list.")
           "reverse" (nm "Boolean") (some (.boolean false)) []]
       (nn (nm "SellingPlanGroupConnection")) [],
    field (blk "The product's SEO information.")
       "seo" [] (nn (nm "SEO")) [],
    field (blk "A comma separated list of tags that have been added to the product.\nAdditional access scope required for private apps: unauthenticated_read_product_tags.")
       "tags" [] (nn (ls (nn (nm "String")))) [],
    field (blk "The product’s title.")
       "title" [] (nn (nm "String")) [],
    field (blk "The total quantity of inventory in stock for this Product.")
       "totalInventory" [] (nm "Int") [],
    field (blk "A path that includes all of the standardized and custom product types associated with a product.\nThe path increases in specificity from top to bottom. It begins with the standardized product type\nand terminates with the custom product type. For example,\nClothing & Accessories > Clothing > Shirts & Tops > Polo Shirts.")
       "typePath" [] (nn (ls (nn (nm "ProductTypePathNode")))) [],
    field (blk "The date and time when the product was last modified.\nA product's `updatedAt` value can change for different reasons. For example, if an order\nis placed for a product that has inventory tracking set up, then the inventory adjustment\nis counted as an update.")
       "updatedAt" [] (nn (nm "DateTime")) [],
    field (blk "Find a product’s variant based on its selected options.\nThis is useful for converting a user’s selection of product options into a single matching variant.\nIf there is not a variant for the selected options, `null` will be returned.")
       "variantBySelectedOptions" [
        inputValue (blk "The input fields used for a selected option.")
           "selectedOptions" (nn (ls (nn (nm "SelectedOptionInput")))) none []]
       (nm "ProductVariant") [],
    field (blk "List of the product’s variants.")
       "variants" [
        inputValue (blk "Returns up to the first `n` elements from the list.")
           "first" (nm "Int") none [],
        inputValue (blk "Returns the elements that come after the specified cursor.")
           "after" (nm "String") none [],
        inputValue (blk "Returns up to the last `n` elements from the list.")
           "last" (nm "Int") none [],
        inputValue (blk "Returns the elements that come before the specified cursor.")
           "before" (nm "String") none [],
        inputValue (blk "Reverse the order of the underlying list.")
           "reverse" (nm "Boolean") (some (.boolean false)) [],
        inputValue (blk "Sort the underlying list by the given key.")
           "sortKey" (nm "ProductVariantSortKeys") (some (.enum "POSITION")) []]
       (nn (nm "ProductVariantConnection")) [],
    field (blk "The product’s vendor name.")
       "vendor" [] (nn (nm "String")) []]

/-- Lines 4922 to 4946 of the module: enum ProductCollectionSortKeys. -/
def text.ProductCollectionSortKeys : List String := [
  "\"\"\"The set of valid sort keys for the ProductCollection query.\"\"\"",
  "enum ProductCollectionSortKeys \x7b",
  "  \"\"\"Sort by the \\`title\\` value.\"\"\"",
  "  TITLE",
  "  \"\"\"Sort by the \\`price\\` value.\"\"\"",
  "  PRICE",
  "  \"\"\"Sort by the \\`best-selling\\` value.\"\"\"",
  "  BEST_SELLING",
  "  \"\"\"Sort by the \\`created\\` value.\"\"\"",
  "  CREATED",
  "  \"\"\"Sort by the \\`id\\` value.\"\"\"",
  "  ID",
  "  \"\"\"Sort by the \\`manual\\` value.\"\"\"",
  "  MANUAL",
  "  \"\"\"Sort by the \\`collection-default\\` value.\"\"\"",
  "  COLLECTION_DEFAULT",
  "  \"\"\"",
  "  During a search (i.e. when the \\`query\\` parameter has been specified on the connection) this sorts the",
  "  results by relevance to the search term(s). When no search query is specified, this sort key is not",
  "  deterministic and should not be used.",
  "  ",
  "  \"\"\"",
  "  RELEVANCE",
  "\x7d",
  ""]

/-- The enum ProductCollectionSortKeys declared by lines 4922 to 4946. -/
def ProductCollectionSortKeys : Definition :=
  .enumType (blk "The set of valid sort keys for the ProductCollection query.")
    "ProductCollectionSortKeys" [] [
    enumValue (blk "Sort by the `title` value.")
       "TITLE" [],
    enumValue (blk "Sort by the `price` value.")
       "PRICE" [],
    enumValue (blk "Sort by the `best-selling` value.")
       "BEST_SELLING" [],
    enumValue (blk "Sort by the `created` value.")
       "CREATED" [],
    enumValue (blk "Sort by the `id` value.")
       "ID" [],
    enumValue (blk "Sort by the `manual` value.")
       "MANUAL" [],
    enumValue (blk "Sort by the `collection-default` value.")
       "COLLECTION_DEFAULT" [],
    enumValue (blk "During a search (i.e. when the `query` parameter has been specified on the connection) this sorts the\nresults by relevance to the search term(s). When no search query is specified, this sort key is not\ndeterministic and should not be used.")
       "RELEVANCE" []]

/-- Lines 4947 to 4959 of the module: type ProductConnection. -/
def text.ProductConnection : List String := [
  "\"\"\"",
  "An auto-generated type for paginating through multiple Products.",
  "",
  "\"\"\"",
  "type ProductConnection \x7b",
  "  \"\"\"A list of edges.\"\"\"",
  "  edges: [ProductEdge!]!",
  "  \"\"\"A list of available filters.\"\"\"",
  "  filters: [Filter!]!",
  "  \"\"\"Information to aid in pagination.\"\"\"",
  "  pageInfo: PageInfo!",
  "\x7d",
  ""]

/-- The type ProductConnection declared by lines 4947 to 4959. -/
def ProductConnection : Definition :=
  .objectType (blk "An auto-generated type for paginating through multiple Products.")
    "ProductConnection" [] [] [
    field (blk "A list of edges.")
       "edges" [] (nn (ls (nn (nm "ProductEdge")))) [],
    field (blk "A list of available filters.")
       "filters" [] (nn (ls (nn (nm "Filter")))) [],
    field (blk "Information to aid in pagination.")
       "pageInfo" [] (nn (nm "PageInfo")) []]

/-- Lines 4960 to 4970 of the module: type ProductEdge. -/
def text.ProductEdge : List String := [
  "\"\"\"",
  "An auto-generated type which holds one Product and a cursor during pagination.",
  "",
  "\"\"\"",
  "type ProductEdge \x7b",
  "  \"\"\"A cursor for use in pagination.\"\"\"",
  "  cursor: String!",
  "  \"\"\"The item at the end of ProductEdge.\"\"\"",
  "  node: Product!",
  "\x7d",
  ""]

/-- The type ProductEdge declared by lines 4960 to 4970. -/
def ProductEdge : Definition :=
  .objectType (blk "An auto-generated type which holds one Product and a cursor during pagination.")
    "ProductEdge" [] [] [
    field (blk "A cursor for use in pagination.")
       "cursor" [] (nn (nm "String")) [],
    field (blk "The item at the end of ProductEdge.")
       "node" [] (nn (nm "Product")) []]

/-- Lines 4971 to 4988 of the module: input ProductFilter. -/
def text.ProductFilter : List String := [
  "\"\"\"A filter used to view a subset of products in a collection.\"\"\"",
  "input ProductFilter \x7b",
  "  \"\"\"Filter on if the product is available for sale.\"\"\"",
  "  available: Boolean",
  "  \"\"\"A variant option to filter on.\"\"\"",
  "  variantOption: VariantOptionFilter",
  "  \"\"\"The product type to filter on.\"\"\"",
  "  productType: String",
  "  \"\"\"The product vendor to filter on.\"\"\"",
  "  productVendor: String",
  "  \"\"\"A range of prices to filter with-in.\"\"\"",
  "  price: PriceRangeFilter",
  "  \"\"\"A product metafield to filter on.\"\"\"",
  "  productMetafield: MetafieldFilter",
  "  \"\"\"A variant metafield to filter on.\"\"\"",
  "  variantMetafield: MetafieldFilter",
  "\x7d",
  ""]

/-- The input ProductFilter declared by lines 4971 to 4988. -/
def ProductFilter : Definition :=
  .inputObjectType (blk "A filter used to view a subset of products in a collection.")
    "ProductFilter" [] [
    inputValue (blk "Filter on if the product is available for sale.")
       "available" (nm "Boolean") none [],
    inputValue (blk "A variant option to filter on.")
       "variantOption" (nm "VariantOptionFilter") none [],
    inputValue (blk "The product type to filter on.")
       "productType" (nm "String") none [],
    inputValue (blk "The product vendor to filter on.")
       "productVendor" (nm "String") none [],
    inputValue (blk "A range of prices to filter with-in.")
       "price" (nm "PriceRangeFilter") none [],
    inputValue (blk "A product metafield to filter on.")
       "productMetafield" (nm "MetafieldFilter") none [],
    inputValue (blk "A variant metafield to filter on.")
       "variantMetafield" (nm "MetafieldFilter") none []]

/-- Lines 4989 to 5005 of the module: enum ProductImageSortKeys. -/
def text.ProductImageSortKeys : List String := [
  "\"\"\"The set of valid sort keys for the ProductImage query.\"\"\"",
  "enum ProductImageSortKeys \x7b",
  "  \"\"\"Sort by the \\`created_at\\` value.\"\"\"",
  "  CREATED_AT",
  "  \"\"\"Sort by the \\`position\\` value.\"\"\"",
  "  POSITION",
  "  \"\"\"Sort by the \\`id\\` value.\"\"\"",
  "  ID",
  "  \"\"\"",
  "  During a search (i.e. when the \\`query\\` parameter has been specified on the connection) this sorts the",
  "  results by relevance to the search term(s). When no search query is specified, this sort key is not",
  "  deterministic and should not be used.",
  "  ",
  "  \"\"\"",
  "  RELEVANCE",
  "\x7d",
  ""]

/-- The enum ProductImageSortKeys declared by lines 4989 to 5005. -/
def ProductImageSortKeys : Definition :=
  .enumType (blk "The set of valid sort keys for the ProductImage query.")
    "ProductImageSortKeys" [] [
    enumValue (blk "Sort by the `created_at` value.")
       "CREATED_AT" [],
    enumValue (blk "Sort by the `position` value.")
       "POSITION" [],
    enumValue (blk "Sort by the `id` value.")
       "ID" [],
    enumValue (blk "During a search (i.e. when the `query` parameter has been specified on the connection) this sorts the\nresults by relevance to the search term(s). When no search query is specified, this sort key is not\ndeterministic and should not be used.")
       "RELEVANCE" []]

/-- Lines 5006 to 5020 of the module: enum ProductMediaSortKeys. -/
def text.ProductMediaSortKeys : List String := [
  "\"\"\"The set of valid sort keys for the ProductMedia query.\"\"\"",
  "enum ProductMediaSortKeys \x7b",
  "  \"\"\"Sort by the \\`position\\` value.\"\"\"",
  "  POSITION",
  "  \"\"\"Sort by the \\`id\\` value.\"\"\"",
  "  ID",
  "  \"\"\"",
  "  During a search (i.e. when the \\`query\\` parameter has been specified on the connection) this sorts the",
  "  results by relevance to the search term(s). When no search query is specified, this sort key is not",
  "  deterministic and should not be used.",
  "  ",
  "  \"\"\"",
  "  RELEVANCE",
  "\x7d",
  ""]

/-- The enum ProductMediaSortKeys declared by lines 5006 to 5020. -/
def ProductMediaSortKeys : Definition :=
  .enumType (blk "The set of valid sort keys for the ProductMedia query.")
    "ProductMediaSortKeys" [] [
    enumValue (blk "Sort by the `position` value.")
       "POSITION" [],
    enumValue (blk "Sort by the `id` value.")
       "ID" [],
    enumValue (blk "During a search (i.e. when the `query` parameter has been specified on the connection) this sorts the\nresults by relevance to the search term(s). When no search query is specified, this sort key is not\ndeterministic and should not be used.")
       "RELEVANCE" []]

/-- Lines 5021 to 5035 of the module: type ProductOption. -/
def text.ProductOption : List String := [
  "\"\"\"",
  "Product property names like \"Size\", \"Color\", and \"Material\" that the customers can select.",
  "Variants are selected based on permutations of these options.",
  "255 characters limit each.",
  "",
  "\"\"\"",
  "type ProductOption implements Node \x7b",
  "  \"\"\"A globally-unique identifier.\"\"\"",
  "  id: ID!",
  "  \"\"\"The product option’s name.\"\"\"",
  "  name: String!",
  "  \"\"\"The corresponding value to the product option name.\"\"\"",
  "  values: [String!]!",
  "\x7d",
  ""]

/-- The type ProductOption declared by lines 5021 to 5035. -/
def ProductOption : Definition :=
  .objectType (blk "Product property names like \"Size\", \"Color\", and \"Material\" that the customers can select.\nVariants are selected based on permutations of these options.\n255 characters limit each.")
    "ProductOption" ["Node"] [] [
    field (blk "A globally-unique identifier.")
       "id" [] (nn (nm "ID")) [],
    field (blk "The product option’s name.")
       "name" [] (nn (nm "String")) [],
    field (blk "The corresponding value to the product option name.")
       "values" [] (nn (ls (nn (nm "String")))) []]

/-- Lines 5036 to 5043 of the module: type ProductPriceRange. -/
def text.ProductPriceRange : List String := [
  "\"\"\"The price range of the product.\"\"\"",
  "type ProductPriceRange \x7b",
  "  \"\"\"The highest variant's price.\"\"\"",
  "  maxVariantPrice: MoneyV2!",
  "  \"\"\"The lowest variant's price.\"\"\"",
  "  minVariantPrice: MoneyV2!",
  "\x7d",
  ""]

/-- The type ProductPriceRange declared by lines 5036 to 5043. -/
def ProductPriceRange : Definition :=
  .objectType (blk "The price range of the product.")
    "ProductPriceRange" [] [] [
    field (blk "The highest variant's price.")
       "maxVariantPrice" [] (nn (nm "MoneyV2")) [],
    field (blk "The lowest variant's price.")
       "minVariantPrice" [] (nn (nm "MoneyV2")) []]

/-- Lines 5044 to 5070 of the module: enum ProductSortKeys. -/
def text.ProductSortKeys : List String := [
  "\"\"\"The set of valid sort keys for the Product query.\"\"\"",
  "enum ProductSortKeys \x7b",
  "  \"\"\"Sort by the \\`title\\` value.\"\"\"",
  "  TITLE",
  "  \"\"\"Sort by the \\`product_type\\` value.\"\"\"",
  "  PRODUCT_TYPE",
  "  \"\"\"Sort by the \\`vendor\\` value.\"\"\"",
  "  VENDOR",
  "  \"\"\"Sort by the \\`updated_at\\` value.\"\"\"",
  "  UPDATED_AT",
  "  \"\"\"Sort by the \\`created_at\\` value.\"\"\"",
  "  CREATED_AT",
  "  \"\"\"Sort by the \\`best_selling\\` value.\"\"\"",
  "  BEST_SELLING",
  "  \"\"\"Sort by the \\`price\\` value.\"\"\"",
  "  PRICE",
  "  \"\"\"Sort by the \\`id\\` value.\"\"\"",
  "  ID",
  "  \"\"\"",
  "  During a search (i.e. when the \\`query\\` parameter has been specified on the connection) this sorts the",
  "  results by relevance to the search term(s). When no search query is specified, this sort key is not",
  "  deterministic and should not be used.",
  "  ",
  "  \"\"\"",
  "  RELEVANCE",
  "\x7d",
  ""]

/-- The enum ProductSortKeys declared by lines 5044 to 5070. -/
def ProductSortKeys : Definition :=
  .enumType (blk "The set of valid sort keys for the Product query.")
    "ProductSortKeys" [] [
    enumValue (blk "Sort by the `title` value.")
       "TITLE" [],
    enumValue (blk "Sort by the `product_type` value.")
       "PRODUCT_TYPE" [],
    enumValue (blk "Sort by the `vendor` value.")
       "VENDOR" [],
    enumValue (blk "Sort by the `updated_at` value.")
       "UPDATED_AT" [],
    enumValue (blk "Sort by the `created_at` value.")
       "CREATED_AT" [],
    enumValue (blk "Sort by the `best_selling` value.")
       "BEST_SELLING" [],
    enumValue (blk "Sort by the `price` value.")
       "PRICE" [],
    enumValue (blk "Sort by the `id` value.")
       "ID" [],
    enumValue (blk "During a search (i.e. when the `query` parameter has been specified on the connection) this sorts the\nresults by relevance to the search term(s). When no search query is specified, this sort key is not\ndeterministic and should not be used.")
       "RELEVANCE" []]

/-- Lines 5071 to 5076 of the module: type ProductTypePathNode. -/
def text.ProductTypePathNode : List String := [
  "\"\"\"A node in the product type path.\"\"\"",
  "type ProductTypePathNode \x7b",
  "  \"\"\"The name of the node. For example, Polo Shirts.\"\"\"",
  "  name: String!",
  "\x7d",
  ""]

/-- The type ProductTypePathNode declared by lines 5071 to 5076. -/
def ProductTypePathNode : Definition :=
  .objectType (blk "A node in the product type path.")
    "ProductTypePathNode" [] [] [
    field (blk "The name of the node. For example, Polo Shirts.")
       "name" [] (nn (nm "String")) []]

/-- Lines 5077 to 5187 of the module: type ProductVariant. -/
def text.ProductVariant : List String := [
  "\"\"\"",
  "A product variant represents a different version of a product, such as differing sizes or differing colors.",
  "\"\"\"",
  "type ProductVariant implements Node & HasMetafields \x7b",
  "  \"\"\"Indicates if the product variant is available for sale.\"\"\"",
  "  availableForSale: Boolean!",
  "  \"\"\"",
  "  The barcode (for example, ISBN, UPC, or GTIN) associated with the variant.",
  "  \"\"\"",
  "  barcode: String",
  "  \"\"\"",
  "  The compare at price of the variant. This can be used to mark a variant as on sale, when \\`compareAtPrice\\` is higher than \\`price\\`.",
  "  \"\"\"",
  "  compareAtPrice: Money @deprecated(reason: \"Use \\`compareAtPriceV2\\` instead\")",
  "  \"\"\"",
  "  The compare at price of the variant. This can be used to mark a variant as on sale, when \\`compareAtPriceV2\\` is higher than \\`priceV2\\`.",
  "  \"\"\"",
  "  compareAtPriceV2: MoneyV2",
  "  \"\"\"",
  "  Whether a product is out of stock but still available for purchase (used for backorders).",
  "  \"\"\"",
  "  currentlyNotInStock: Boolean!",
  "  \"\"\"A globally-unique identifier.\"\"\"",
  "  id: ID!",
  "  \"\"\"",
  "  Image associated with the product variant. This field falls back to the product image if no image is available.",
  "  ",
  "  \"\"\"",
  "  image: Image",
  "  \"\"\"Returns a metafield found by namespace and key.\"\"\"",
  "  metafield(",
  "    \"\"\"Container for a set of metafields (maximum of 20 characters).\"\"\"",
  "    namespace: String!",
  "    \"\"\"Identifier for the metafield (maximum of 30 characters).\"\"\"",
  "    key: String!",
  "  ): Metafield",
  "  \"\"\"A paginated list of metafields associated with the resource.\"\"\"",
  "  metafields(",
  "    \"\"\"Container for a set of metafields (maximum of 20 characters).\"\"\"",
  "    namespace: String",
  "    \"\"\"Returns up to the first \\`n\\` elements from the list.\"\"\"",
  "    first: Int",
  "    \"\"\"Returns the elements that come after the specified cursor.\"\"\"",
  "    after: String",
  "    \"\"\"Returns up to the last \\`n\\` elements from the list.\"\"\"",
  "    last: Int",
  "    \"\"\"Returns the elements that come before the specified cursor.\"\"\"",
  "    before: String",
  "    \"\"\"Reverse the order of the underlying list.\"\"\"",
  "    reverse: Boolean = false",
  "  ): MetafieldConnection! @deprecated(reason: \"The \\`metafields\\` field will be removed in the future in favor of using [aliases](https://graphql.org/learn/queries/#aliases) with the \\`metafield\\` field.\\n\")",
  "  \"\"\"The product variant’s price.\"\"\"",
  "  price: Money! @deprecated(reason: \"Use \\`priceV2\\` instead\")",
  "  \"\"\"The product variant’s price.\"\"\"",
  "  priceV2: MoneyV2!",
  "  \"\"\"The product object that the product variant belongs to.\"\"\"",
  "  product: Product!",
  "  \"\"\"The total sellable quantity of the variant for online sales channels.\"\"\"",
  "  quantityAvailable: Int",
  "  \"\"\"",
  "  Whether a customer needs to provide a shipping address when placing an order for the product variant.",
  "  \"\"\"",
  "  requiresShipping: Boolean!",
  "  \"\"\"List of product options applied to the variant.\"\"\"",
  "  selectedOptions: [SelectedOption!]!",
  "  \"\"\"",
  "  Represents an association between a variant and a selling plan. Selling plan allocations describe which selling plans are available for each variant, and what their impact is on pricing.",
  "  \"\"\"",
  "  sellingPlanAllocations(",
  "    \"\"\"Returns up to the first \\`n\\` elements from the list.\"\"\"",
  "    first: Int",
  "    \"\"\"Returns the elements that come after the specified cursor.\"\"\"",
  "    after: String",
  "    \"\"\"Returns up to the last \\`n\\` elements from the list.\"\"\"",
  "    last: Int",
  "    \"\"\"Returns the elements that come before the specified cursor.\"\"\"",
  "    before: String",
  "    \"\"\"Reverse the order of the underlying list.\"\"\"",
  "    reverse: Boolean = false",
  "  ): SellingPlanAllocationConnection!",
  "  \"\"\"The SKU (stock keeping unit) associated with the variant.\"\"\"",
  "  sku: String",
  "  \"\"\"The in-store pickup availability of this variant by location.\"\"\"",
  "  storeAvailability(",
  "    \"\"\"Returns up to the first \\`n\\` elements from the list.\"\"\"",
  "    first: Int",
  "    \"\"\"Returns the elements that come after the specified cursor.\"\"\"",
  "    after: String",
  "    \"\"\"Returns up to the last \\`n\\` elements from the list.\"\"\"",
  "    last: Int",
  "    \"\"\"Returns the elements that come before the specified cursor.\"\"\"",
  "    before: String",
  "    \"\"\"Reverse the order of the underlying list.\"\"\"",
  "    reverse: Boolean = false",
  "  ): StoreAvailabilityConnection!",
  "  \"\"\"The product variant’s title.\"\"\"",
  "  title: String!",
  "  \"\"\"",
  "  The unit price value for the variant based on the variant's measurement.",
  "  \"\"\"",
  "  unitPrice: MoneyV2",
  "  \"\"\"The unit price measurement for the variant.\"\"\"",
  "  unitPriceMeasurement: UnitPriceMeasurement",
  "  \"\"\"",
  "  The weight of the product variant in the unit system specified with \\`weight_unit\\`.",
  "  \"\"\"",
  "  weight: Float",
  "  \"\"\"Unit of measurement for weight.\"\"\"",
  "  weightUnit: WeightUnit!",
  "\x7d",
  ""]

/-- The type ProductVariant declared by lines 5077 to 5187. -/
def ProductVariant : Definition :=
  .objectType (blk "A product variant represents a different version of a product, such as differing sizes or differing colors.")
    "ProductVariant" ["Node", "HasMetafields"] [] [
    field (blk "Indicates if the product variant is available for sale.")
       "availableForSale" [] (nn (nm "Boolean")) [],
    field (blk "The barcode (for example, ISBN, UPC, or GTIN) associated with the variant.")
       "barcode" [] (nm "String") [],
    field (blk "The compare at price of the variant. This can be used to mark a variant as on sale, when `compareAtPrice` is higher than `price`.")
       "compareAtPrice" [] (nm "Money") [deprecated "Use `compareAtPriceV2` instead"],
    field (blk "The compare at price of the variant. This can be used to mark a variant as on sale, when `compareAtPriceV2` is higher than `priceV2`.")
       "compareAtPriceV2" [] (nm "MoneyV2") [],
    field (blk "Whether a product is out of stock but still available for purchase (used for backorders).")
       "currentlyNotInStock" [] (nn (nm "Boolean")) [],
    field (blk "A globally-unique identifier.")
       "id" [] (nn (nm "ID")) [],
    field (blk "Image associated with the product variant. This field falls back to the product image if no image is available.")
       "image" [] (nm "Image") [],
    field (blk "Returns a metafield found by namespace and key.")
       "metafield" [
        inputValue (blk "Container for a set of metafields (maximum of 20 characters).")
           "namespace" (nn (nm "String")) none [],
        inputValue (blk "Identifier for the metafield (maximum of 30 characters).")
           "key" (nn (nm "String")) none []]
       (nm "Metafield") [],
    field (blk "A paginated list of metafields associated with the resource.")
       "metafields" [
        inputValue (blk "Container for a set of metafields (maximum of 20 characters).")
           "namespace" (nm "String") none [],
        inputValue (blk "Returns up to the first `n` elements from the list.")
           "first" (nm "Int") none [],
        inputValue (blk "Returns the elements that come after the specified cursor.")
           "after" (nm "String") none [],
        inputValue (blk "Returns up to the last `n` elements from the list.")
           "last" (nm "Int") none [],
        inputValue (blk "Returns the elements that come before the specified cursor.")
           "before" (nm "String") none [],
        inputValue (blk "Reverse the order of the underlying list.")
           "reverse" (nm "Boolean") (some (.boolean false)) []]
       (nn (nm "MetafieldConnection")) [deprecated "The `metafields` field will be removed in the future in favor of using [aliases](https://graphql.org/learn/queries/#aliases) with the `metafield` field.\n"],
    field (blk "The product variant’s price.")
       "price" [] (nn (nm "Money")) [deprecated "Use `priceV2` instead"],
    field (blk "The product variant’s price.")
       "priceV2" [] (nn (nm "MoneyV2")) [],
    field (blk "The product object that the product variant belongs to.")
       "product" [] (nn (nm "Product")) [],
    field (blk "The total sellable quantity of the variant for online sales channels.")
       "quantityAvailable" [] (nm "Int") [],
    field (blk "Whether a customer needs to provide a shipping address when placing an order for the product variant.")
       "requiresShipping" [] (nn (nm "Boolean")) [],
    field (blk "List of product options applied to the variant.")
       "selectedOptions" [] (nn (ls (nn (nm "SelectedOption")))) [],
    field (blk "Represents an association between a variant and a selling plan. Selling plan allocations describe which selling plans are available for each variant, and what their impact is on pricing.")
       "sellingPlanAllocations" [
        inputValue (blk "Returns up to the first `n` elements from the list.")
           "first" (nm "Int") none [],
        inputValue (blk "Returns the elements that come after the specified cursor.")
           "after" (nm "String") none [],
        inputValue (blk "Returns up to the last `n` elements from the list.")
           "last" (nm "Int") none [],
        inputValue (blk "Returns the elements that come before the specified cursor.")
           "before" (nm "String") none [],
        inputValue (blk "Reverse the order of the underlying list.")
           "reverse" (nm "Boolean") (some (.boolean false)) []]
       (nn (nm "SellingPlanAllocationConnection")) [],
    field (blk "The SKU (stock keeping unit) associated with the variant.")
       "sku" [] (nm "String") [],
    field (blk "The in-store pickup availability of this variant by location.")
       "storeAvailability" [
        inputValue (blk "Returns up to the first `n` elements from the list.")
           "first" (nm "Int") none [],
        inputValue (blk "Returns the elements that come after the specified cursor.")
           "after" (nm "String") none [],
        inputValue (blk "Returns up to the last `n` elements from the list.")
           "last" (nm "Int") none [],
        inputValue (blk "Returns the elements that come before the specified cursor.")
           "before" (nm "String") none [],
        inputValue (blk "Reverse the order of the underlying list.")
           "reverse" (nm "Boolean") (some (.boolean false)) []]
       (nn (nm "StoreAvailabilityConnection")) [],
    field (blk "The product variant’s title.")
       "title" [] (nn (nm "String")) [],
    field (blk "The unit price value for the variant based on the variant's measurement.")
       "unitPrice" [] (nm "MoneyV2") [],
    field (blk "The unit price measurement for the variant.")
       "unitPriceMeasurement" [] (nm "UnitPriceMeasurement") [],
    field (blk "The weight of the product variant in the unit system specified with `weight_unit`.")
       "weight" [] (nm "Float") [],
    field (blk "Unit of measurement for weight.")
       "weightUnit" [] (nn (nm "WeightUnit")) []]

/-- Lines 5188 to 5198 of the module: type ProductVariantConnection. -/
def text.ProductVariantConnection : List String := [
  "\"\"\"",
  "An auto-generated type for paginating through multiple ProductVariants.",
  "",
  "\"\"\"",
  "type ProductVariantConnection \x7b",
  "  \"\"\"A list of edges.\"\"\"",
  "  edges: [ProductVariantEdge!]!",
  "  \"\"\"Information to aid in pagination.\"\"\"",
  "  pageInfo: PageInfo!",
  "\x7d",
  ""]

/-- The type ProductVariantConnection declared by lines 5188 to 5198. -/
def ProductVariantConnection : Definition :=
  .objectType (blk "An auto-generated type for paginating through multiple ProductVariants.")
    "ProductVariantConnection" [] [] [
    field (blk "A list of edges.")
       "edges" [] (nn (ls (nn (nm "ProductVariantEdge")))) [],
    field (blk "Information to aid in pagination.")
       "pageInfo" [] (nn (nm "PageInfo")) []]

/-- Lines 5199 to 5209 of the module: type ProductVariantEdge. -/
def text.ProductVariantEdge : List String := [
  "\"\"\"",
  "An auto-generated type which holds one ProductVariant and a cursor during pagination.",
  "",
  "\"\"\"",
  "type ProductVariantEdge \x7b",
  "  \"\"\"A cursor for use in pagination.\"\"\"",
  "  cursor: String!",
  "  \"\"\"The item at the end of ProductVariantEdge.\"\"\"",
  "  node: ProductVariant!",
  "\x7d",
  ""]

/-- The type ProductVariantEdge declared by lines 5199 to 5209. -/
def ProductVariantEdge : Definition :=
  .objectType (blk "An auto-generated type which holds one ProductVariant and a cursor during pagination.")
    "ProductVariantEdge" [] [] [
    field (blk "A cursor for use in pagination.")
       "cursor" [] (nn (nm "String")) [],
    field (blk "The item at the end of ProductVariantEdge.")
       "node" [] (nn (nm "ProductVariant")) []]

/-- Lines 5210 to 5228 of the module: enum ProductVariantSortKeys. -/
def text.ProductVariantSortKeys : List String := [
  "\"\"\"The set of valid sort keys for the ProductVariant query.\"\"\"",
  "enum ProductVariantSortKeys \x7b",
  "  \"\"\"Sort by the \\`title\\` value.\"\"\"",
  "  TITLE",
  "  \"\"\"Sort by the \\`sku\\` value.\"\"\"",
  "  SKU",
  "  \"\"\"Sort by the \\`position\\` value.\"\"\"",
  "  POSITION",
  "  \"\"\"Sort by the \\`id\\` value.\"\"\"",
  "  ID",
  "  \"\"\"",
  "  During a search (i.e. when the \\`query\\` parameter has been specified on the connection) this sorts the",
  "  results by relevance to the search term(s). When no search query is specified, this sort key is not",
  "  deterministic and should not be used.",
  "  ",
  "  \"\"\"",
  "  RELEVANCE",
  "\x7d",
  ""]

/-- The enum ProductVariantSortKeys declared by lines 5210 to 5228. -/
def ProductVariantSortKeys : Definition :=
  .enumType (blk "The set of valid sort keys for the ProductVariant query.")
    "ProductVariantSortKeys" [] [
    enumValue (blk "Sort by the `title` value.")
       "TITLE" [],
    enumValue (blk "Sort by the `sku` value.")
       "SKU" [],
    enumValue (blk "Sort by the `position` value.")
       "POSITION" [],
    enumValue (blk "Sort by the `id` value.")
       "ID" [],
    enumValue (blk "During a search (i.e. when the `query` parameter has been specified on the connection) this sorts the\nresults by relevance to the search term(s). When no search query is specified, this sort key is not\ndeterministic and should not be used.")
       "RELEVANCE" []]

/-- Lines 5229 to 5499 of the module: type QueryRoot. -/
def text.QueryRoot : List String := [
  "\"\"\"",
  "The schema’s entry-point for queries. This acts as the public, top-level API from which all queries must start.",
  "\"\"\"",
  "type QueryRoot \x7b",
  "  \"\"\"List of the shop's articles.\"\"\"",
  "  articles(",
  "    \"\"\"Returns up to the first \\`n\\` elements from the list.\"\"\"",
  "    first: Int",
  "    \"\"\"Returns the elements that come after the specified cursor.\"\"\"",
  "    after: String",
  "    \"\"\"Returns up to the last \\`n\\` elements from the list.\"\"\"",
  "    last: Int",
  "    \"\"\"Returns the elements that come before the specified cursor.\"\"\"",
  "    before: String",
  "    \"\"\"Reverse the order of the underlying list.\"\"\"",
  "    reverse: Boolean = false",
  "    \"\"\"Sort the underlying list by the given key.\"\"\"",
  "    sortKey: ArticleSortKeys = ID",
  "    \"\"\"",
  "    Supported filter parameters:",
  "     - \\`author\\`",
  "     - \\`blog_title\\`",
  "     - \\`created_at\\`",
  "     - \\`tag\\`",
  "     - \\`tag_not\\`",
  "     - \\`updated_at\\`",
  "    ",
  "    See the detailed [search syntax](https://shopify.dev/api/usage/search-syntax)",
  "    for more information about using filters.",
  "    ",
  "    \"\"\"",
  "    query: String",
  "  ): ArticleConnection!",
  "  \"\"\"Fetch a specific \\`Blog\\` by one of its unique attributes.\"\"\"",
  "  blog(",
  "    \"\"\"The ID of the \\`Blog\\`.\"\"\"",
  "    id: ID",
  "    \"\"\"The handle of the \\`Blog\\`.\"\"\"",
  "    handle: String",
  "  ): Blog",
  "  \"\"\"Find a blog by its handle.\"\"\"",
  "  blogByHandle(",
  "    \"\"\"The handle of the blog.\"\"\"",
  "    handle: String!",
  "  ): Blog @deprecated(reason: \"Use \\`blog\\` instead\")",
  "  \"\"\"List of the shop's blogs.\"\"\"",
  "  blogs(",
  "    \"\"\"Returns up to the first \\`n\\` elements from the list.\"\"\"",
  "    first: Int",
  "    \"\"\"Returns the elements that come after the specified cursor.\"\"\"",
  "    after: String",
  "    \"\"\"Returns up to the last \\`n\\` elements from the list.\"\"\"",
  "    last: Int",
  "    \"\"\"Returns the elements that come before the specified cursor.\"\"\"",
  "    before: String",
  "    \"\"\"Reverse the order of the underlying list.\"\"\"",
  "    reverse: Boolean = false",
  "    \"\"\"Sort the underlying list by the given key.\"\"\"",
  "    sortKey: BlogSortKeys = ID",
  "    \"\"\"",
  "    Supported filter parameters:",
  "     - \\`created_at\\`",
  "     - \\`handle\\`",
  "     - \\`title\\`",
  "     - \\`updated_at\\`",
  "    ",
  "    See the detailed [search syntax](https://shopify.dev/api/usage/search-syntax)",
  "    for more information about using filters.",
  "    ",
  "    \"\"\"",
  "    query: String",
  "  ): BlogConnection!",
  "  \"\"\"Find a cart by its ID.\"\"\"",
  "  cart(",
  "    \"\"\"The id of the cart.\"\"\"",
  "    id: ID!",
  "  ): Cart",
  "  \"\"\"Fetch a specific \\`Collection\\` by one of its unique attributes.\"\"\"",
  "  collection(",
  "    \"\"\"The ID of the \\`Collection\\`.\"\"\"",
  "    id: ID",
  "    \"\"\"The handle of the \\`Collection\\`.\"\"\"",
  "    handle: String",
  "  ): Collection",
  "  \"\"\"Find a collection by its handle.\"\"\"",
  "  collectionByHandle(",
  "    \"\"\"The handle of the collection.\"\"\"",
  "    handle: String!",
  "  ): Collection @deprecated(reason: \"Use \\`collection\\` instead\")",
  "  \"\"\"List of the shop’s collections.\"\"\"",
  "  collections(",
  "    \"\"\"Returns up to the first \\`n\\` elements from the list.\"\"\"",
  "    first: Int",
  "    \"\"\"Returns the elements that come after the specified cursor.\"\"\"",
  "    after: String",
  "    \"\"\"Returns up to the last \\`n\\` elements from the list.\"\"\"",
  "    last: Int",
  "    \"\"\"Returns the elements that come before the specified cursor.\"\"\"",
  "    before: String",
  "    \"\"\"Reverse the order of the underlying list.\"\"\"",
  "    reverse: Boolean = false",
  "    \"\"\"Sort the underlying list by the given key.\"\"\"",
  "    sortKey: CollectionSortKeys = ID",
  "    \"\"\"",
  "    Supported filter parameters:",
  "     - \\`collection_type\\`",
  "     - \\`title\\`",
  "     - \\`updated_at\\`",
  "    ",
  "    See the detailed [search syntax](https://shopify.dev/api/usage/search-syntax)",
  "    for more information about using filters.",
  "    ",
  "    \"\"\"",
  "    query: String",
  "  ): CollectionConnection!",
  "  \"\"\"Find a customer by its access token.\"\"\"",
  "  customer(",
  "    \"\"\"The customer access token.\"\"\"",
  "    customerAccessToken: String!",
  "  ): Customer",
  "  \"\"\"Returns the localized experiences configured for the shop.\"\"\"",
  "  localization: Localization!",
  "  \"\"\"",
  "  List of the shop's locations that support in-store pickup.",
  "  ",
  "  When sorting by distance, you must specify a location via the \\`near\\` argument.",
  "  ",
  "  \"\"\"",
  "  locations(",
  "    \"\"\"Returns up to the first \\`n\\` elements from the list.\"\"\"",
  "    first: Int",
  "    \"\"\"Returns the elements that come after the specified cursor.\"\"\"",
  "    after: String",
  "    \"\"\"Returns up to the last \\`n\\` elements from the list.\"\"\"",
  "    last: Int",
  "    \"\"\"Returns the elements that come before the specified cursor.\"\"\"",
  "    before: String",
  "    \"\"\"Reverse the order of the underlying list.\"\"\"",
  "    reverse: Boolean = false",
  "    \"\"\"Sort the underlying list by the given key.\"\"\"",
  "    sortKey: LocationSortKeys = ID",
  "    \"\"\"Used to sort results based on proximity to the provided location.\"\"\"",
  "    near: GeoCoordinateInput",
  "  ): LocationConnection!",
  "  \"\"\"Returns a specific node by ID.\"\"\"",
  "  node(",
  "    \"\"\"The ID of the Node to return.\"\"\"",
  "    id: ID!",
  "  ): Node",
  "  \"\"\"Returns the list of nodes with the given IDs.\"\"\"",
  "  nodes(",
  "    \"\"\"The IDs of the Nodes to return.\"\"\"",
  "    ids: [ID!]!",
  "  ): [Node]!",
  "  \"\"\"Fetch a specific \\`Page\\` by one of its unique attributes.\"\"\"",
  "  page(",
  "    \"\"\"The ID of the \\`Page\\`.\"\"\"",
  "    id: ID",
  "    \"\"\"The handle of the \\`Page\\`.\"\"\"",
  "    handle: String",
  "  ): Page",
  "  \"\"\"Find a page by its handle.\"\"\"",
  "  pageByHandle(",
  "    \"\"\"The handle of the page.\"\"\"",
  "    handle: String!",
  "  ): Page @deprecated(reason: \"Use \\`page\\` instead\")",
  "  \"\"\"List of the shop's pages.\"\"\"",
  "  pages(",
  "    \"\"\"Returns up to the first \\`n\\` elements from the list.\"\"\"",
  "    first: Int",
  "    \"\"\"Returns the elements that come after the specified cursor.\"\"\"",
  "    after: String",
  "    \"\"\"Returns up to the last \\`n\\` elements from the list.\"\"\"",
  "    last: Int",
  "    \"\"\"Returns the elements that come before the specified cursor.\"\"\"",
  "    before: String",
  "    \"\"\"Reverse the order of the underlying list.\"\"\"",
  "    reverse: Boolean = false",
  "    \"\"\"Sort the underlying list by the given key.\"\"\"",
  "    sortKey: PageSortKeys = ID",
  "    \"\"\"",
  "    Supported filter parameters:",
  "     - \\`created_at\\`",
  "     - \\`handle\\`",
  "     - \\`title\\`",
  "     - \\`updated_at\\`",
  "    ",
  "    See the detailed [search syntax](https://shopify.dev/api/usage/search-syntax)",
  "    for more information about using filters.",
  "    ",
  "    \"\"\"",
  "    query: String",
  "  ): PageConnection!",
  "  \"\"\"Fetch a specific \\`Product\\` by one of its unique attributes.\"\"\"",
  "  product(",
  "    \"\"\"The ID of the \\`Product\\`.\"\"\"",
  "    id: ID",
  "    \"\"\"The handle of the \\`Product\\`.\"\"\"",
  "    handle: String",
  "  ): Product",
  "  \"\"\"Find a product by its handle.\"\"\"",
  "  productByHandle(",
  "    \"\"\"The handle of the product.\"\"\"",
  "    handle: String!",
  "  ): Product @deprecated(reason: \"Use \\`product\\` instead\")",
  "  \"\"\"",
  "  Find recommended products related to a given \\`product_id\\`.",
  "  To learn more about how recommendations are generated, see",
  "  [*Showing product recommendations on product pages*](https://help.shopify.com/themes/development/recommended-products).",
  "  ",
  "  \"\"\"",
  "  productRecommendations(",
  "    \"\"\"The id of the product.\"\"\"",
  "    productId: ID!",
  "  ): [Product!]",
  "  \"\"\"",
  "  Tags added to products.",
  "  Additional access scope required: unauthenticated_read_product_tags.",
  "  ",
  "  \"\"\"",
  "  productTags(",
  "    \"\"\"Returns up to the first \\`n\\` elements from the list.\"\"\"",
  "    first: Int!",
  "  ): StringConnection!",
  "  \"\"\"",
  "  List of product types for the shop's products that are published to your app.",
  "  \"\"\"",
  "  productTypes(",
  "    \"\"\"Returns up to the first \\`n\\` elements from the list.\"\"\"",
  "    first: Int!",
  "  ): StringConnection!",
  "  \"\"\"List of the shop’s products.\"\"\"",
  "  products(",
  "    \"\"\"Returns up to the first \\`n\\` elements from the list.\"\"\"",
  "    first: Int",
  "    \"\"\"Returns the elements that come after the specified cursor.\"\"\"",
  "    after: String",
  "    \"\"\"Returns up to the last \\`n\\` elements from the list.\"\"\"",
  "    last: Int",
  "    \"\"\"Returns the elements that come before the specified cursor.\"\"\"",
  "    before: String",
  "    \"\"\"Reverse the order of the underlying list.\"\"\"",
  "    reverse: Boolean = false",
  "    \"\"\"Sort the underlying list by the given key.\"\"\"",
  "    sortKey: ProductSortKeys = ID",
  "    \"\"\"",
  "    Supported filter parameters:",
  "     - \\`available_for_sale\\`",
  "     - \\`created_at\\`",
  "     - \\`product_type\\`",
  "     - \\`tag\\`",
  "     - \\`tag_not\\`",
  "     - \\`title\\`",
  "     - \\`updated_at\\`",
  "     - \\`variants.price\\`",
  "     - \\`vendor\\`",
  "    ",
  "    See the detailed [search syntax](https://shopify.dev/api/usage/search-syntax)",
  "    for more information about using filters.",
  "    ",
  "    \"\"\"",
  "    query: String",
  "  ): ProductConnection!",
  "  \"\"\"",
  "  The list of public Storefront API versions, including supported, release candidate and unstable versions.",
  "  \"\"\"",
  "  publicApiVersions: [ApiVersion!]!",
  "  \"\"\"The shop associated with the storefront access token.\"\"\"",
  "  shop: Shop!",
  "\x7d",
  ""]

/-- The type QueryRoot declared by lines 5229 to 5499. -/
def QueryRoot : Definition :=
  .objectType (blk "The schema’s entry-point for queries. This acts as the public, top-level API from which all queries must start.")
    "QueryRoot" [] [] [
    field (blk "List of the shop's articles.")
       "articles" [
        inputValue (blk "Returns up to the first `n` elements from the list.")
           "first" (nm "Int") none [],
        inputValue (blk "Returns the elements that come after the specified cursor.")
           "after" (nm "String") none [],
        inputValue (blk "Returns up to the last `n` elements from the list.")
           "last" (nm "Int") none [],
        inputValue (blk "Returns the elements that come before the specified cursor.")
           "before" (nm "String") none [],
        inputValue (blk "Reverse the order of the underlying list.")
           "reverse" (nm "Boolean") (some (.boolean false)) [],
        inputValue (blk "Sort the underlying list by the given key.")
           "sortKey" (nm "ArticleSortKeys") (some (.enum "ID")) [],
        inputValue (blk "Supported filter parameters:\n - `author`\n - `blog_title`\n - `created_at`\n - `tag`\n - `tag_not`\n - `updated_at`\n\nSee the detailed [search syntax](https://shopify.dev/api/usage/search-syntax)\nfor more information about using filters.")
           "query" (nm "String") none []]
       (nn (nm "ArticleConnection")) [],
    field (blk "Fetch a specific `Blog` by one of its unique attributes.")
       "blog" [
        inputValue (blk "The ID of the `Blog`.")
           "id" (nm "ID") none [],
        inputValue (blk "The handle of the `Blog`.")
           "handle" (nm "String") none []]
       (nm "Blog") [],
    field (blk "Find a blog by its handle.")
       "blogByHandle" [
        inputValue (blk "The handle of the blog.")
           "handle" (nn (nm "String")) none []]
       (nm "Blog") [deprecated "Use `blog` instead"],
    field (blk "List of the shop's blogs.")
       "blogs" [
        inputValue (blk "Returns up to the first `n` elements from the list.")
           "first" (nm "Int") none [],
        inputValue (blk "Returns the elements that come after the specified cursor.")
           "after" (nm "String") none [],
        inputValue (blk "Returns up to the last `n` elements from the list.")
           "last" (nm "Int") none [],
        inputValue (blk "Returns the elements that come before the specified cursor.")
           "before" (nm "String") none [],
        inputValue (blk "Reverse the order of the underlying list.")
           "reverse" (nm "Boolean") (some (.boolean false)) [],
        inputValue (blk "Sort the underlying list by the given key.")
           "sortKey" (nm "BlogSortKeys") (some (.enum "ID")) [],
        inputValue (blk "Supported filter parameters:\n - `created_at`\n - `handle`\n - `title`\n - `updated_at`\n\nSee the detailed [search syntax](https://shopify.dev/api/usage/search-syntax)\nfor more information about using filters.")
           "query" (nm "String") none []]
       (nn (nm "BlogConnection")) [],
    field (blk "Find a cart by its ID.")
       "cart" [
        inputValue (blk "The id of the cart.")
           "id" (nn (nm "ID")) none []]
       (nm "Cart") [],
    field (blk "Fetch a specific `Collection` by one of its unique attributes.")
       "collection" [
        inputValue (blk "The ID of the `Collection`.")
           "id" (nm "ID") none [],
        inputValue (blk "The handle of the `Collection`.")
           "handle" (nm "String") none []]
       (nm "Collection") [],
    field (blk "Find a collection by its handle.")
       "collectionByHandle" [
        inputValue (blk "The handle of the collection.")
           "handle" (nn (nm "String")) none []]
       (nm "Collection") [deprecated "Use `collection` instead"],
    field (blk "List of the shop’s collections.")
       "collections" [
        inputValue (blk "Returns up to the first `n` elements from the list.")
           "first" (nm "Int") none [],
        inputValue (blk "Returns the elements that come after the specified cursor.")
           "after" (nm "String") none [],
        inputValue (blk "Returns up to the last `n` elements from the list.")
           "last" (nm "Int") none [],
        inputValue (blk "Returns the elements that come before the specified cursor.")
           "before" (nm "String") none [],
        inputValue (blk "Reverse the order of the underlying list.")
           "reverse" (nm "Boolean") (some (.boolean false)) [],
        inputValue (blk "Sort the underlying list by the given key.")
           "sortKey" (nm "CollectionSortKeys") (some (.enum "ID")) [],
        inputValue (blk "Supported filter parameters:\n - `collection_type`\n - `title`\n - `updated_at`\n\nSee the detailed [search syntax](https://shopify.dev/api/usage/search-syntax)\nfor more information about using filters.")
           "query" (nm "String") none []]
       (nn (nm "CollectionConnection")) [],
    field (blk "Find a customer by its access token.")
       "customer" [
        inputValue (blk "The customer access token.")
           "customerAccessToken" (nn (nm "String")) none []]
       (nm "Customer") [],
    field (blk "Returns the localized experiences configured for the shop.")
       "localization" [] (nn (nm "Localization")) [],
    field (blk "List of the shop's locations that support in-store pickup.\n\nWhen sorting by distance, you must specify a location via the `near` argument.")
       "locations" [
        inputValue (blk "Returns up to the first `n` elements from the list.")
           "first" (nm "Int") none [],
        inputValue (blk "Returns the elements that come after the specified cursor.")
           "after" (nm "String") none [],
        inputValue (blk "Returns up to the last `n` elements from the list.")
           "last" (nm "Int") none [],
        inputValue (blk "Returns the elements that come before the specified cursor.")
           "before" (nm "String") none [],
        inputValue (blk "Reverse the order of the underlying list.")
           "reverse" (nm "Boolean") (some (.boolean false)) [],
        inputValue (blk "Sort the underlying list by the given key.")
           "sortKey" (nm "LocationSortKeys") (some (.enum "ID")) [],
        inputValue (blk "Used to sort results based on proximity to the provided location.")
           "near" (nm "GeoCoordinateInput") none []]
       (nn (nm "LocationConnection")) [],
    field (blk "Returns a specific node by ID.")
       "node" [
        inputValue (blk "The ID of the Node to return.")
           "id" (nn (nm "ID")) none []]
       (nm "Node") [],
    field (blk "Returns the list of nodes with the given IDs.")
       "nodes" [
        inputValue (blk "The IDs of the Nodes to return.")
           "ids" (nn (ls (nn (nm "ID")))) none []]
       (nn (ls (nm "Node"))) [],
    field (blk "Fetch a specific `Page` by one of its unique attributes.")
       "page" [
        inputValue (blk "The ID of the `Page`.")
           "id" (nm "ID") none [],
        inputValue (blk "The handle of the `Page`.")
           "handle" (nm "String") none []]
       (nm "Page") [],
    field (blk "Find a page by its handle.")
       "pageByHandle" [
        inputValue (blk "The handle of the page.")
           "handle" (nn (nm "String")) none []]
       (nm "Page") [deprecated "Use `page` instead"],
    field (blk "List of the shop's pages.")
       "pages" [
        inputValue (blk "Returns up to the first `n` elements from the list.")
           "first" (nm "Int") none [],
        inputValue (blk "Returns the elements that come after the specified cursor.")
           "after" (nm "String") none [],
        inputValue (blk "Returns up to the last `n` elements from the list.")
           "last" (nm "Int") none [],
        inputValue (blk "Returns the elements that come before the specified cursor.")
           "before" (nm "String") none [],
        inputValue (blk "Reverse the order of the underlying list.")
           "reverse" (nm "Boolean") (some (.boolean false)) [],
        inputValue (blk "Sort the underlying list by the given key.")
           "sortKey" (nm "PageSortKeys") (some (.enum "ID")) [],
        inputValue (blk "Supported filter parameters:\n - `created_at`\n - `handle`\n - `title`\n - `updated_at`\n\nSee the detailed [search syntax](https://shopify.dev/api/usage/search-syntax)\nfor more information about using filters.")
           "query" (nm "String") none []]
       (nn (nm "PageConnection")) [],
    field (blk "Fetch a specific `Product` by one of its unique attributes.")
       "product" [
        inputValue (blk "The ID of the `Product`.")
           "id" (nm "ID") none [],
        inputValue (blk "The handle of the `Product`.")
           "handle" (nm "String") none []]
       (nm "Product") [],
    field (blk "Find a product by its handle.")
       "productByHandle" [
        inputValue (blk "The handle of the product.")
           "handle" (nn (nm "String")) none []]
       (nm "Product") [deprecated "Use `product` instead"],
    field (blk "Find recommended products related to a given `product_id`.\nTo learn more about how recommendations are generated, see\n[*Showing product recommendations on product pages*](https://help.shopify.com/themes/development/recommended-products).")
       "productRecommendations" [
        inputValue (blk "The id of the product.")
           "productId" (nn (nm "ID")) none []]
       (ls (nn (nm "Product"))) [],
    field (blk "Tags added to products.\nAdditional access scope required: unauthenticated_read_product_tags.")
       "productTags" [
        inputValue (blk "Returns up to the first `n` elements from the list.")
           "first" (nn (nm "Int")) none []]
       (nn (nm "StringConnection")) [],
    field (blk "List of product types for the shop's products that are published to your app.")
       "productTypes" [
        inputValue (blk "Returns up to the first `n` elements from the list.")
           "first" (nn (nm "Int")) none []]
       (nn (nm "StringConnection")) [],
    field (blk "List of the shop’s products.")
       "products" [
        inputValue (blk "Returns up to the first `n` elements from the list.")
           "first" (nm "Int") none [],
        inputValue (blk "Returns the elements that come after the specified cursor.")
           "after" (nm "String") none [],
        inputValue (blk "Returns up to the last `n` elements from the list.")
           "last" (nm "Int") none [],
        inputValue (blk "Returns the elements that come before the specified cursor.")
           "before" (nm "String") none [],
        inputValue (blk "Reverse the order of the underlying list.")
           "reverse" (nm "Boolean") (some (.boolean false)) [],
        inputValue (blk "Sort the underlying list by the given key.")
           "sortKey" (nm "ProductSortKeys") (some (.enum "ID")) [],
        inputValue (blk "Supported filter parameters:\n - `available_for_sale`\n - `created_at`\n - `product_type`\n - `tag`\n - `tag_not`\n - `title`\n - `updated_at`\n - `variants.price`\n - `vendor`\n\nSee the detailed [search syntax](https://shopify.dev/api/usage/search-syntax)\nfor more information about using filters.")
           "query" (nm "String") none []]
       (nn (nm "ProductConnection")) [],
    field (blk "The list of public Storefront API versions, including supported, release candidate and unstable versions.")
       "publicApiVersions" [] (nn (ls (nn (nm "ApiVersion")))) [],
    field (blk "The shop associated with the storefront access token.")
       "shop" [] (nn (nm "Shop")) []]

/-- Lines 5500 to 5507 of the module: type SEO. -/
def text.SEO : List String := [
  "\"\"\"SEO information.\"\"\"",
  "type SEO \x7b",
  "  \"\"\"The meta description.\"\"\"",
  "  description: String",
  "  \"\"\"The SEO title.\"\"\"",
  "  title: String",
  "\x7d",
  ""]

/-- The type SEO declared by lines 5500 to 5507. -/
def SEO : Definition :=
  .objectType (blk "SEO information.")
    "SEO" [] [] [
    field (blk "The meta description.")
       "description" [] (nm "String") [],
    field (blk "The SEO title.")
       "title" [] (nm "String") []]

/-- Lines 5508 to 5527 of the module: type ScriptDiscountApplication. -/
def text.ScriptDiscountApplication : List String := [
  "\"\"\"",
  "Script discount applications capture the intentions of a discount that",
  "was created by a Shopify Script.",
  "",
  "\"\"\"",
  "type ScriptDiscountApplication implements DiscountApplication \x7b",
  "  \"\"\"",
  "  The method by which the discount's value is allocated to its entitled items.",
  "  \"\"\"",
  "  allocationMethod: DiscountApplicationAllocationMethod!",
  "  \"\"\"Which lines of targetType that the discount is allocated over.\"\"\"",
  "  targetSelection: DiscountApplicationTargetSelection!",
  "  \"\"\"The type of line that the discount is applicable towards.\"\"\"",
  "  targetType: DiscountApplicationTargetType!",
  "  \"\"\"The title of the application as defined by the Script.\"\"\"",
  "  title: String!",
  "  \"\"\"The value of the discount application.\"\"\"",
  "  value: PricingValue!",
  "\x7d",
  ""]

/-- The type ScriptDiscountApplication declared by lines 5508 to 5527. -/
def ScriptDiscountApplication : Definition :=
  .objectType (blk "Script discount applications capture the intentions of a discount that\nwas created by a Shopify Script.")
    "ScriptDiscountApplication" ["DiscountApplication"] [] [
    field (blk "The method by which the discount's value is allocated to its entitled items.")
       "allocationMethod" [] (nn (nm "DiscountApplicationAllocationMethod")) [],
    field (blk "Which lines of targetType that the discount is allocated over.")
       "targetSelection" [] (nn (nm "DiscountApplicationTargetSelection")) [],
    field (blk "The type of line that the discount is applicable towards.")
       "targetType" [] (nn (nm "DiscountApplicationTargetType")) [],
    field (blk "The title of the application as defined by the Script.")
       "title" [] (nn (nm "String")) [],
    field (blk "The value of the discount application.")
       "value" [] (nn (nm "PricingValue")) []]

/-- Lines 5528 to 5539 of the module: type SelectedOption. -/
def text.SelectedOption : List String := [
  "\"\"\"",
  "Properties used by customers to select a product variant.",
  "Products can have multiple options, like different sizes or colors.",
  "",
  "\"\"\"",
  "type SelectedOption \x7b",
  "  \"\"\"The product option’s name.\"\"\"",
  "  name: String!",
  "  \"\"\"The product option’s value.\"\"\"",
  "  value: String!",
  "\x7d",
  ""]

/-- The type SelectedOption declared by lines 5528 to 5539. -/
def SelectedOption : Definition :=
  .objectType (blk "Properties used by customers to select a product variant.\nProducts can have multiple options, like different sizes or colors.")
    "SelectedOption" [] [] [
    field (blk "The product option’s name.")
       "name" [] (nn (nm "String")) [],
    field (blk "The product option’s value.")
       "value" [] (nn (nm "String")) []]

/-- Lines 5540 to 5547 of the module: input SelectedOptionInput. -/
def text.SelectedOptionInput : List String := [
  "\"\"\"Specifies the input fields required for a selected option.\"\"\"",
  "input SelectedOptionInput \x7b",
  "  \"\"\"The product option’s name.\"\"\"",
  "  name: String!",
  "  \"\"\"The product option’s value.\"\"\"",
  "  value: String!",
  "\x7d",
  ""]

/-- The input SelectedOptionInput declared by lines 5540 to 5547. -/
def SelectedOptionInput : Definition :=
  .inputObjectType (blk "Specifies the input fields required for a selected option.")
    "SelectedOptionInput" [] [
    inputValue (blk "The product option’s name.")
       "name" (nn (nm "String")) none [],
    inputValue (blk "The product option’s value.")
       "value" (nn (nm "String")) none []]

/-- Lines 5548 to 5571 of the module: type SellingPlan. -/
def text.SellingPlan : List String := [
  "\"\"\"Represents how products and variants can be sold and purchased.\"\"\"",
  "type SellingPlan \x7b",
  "  \"\"\"The description of the selling plan.\"\"\"",
  "  description: String",
  "  \"\"\"A globally-unique identifier.\"\"\"",
  "  id: ID!",
  "  \"\"\"",
  "  The name of the selling plan. For example, '6 weeks of prepaid granola, delivered weekly'.",
  "  \"\"\"",
  "  name: String!",
  "  \"\"\"",
  "  Represents the selling plan options available in the drop-down list in the storefront. For example, 'Delivery every week' or 'Delivery every 2 weeks' specifies the delivery frequency options for the product.",
  "  \"\"\"",
  "  options: [SellingPlanOption!]!",
  "  \"\"\"",
  "  Represents how a selling plan affects pricing when a variant is purchased with a selling plan.",
  "  \"\"\"",
  "  priceAdjustments: [SellingPlanPriceAdjustment!]!",
  "  \"\"\"",
  "  Whether purchasing the selling plan will result in multiple deliveries.",
  "  \"\"\"",
  "  recurringDeliveries: Boolean!",
  "\x7d",
  ""]

/-- The type SellingPlan declared by lines 5548 to 5571. -/
def SellingPlan : Definition :=
  .objectType (blk "Represents how products and variants can be sold and purchased.")
    "SellingPlan" [] [] [
    field (blk "The description of the selling plan.")
       "description" [] (nm "String") [],
    field (blk "A globally-unique identifier.")
       "id" [] (nn (nm "ID")) [],
    field (blk "The name of the selling plan. For example, '6 weeks of prepaid granola, delivered weekly'.")
       "name" [] (nn (nm "String")) [],
    field (blk "Represents the selling plan options available in the drop-down list in the storefront. For example, 'Delivery every week' or 'Delivery every 2 weeks' specifies the delivery frequency options for the product.")
       "options" [] (nn (ls (nn (nm "SellingPlanOption")))) [],
    field (blk "Represents how a selling plan affects pricing when a variant is purchased with a selling plan.")
       "priceAdjustments" [] (nn (ls (nn (nm "SellingPlanPriceAdjustment")))) [],
    field (blk "Whether purchasing the selling plan will result in multiple deliveries.")
       "recurringDeliveries" [] (nn (nm "Boolean")) []]

/-- Lines 5572 to 5585 of the module: type SellingPlanAllocation. -/
def text.SellingPlanAllocation : List String := [
  "\"\"\"",
  "Represents an association between a variant and a selling plan. Selling plan allocations describe the options offered for each variant, and the price of the variant when purchased with a selling plan.",
  "\"\"\"",
  "type SellingPlanAllocation \x7b",
  "  \"\"\"",
  "  A list of price adjustments, with a maximum of two. When there are two, the first price adjustment goes into effect at the time of purchase, while the second one starts after a certain number of orders.",
  "  \"\"\"",
  "  priceAdjustments: [SellingPlanAllocationPriceAdjustment!]!",
  "  \"\"\"",
  "  A representation of how products and variants can be sold and purchased. For example, an individual selling plan could be '6 weeks of prepaid granola, delivered weekly'.",
  "  \"\"\"",
  "  sellingPlan: SellingPlan!",
  "\x7d",
  ""]

/-- The type SellingPlanAllocation declared by lines 5572 to 5585. -/
def SellingPlanAllocation : Definition :=
  .objectType (blk "Represents an association between a variant and a selling plan. Selling plan allocations describe the options offered for each variant, and the price of the variant when purchased with a selling plan.")
    "SellingPlanAllocation" [] [] [
    field (blk "A list of price adjustments, with a maximum of two. When there are two, the first price adjustment goes into effect at the time of purchase, while the second one starts after a certain number of orders.")
       "priceAdjustments" [] (nn (ls (nn (nm "SellingPlanAllocationPriceAdjustment")))) [],
    field (blk "A representation of how products and variants can be sold and purchased. For example, an individual selling plan could be '6 weeks of prepaid granola, delivered weekly'.")
       "sellingPlan" [] (nn (nm "SellingPlan")) []]

/-- Lines 5586 to 5596 of the module: type SellingPlanAllocationConnection. -/
def text.SellingPlanAllocationConnection : List String := [
  "\"\"\"",
  "An auto-generated type for paginating through multiple SellingPlanAllocations.",
  "",
  "\"\"\"",
  "type SellingPlanAllocationConnection \x7b",
  "  \"\"\"A list of edges.\"\"\"",
  "  edges: [SellingPlanAllocationEdge!]!",
  "  \"\"\"Information to aid in pagination.\"\"\"",
  "  pageInfo: PageInfo!",
  "\x7d",
  ""]

/-- The type SellingPlanAllocationConnection declared by lines 5586 to 5596. -/
def SellingPlanAllocationConnection : Definition :=
  .objectType (blk "An auto-generated type for paginating through multiple SellingPlanAllocations.")
    "SellingPlanAllocationConnection" [] [] [
    field (blk "A list of edges.")
       "edges" [] (nn (ls (nn (nm "SellingPlanAllocationEdge")))) [],
    field (blk "Information to aid in pagination.")
       "pageInfo" [] (nn (nm "PageInfo")) []]

/-- Lines 5597 to 5607 of the module: type SellingPlanAllocationEdge. -/
def text.SellingPlanAllocationEdge : List String := [
  "\"\"\"",
  "An auto-generated type which holds one SellingPlanAllocation and a cursor during pagination.",
  "",
  "\"\"\"",
  "type SellingPlanAllocationEdge \x7b",
  "  \"\"\"A cursor for use in pagination.\"\"\"",
  "  cursor: String!",
  "  \"\"\"The item at the end of SellingPlanAllocationEdge.\"\"\"",
  "  node: SellingPlanAllocation!",
  "\x7d",
  ""]

/-- The type SellingPlanAllocationEdge declared by lines 5597 to 5607. -/
def SellingPlanAllocationEdge : Definition :=
  .objectType (blk "An auto-generated type which holds one SellingPlanAllocation and a cursor during pagination.")
    "SellingPlanAllocationEdge" [] [] [
    field (blk "A cursor for use in pagination.")
       "cursor" [] (nn (nm "String")) [],
    field (blk "The item at the end of SellingPlanAllocationEdge.")
       "node" [] (nn (nm "SellingPlanAllocation")) []]

/-- Lines 5608 to 5629 of the module: type SellingPlanAllocationPriceAdjustment. -/
def text.SellingPlanAllocationPriceAdjustment : List String := [
  "\"\"\"",
  "The resulting prices for variants when they're purchased with a specific selling plan.",
  "\"\"\"",
  "type SellingPlanAllocationPriceAdjustment \x7b",
  "  \"\"\"",
  "  The price of the variant when it's purchased without a selling plan for the same number of deliveries. For example, if a customer purchases 6 deliveries of \\$10.00 granola separately, then the price is 6 x \\$10.00 = \\$60.00.",
  "  \"\"\"",
  "  compareAtPrice: MoneyV2!",
  "  \"\"\"",
  "  The effective price for a single delivery. For example, for a prepaid subscription plan that includes 6 deliveries at the price of \\$48.00, the per delivery price is \\$8.00.",
  "  \"\"\"",
  "  perDeliveryPrice: MoneyV2!",
  "  \"\"\"",
  "  The price of the variant when it's purchased with a selling plan For example, for a prepaid subscription plan that includes 6 deliveries of \\$10.00 granola, where the customer gets 20% off, the price is 6 x \\$10.00 x 0.80 = \\$48.00.",
  "  \"\"\"",
  "  price: MoneyV2!",
  "  \"\"\"",
  "  The resulting price per unit for the variant associated with the selling plan. If the variant isn't sold by quantity or measurement, then this field returns \\`null\\`.",
  "  \"\"\"",
  "  unitPrice: MoneyV2",
  "\x7d",
  ""]

/-- The type SellingPlanAllocationPriceAdjustment declared by lines 5608 to 5629. -/
def SellingPlanAllocationPriceAdjustment : Definition :=
  .objectType (blk "The resulting prices for variants when they're purchased with a specific selling plan.")
    "SellingPlanAllocationPriceAdjustment" [] [] [
    field (blk "The price of the variant when it's purchased without a selling plan for the same number of deliveries. For example, if a customer purchases 6 deliveries of $10.00 granola separately, then the price is 6 x $10.00 = $60.00.")
       "compareAtPrice" [] (nn (nm "MoneyV2")) [],
    field (blk "The effective price for a single delivery. For example, for a prepaid subscription plan that includes 6 deliveries at the price of $48.00, the per delivery price is $8.00.")
       "perDeliveryPrice" [] (nn (nm "MoneyV2")) [],
    field (blk "The price of the variant when it's purchased with a selling plan For example, for a prepaid subscription plan that includes 6 deliveries of $10.00 granola, where the customer gets 20% off, the price is 6 x $10.00 x 0.80 = $48.00.")
       "price" [] (nn (nm "MoneyV2")) [],
    field (blk "The resulting price per unit for the variant associated with the selling plan. If the variant isn't sold by quantity or measurement, then this field returns `null`.")
       "unitPrice" [] (nm "MoneyV2") []]

/-- Lines 5630 to 5640 of the module: type SellingPlanConnection. -/
def text.SellingPlanConnection : List String := [
  "\"\"\"",
  "An auto-generated type for paginating through multiple SellingPlans.",
  "",
  "\"\"\"",
  "type SellingPlanConnection \x7b",
  "  \"\"\"A list of edges.\"\"\"",
  "  edges: [SellingPlanEdge!]!",
  "  \"\"\"Information to aid in pagination.\"\"\"",
  "  pageInfo: PageInfo!",
  "\x7d",
  ""]

/-- The type SellingPlanConnection declared by lines 5630 to 5640. -/
def SellingPlanConnection : Definition :=
  .objectType (blk "An auto-generated type for paginating through multiple SellingPlans.")
    "SellingPlanConnection" [] [] [
    field (blk "A list of edges.")
       "edges" [] (nn (ls (nn (nm "SellingPlanEdge")))) [],
    field (blk "Information to aid in pagination.")
       "pageInfo" [] (nn (nm "PageInfo")) []]

/-- Lines 5641 to 5651 of the module: type SellingPlanEdge. -/
def text.SellingPlanEdge : List String := [
  "\"\"\"",
  "An auto-generated type which holds one SellingPlan and a cursor during pagination.",
  "",
  "\"\"\"",
  "type SellingPlanEdge \x7b",
  "  \"\"\"A cursor for use in pagination.\"\"\"",
  "  cursor: String!",
  "  \"\"\"The item at the end of SellingPlanEdge.\"\"\"",
  "  node: SellingPlan!",
  "\x7d",
  ""]

/-- The type SellingPlanEdge declared by lines 5641 to 5651. -/
def SellingPlanEdge : Definition :=
  .objectType (blk "An auto-generated type which holds one SellingPlan and a cursor during pagination.")
    "SellingPlanEdge" [] [] [
    field (blk "A cursor for use in pagination.")
       "cursor" [] (nn (nm "String")) [],
    field (blk "The item at the end of SellingPlanEdge.")
       "node" [] (nn (nm "SellingPlan")) []]

/-- Lines 5652 to 5659 of the module: type SellingPlanFixedAmountPriceAdjustment. -/
def text.SellingPlanFixedAmountPriceAdjustment : List String := [
  "\"\"\"",
  "A fixed amount that's deducted from the original variant price. For example, \\$10.00 off.",
  "\"\"\"",
  "type SellingPlanFixedAmountPriceAdjustment \x7b",
  "  \"\"\"The money value of the price adjustment.\"\"\"",
  "  adjustmentAmount: MoneyV2!",
  "\x7d",
  ""]

/-- The type SellingPlanFixedAmountPriceAdjustment declared by lines 5652 to 5659. -/
def SellingPlanFixedAmountPriceAdjustment : Definition :=
  .objectType (blk "A fixed amount that's deducted from the original variant price. For example, $10.00 off.")
    "SellingPlanFixedAmountPriceAdjustment" [] [] [
    field (blk "The money value of the price adjustment.")
       "adjustmentAmount" [] (nn (nm "MoneyV2")) []]

/-- Lines 5660 to 5667 of the module: type SellingPlanFixedPriceAdjustment. -/
def text.SellingPlanFixedPriceAdjustment : List String := [
  "\"\"\"",
  "A fixed price adjustment for a variant that's purchased with a selling plan.",
  "\"\"\"",
  "type SellingPlanFixedPriceAdjustment \x7b",
  "  \"\"\"A new price of the variant when it's purchased with the selling plan.\"\"\"",
  "  price: MoneyV2!",
  "\x7d",
  ""]

/-- The type SellingPlanFixedPriceAdjustment declared by lines 5660 to 5667. -/
def SellingPlanFixedPriceAdjustment : Definition :=
  .objectType (blk "A fixed price adjustment for a variant that's purchased with a selling plan.")
    "SellingPlanFixedPriceAdjustment" [] [] [
    field (blk "A new price of the variant when it's purchased with the selling plan.")
       "price" [] (nn (nm "MoneyV2")) []]

/-- Lines 5668 to 5698 of the module: type SellingPlanGroup. -/
def text.SellingPlanGroup : List String := [
  "\"\"\"",
  "Represents a selling method. For example, 'Subscribe and save' is a selling method where customers pay for goods or services per delivery. A selling plan group contains individual selling plans.",
  "\"\"\"",
  "type SellingPlanGroup \x7b",
  "  \"\"\"",
  "  A display friendly name for the app that created the selling plan group.",
  "  \"\"\"",
  "  appName: String",
  "  \"\"\"The name of the selling plan group.\"\"\"",
  "  name: String!",
  "  \"\"\"",
  "  Represents the selling plan options available in the drop-down list in the storefront. For example, 'Delivery every week' or 'Delivery every 2 weeks' specifies the delivery frequency options for the product.",
  "  \"\"\"",
  "  options: [SellingPlanGroupOption!]!",
  "  \"\"\"",
  "  A list of selling plans in a selling plan group. A selling plan is a representation of how products and variants can be sold and purchased. For example, an individual selling plan could be '6 weeks of prepaid granola, delivered weekly'.",
  "  \"\"\"",
  "  sellingPlans(",
  "    \"\"\"Returns up to the first \\`n\\` elements from the list.\"\"\"",
  "    first: Int",
  "    \"\"\"Returns the elements that come after the specified cursor.\"\"\"",
  "    after: String",
  "    \"\"\"Returns up to the last \\`n\\` elements from the list.\"\"\"",
  "    last: Int",
  "    \"\"\"Returns the elements that come before the specified cursor.\"\"\"",
  "    before: String",
  "    \"\"\"Reverse the order of the underlying list.\"\"\"",
  "    reverse: Boolean = false",
  "  ): SellingPlanConnection!",
  "\x7d",
  ""]

/-- The type SellingPlanGroup declared by lines 5668 to 5698. -/
def SellingPlanGroup : Definition :=
  .objectType (blk "Represents a selling method. For example, 'Subscribe and save' is a selling method where customers pay for goods or services per delivery. A selling plan group contains individual selling plans.")
    "SellingPlanGroup" [] [] [
    field (blk "A display friendly name for the app that created the selling plan group.")
       "appName" [] (nm "String") [],
    field (blk "The name of the selling plan group.")
       "name" [] (nn (nm "String")) [],
    field (blk "Represents the selling plan options available in the drop-down list in the storefront. For example, 'Delivery every week' or 'Delivery every 2 weeks' specifies the delivery frequency options for the product.")
       "options" [] (nn (ls (nn (nm "SellingPlanGroupOption")))) [],
    field (blk "A list of selling plans in a selling plan group. A selling plan is a representation of how products and variants can be sold and purchased. For example, an individual selling plan could be '6 weeks of prepaid granola, delivered weekly'.")
       "sellingPlans" [
        inputValue (blk "Returns up to the first `n` elements from the list.")
           "first" (nm "Int") none [],
        inputValue (blk "Returns the elements that come after the specified cursor.")
           "after" (nm "String") none [],
        inputValue (blk "Returns up to the last `n` elements from the list.")
           "last" (nm "Int") none [],
        inputValue (blk "Returns the elements that come before the specified cursor.")
           "before" (nm "String") none [],
        inputValue (blk "Reverse the order of the underlying list.")
           "reverse" (nm "Boolean") (some (.boolean false)) []]
       (nn (nm "SellingPlanConnection")) []]

/-- Lines 5699 to 5709 of the module: type SellingPlanGroupConnection. -/
def text.SellingPlanGroupConnection : List String := [
  "\"\"\"",
  "An auto-generated type for paginating through multiple SellingPlanGroups.",
  "",
  "\"\"\"",
  "type SellingPlanGroupConnection \x7b",
  "  \"\"\"A list of edges.\"\"\"",
  "  edges: [SellingPlanGroupEdge!]!",
  "  \"\"\"Information to aid in pagination.\"\"\"",
  "  pageInfo: PageInfo!",
  "\x7d",
  ""]

/-- The type SellingPlanGroupConnection declared by lines 5699 to 5709. -/
def SellingPlanGroupConnection : Definition :=
  .objectType (blk "An auto-generated type for paginating through multiple SellingPlanGroups.")
    "SellingPlanGroupConnection" [] [] [
    field (blk "A list of edges.")
       "edges" [] (nn (ls (nn (nm "SellingPlanGroupEdge")))) [],
    field (blk "Information to aid in pagination.")
       "pageInfo" [] (nn (nm "PageInfo")) []]

/-- Lines 5710 to 5720 of the module: type SellingPlanGroupEdge. -/
def text.SellingPlanGroupEdge : List String := [
  "\"\"\"",
  "An auto-generated type which holds one SellingPlanGroup and a cursor during pagination.",
  "",
  "\"\"\"",
  "type SellingPlanGroupEdge \x7b",
  "  \"\"\"A cursor for use in pagination.\"\"\"",
  "  cursor: String!",
  "  \"\"\"The item at the end of SellingPlanGroupEdge.\"\"\"",
  "  node: SellingPlanGroup!",
  "\x7d",
  ""]

/-- The type SellingPlanGroupEdge declared by lines 5710 to 5720. -/
def SellingPlanGroupEdge : Definition :=
  .objectType (blk "An auto-generated type which holds one SellingPlanGroup and a cursor during pagination.")
    "SellingPlanGroupEdge" [] [] [
    field (blk "A cursor for use in pagination.")
       "cursor" [] (nn (nm "String")) [],
    field (blk "The item at the end of SellingPlanGroupEdge.")
       "node" [] (nn (nm "SellingPlanGroup")) []]

/-- Lines 5721 to 5732 of the module: type SellingPlanGroupOption. -/
def text.SellingPlanGroupOption : List String := [
  "\"\"\"",
  "Represents an option on a selling plan group that's available in the drop-down list in the storefront.",
  "\"\"\"",
  "type SellingPlanGroupOption \x7b",
  "  \"\"\"The name of the option. For example, 'Delivery every'.\"\"\"",
  "  name: String!",
  "  \"\"\"",
  "  The values for the options specified by the selling plans in the selling plan group. For example, '1 week', '2 weeks', '3 weeks'.",
  "  \"\"\"",
  "  values: [String!]!",
  "\x7d",
  ""]

/-- The type SellingPlanGroupOption declared by lines 5721 to 5732. -/
def SellingPlanGroupOption : Definition :=
  .objectType (blk "Represents an option on a selling plan group that's available in the drop-down list in the storefront.")
    "SellingPlanGroupOption" [] [] [
    field (blk "The name of the option. For example, 'Delivery every'.")
       "name" [] (nn (nm "String")) [],
    field (blk "The values for the options specified by the selling plans in the selling plan group. For example, '1 week', '2 weeks', '3 weeks'.")
       "values" [] (nn (ls (nn (nm "String")))) []]

/-- Lines 5733 to 5740 of the module: type SellingPlanOption. -/
def text.SellingPlanOption : List String := [
  "\"\"\"An option provided by a Selling Plan.\"\"\"",
  "type SellingPlanOption \x7b",
  "  \"\"\"The name of the option (ie \"Delivery every\").\"\"\"",
  "  name: String",
  "  \"\"\"The value of the option (ie \"Month\").\"\"\"",
  "  value: String",
  "\x7d",
  ""]

/-- The type SellingPlanOption declared by lines 5733 to 5740. -/
def SellingPlanOption : Definition :=
  .objectType (blk "An option provided by a Selling Plan.")
    "SellingPlanOption" [] [] [
    field (blk "The name of the option (ie \"Delivery every\").")
       "name" [] (nm "String") [],
    field (blk "The value of the option (ie \"Month\").")
       "value" [] (nm "String") []]

/-- Lines 5741 to 5748 of the module: type SellingPlanPercentagePriceAdjustment. -/
def text.SellingPlanPercentagePriceAdjustment : List String := [
  "\"\"\"",
  "A percentage amount that's deducted from the original variant price. For example, 10% off.",
  "\"\"\"",
  "type SellingPlanPercentagePriceAdjustment \x7b",
  "  \"\"\"The percentage value of the price adjustment.\"\"\"",
  "  adjustmentPercentage: Int!",
  "\x7d",
  ""]

/-- The type SellingPlanPercentagePriceAdjustment declared by lines 5741 to 5748. -/
def SellingPlanPercentagePriceAdjustment : Definition :=
  .objectType (blk "A percentage amount that's deducted from the original variant price. For example, 10% off.")
    "SellingPlanPercentagePriceAdjustment" [] [] [
    field (blk "The percentage value of the price adjustment.")
       "adjustmentPercentage" [] (nn (nm "Int")) []]

/-- Lines 5749 to 5762 of the module: type SellingPlanPriceAdjustment. -/
def text.SellingPlanPriceAdjustment : List String := [
  "\"\"\"",
  "Represents by how much the price of a variant associated with a selling plan is adjusted. Each variant can have up to two price adjustments.",
  "\"\"\"",
  "type SellingPlanPriceAdjustment \x7b",
  "  \"\"\"",
  "  The type of price adjustment. An adjustment value can have one of three types: percentage, amount off, or a new price.",
  "  \"\"\"",
  "  adjustmentValue: SellingPlanPriceAdjustmentValue!",
  "  \"\"\"",
  "  The number of orders that the price adjustment applies to If the price adjustment always applies, then this field is \\`null\\`.",
  "  \"\"\"",
  "  orderCount: Int",
  "\x7d",
  ""]

/-- The type SellingPlanPriceAdjustment declared by lines 5749 to 5762. -/
def SellingPlanPriceAdjustment : Definition :=
  .objectType (blk "Represents by how much the price of a variant associated with a selling plan is adjusted. Each variant can have up to two price adjustments.")
    "SellingPlanPriceAdjustment" [] [] [
    field (blk "The type of price adjustment. An adjustment value can have one of three types: percentage, amount off, or a new price.")
       "adjustmentValue" [] (nn (nm "SellingPlanPriceAdjustmentValue")) [],
    field (blk "The number of orders that the price adjustment applies to If the price adjustment always applies, then this field is `null`.")
       "orderCount" [] (nm "Int") []]

/-- Lines 5763 to 5767 of the module: union SellingPlanPriceAdjustmentValue. -/
def text.SellingPlanPriceAdjustmentValue : List String := [
  "\"\"\"",
  "Represents by how much the price of a variant associated with a selling plan is adjusted. Each variant can have up to two price adjustments.",
  "\"\"\"",
  "union SellingPlanPriceAdjustmentValue = SellingPlanFixedAmountPriceAdjustment | SellingPlanFixedPriceAdjustment | SellingPlanPercentagePriceAdjustment",
  ""]

/-- The union SellingPlanPriceAdjustmentValue declared by lines 5763 to 5767. -/
def SellingPlanPriceAdjustmentValue : Definition :=
  .unionType (blk "Represents by how much the price of a variant associated with a selling plan is adjusted. Each variant can have up to two price adjustments.")
    "SellingPlanPriceAdjustmentValue" [] ["SellingPlanFixedAmountPriceAdjustment", "SellingPlanFixedPriceAdjustment", "SellingPlanPercentagePriceAdjustment"]

/-- Lines 5768 to 5779 of the module: type ShippingRate. -/
def text.ShippingRate : List String := [
  "\"\"\"A shipping rate to be applied to a checkout.\"\"\"",
  "type ShippingRate \x7b",
  "  \"\"\"Human-readable unique identifier for this shipping rate.\"\"\"",
  "  handle: String!",
  "  \"\"\"Price of this shipping rate.\"\"\"",
  "  price: Money! @deprecated(reason: \"Use \\`priceV2\\` instead\")",
  "  \"\"\"Price of this shipping rate.\"\"\"",
  "  priceV2: MoneyV2!",
  "  \"\"\"Title of this shipping rate.\"\"\"",
  "  title: String!",
  "\x7d",
  ""]

/-- The type ShippingRate declared by lines 5768 to 5779. -/
def ShippingRate : Definition :=
  .objectType (blk "A shipping rate to be applied to a checkout.")
    "ShippingRate" [] [] [
    field (blk "Human-readable unique identifier for this shipping rate.")
       "handle" [] (nn (nm "String")) [],
    field (blk "Price of this shipping rate.")
       "price" [] (nn (nm "Money")) [deprecated "Use `priceV2` instead"],
    field (blk "Price of this shipping rate.")
       "priceV2" [] (nn (nm "MoneyV2")) [],
    field (blk "Title of this shipping rate.")
       "title" [] (nn (nm "String")) []]

/-- Lines 5780 to 5833 of the module: type Shop. -/
def text.Shop : List String := [
  "\"\"\"",
  "Shop represents a collection of the general settings and information about the shop.",
  "\"\"\"",
  "type Shop implements HasMetafields & Node \x7b",
  "  \"\"\"A description of the shop.\"\"\"",
  "  description: String",
  "  \"\"\"A globally-unique identifier.\"\"\"",
  "  id: ID!",
  "  \"\"\"Returns a metafield found by namespace and key.\"\"\"",
  "  metafield(",
  "    \"\"\"Container for a set of metafields (maximum of 20 characters).\"\"\"",
  "    namespace: String!",
  "    \"\"\"Identifier for the metafield (maximum of 30 characters).\"\"\"",
  "    key: String!",
  "  ): Metafield",
  "  \"\"\"A paginated list of metafields associated with the resource.\"\"\"",
  "  metafields(",
  "    \"\"\"Container for a set of metafields (maximum of 20 characters).\"\"\"",
  "    namespace: String",
  "    \"\"\"Returns up to the first \\`n\\` elements from the list.\"\"\"",
  "    first: Int",
  "    \"\"\"Returns the elements that come after the specified cursor.\"\"\"",
  "    after: String",
  "    \"\"\"Returns up to the last \\`n\\` elements from the list.\"\"\"",
  "    last: Int",
  "    \"\"\"Returns the elements that come before the specified cursor.\"\"\"",
  "    before: String",
  "    \"\"\"Reverse the order of the underlying list.\"\"\"",
  "    reverse: Boolean = false",
  "  ): MetafieldConnection! @deprecated(reason: \"The \\`metafields\\` field will be removed in the future in favor of using [aliases](https://graphql.org/learn/queries/#aliases) with the \\`metafield\\` field.\\n\")",
  "  \"\"\"",
  "  A string representing the way currency is formatted when the currency isn’t specified.",
  "  \"\"\"",
  "  moneyFormat: String!",
  "  \"\"\"The shop’s name.\"\"\"",
  "  name: String!",
  "  \"\"\"Settings related to payments.\"\"\"",
  "  paymentSettings: PaymentSettings!",
  "  \"\"\"The shop’s primary domain.\"\"\"",
  "  primaryDomain: Domain!",
  "  \"\"\"The shop’s privacy policy.\"\"\"",
  "  privacyPolicy: ShopPolicy",
  "  \"\"\"The shop’s refund policy.\"\"\"",
  "  refundPolicy: ShopPolicy",
  "  \"\"\"The shop’s shipping policy.\"\"\"",
  "  shippingPolicy: ShopPolicy",
  "  \"\"\"Countries that the shop ships to.\"\"\"",
  "  shipsToCountries: [CountryCode!]!",
  "  \"\"\"The shop’s subscription policy.\"\"\"",
  "  subscriptionPolicy: ShopPolicyWithDefault",
  "  \"\"\"The shop’s terms of service.\"\"\"",
  "  termsOfService: ShopPolicy",
  "\x7d",
  ""]

/-- The type Shop declared by lines 5780 to 5833. -/
def Shop : Definition :=
  .objectType (blk "Shop represents a collection of the general settings and information about the shop.")
    "Shop" ["HasMetafields", "Node"] [] [
    field (blk "A description of the shop.")
       "description" [] (nm "String") [],
    field (blk "A globally-unique identifier.")
       "id" [] (nn (nm "ID")) [],
    field (blk "Returns a metafield found by namespace and key.")
       "metafield" [
        inputValue (blk "Container for a set of metafields (maximum of 20 characters).")
           "namespace" (nn (nm "String")) none [],
        inputValue (blk "Identifier for the metafield (maximum of 30 characters).")
           "key" (nn (nm "String")) none []]
       (nm "Metafield") [],
    field (blk "A paginated list of metafields associated with the resource.")
       "metafields" [
        inputValue (blk "Container for a set of metafields (maximum of 20 characters).")
           "namespace" (nm "String") none [],
        inputValue (blk "Returns up to the first `n` elements from the list.")
           "first" (nm "Int") none [],
        inputValue (blk "Returns the elements that come after the specified cursor.")
           "after" (nm "String") none [],
        inputValue (blk "Returns up to the last `n` elements from the list.")
           "last" (nm "Int") none [],
        inputValue (blk "Returns the elements that come before the specified cursor.")
           "before" (nm "String") none [],
        inputValue (blk "Reverse the order of the underlying list.")
           "reverse" (nm "Boolean") (some (.boolean false)) []]
       (nn (nm "MetafieldConnection")) [deprecated "The `metafields` field will be removed in the future in favor of using [aliases](https://graphql.org/learn/queries/#aliases) with the `metafield` field.\n"],
    field (blk "A string representing the way currency is formatted when the currency isn’t specified.")
       "moneyFormat" [] (nn (nm "String")) [],
    field (blk "The shop’s name.")
       "name" [] (nn (nm "String")) [],
    field (blk "Settings related to payments.")
       "paymentSettings" [] (nn (nm "PaymentSettings")) [],
    field (blk "The shop’s primary domain.")
       "primaryDomain" [] (nn (nm "Domain")) [],
    field (blk "The shop’s privacy policy.")
       "privacyPolicy" [] (nm "ShopPolicy") [],
    field (blk "The shop’s refund policy.")
       "refundPolicy" [] (nm "ShopPolicy") [],
    field (blk "The shop’s shipping policy.")
       "shippingPolicy" [] (nm "ShopPolicy") [],
    field (blk "Countries that the shop ships to.")
       "shipsToCountries" [] (nn (ls (nn (nm "CountryCode")))) [],
    field (blk "The shop’s subscription policy.")
       "subscriptionPolicy" [] (nm "ShopPolicyWithDefault") [],
    field (blk "The shop’s terms of service.")
       "termsOfService" [] (nm "ShopPolicy") []]

/-- Lines 5834 to 5849 of the module: type ShopPolicy. -/
def text.ShopPolicy : List String := [
  "\"\"\"",
  "Policy that a merchant has configured for their store, such as their refund or privacy policy.",
  "\"\"\"",
  "type ShopPolicy implements Node \x7b",
  "  \"\"\"Policy text, maximum size of 64kb.\"\"\"",
  "  body: String!",
  "  \"\"\"Policy’s handle.\"\"\"",
  "  handle: String!",
  "  \"\"\"A globally-unique identifier.\"\"\"",
  "  id: ID!",
  "  \"\"\"Policy’s title.\"\"\"",
  "  title: String!",
  "  \"\"\"Public URL to the policy.\"\"\"",
  "  url: URL!",
  "\x7d",
  ""]

/-- The type ShopPolicy declared by lines 5834 to 5849. -/
def ShopPolicy : Definition :=
  .objectType (blk "Policy that a merchant has configured for their store, such as their refund or privacy policy.")
    "ShopPolicy" ["Node"] [] [
    field (blk "Policy text, maximum size of 64kb.")
       "body" [] (nn (nm "String")) [],
    field (blk "Policy’s handle.")
       "handle" [] (nn (nm "String")) [],
    field (blk "A globally-unique identifier.")
       "id" [] (nn (nm "ID")) [],
    field (blk "Policy’s title.")
       "title" [] (nn (nm "String")) [],
    field (blk "Public URL to the policy.")
       "url" [] (nn (nm "URL")) []]

/-- Lines 5850 to 5870 of the module: type ShopPolicyWithDefault. -/
def text.ShopPolicyWithDefault : List String := [
  "\"\"\"",
  "A policy for the store that comes with a default value, such as a subscription policy.",
  "If the merchant hasn't configured a policy for their store, then the policy will return the default value.",
  "Otherwise, the policy will return the merchant-configured value.",
  "",
  "\"\"\"",
  "type ShopPolicyWithDefault \x7b",
  "  \"\"\"The text of the policy. Maximum size: 64KB.\"\"\"",
  "  body: String!",
  "  \"\"\"The handle of the policy.\"\"\"",
  "  handle: String!",
  "  \"\"\"",
  "  The unique identifier of the policy. A default policy doesn't have an ID.",
  "  \"\"\"",
  "  id: ID",
  "  \"\"\"The title of the policy.\"\"\"",
  "  title: String!",
  "  \"\"\"Public URL to the policy.\"\"\"",
  "  url: URL!",
  "\x7d",
  ""]

/-- The type ShopPolicyWithDefault declared by lines 5850 to 5870. -/
def ShopPolicyWithDefault : Definition :=
  .objectType (blk "A policy for the store that comes with a default value, such as a subscription policy.\nIf the merchant hasn't configured a policy for their store, then the policy will return the default value.\nOtherwise, the policy will return the merchant-configured value.")
    "ShopPolicyWithDefault" [] [] [
    field (blk "The text of the policy. Maximum size: 64KB.")
       "body" [] (nn (nm "String")) [],
    field (blk "The handle of the policy.")
       "handle" [] (nn (nm "String")) [],
    field (blk "The unique identifier of the policy. A default policy doesn't have an ID.")
       "id" [] (nm "ID") [],
    field (blk "The title of the policy.")
       "title" [] (nn (nm "String")) [],
    field (blk "Public URL to the policy.")
       "url" [] (nn (nm "URL")) []]

/-- Lines 5871 to 5886 of the module: type StoreAvailability. -/
def text.StoreAvailability : List String := [
  "\"\"\"",
  "The availability of a product variant at a particular location.",
  "Local pick-up must be enabled in the  store's shipping settings, otherwise this will return an empty result.",
  "",
  "\"\"\"",
  "type StoreAvailability \x7b",
  "  \"\"\"Whether or not this product variant is in-stock at this location.\"\"\"",
  "  available: Boolean!",
  "  \"\"\"The location where this product variant is stocked at.\"\"\"",
  "  location: Location!",
  "  \"\"\"",
  "  Returns the estimated amount of time it takes for pickup to be ready (Example: Usually ready in 24 hours).",
  "  \"\"\"",
  "  pickUpTime: String!",
  "\x7d",
  ""]

/-- The type StoreAvailability declared by lines 5871 to 5886. -/
def StoreAvailability : Definition :=
  .objectType (blk "The availability of a product variant at a particular location.\nLocal pick-up must be enabled in the  store's shipping settings, otherwise this will return an empty result.")
    "StoreAvailability" [] [] [
    field (blk "Whether or not this product variant is in-stock at this location.")
       "available" [] (nn (nm "Boolean")) [],
    field (blk "The location where this product variant is stocked at.")
       "location" [] (nn (nm "Location")) [],
    field (blk "Returns the estimated amount of time it takes for pickup to be ready (Example: Usually ready in 24 hours).")
       "pickUpTime" [] (nn (nm "String")) []]

/-- Lines 5887 to 5897 of the module: type StoreAvailabilityConnection. -/
def text.StoreAvailabilityConnection : List String := [
  "\"\"\"",
  "An auto-generated type for paginating through multiple StoreAvailabilities.",
  "",
  "\"\"\"",
  "type StoreAvailabilityConnection \x7b",
  "  \"\"\"A list of edges.\"\"\"",
  "  edges: [StoreAvailabilityEdge!]!",
  "  \"\"\"Information to aid in pagination.\"\"\"",
  "  pageInfo: PageInfo!",
  "\x7d",
  ""]

/-- The type StoreAvailabilityConnection declared by lines 5887 to 5897. -/
def StoreAvailabilityConnection : Definition :=
  .objectType (blk "An auto-generated type for paginating through multiple StoreAvailabilities.")
    "StoreAvailabilityConnection" [] [] [
    field (blk "A list of edges.")
       "edges" [] (nn (ls (nn (nm "StoreAvailabilityEdge")))) [],
    field (blk "Information to aid in pagination.")
       "pageInfo" [] (nn (nm "PageInfo")) []]

/-- Lines 5898 to 5908 of the module: type StoreAvailabilityEdge. -/
def text.StoreAvailabilityEdge : List String := [
  "\"\"\"",
  "An auto-generated type which holds one StoreAvailability and a cursor during pagination.",
  "",
  "\"\"\"",
  "type StoreAvailabilityEdge \x7b",
  "  \"\"\"A cursor for use in pagination.\"\"\"",
  "  cursor: String!",
  "  \"\"\"The item at the end of StoreAvailabilityEdge.\"\"\"",
  "  node: StoreAvailability!",
  "\x7d",
  ""]

/-- The type StoreAvailabilityEdge declared by lines 5898 to 5908. -/
def StoreAvailabilityEdge : Definition :=
  .objectType (blk "An auto-generated type which holds one StoreAvailability and a cursor during pagination.")
    "StoreAvailabilityEdge" [] [] [
    field (blk "A cursor for use in pagination.")
       "cursor" [] (nn (nm "String")) [],
    field (blk "The item at the end of StoreAvailabilityEdge.")
       "node" [] (nn (nm "StoreAvailability")) []]

/-- Lines 5909 to 5919 of the module: type StringConnection. -/
def text.StringConnection : List String := [
  "\"\"\"",
  "An auto-generated type for paginating through a list of Strings.",
  "",
  "\"\"\"",
  "type StringConnection \x7b",
  "  \"\"\"A list of edges.\"\"\"",
  "  edges: [StringEdge!]!",
  "  \"\"\"Information to aid in pagination.\"\"\"",
  "  pageInfo: PageInfo!",
  "\x7d",
  ""]

/-- The type StringConnection declared by lines 5909 to 5919. -/
def StringConnection : Definition :=
  .objectType (blk "An auto-generated type for paginating through a list of Strings.")
    "StringConnection" [] [] [
    field (blk "A list of edges.")
       "edges" [] (nn (ls (nn (nm "StringEdge")))) [],
    field (blk "Information to aid in pagination.")
       "pageInfo" [] (nn (nm "PageInfo")) []]

/-- Lines 5920 to 5930 of the module: type StringEdge. -/
def text.StringEdge : List String := [
  "\"\"\"",
  "An auto-generated type which holds one String and a cursor during pagination.",
  "",
  "\"\"\"",
  "type StringEdge \x7b",
  "  \"\"\"A cursor for use in pagination.\"\"\"",
  "  cursor: String!",
  "  \"\"\"The item at the end of StringEdge.\"\"\"",
  "  node: String!",
  "\x7d",
  ""]

/-- The type StringEdge declared by lines 5920 to 5930. -/
def StringEdge : Definition :=
  .objectType (blk "An auto-generated type which holds one String and a cursor during pagination.")
    "StringEdge" [] [] [
    field (blk "A cursor for use in pagination.")
       "cursor" [] (nn (nm "String")) [],
    field (blk "The item at the end of StringEdge.")
       "node" [] (nn (nm "String")) []]

/-- Lines 5931 to 5956 of the module: input TokenizedPaymentInput. -/
def text.TokenizedPaymentInput : List String := [
  "\"\"\"",
  "Specifies the fields required to complete a checkout with",
  "a tokenized payment.",
  "",
  "\"\"\"",
  "input TokenizedPaymentInput \x7b",
  "  \"\"\"The amount of the payment.\"\"\"",
  "  amount: Money!",
  "  \"\"\"",
  "  A unique client generated key used to avoid duplicate charges. When a duplicate payment is found, the original is returned instead of creating a new one. For more information, refer to [Idempotent requests](https://shopify.dev/api/usage/idempotent-requests).",
  "  \"\"\"",
  "  idempotencyKey: String!",
  "  \"\"\"The billing address for the payment.\"\"\"",
  "  billingAddress: MailingAddressInput!",
  "  \"\"\"The type of payment token.\"\"\"",
  "  type: String!",
  "  \"\"\"",
  "  A simple string or JSON containing the required payment data for the tokenized payment.",
  "  \"\"\"",
  "  paymentData: String!",
  "  \"\"\"Executes the payment in test mode if possible. Defaults to \\`false\\`.\"\"\"",
  "  test: Boolean = false",
  "  \"\"\"Public Hash Key used for AndroidPay payments only.\"\"\"",
  "  identifier: String",
  "\x7d",
  ""]

/-- The input TokenizedPaymentInput declared by lines 5931 to 5956. -/
def TokenizedPaymentInput : Definition :=
  .inputObjectType (blk "Specifies the fields required to complete a checkout with\na tokenized payment.")
    "TokenizedPaymentInput" [] [
    inputValue (blk "The amount of the payment.")
       "amount" (nn (nm "Money")) none [],
    inputValue (blk "A unique client generated key used to avoid duplicate charges. When a duplicate payment is found, the original is returned instead of creating a new one. For more information, refer to [Idempotent requests](https://shopify.dev/api/usage/idempotent-requests).")
       "idempotencyKey" (nn (nm "String")) none [],
    inputValue (blk "The billing address for the payment.")
       "billingAddress" (nn (nm "MailingAddressInput")) none [],
    inputValue (blk "The type of payment token.")
       "type" (nn (nm "String")) none [],
    inputValue (blk "A simple string or JSON containing the required payment data for the tokenized payment.")
       "paymentData" (nn (nm "String")) none [],
    inputValue (blk "Executes the payment in test mode if possible. Defaults to `false`.")
       "test" (nm "Boolean") (some (.boolean false)) [],
    inputValue (blk "Public Hash Key used for AndroidPay payments only.")
       "identifier" (nm "String") none []]

/-- Lines 5957 to 5984 of the module: input TokenizedPaymentInputV2. -/
def text.TokenizedPaymentInputV2 : List String := [
  "\"\"\"",
  "Specifies the fields required to complete a checkout with",
  "a tokenized payment.",
  "",
  "\"\"\"",
  "input TokenizedPaymentInputV2 \x7b",
  "  \"\"\"The amount and currency of the payment.\"\"\"",
  "  paymentAmount: MoneyInput!",
  "  \"\"\"",
  "  A unique client generated key used to avoid duplicate charges. When a duplicate payment is found, the original is returned instead of creating a new one. For more information, refer to [Idempotent requests](https://shopify.dev/api/usage/idempotent-requests).",
  "  \"\"\"",
  "  idempotencyKey: String!",
  "  \"\"\"The billing address for the payment.\"\"\"",
  "  billingAddress: MailingAddressInput!",
  "  \"\"\"",
  "  A simple string or JSON containing the required payment data for the tokenized payment.",
  "  \"\"\"",
  "  paymentData: String!",
  "  \"\"\"",
  "  Whether to execute the payment in test mode, if possible. Test mode is not supported in production stores. Defaults to \\`false\\`.",
  "  \"\"\"",
  "  test: Boolean = false",
  "  \"\"\"Public Hash Key used for AndroidPay payments only.\"\"\"",
  "  identifier: String",
  "  \"\"\"The type of payment token.\"\"\"",
  "  type: String!",
  "\x7d",
  ""]

/-- The input TokenizedPaymentInputV2 declared by lines 5957 to 5984. -/
def TokenizedPaymentInputV2 : Definition :=
  .inputObjectType (blk "Specifies the fields required to complete a checkout with\na tokenized payment.")
    "TokenizedPaymentInputV2" [] [
    inputValue (blk "The amount and currency of the payment.")
       "paymentAmount" (nn (nm "MoneyInput")) none [],
    inputValue (blk "A unique client generated key used to avoid duplicate charges. When a duplicate payment is found, the original is returned instead of creating a new one. For more information, refer to [Idempotent requests](https://shopify.dev/api/usage/idempotent-requests).")
       "idempotencyKey" (nn (nm "String")) none [],
    inputValue (blk "The billing address for the payment.")
       "billingAddress" (nn (nm "MailingAddressInput")) none [],
    inputValue (blk "A simple string or JSON containing the required payment data for the tokenized payment.")
       "paymentData" (nn (nm "String")) none [],
    inputValue (blk "Whether to execute the payment in test mode, if possible. Test mode is not supported in production stores. Defaults to `false`.")
       "test" (nm "Boolean") (some (.boolean false)) [],
    inputValue (blk "Public Hash Key used for AndroidPay payments only.")
       "identifier" (nm "String") none [],
    inputValue (blk "The type of payment token.")
       "type" (nn (nm "String")) none []]

/-- Lines 5985 to 6012 of the module: input TokenizedPaymentInputV3. -/
def text.TokenizedPaymentInputV3 : List String := [
  "\"\"\"",
  "Specifies the fields required to complete a checkout with",
  "a tokenized payment.",
  "",
  "\"\"\"",
  "input TokenizedPaymentInputV3 \x7b",
  "  \"\"\"The amount and currency of the payment.\"\"\"",
  "  paymentAmount: MoneyInput!",
  "  \"\"\"",
  "  A unique client generated key used to avoid duplicate charges. When a duplicate payment is found, the original is returned instead of creating a new one. For more information, refer to [Idempotent requests](https://shopify.dev/api/usage/idempotent-requests).",
  "  \"\"\"",
  "  idempotencyKey: String!",
  "  \"\"\"The billing address for the payment.\"\"\"",
  "  billingAddress: MailingAddressInput!",
  "  \"\"\"",
  "  A simple string or JSON containing the required payment data for the tokenized payment.",
  "  \"\"\"",
  "  paymentData: String!",
  "  \"\"\"",
  "  Whether to execute the payment in test mode, if possible. Test mode is not supported in production stores. Defaults to \\`false\\`.",
  "  \"\"\"",
  "  test: Boolean = false",
  "  \"\"\"Public Hash Key used for AndroidPay payments only.\"\"\"",
  "  identifier: String",
  "  \"\"\"The type of payment token.\"\"\"",
  "  type: PaymentTokenType!",
  "\x7d",
  ""]

/-- The input TokenizedPaymentInputV3 declared by lines 5985 to 6012. -/
def TokenizedPaymentInputV3 : Definition :=
  .inputObjectType (blk "Specifies the fields required to complete a checkout with\na tokenized payment.")
    "TokenizedPaymentInputV3" [] [
    inputValue (blk "The amount and currency of the payment.")
       "paymentAmount" (nn (nm "MoneyInput")) none [],
    inputValue (blk "A unique client generated key used to avoid duplicate charges. When a duplicate payment is found, the original is returned instead of creating a new one. For more information, refer to [Idempotent requests](https://shopify.dev/api/usage/idempotent-requests).")
       "idempotencyKey" (nn (nm "String")) none [],
    inputValue (blk "The billing address for the payment.")
       "billingAddress" (nn (nm "MailingAddressInput")) none [],
    inputValue (blk "A simple string or JSON containing the required payment data for the tokenized payment.")
       "paymentData" (nn (nm "String")) none [],
    inputValue (blk "Whether to execute the payment in test mode, if possible. Test mode is not supported in production stores. Defaults to `false`.")
       "test" (nm "Boolean") (some (.boolean false)) [],
    inputValue (blk "Public Hash Key used for AndroidPay payments only.")
       "identifier" (nm "String") none [],
    inputValue (blk "The type of payment token.")
       "type" (nn (nm "PaymentTokenType")) none []]

/-- Lines 6013 to 6028 of the module: type Transaction. -/
def text.Transaction : List String := [
  "\"\"\"An object representing exchange of money for a product or service.\"\"\"",
  "type Transaction \x7b",
  "  \"\"\"The amount of money that the transaction was for.\"\"\"",
  "  amount: Money! @deprecated(reason: \"Use \\`amountV2\\` instead\")",
  "  \"\"\"The amount of money that the transaction was for.\"\"\"",
  "  amountV2: MoneyV2!",
  "  \"\"\"The kind of the transaction.\"\"\"",
  "  kind: TransactionKind!",
  "  \"\"\"The status of the transaction.\"\"\"",
  "  status: TransactionStatus! @deprecated(reason: \"Use \\`statusV2\\` instead\")",
  "  \"\"\"The status of the transaction.\"\"\"",
  "  statusV2: TransactionStatus",
  "  \"\"\"Whether the transaction was done in test mode or not.\"\"\"",
  "  test: Boolean!",
  "\x7d",
  ""]

/-- The type Transaction declared by lines 6013 to 6028. -/
def Transaction : Definition :=
  .objectType (blk "An object representing exchange of money for a product or service.")
    "Transaction" [] [] [
    field (blk "The amount of money that the transaction was for.")
       "amount" [] (nn (nm "Money")) [deprecated "Use `amountV2` instead"],
    field (blk "The amount of money that the transaction was for.")
       "amountV2" [] (nn (nm "MoneyV2")) [],
    field (blk "The kind of the transaction.")
       "kind" [] (nn (nm "TransactionKind")) [],
    field (blk "The status of the transaction.")
       "status" [] (nn (nm "TransactionStatus")) [deprecated "Use `statusV2` instead"],
    field (blk "The status of the transaction.")
       "statusV2" [] (nm "TransactionStatus") [],
    field (blk "Whether the transaction was done in test mode or not.")
       "test" [] (nn (nm "Boolean")) []]

/-- Lines 6029 to 6048 of the module: enum TransactionKind. -/
def text.TransactionKind : List String := [
  "\"\"\"The different kinds of order transactions.\"\"\"",
  "enum TransactionKind \x7b",
  "  \"\"\"An authorization and capture performed together in a single step.\"\"\"",
  "  SALE",
  "  \"\"\"",
  "  A transfer of the money that was reserved during the authorization stage.",
  "  \"\"\"",
  "  CAPTURE",
  "  \"\"\"",
  "  An amount reserved against the cardholder's funding source.",
  "  Money does not change hands until the authorization is captured.",
  "  ",
  "  \"\"\"",
  "  AUTHORIZATION",
  "  \"\"\"An authorization for a payment taken with an EMV credit card reader.\"\"\"",
  "  EMV_AUTHORIZATION",
  "  \"\"\"Money returned to the customer when they have paid too much.\"\"\"",
  "  CHANGE",
  "\x7d",
  ""]

/-- The enum TransactionKind declared by lines 6029 to 6048. -/
def TransactionKind : Definition :=
  .enumType (blk "The different kinds of order transactions.")
    "TransactionKind" [] [
    enumValue (blk "An authorization and capture performed together in a single step.")
       "SALE" [],
    enumValue (blk "A transfer of the money that was reserved during the authorization stage.")
       "CAPTURE" [],
    enumValue (blk "An amount reserved against the cardholder's funding source.\nMoney does not change hands until the authorization is captured.")
       "AUTHORIZATION" [],
    enumValue (blk "An authorization for a payment taken with an EMV credit card reader.")
       "EMV_AUTHORIZATION" [],
    enumValue (blk "Money returned to the customer when they have paid too much.")
       "CHANGE" []]

/-- Lines 6049 to 6060 of the module: enum TransactionStatus. -/
def text.TransactionStatus : List String := [
  "\"\"\"Transaction statuses describe the status of a transaction.\"\"\"",
  "enum TransactionStatus \x7b",
  "  \"\"\"The transaction is pending.\"\"\"",
  "  PENDING",
  "  \"\"\"The transaction succeeded.\"\"\"",
  "  SUCCESS",
  "  \"\"\"The transaction failed.\"\"\"",
  "  FAILURE",
  "  \"\"\"There was an error while processing the transaction.\"\"\"",
  "  ERROR",
  "\x7d",
  ""]

/-- The enum TransactionStatus declared by lines 6049 to 6060. -/
def TransactionStatus : Definition :=
  .enumType (blk "Transaction statuses describe the status of a transaction.")
    "TransactionStatus" [] [
    enumValue (blk "The transaction is pending.")
       "PENDING" [],
    enumValue (blk "The transaction succeeded.")
       "SUCCESS" [],
    enumValue (blk "The transaction failed.")
       "FAILURE" [],
    enumValue (blk "There was an error while processing the transaction.")
       "ERROR" []]

/-- Lines 6061 to 6070 of the module: scalar URL. -/
def text.URL : List String := [
  "\"\"\"",
  "Represents an [RFC 3986](https://datatracker.ietf.org/doc/html/rfc3986) and",
  "[RFC 3987](https://datatracker.ietf.org/doc/html/rfc3987)-compliant URI string.",
  "",
  "For example, \\`\"https://johns-apparel.myshopify.com\"\\` is a valid URL. It includes a scheme (\\`https\\`) and a host",
  "(\\`johns-apparel.myshopify.com\\`).",
  "",
  "\"\"\"",
  "scalar URL",
  ""]

/-- The scalar URL declared by lines 6061 to 6070. -/
def URL : Definition :=
  .scalarType (blk "Represents an [RFC 3986](https://datatracker.ietf.org/doc/html/rfc3986) and\n[RFC 3987](https://datatracker.ietf.org/doc/html/rfc3987)-compliant URI string.\n\nFor example, `\"https://johns-apparel.myshopify.com\"` is a valid URL. It includes a scheme (`https`) and a host\n(`johns-apparel.myshopify.com`).")
    "URL" []

/-- Lines 6071 to 6087 of the module: type UnitPriceMeasurement. -/
def text.UnitPriceMeasurement : List String := [
  "\"\"\"",
  "The measurement used to calculate a unit price for a product variant (e.g. \\$9.99 / 100ml).",
  "",
  "\"\"\"",
  "type UnitPriceMeasurement \x7b",
  "  \"\"\"The type of unit of measurement for the unit price measurement.\"\"\"",
  "  measuredType: UnitPriceMeasurementMeasuredType",
  "  \"\"\"The quantity unit for the unit price measurement.\"\"\"",
  "  quantityUnit: UnitPriceMeasurementMeasuredUnit",
  "  \"\"\"The quantity value for the unit price measurement.\"\"\"",
  "  quantityValue: Float!",
  "  \"\"\"The reference unit for the unit price measurement.\"\"\"",
  "  referenceUnit: UnitPriceMeasurementMeasuredUnit",
  "  \"\"\"The reference value for the unit price measurement.\"\"\"",
  "  referenceValue: Int!",
  "\x7d",
  ""]

/-- The type UnitPriceMeasurement declared by lines 6071 to 6087. -/
def UnitPriceMeasurement : Definition :=
  .objectType (blk "The measurement used to calculate a unit price for a product variant (e.g. $9.99 / 100ml).")
    "UnitPriceMeasurement" [] [] [
    field (blk "The type of unit of measurement for the unit price measurement.")
       "measuredType" [] (nm "UnitPriceMeasurementMeasuredType") [],
    field (blk "The quantity unit for the unit price measurement.")
       "quantityUnit" [] (nm "UnitPriceMeasurementMeasuredUnit") [],
    field (blk "The quantity value for the unit price measurement.")
       "quantityValue" [] (nn (nm "Float")) [],
    field (blk "The reference unit for the unit price measurement.")
       "referenceUnit" [] (nm "UnitPriceMeasurementMeasuredUnit") [],
    field (blk "The reference value for the unit price measurement.")
       "referenceValue" [] (nn (nm "Int")) []]

/-- Lines 6088 to 6099 of the module: enum UnitPriceMeasurementMeasuredType. -/
def text.UnitPriceMeasurementMeasuredType : List String := [
  "\"\"\"The accepted types of unit of measurement.\"\"\"",
  "enum UnitPriceMeasurementMeasuredType \x7b",
  "  \"\"\"Unit of measurements representing volumes.\"\"\"",
  "  VOLUME",
  "  \"\"\"Unit of measurements representing weights.\"\"\"",
  "  WEIGHT",
  "  \"\"\"Unit of measurements representing lengths.\"\"\"",
  "  LENGTH",
  "  \"\"\"Unit of measurements representing areas.\"\"\"",
  "  AREA",
  "\x7d",
  ""]

/-- The enum UnitPriceMeasurementMeasuredType declared by lines 6088 to 6099. -/
def UnitPriceMeasurementMeasuredType : Definition :=
  .enumType (blk "The accepted types of unit of measurement.")
    "UnitPriceMeasurementMeasuredType" [] [
    enumValue (blk "Unit of measurements representing volumes.")
       "VOLUME" [],
    enumValue (blk "Unit of measurements representing weights.")
       "WEIGHT" [],
    enumValue (blk "Unit of measurements representing lengths.")
       "LENGTH" [],
    enumValue (blk "Unit of measurements representing areas.")
       "AREA" []]

/-- Lines 6100 to 6125 of the module: enum UnitPriceMeasurementMeasuredUnit. -/
def text.UnitPriceMeasurementMeasuredUnit : List String := [
  "\"\"\"The valid units of measurement for a unit price measurement.\"\"\"",
  "enum UnitPriceMeasurementMeasuredUnit \x7b",
  "  \"\"\"1000 milliliters equals 1 liter.\"\"\"",
  "  ML",
  "  \"\"\"100 centiliters equals 1 liter.\"\"\"",
  "  CL",
  "  \"\"\"Metric system unit of volume.\"\"\"",
  "  L",
  "  \"\"\"1 cubic meter equals 1000 liters.\"\"\"",
  "  M3",
  "  \"\"\"1000 milligrams equals 1 gram.\"\"\"",
  "  MG",
  "  \"\"\"Metric system unit of weight.\"\"\"",
  "  G",
  "  \"\"\"1 kilogram equals 1000 grams.\"\"\"",
  "  KG",
  "  \"\"\"1000 millimeters equals 1 meter.\"\"\"",
  "  MM",
  "  \"\"\"100 centimeters equals 1 meter.\"\"\"",
  "  CM",
  "  \"\"\"Metric system unit of length.\"\"\"",
  "  M",
  "  \"\"\"Metric system unit of area.\"\"\"",
  "  M2",
  "\x7d",
  ""]

/-- The enum UnitPriceMeasurementMeasuredUnit declared by lines 6100 to 6125. -/
def UnitPriceMeasurementMeasuredUnit : Definition :=
  .enumType (blk "The valid units of measurement for a unit price measurement.")
    "UnitPriceMeasurementMeasuredUnit" [] [
    enumValue (blk "1000 milliliters equals 1 liter.")
       "ML" [],
    enumValue (blk "100 centiliters equals 1 liter.")
       "CL" [],
    enumValue (blk "Metric system unit of volume.")
       "L" [],
    enumValue (blk "1 cubic meter equals 1000 liters.")
       "M3" [],
    enumValue (blk "1000 milligrams equals 1 gram.")
       "MG" [],
    enumValue (blk "Metric system unit of weight.")
       "G" [],
    enumValue (blk "1 kilogram equals 1000 grams.")
       "KG" [],
    enumValue (blk "1000 millimeters equals 1 meter.")
       "MM" [],
    enumValue (blk "100 centimeters equals 1 meter.")
       "CM" [],
    enumValue (blk "Metric system unit of length.")
       "M" [],
    enumValue (blk "Metric system unit of area.")
       "M2" []]

/-- Lines 6126 to 6133 of the module: enum UnitSystem. -/
def text.UnitSystem : List String := [
  "\"\"\"Systems of weights and measures.\"\"\"",
  "enum UnitSystem \x7b",
  "  \"\"\"Imperial system of weights and measures.\"\"\"",
  "  IMPERIAL_SYSTEM",
  "  \"\"\"Metric system of weights and measures.\"\"\"",
  "  METRIC_SYSTEM",
  "\x7d",
  ""]

/-- The enum UnitSystem declared by lines 6126 to 6133. -/
def UnitSystem : Definition :=
  .enumType (blk "Systems of weights and measures.")
    "UnitSystem" [] [
    enumValue (blk "Imperial system of weights and measures.")
       "IMPERIAL_SYSTEM" [],
    enumValue (blk "Metric system of weights and measures.")
       "METRIC_SYSTEM" []]

/-- Lines 6134 to 6141 of the module: type UserError. -/
def text.UserError : List String := [
  "\"\"\"Represents an error in the input of a mutation.\"\"\"",
  "type UserError implements DisplayableError \x7b",
  "  \"\"\"The path to the input field that caused the error.\"\"\"",
  "  field: [String!]",
  "  \"\"\"The error message.\"\"\"",
  "  message: String!",
  "\x7d",
  ""]

/-- The type UserError declared by lines 6134 to 6141. -/
def UserError : Definition :=
  .objectType (blk "Represents an error in the input of a mutation.")
    "UserError" ["DisplayableError"] [] [
    field (blk "The path to the input field that caused the error.")
       "field" [] (ls (nn (nm "String"))) [],
    field (blk "The error message.")
       "message" [] (nn (nm "String")) []]

/-- Lines 6142 to 6151 of the module: input VariantOptionFilter. -/
def text.VariantOptionFilter : List String := [
  "\"\"\"",
  "A filter used to view a subset of products in a collection matching a specific variant option.",
  "\"\"\"",
  "input VariantOptionFilter \x7b",
  "  \"\"\"The name of the variant option to filter on.\"\"\"",
  "  name: String!",
  "  \"\"\"The value of the variant option to filter on.\"\"\"",
  "  value: String!",
  "\x7d",
  ""]

/-- The input VariantOptionFilter declared by lines 6142 to 6151. -/
def VariantOptionFilter : Definition :=
  .inputObjectType (blk "A filter used to view a subset of products in a collection matching a specific variant option.")
    "VariantOptionFilter" [] [
    inputValue (blk "The name of the variant option to filter on.")
       "name" (nn (nm "String")) none [],
    inputValue (blk "The value of the variant option to filter on.")
       "value" (nn (nm "String")) none []]

/-- Lines 6152 to 6165 of the module: type Video. -/
def text.Video : List String := [
  "\"\"\"Represents a Shopify hosted video.\"\"\"",
  "type Video implements Node & Media \x7b",
  "  \"\"\"A word or phrase to share the nature or contents of a media.\"\"\"",
  "  alt: String",
  "  \"\"\"A globally-unique identifier.\"\"\"",
  "  id: ID!",
  "  \"\"\"The media content type.\"\"\"",
  "  mediaContentType: MediaContentType!",
  "  \"\"\"The preview image for the media.\"\"\"",
  "  previewImage: Image",
  "  \"\"\"The sources for a video.\"\"\"",
  "  sources: [VideoSource!]!",
  "\x7d",
  ""]

/-- The type Video declared by lines 6152 to 6165. -/
def Video : Definition :=
  .objectType (blk "Represents a Shopify hosted video.")
    "Video" ["Node", "Media"] [] [
    field (blk "A word or phrase to share the nature or contents of a media.")
       "alt" [] (nm "String") [],
    field (blk "A globally-unique identifier.")
       "id" [] (nn (nm "ID")) [],
    field (blk "The media content type.")
       "mediaContentType" [] (nn (nm "MediaContentType")) [],
    field (blk "The preview image for the media.")
       "previewImage" [] (nm "Image") [],
    field (blk "The sources for a video.")
       "sources" [] (nn (ls (nn (nm "VideoSource")))) []]

/-- Lines 6166 to 6179 of the module: type VideoSource. -/
def text.VideoSource : List String := [
  "\"\"\"Represents a source for a Shopify hosted video.\"\"\"",
  "type VideoSource \x7b",
  "  \"\"\"The format of the video source.\"\"\"",
  "  format: String!",
  "  \"\"\"The height of the video.\"\"\"",
  "  height: Int!",
  "  \"\"\"The video MIME type.\"\"\"",
  "  mimeType: String!",
  "  \"\"\"The URL of the video.\"\"\"",
  "  url: String!",
  "  \"\"\"The width of the video.\"\"\"",
  "  width: Int!",
  "\x7d",
  ""]

/-- The type VideoSource declared by lines 6166 to 6179. -/
def VideoSource : Definition :=
  .objectType (blk "Represents a source for a Shopify hosted video.")
    "VideoSource" [] [] [
    field (blk "The format of the video source.")
       "format" [] (nn (nm "String")) [],
    field (blk "The height of the video.")
       "height" [] (nn (nm "Int")) [],
    field (blk "The video MIME type.")
       "mimeType" [] (nn (nm "String")) [],
    field (blk "The URL of the video.")
       "url" [] (nn (nm "String")) [],
    field (blk "The width of the video.")
       "width" [] (nn (nm "Int")) []]

/-- Lines 6180 to 6190 of the module: enum WeightUnit. -/
def text.WeightUnit : List String := [
  "\"\"\"Units of measurement for weight.\"\"\"",
  "enum WeightUnit \x7b",
  "  \"\"\"1 kilogram equals 1000 grams.\"\"\"",
  "  KILOGRAMS",
  "  \"\"\"Metric system unit of mass.\"\"\"",
  "  GRAMS",
  "  \"\"\"1 pound equals 16 ounces.\"\"\"",
  "  POUNDS",
  "  \"\"\"Imperial system unit of mass.\"\"\"",
  "  OUNCES",
  "\x7d"]

/-- The enum WeightUnit declared by lines 6180 to 6190. -/
def WeightUnit : Definition :=
  .enumType (blk "Units of measurement for weight.")
    "WeightUnit" [] [
    enumValue (blk "1 kilogram equals 1000 grams.")
       "KILOGRAMS" [],
    enumValue (blk "Metric system unit of mass.")
       "GRAMS" [],
    enumValue (blk "1 pound equals 16 ounces.")
       "POUNDS" [],
    enumValue (blk "Imperial system unit of mass.")
       "OUNCES" []]

/-- The lines of the template literal, lines 4 to 6190 of the module. -/
def lines : List String := List.flatten [
  text.schema, text.directive_accessRestricted, text.directive_inContext, text.ApiVersion,
  text.AppliedGiftCard, text.Article, text.ArticleAuthor, text.ArticleConnection,
  text.ArticleEdge, text.ArticleSortKeys, text.Attribute, text.AttributeInput,
  text.AutomaticDiscountApplication, text.AvailableShippingRates, text.Blog,
  text.BlogConnection, text.BlogEdge, text.BlogSortKeys, text.CardBrand, text.Cart,
  text.CartAttributesUpdatePayload, text.CartAutomaticDiscountAllocation,
  text.CartBuyerIdentity, text.CartBuyerIdentityInput, text.CartBuyerIdentityUpdatePayload,
  text.CartCodeDiscountAllocation, text.CartCreatePayload, text.CartDiscountAllocation,
  text.CartDiscountCode, text.CartDiscountCodesUpdatePayload, text.CartErrorCode,
  text.CartEstimatedCost, text.CartInput, text.CartLine, text.CartLineConnection,
  text.CartLineEdge, text.CartLineEstimatedCost, text.CartLineInput, text.CartLineUpdateInput,
  text.CartLinesAddPayload, text.CartLinesRemovePayload, text.CartLinesUpdatePayload,
  text.CartNoteUpdatePayload, text.CartUserError, text.Checkout,
  text.CheckoutAttributesUpdateInput, text.CheckoutAttributesUpdatePayload,
  text.CheckoutAttributesUpdateV2Input, text.CheckoutAttributesUpdateV2Payload,
  text.CheckoutBuyerIdentity, text.CheckoutBuyerIdentityInput,
  text.CheckoutCompleteFreePayload, text.CheckoutCompleteWithCreditCardPayload,
  text.CheckoutCompleteWithCreditCardV2Payload,
  text.CheckoutCompleteWithTokenizedPaymentPayload,
  text.CheckoutCompleteWithTokenizedPaymentV2Payload,
  text.CheckoutCompleteWithTokenizedPaymentV3Payload, text.CheckoutCreateInput,
  text.CheckoutCreatePayload, text.CheckoutCustomerAssociatePayload,
  text.CheckoutCustomerAssociateV2Payload, text.CheckoutCustomerDisassociatePayload,
  text.CheckoutCustomerDisassociateV2Payload, text.CheckoutDiscountCodeApplyPayload,
  text.CheckoutDiscountCodeApplyV2Payload, text.CheckoutDiscountCodeRemovePayload,
  text.CheckoutEmailUpdatePayload, text.CheckoutEmailUpdateV2Payload, text.CheckoutErrorCode,
  text.CheckoutGiftCardApplyPayload, text.CheckoutGiftCardRemovePayload,
  text.CheckoutGiftCardRemoveV2Payload, text.CheckoutGiftCardsAppendPayload,
  text.CheckoutLineItem, text.CheckoutLineItemConnection, text.CheckoutLineItemEdge,
  text.CheckoutLineItemInput, text.CheckoutLineItemUpdateInput,
  text.CheckoutLineItemsAddPayload, text.CheckoutLineItemsRemovePayload,
  text.CheckoutLineItemsReplacePayload, text.CheckoutLineItemsUpdatePayload,
  text.CheckoutShippingAddressUpdatePayload, text.CheckoutShippingAddressUpdateV2Payload,
  text.CheckoutShippingLineUpdatePayload, text.CheckoutUserError, text.Collection,
  text.CollectionConnection, text.CollectionEdge, text.CollectionSortKeys, text.Comment,
  text.CommentAuthor, text.CommentConnection, text.CommentEdge, text.Country, text.CountryCode,
  text.CreditCard, text.CreditCardPaymentInput, text.CreditCardPaymentInputV2, text.CropRegion,
  text.Currency, text.CurrencyCode, text.Customer, text.CustomerAccessToken,
  text.CustomerAccessTokenCreateInput, text.CustomerAccessTokenCreatePayload,
  text.CustomerAccessTokenCreateWithMultipassPayload, text.CustomerAccessTokenDeletePayload,
  text.CustomerAccessTokenRenewPayload, text.CustomerActivateByUrlPayload,
  text.CustomerActivateInput, text.CustomerActivatePayload, text.CustomerAddressCreatePayload,
  text.CustomerAddressDeletePayload, text.CustomerAddressUpdatePayload,
  text.CustomerCreateInput, text.CustomerCreatePayload,
  text.CustomerDefaultAddressUpdatePayload, text.CustomerErrorCode,
  text.CustomerRecoverPayload, text.CustomerResetByUrlPayload, text.CustomerResetInput,
  text.CustomerResetPayload, text.CustomerUpdateInput, text.CustomerUpdatePayload,
  text.CustomerUserError, text.DateTime, text.Decimal, text.DigitalWallet,
  text.DiscountAllocation, text.DiscountApplication, text.DiscountApplicationAllocationMethod,
  text.DiscountApplicationConnection, text.DiscountApplicationEdge,
  text.DiscountApplicationTargetSelection, text.DiscountApplicationTargetType,
  text.DiscountCodeApplication, text.DisplayableError, text.Domain, text.ExternalVideo,
  text.Filter, text.FilterType, text.FilterValue, text.Fulfillment, text.FulfillmentLineItem,
  text.FulfillmentLineItemConnection, text.FulfillmentLineItemEdge,
  text.FulfillmentTrackingInfo, text.GeoCoordinateInput, text.HTML, text.HasMetafields,
  text.Image, text.ImageConnection, text.ImageContentType, text.ImageEdge,
  text.ImageTransformInput, text.JSON, text.Localization, text.Location, text.LocationAddress,
  text.LocationConnection, text.LocationEdge, text.LocationSortKeys, text.MailingAddress,
  text.MailingAddressConnection, text.MailingAddressEdge, text.MailingAddressInput,
  text.ManualDiscountApplication, text.Media, text.MediaConnection, text.MediaContentType,
  text.MediaEdge, text.MediaHost, text.MediaImage, text.Merchandise, text.Metafield,
  text.MetafieldConnection, text.MetafieldEdge, text.MetafieldFilter,
  text.MetafieldParentResource, text.MetafieldReference, text.Model3d, text.Model3dSource,
  text.Money, text.MoneyInput, text.MoneyV2, text.Mutation, text.Node,
  text.OnlineStorePublishable, text.Order, text.OrderCancelReason, text.OrderConnection,
  text.OrderEdge, text.OrderFinancialStatus, text.OrderFulfillmentStatus, text.OrderLineItem,
  text.OrderLineItemConnection, text.OrderLineItemEdge, text.OrderSortKeys, text.Page,
  text.PageConnection, text.PageEdge, text.PageInfo, text.PageSortKeys, text.Payment,
  text.PaymentSettings, text.PaymentTokenType, text.PriceRangeFilter,
  text.PricingPercentageValue, text.PricingValue, text.Product, text.ProductCollectionSortKeys,
  text.ProductConnection, text.ProductEdge, text.ProductFilter, text.ProductImageSortKeys,
  text.ProductMediaSortKeys, text.ProductOption, text.ProductPriceRange, text.ProductSortKeys,
  text.ProductTypePathNode, text.ProductVariant, text.ProductVariantConnection,
  text.ProductVariantEdge, text.ProductVariantSortKeys, text.QueryRoot, text.SEO,
  text.ScriptDiscountApplication, text.SelectedOption, text.SelectedOptionInput,
  text.SellingPlan, text.SellingPlanAllocation, text.SellingPlanAllocationConnection,
  text.SellingPlanAllocationEdge, text.SellingPlanAllocationPriceAdjustment,
  text.SellingPlanConnection, text.SellingPlanEdge, text.SellingPlanFixedAmountPriceAdjustment,
  text.SellingPlanFixedPriceAdjustment, text.SellingPlanGroup, text.SellingPlanGroupConnection,
  text.SellingPlanGroupEdge, text.SellingPlanGroupOption, text.SellingPlanOption,
  text.SellingPlanPercentagePriceAdjustment, text.SellingPlanPriceAdjustment,
  text.SellingPlanPriceAdjustmentValue, text.ShippingRate, text.Shop, text.ShopPolicy,
  text.ShopPolicyWithDefault, text.StoreAvailability, text.StoreAvailabilityConnection,
  text.StoreAvailabilityEdge, text.StringConnection, text.StringEdge,
  text.TokenizedPaymentInput, text.TokenizedPaymentInputV2, text.TokenizedPaymentInputV3,
  text.Transaction, text.TransactionKind, text.TransactionStatus, text.URL,
  text.UnitPriceMeasurement, text.UnitPriceMeasurementMeasuredType,
  text.UnitPriceMeasurementMeasuredUnit, text.UnitSystem, text.UserError,
  text.VariantOptionFilter, text.Video, text.VideoSource, text.WeightUnit]

/-- The definitions the template literal declares, in order. -/
def document : Document := [
  schema, directive_accessRestricted, directive_inContext, ApiVersion, AppliedGiftCard,
  Article, ArticleAuthor, ArticleConnection, ArticleEdge, ArticleSortKeys, Attribute,
  AttributeInput, AutomaticDiscountApplication, AvailableShippingRates, Blog, BlogConnection,
  BlogEdge, BlogSortKeys, CardBrand, Cart, CartAttributesUpdatePayload,
  CartAutomaticDiscountAllocation, CartBuyerIdentity, CartBuyerIdentityInput,
  CartBuyerIdentityUpdatePayload, CartCodeDiscountAllocation, CartCreatePayload,
  CartDiscountAllocation, CartDiscountCode, CartDiscountCodesUpdatePayload, CartErrorCode,
  CartEstimatedCost, CartInput, CartLine, CartLineConnection, CartLineEdge,
  CartLineEstimatedCost, CartLineInput, CartLineUpdateInput, CartLinesAddPayload,
  CartLinesRemovePayload, CartLinesUpdatePayload, CartNoteUpdatePayload, CartUserError,
  Checkout, CheckoutAttributesUpdateInput, CheckoutAttributesUpdatePayload,
  CheckoutAttributesUpdateV2Input, CheckoutAttributesUpdateV2Payload, CheckoutBuyerIdentity,
  CheckoutBuyerIdentityInput, CheckoutCompleteFreePayload,
  CheckoutCompleteWithCreditCardPayload, CheckoutCompleteWithCreditCardV2Payload,
  CheckoutCompleteWithTokenizedPaymentPayload, CheckoutCompleteWithTokenizedPaymentV2Payload,
  CheckoutCompleteWithTokenizedPaymentV3Payload, CheckoutCreateInput, CheckoutCreatePayload,
  CheckoutCustomerAssociatePayload, CheckoutCustomerAssociateV2Payload,
  CheckoutCustomerDisassociatePayload, CheckoutCustomerDisassociateV2Payload,
  CheckoutDiscountCodeApplyPayload, CheckoutDiscountCodeApplyV2Payload,
  CheckoutDiscountCodeRemovePayload, CheckoutEmailUpdatePayload, CheckoutEmailUpdateV2Payload,
  CheckoutErrorCode, CheckoutGiftCardApplyPayload, CheckoutGiftCardRemovePayload,
  CheckoutGiftCardRemoveV2Payload, CheckoutGiftCardsAppendPayload, CheckoutLineItem,
  CheckoutLineItemConnection, CheckoutLineItemEdge, CheckoutLineItemInput,
  CheckoutLineItemUpdateInput, CheckoutLineItemsAddPayload, CheckoutLineItemsRemovePayload,
  CheckoutLineItemsReplacePayload, CheckoutLineItemsUpdatePayload,
  CheckoutShippingAddressUpdatePayload, CheckoutShippingAddressUpdateV2Payload,
  CheckoutShippingLineUpdatePayload, CheckoutUserError, Collection, CollectionConnection,
  CollectionEdge, CollectionSortKeys, Comment, CommentAuthor, CommentConnection, CommentEdge,
  Country, CountryCode, CreditCard, CreditCardPaymentInput, CreditCardPaymentInputV2,
  CropRegion, Currency, CurrencyCode, Customer, CustomerAccessToken,
  CustomerAccessTokenCreateInput, CustomerAccessTokenCreatePayload,
  CustomerAccessTokenCreateWithMultipassPayload, CustomerAccessTokenDeletePayload,
  CustomerAccessTokenRenewPayload, CustomerActivateByUrlPayload, CustomerActivateInput,
  CustomerActivatePayload, CustomerAddressCreatePayload, CustomerAddressDeletePayload,
  CustomerAddressUpdatePayload, CustomerCreateInput, CustomerCreatePayload,
  CustomerDefaultAddressUpdatePayload, CustomerErrorCode, CustomerRecoverPayload,
  CustomerResetByUrlPayload, CustomerResetInput, CustomerResetPayload, CustomerUpdateInput,
  CustomerUpdatePayload, CustomerUserError, DateTime, Decimal, DigitalWallet,
  DiscountAllocation, DiscountApplication, DiscountApplicationAllocationMethod,
  DiscountApplicationConnection, DiscountApplicationEdge, DiscountApplicationTargetSelection,
  DiscountApplicationTargetType, DiscountCodeApplication, DisplayableError, Domain,
  ExternalVideo, Filter, FilterType, FilterValue, Fulfillment, FulfillmentLineItem,
  FulfillmentLineItemConnection, FulfillmentLineItemEdge, FulfillmentTrackingInfo,
  GeoCoordinateInput, HTML, HasMetafields, Image, ImageConnection, ImageContentType, ImageEdge,
  ImageTransformInput, JSON, Localization, Location, LocationAddress, LocationConnection,
  LocationEdge, LocationSortKeys, MailingAddress, MailingAddressConnection, MailingAddressEdge,
  MailingAddressInput, ManualDiscountApplication, Media, MediaConnection, MediaContentType,
  MediaEdge, MediaHost, MediaImage, Merchandise, Metafield, MetafieldConnection, MetafieldEdge,
  MetafieldFilter, MetafieldParentResource, MetafieldReference, Model3d, Model3dSource, Money,
  MoneyInput, MoneyV2, Mutation, Node, OnlineStorePublishable, Order, OrderCancelReason,
  OrderConnection, OrderEdge, OrderFinancialStatus, OrderFulfillmentStatus, OrderLineItem,
  OrderLineItemConnection, OrderLineItemEdge, OrderSortKeys, Page, PageConnection, PageEdge,
  PageInfo, PageSortKeys, Payment, PaymentSettings, PaymentTokenType, PriceRangeFilter,
  PricingPercentageValue, PricingValue, Product, ProductCollectionSortKeys, ProductConnection,
  ProductEdge, ProductFilter, ProductImageSortKeys, ProductMediaSortKeys, ProductOption,
  ProductPriceRange, ProductSortKeys, ProductTypePathNode, ProductVariant,
  ProductVariantConnection, ProductVariantEdge, ProductVariantSortKeys, QueryRoot, SEO,
  ScriptDiscountApplication, SelectedOption, SelectedOptionInput, SellingPlan,
  SellingPlanAllocation, SellingPlanAllocationConnection, SellingPlanAllocationEdge,
  SellingPlanAllocationPriceAdjustment, SellingPlanConnection, SellingPlanEdge,
  SellingPlanFixedAmountPriceAdjustment, SellingPlanFixedPriceAdjustment, SellingPlanGroup,
  SellingPlanGroupConnection, SellingPlanGroupEdge, SellingPlanGroupOption, SellingPlanOption,
  SellingPlanPercentagePriceAdjustment, SellingPlanPriceAdjustment,
  SellingPlanPriceAdjustmentValue, ShippingRate, Shop, ShopPolicy, ShopPolicyWithDefault,
  StoreAvailability, StoreAvailabilityConnection, StoreAvailabilityEdge, StringConnection,
  StringEdge, TokenizedPaymentInput, TokenizedPaymentInputV2, TokenizedPaymentInputV3,
  Transaction, TransactionKind, TransactionStatus, URL, UnitPriceMeasurement,
  UnitPriceMeasurementMeasuredType, UnitPriceMeasurementMeasuredUnit, UnitSystem, UserError,
  VariantOptionFilter, Video, VideoSource, WeightUnit]

end Mesh.Shopify
namespace Mesh

/-! ## The generated modules -/

/-- The first argument of `buildSchema`: `new Source(body, name)`. -/
structure Source where
  body : String
  name : String
  deriving DecidableEq, Repr

/-- The options object passed to `buildSchema`. -/
structure BuildSchemaOptions where
  assumeValid : Bool
  assumeValidSDL : Bool
  deriving DecidableEq, Repr

/-- The schema object `buildSchema` returns: the type system it was built
from, and the validation errors it starts out with (`some []` when it was
built with `assumeValid`, so that it is never validated; `none` when
validation is still to run). -/
structure GraphQLSchema where
  definitions : Document
  validationErrors : Option (List String)
  deriving DecidableEq, Repr

/-- What loading a module can throw. -/
inductive LoadError where
  | template (e : TemplateError)
  | syntaxError (e : SyntaxError)
  | invalidSDL (errors : List String)
  deriving DecidableEq, Repr

/-- The library function `buildASTSchema`: unless one of the two options is set
the document is checked against the SDL validation rules `validateSDL` (which
are the library's and are a parameter here), then the schema is built. -/
def buildASTSchema (validateSDL : Document → List String) (document : Document)
    (options : BuildSchemaOptions) : Except LoadError GraphQLSchema :=
  let schema : GraphQLSchema :=
    ⟨document, if options.assumeValid = true then some [] else none⟩
  if options.assumeValid ≠ true ∧ options.assumeValidSDL ≠ true then
    match validateSDL document with
    | [] => .ok schema
    | errors => .error (.invalidSDL errors)
  else .ok schema

/-- The library function `buildSchema`: parse the source, then build. -/
def buildSchema (validateSDL : Document → List String) (source : Source)
    (options : BuildSchemaOptions) : Except LoadError GraphQLSchema :=
  match parse source.body with
  | .error e => .error (.syntaxError e)
  | .ok document => buildASTSchema validateSDL document options

/-- A generated module: its path in the repository, the raw text of the two
template literals passed to `new Source(...)`, the first by lines, and the
options object passed to `buildSchema`. -/
structure SchemaModule where
  path : String
  sdl : List String
  sourceName : String
  options : BuildSchemaOptions

/-- The text a module hands to the parser: the cooked text of its first
template literal. -/
def SchemaModule.sdlText (m : SchemaModule) : String := cookedText m.sdl

/-- The value of `module.exports` after loading a module, or what loading
throws. -/
def SchemaModule.exports (validateSDL : Document → List String) (m : SchemaModule) :
    Except LoadError GraphQLSchema :=
  match templateValue m.sdl with
  | .error e => .error (.template e)
  | .ok body =>
    match lineValue m.sourceName with
    | .error e => .error (.template e)
    | .ok name => buildSchema validateSDL ⟨body, name⟩ m.options

/-- The module `.mesh/sources/Contentful/schema.graphql.cjs`. -/
def Contentful.module : SchemaModule where
  path := ".mesh/sources/Contentful/schema.graphql.cjs"
  sdl := Contentful.lines
  sourceName := ".mesh/sources/Contentful/schema.graphql"
  options := ⟨true, true⟩

/-- The module `.mesh/sources/Shopify/schema.graphql.cjs`. -/
def Shopify.module : SchemaModule where
  path := ".mesh/sources/Shopify/schema.graphql.cjs"
  sdl := Shopify.lines
  sourceName := ".mesh/sources/Shopify/schema.graphql"
  options := ⟨true, true⟩

/-- The two generated modules. -/
def modules : List SchemaModule := [Contentful.module, Shopify.module]

deriving instance DecidableEq for Except

end Mesh
namespace Mesh

/-! ## Reading a document -/

/-- The named type at the bottom of a type reference. -/
def TypeRef.namedType : TypeRef → String
  | .named n => n
  | .list t => t.namedType
  | .nonNull t => t.namedType

/-- The name a type definition defines; `none` for the schema block and for
directive definitions. -/
def Definition.typeName? : Definition → Option String
  | .schemaDefinition .. => none
  | .scalarType _ n _ => some n
  | .objectType _ n _ _ _ => some n
  | .interfaceType _ n _ _ _ => some n
  | .unionType _ n _ _ => some n
  | .enumType _ n _ _ => some n
  | .inputObjectType _ n _ _ => some n
  | .directiveDefinition .. => none

/-- The description of a definition. -/
def Definition.description : Definition → Option StringValue
  | .schemaDefinition d _ _ => d
  | .scalarType d _ _ => d
  | .objectType d _ _ _ _ => d
  | .interfaceType d _ _ _ _ => d
  | .unionType d _ _ _ => d
  | .enumType d _ _ _ => d
  | .inputObjectType d _ _ _ => d
  | .directiveDefinition d _ _ _ _ => d

/-- The fields of an object or interface type definition. -/
def Definition.fields : Definition → List FieldDefinition
  | .objectType _ _ _ _ fs => fs
  | .interfaceType _ _ _ _ fs => fs
  | _ => []

/-- The interfaces an object or interface type definition lists after
`implements`. -/
def Definition.interfaces : Definition → List String
  | .objectType _ _ is _ _ => is
  | .interfaceType _ _ is _ _ => is
  | _ => []

/-- The named types a field definition refers to: its result type and the
types of its arguments. -/
def FieldDefinition.typeReferences (f : FieldDefinition) : List String :=
  f.type.namedType :: f.arguments.map (fun a => a.type.namedType)

/-- The named types a definition refers to: root types of a schema block,
interfaces after `implements`, field result types, argument types, input
field types, union members and directive argument types. -/
def Definition.typeReferences : Definition → List String
  | .schemaDefinition _ _ ops => ops.map (fun o => o.type)
  | .scalarType .. => []
  | .objectType _ _ is _ fs => is ++ (fs.map FieldDefinition.typeReferences).flatten
  | .interfaceType _ _ is _ fs => is ++ (fs.map FieldDefinition.typeReferences).flatten
  | .unionType _ _ _ ts => ts
  | .enumType .. => []
  | .inputObjectType _ _ _ fs => fs.map (fun a => a.type.namedType)
  | .directiveDefinition _ _ args _ _ => args.map (fun a => a.type.namedType)

/-- The scalars every GraphQL schema has. -/
def builtinScalars : List String := ["Int", "Float", "String", "Boolean", "ID"]

/-- The type names a document defines. -/
def definedTypes (doc : Document) : List String := doc.filterMap Definition.typeName?

/-- Every named type a document refers to, with repetitions. -/
def referencedTypes (doc : Document) : List String :=
  (doc.map Definition.typeReferences).flatten

/-! ### An index of names

Looking a name up in a long list is slow to evaluate; the index below sorts
the names into the leaves of a binary tree by the bits of a key computed from
their characters.  It is only ever used through `NameIndex.find?_sound`. -/

/-- The key of a name. -/
def nameKey (s : String) : Nat := s.data.foldl (fun k c => k * 31 + c.toNat) 7

/-- A binary tree with association lists at its leaves. -/
inductive NameIndex (α : Type) where
  | leaf (entries : List (String × α))
  | node (zero one : NameIndex α)

/-- The tree of the given depth for entries that come with their keys: bit
`d` of the key decides between the two subtrees at height `d + 1`. -/
def NameIndex.build {α : Type} : Nat → List (Nat × String × α) → NameIndex α
  | 0, es => .leaf (es.map (fun e => e.2))
  | d + 1, es =>
    .node (build d (es.filter (fun e => (e.1 >>> d) % 2 = 0)))
      (build d (es.filter (fun e => ¬ (e.1 >>> d) % 2 = 0)))

/-- Looks `name` up along the bits of `key`. -/
def NameIndex.find? {α : Type} : Nat → NameIndex α → Nat → String → Option α
  | _, .leaf es, _, name => es.lookup name
  | 0, .node _ _, _, _ => none
  | d + 1, .node zero one, key, name =>
    if (key >>> d) % 2 = 0 then find? d zero key name else find? d one key name

/-- The depth of the indexes built below. -/
def indexDepth : Nat := 9

/-- The index of an association list. -/
def NameIndex.ofList {α : Type} (entries : List (String × α)) : NameIndex α :=
  .build indexDepth (entries.map (fun e => (nameKey e.1, e)))

/-- Looks a name up in an index. -/
def NameIndex.get? {α : Type} (index : NameIndex α) (name : String) : Option α :=
  index.find? indexDepth (nameKey name) name

/-- Whether a name is among the given ones, through an index. -/
def indexedMem (names : List String) (name : String) : Bool :=
  ((NameIndex.ofList (names.map (fun n => (n, ())))).get? name).isSome

end Mesh
namespace Mesh

/-! ## Interfaces, roots and naming patterns -/

/-- Whether a definition is an object type definition. -/
def Definition.isObjectType : Definition → Bool
  | .objectType .. => true
  | _ => false

/-- Whether a definition is an interface type definition. -/
def Definition.isInterfaceType : Definition → Bool
  | .interfaceType .. => true
  | _ => false

/-- The documents of the two modules. -/
def documents : List Document := [Contentful.document, Shopify.document]

/-- The object type definitions of a document. -/
def objectTypes (doc : Document) : List Definition := doc.filter Definition.isObjectType

/-- The interface type definitions of a document. -/
def interfaceTypes (doc : Document) : List Definition := doc.filter Definition.isInterfaceType

/-- A field `g` of an implementing type meets the field `f` of an interface:
same name, same result type, and every argument of `f` is an argument of `g`
with the same type. -/
def FieldDefinition.Implements (g f : FieldDefinition) : Prop :=
  g.name = f.name ∧ g.type = f.type ∧
    ∀ a ∈ f.arguments, ∃ b ∈ g.arguments, b.name = a.name ∧ b.type = a.type

instance (g f : FieldDefinition) : Decidable (g.Implements f) := by
  unfold FieldDefinition.Implements; infer_instance

/-- The root operation types a document declares in its schema blocks. -/
def rootOperationTypes (doc : Document) : List OperationTypeDefinition :=
  (doc.map (fun d => match d with
    | .schemaDefinition _ _ ops => ops
    | _ => [])).flatten

/-- The reasons of the `@deprecated` directives applied to a field. -/
def FieldDefinition.deprecationReasons (f : FieldDefinition) : List String :=
  (f.directives.filter (fun d => d.name = "deprecated")).filterMap (fun d =>
    match d.arguments.find? (fun a => a.name = "reason") with
    | some ⟨_, .string v⟩ => some v.value
    | _ => none)

/-- The part of `s` between the prefix `a` and the suffix `b`, if `s` starts
with `a` and goes on to end with `b`. -/
def between? (a b s : List Char) : Option (List Char) :=
  if a.isPrefixOf s ∧ b.isSuffixOf (s.drop a.length) then
    some ((s.drop a.length).take ((s.drop a.length).length - b.length))
  else none

/-- The `m` with `s = a ++ m ++ b`, if there is one. -/
def stringBetween? (a b s : String) : Option String :=
  (between? a.data b.data s.data).map String.mk

/-- The `m` of a description "Return type for `m` mutation.". -/
def mutationOfDescription (description : String) : Option String :=
  stringBetween? "Return type for `" "` mutation." description

/-- The reference `X` or `X(a:)` of a deprecation reason "Use `X` instead". -/
def replacementOfReason (reason : String) : Option String :=
  stringBetween? "Use `" "` instead" reason

/-- The field a reference `X` or `X(a:, b:)` names: the part before the
parenthesis. -/
def referenceField (reference : String) : String :=
  String.mk (reference.data.takeWhile (· ≠ '('))

/-- The text between the parentheses of a reference `X(a:, b:)`; empty for
`X`. -/
def referenceArgumentText (reference : String) : List Char :=
  ((reference.data.dropWhile (· ≠ '(')).drop 1).takeWhile (· ≠ ')')

/-- Splits a text at commas; `current` is the piece read so far, last
character first. -/
def splitCommas : List Char → List Char → List (List Char)
  | [], current => [current.reverse]
  | c :: rest, current =>
    if c = ',' then current.reverse :: splitCommas rest [] else splitCommas rest (c :: current)

/-- The argument names of a reference `X(a:, b:)`: the pieces between
commas, without blanks and without the colon. -/
def referenceArguments (reference : String) : List String :=
  ((splitCommas (referenceArgumentText reference) []).map
    (fun piece => String.mk (piece.filter (fun c => c ≠ ' ' ∧ c ≠ ':')))).filter (· ≠ "")

/-- The `P` of a type name `P ++ suffix`. -/
def stripSuffix? (suffix name : String) : Option String :=
  stringBetween? "" suffix name

/-- The item type `T` of an edge description "An auto-generated type which
holds one T and a cursor during pagination.". -/
def edgeItemOfDescription (description : String) : Option String :=
  stringBetween? "An auto-generated type which holds one " " and a cursor during pagination."
    description

/-- The definition has a field of the given name and type. -/
def Definition.HasField (d : Definition) (name : String) (type : TypeRef) : Prop :=
  ∃ f ∈ d.fields, f.name = name ∧ f.type = type

instance (d : Definition) (name : String) (type : TypeRef) : Decidable (d.HasField name type) := by
  unfold Definition.HasField; infer_instance

/-- The payload types of a document with the mutation their description
names: the pairs `(P, m)` for an object type `P` described as
"Return type for `m` mutation.". -/
def payloadEntries (doc : Document) : List (String × String) :=
  (objectTypes doc).filterMap (fun d =>
    match d.typeName?, d.description with
    | some P, some desc => (mutationOfDescription desc.value).map (fun m => (P, m))
    | _, _ => none)

/-- The fields of the Shopify type `Mutation` with their result types. -/
def mutationEntries : List (String × TypeRef) :=
  Shopify.Mutation.fields.map (fun f => (f.name, f.type))

end Mesh
namespace Mesh

/-! ## Kinds, shapes and uniqueness -/

/-- The six kinds of named types. -/
inductive TypeKind where
  | scalar | object | interface | union | enum | inputObject
  deriving DecidableEq, Repr

/-- The kind of type a definition defines; `none` for the schema block and
for directive definitions. -/
def Definition.typeKind? : Definition → Option TypeKind
  | .schemaDefinition .. => none
  | .scalarType .. => some .scalar
  | .objectType .. => some .object
  | .interfaceType .. => some .interface
  | .unionType .. => some .union
  | .enumType .. => some .enum
  | .inputObjectType .. => some .inputObject
  | .directiveDefinition .. => none

/-- The name and type of an argument or input field. -/
def InputValueDefinition.signature (a : InputValueDefinition) : String × TypeRef :=
  (a.name, a.type)

/-- The name, argument signatures and result type of a field. -/
def FieldDefinition.signature (f : FieldDefinition) :
    String × List (String × TypeRef) × TypeRef :=
  (f.name, f.arguments.map InputValueDefinition.signature, f.type)

/-- What a type definition contributes to a merged graph, descriptions
aside: its kind with its interfaces and field signatures, its member types,
its values or its input field signatures. -/
inductive TypeShape where
  | scalar
  | object (interfaces : List String)
      (fields : List (String × List (String × TypeRef) × TypeRef))
  | interface (interfaces : List String)
      (fields : List (String × List (String × TypeRef) × TypeRef))
  | union (types : List String)
  | enum (values : List String)
  | inputObject (fields : List (String × TypeRef))
  deriving DecidableEq, Repr

/-- The shape of a type definition. -/
def Definition.shape? : Definition → Option TypeShape
  | .schemaDefinition .. => none
  | .scalarType .. => some .scalar
  | .objectType _ _ is _ fs => some (.object is (fs.map FieldDefinition.signature))
  | .interfaceType _ _ is _ fs => some (.interface is (fs.map FieldDefinition.signature))
  | .unionType _ _ _ ts => some (.union ts)
  | .enumType _ _ _ vs => some (.enum (vs.map (fun v => v.name)))
  | .inputObjectType _ _ _ fs => some (.inputObject (fs.map InputValueDefinition.signature))
  | .directiveDefinition .. => none

/-- Whether a definition is a schema block. -/
def Definition.isSchemaDefinition : Definition → Bool
  | .schemaDefinition .. => true
  | _ => false

/-- Whether a definition is a directive definition. -/
def Definition.isDirectiveDefinition : Definition → Bool
  | .directiveDefinition .. => true
  | _ => false

/-- The text of a line starts with the keyword `extend`. -/
def startsWithExtend (line : String) : Bool := "extend".data.isPrefixOf line.data

/-- The key of the name a definition defines. -/
def Definition.nameKey? (d : Definition) : Option Nat := d.typeName?.map nameKey

/-- The keys of the type names a document defines. -/
def definedKeys (doc : Document) : List Nat := doc.filterMap Definition.nameKey?

/-- The arguments of the fields of an object or interface type, the fields of
an input object type, or the arguments of a directive definition: every place
of a definition that takes an input type. -/
def Definition.inputValues : Definition → List InputValueDefinition
  | .objectType _ _ _ _ fs => (fs.map (fun f => f.arguments)).flatten
  | .interfaceType _ _ _ _ fs => (fs.map (fun f => f.arguments)).flatten
  | .inputObjectType _ _ _ fs => fs
  | .directiveDefinition _ _ args _ _ => args
  | _ => []

/-- The member types of a union type definition. -/
def Definition.unionMembers : Definition → List String
  | .unionType _ _ _ ts => ts
  | _ => []

/-- The values of an enum type definition. -/
def Definition.enumValues : Definition → List EnumValueDefinition
  | .enumType _ _ _ vs => vs
  | _ => []

/-- Input types: scalars, enums and input objects. -/
def TypeKind.isInput : TypeKind → Bool
  | .scalar | .enum | .inputObject => true
  | _ => false

/-- Output types: scalars, enums, objects, interfaces and unions. -/
def TypeKind.isOutput : TypeKind → Bool
  | .scalar | .enum | .object | .interface | .union => true
  | _ => false

/-- The named type `name` has kind `k` in a document: it is a built-in scalar,
or the document defines it with that kind. -/
def HasKind (doc : Document) (name : String) (k : TypeKind) : Prop :=
  (name ∈ builtinScalars ∧ k = .scalar) ∨
    ∃ d ∈ doc, d.typeName? = some name ∧ d.typeKind? = some k

/-- The names and kinds a document knows: the built-in scalars and its own
type definitions. -/
def kindEntries (doc : Document) : List (String × TypeKind) :=
  builtinScalars.map (fun n => (n, TypeKind.scalar)) ++
    doc.filterMap (fun d =>
      match d.typeName?, d.typeKind? with
      | some n, some k => some (n, k)
      | _, _ => none)

/-- Whether the index of `kindEntries` gives `name` a kind that `allowed`
accepts. -/
def kindAllowed (doc : Document) (allowed : TypeKind → Bool) (name : String) : Bool :=
  ((NameIndex.ofList (kindEntries doc)).get? name).any allowed

/-- Whether keyed names are pairwise distinct, decided bucket by bucket: the
names are split by bit `d` of their keys down to depth 0, where they are
compared with each other; a bucket of at most one name needs no look. -/
def bucketNodup : Nat → List (Nat × String) → Bool
  | _, [] => true
  | _, [_] => true
  | 0, l => decide (l.map Prod.snd).Nodup
  | d + 1, l =>
    bucketNodup d (l.filter (fun e => (e.1 >>> d) % 2 = 0)) &&
      bucketNodup d (l.filter (fun e => ¬ (e.1 >>> d) % 2 = 0))

/-- Whether names are pairwise distinct: a short list is compared name by
name, a long one through the keys of its names. -/
def distinctNames (names : List String) : Bool :=
  if names.length ≤ 8 then decide names.Nodup
  else bucketNodup indexDepth (names.map (fun n => (nameKey n, n)))

/-- The names of the directives a document defines. -/
def directiveNames (doc : Document) : List String :=
  doc.filterMap (fun d => match d with
    | .directiveDefinition _ n _ _ _ => some n
    | _ => none)

/-- The names of the fields of a definition: the fields of an object or
interface type or the fields of an input object type. -/
def Definition.fieldNames : Definition → List String
  | .objectType _ _ _ _ fs => fs.map (fun f => f.name)
  | .interfaceType _ _ _ _ fs => fs.map (fun f => f.name)
  | .inputObjectType _ _ _ fs => fs.map (fun f => f.name)
  | _ => []

/-- The argument names of a directive definition. -/
def Definition.directiveArgumentNames : Definition → List String
  | .directiveDefinition _ _ args _ _ => args.map (fun a => a.name)
  | _ => []

/-- The root operation types a definition lists: those of a schema block. -/
def Definition.operationTypes : Definition → List OperationTypeDefinition
  | .schemaDefinition _ _ ops => ops
  | _ => []

/-- The check of the kinds of the types a definition refers to: input types
for arguments and input fields, output types for fields, interfaces after
`implements`, object types as union members, each member once. -/
def kindsChecked (doc : Document) (d : Definition) : Bool :=
  d.inputValues.all (fun a => kindAllowed doc TypeKind.isInput a.type.namedType) &&
  d.fields.all (fun f => kindAllowed doc TypeKind.isOutput f.type.namedType) &&
  d.interfaces.all (fun i => kindAllowed doc (· == .interface) i) &&
  d.unionMembers.all (fun m => kindAllowed doc (· == .object) m) &&
  decide d.unionMembers.Nodup

end Mesh
namespace Mesh

/-! ## Default values, directives and naming conventions -/

/-- The number a run of decimal digits denotes; `acc` is the number read so
far. `none` if a character is no digit. -/
def digitsValue : List Char → Nat → Option Nat
  | [], acc => some acc
  | c :: cs, acc => if c.isDigit then digitsValue cs (acc * 10 + (c.toNat - 48)) else none

/-- Whether the text of an integer literal denotes a 32-bit integer. -/
def isInt32Literal (text : String) : Bool :=
  match text.data with
  | [] => false
  | c :: cs =>
    if c = '-' then
      match digitsValue cs 0 with
      | some n => cs ≠ [] ∧ n ≤ 2147483648
      | none => false
    else
      match digitsValue (c :: cs) 0 with
      | some n => n ≤ 2147483647
      | none => false

/-- Whether a literal other than `null` is a valid value of the named type: an
integer literal in range for `Int`, an integer or float literal for `Float`, a
string for `String`, a Boolean for `Boolean`, a string or an integer for `ID`,
one of its values for an enum the document defines, and any literal for a
scalar the document defines.  Input objects take object literals, which are
outside the sublanguage embedded here. -/
def namedTypeAccepts (doc : Document) (name : String) (v : Value) : Bool :=
  if name = "Int" then
    match v with
    | .int text => isInt32Literal text
    | _ => false
  else if name = "Float" then
    match v with
    | .int _ => true
    | .float _ => true
    | _ => false
  else if name = "String" then
    match v with
    | .string _ => true
    | _ => false
  else if name = "Boolean" then
    match v with
    | .boolean _ => true
    | _ => false
  else if name = "ID" then
    match v with
    | .string _ => true
    | .int _ => true
    | _ => false
  else
    match doc.find? (fun d => d.typeName? = some name) with
    | some (.enumType _ _ _ values) =>
      match v with
      | .enum x => values.any (fun e => e.name = x)
      | _ => false
    | some (.scalarType ..) => true
    | _ => false

/-- Whether a literal is a valid value of a type: `null` is one of every
type that is not non-null, and a value that is no list is a value of a list
type if it is one of the item type. -/
def validDefault (doc : Document) : TypeRef → Value → Bool
  | .nonNull t, v => v ≠ .null && validDefault doc t v
  | .list t, v => v = .null || validDefault doc t v
  | .named n, v => v = .null || namedTypeAccepts doc n v

/-- The places of a type-system document where a directive can be
applied. -/
inductive DirectiveSite where
  | schema | scalar | object | fieldDefinition | argumentDefinition | interface | union
  | enum | enumValue | inputObject | inputFieldDefinition
  deriving DecidableEq, Repr

/-- The directives applied to the fields of a type and to their arguments. -/
def fieldDirectives (fields : List FieldDefinition) : List (DirectiveSite × Directive) :=
  (fields.map (fun f =>
    f.directives.map (fun d => (DirectiveSite.fieldDefinition, d)) ++
      (f.arguments.map (fun a =>
        a.directives.map (fun d => (DirectiveSite.argumentDefinition, d)))).flatten)).flatten

/-- Every directive applied inside a definition, with the place it is applied
at. -/
def Definition.appliedDirectives : Definition → List (DirectiveSite × Directive)
  | .schemaDefinition _ ds _ => ds.map (fun d => (.schema, d))
  | .scalarType _ _ ds => ds.map (fun d => (.scalar, d))
  | .objectType _ _ _ ds fs => ds.map (fun d => (.object, d)) ++ fieldDirectives fs
  | .interfaceType _ _ _ ds fs => ds.map (fun d => (.interface, d)) ++ fieldDirectives fs
  | .unionType _ _ ds _ => ds.map (fun d => (.union, d))
  | .enumType _ _ ds vs =>
    ds.map (fun d => (.enum, d)) ++
      (vs.map (fun v => v.directives.map (fun d => (DirectiveSite.enumValue, d)))).flatten
  | .inputObjectType _ _ ds fs =>
    ds.map (fun d => (.inputObject, d)) ++
      (fs.map (fun a =>
        a.directives.map (fun d => (DirectiveSite.inputFieldDefinition, d)))).flatten
  | .directiveDefinition _ _ args _ _ =>
    (args.map (fun a =>
      a.directives.map (fun d => (DirectiveSite.argumentDefinition, d)))).flatten

/-- The string of a directive applied with the single argument `reason`. -/
def Directive.reason? (d : Directive) : Option StringValue :=
  match d.arguments with
  | [⟨name, .string reason⟩] => if name = "reason" then some reason else none
  | _ => none

/-- The name and locations of the directives a document defines. -/
def directiveLocationsOf (doc : Document) : List (String × List String) :=
  doc.filterMap (fun d => match d with
    | .directiveDefinition _ n _ _ locations => some (n, locations)
    | _ => none)

/-- A field carries no `@deprecated`. -/
def FieldDefinition.isDeprecated (f : FieldDefinition) : Bool :=
  f.directives.any (fun d => d.name = "deprecated")

/-- The object types that report errors of a mutation. -/
def errorTypes : List String :=
  ["UserError", "CartUserError", "CheckoutUserError", "CustomerUserError"]

/-- The characters a line of a template literal writes after a backslash;
the flag says that the previous character was an unconsumed backslash. -/
def escapeCharacters : Bool → List Char → List Char
  | _, [] => []
  | false, c :: rest => if c = '\\' then escapeCharacters true rest else escapeCharacters false rest
  | true, c :: rest => c :: escapeCharacters false rest

/-- A line of a template literal without the backslashes that start an
escape. -/
def withoutBackslashes : Bool → List Char → List Char
  | _, [] => []
  | false, c :: rest =>
    if c = '\\' then withoutBackslashes true rest else c :: withoutBackslashes false rest
  | true, c :: rest => c :: withoutBackslashes false rest

/-- The suffixes of the fields of a Contentful filter input. -/
def filterOperators : List String :=
  ["exists", "not", "in", "not_in", "contains", "not_contains", "gt", "gte", "lt", "lte"]

/-- The name is `f` or `f_<operator>` for one of the given field names. -/
def FilterName (fields : List String) (name : String) : Prop :=
  ∃ f ∈ fields, name = f ∨ ∃ op ∈ filterOperators, name = f ++ "_" ++ op

instance (fields : List String) (name : String) : Decidable (FilterName fields name) := by
  unfold FilterName; infer_instance

/-- The name is `f_ASC` or `f_DESC` for one of the given field names. -/
def OrderName (fields : List String) (name : String) : Prop :=
  ∃ f ∈ fields, name = f ++ "_ASC" ∨ name = f ++ "_DESC"

instance (fields : List String) (name : String) : Decidable (OrderName fields name) := by
  unfold OrderName; infer_instance

/-- The fields of a filter input that filter no field of the content type. -/
def filterFixedFields : List String := ["sys", "contentfulMetadata", "OR", "AND"]

/-- A Contentful content type with its filter input and its order enum. -/
structure ContentType where
  type : Definition
  filter : Definition
  order : Definition

/-- The three content types of the Contentful schema. -/
def contentTypes : List ContentType :=
  [⟨Contentful.Asset, Contentful.AssetFilter, Contentful.AssetOrder⟩,
   ⟨Contentful.ContentfuProduct, Contentful.ContentfuProductFilter,
     Contentful.ContentfuProductOrder⟩,
   ⟨Contentful.Page, Contentful.PageFilter, Contentful.PageOrder⟩]

/-- The name under which the filter input and the order enum know a field:
the field name, but `productID` for `productId`. -/
def filterSpelling (field : String) : String :=
  if field = "productId" then "productID" else field

/-- The types of the Contentful schema that have a filter input, each with
it. -/
def filteredTypes : List (Definition × Definition) :=
  [(Contentful.Asset, Contentful.AssetFilter),
   (Contentful.ContentfuProduct, Contentful.ContentfuProductFilter),
   (Contentful.Page, Contentful.PageFilter),
   (Contentful.Sys, Contentful.SysFilter)]

/-- The filter fields whose type is not that of the field they are named
after. -/
def retypedFilterFields : List String := ["sys", "contentfulMetadata", "publishedVersion"]

/-- The check that a name is a field name or a field name followed by `_` and
a filter operator. -/
def filterNameCheck (fields : List String) (name : String) : Bool :=
  fields.any (fun f => name = f ||
    match stringBetween? (f ++ "_") "" name with
    | some op => filterOperators.contains op
    | none => false)

end Mesh
namespace Mesh

/-! ## Lemmas -/

/-- With both options set, `buildASTSchema` runs no validation: whatever the
rules would report, the schema is built and marked as valid. -/
theorem buildASTSchema_assumeValid (validateSDL : Document → List String) (document : Document) :
    buildASTSchema validateSDL document ⟨true, true⟩ = .ok ⟨document, some []⟩ := by
  simp [buildASTSchema]

/-- With both options set, `buildSchema` is parsing. -/
theorem buildSchema_assumeValid (validateSDL : Document → List String) (source : Source) :
    buildSchema validateSDL source ⟨true, true⟩ =
      match parse source.body with
      | .error e => .error (.syntaxError e)
      | .ok document => .ok ⟨document, some []⟩ := by
  unfold buildSchema
  cases parse source.body with
  | error e => rfl
  | ok document => exact buildASTSchema_assumeValid validateSDL document

/-- A module whose text the parser rejects exports nothing. -/
theorem exports_of_parse_error (validateSDL : Document → List String) (m : SchemaModule)
    (e : SyntaxError) (h : parse m.sdlText = .error e) (s : GraphQLSchema) :
    m.exports validateSDL ≠ .ok s := by
  unfold SchemaModule.exports templateValue
  cases templateError m.sdl with
  | some t => simp
  | none =>
    cases lineValue m.sourceName with
    | error t => simp
    | ok name =>
      have h2 : parse (cookedText m.sdl) = .error e := h
      simp [buildSchema, h2]

/-- A module with both options set whose text parses exports the parsed
document, marked as valid. -/
theorem exports_of_parse_ok (validateSDL : Document → List String) (m : SchemaModule)
    (document : Document) (name : String) (hopt : m.options = ⟨true, true⟩)
    (hsdl : templateError m.sdl = none) (hname : lineValue m.sourceName = .ok name)
    (hparse : parse m.sdlText = .ok document) :
    m.exports validateSDL = .ok ⟨document, some []⟩ := by
  have h2 : parse (cookedText m.sdl) = .ok document := hparse
  unfold SchemaModule.exports templateValue
  rw [hsdl, hname, hopt]
  simp only [buildSchema_assumeValid, h2]

/-- A name found in an association list is in it. -/
theorem lookup_sound {α : Type} (name : String) (v : α) :
    ∀ es : List (String × α), es.lookup name = some v → (name, v) ∈ es := by
  intro es
  induction es with
  | nil => intro h; simp [List.lookup] at h
  | cons e es ih =>
    obtain ⟨k, w⟩ := e
    intro h
    by_cases hk : name = k
    · subst hk
      simp [List.lookup] at h
      simp [h]
    · have hb : (name == k) = false := by simpa using hk
      simp [List.lookup, hb] at h
      exact List.mem_cons_of_mem _ (ih h)

/-- Whatever the index of some entries finds is one of the entries. -/
theorem NameIndex.find?_build_sound {α : Type} (key : Nat) (name : String) (v : α) :
    ∀ (d : Nat) (es : List (Nat × String × α)),
      (NameIndex.build d es).find? d key name = some v → ∃ k, (k, name, v) ∈ es := by
  intro d
  induction d with
  | zero =>
    intro es h
    simp only [NameIndex.build, NameIndex.find?] at h
    have := lookup_sound name v _ h
    obtain ⟨e, he, hev⟩ := List.mem_map.mp this
    exact ⟨e.1, by rw [← hev]; exact he⟩
  | succ d ih =>
    intro es h
    simp only [NameIndex.build, NameIndex.find?] at h
    split at h
    · obtain ⟨k, hk⟩ := ih _ h
      exact ⟨k, (List.mem_filter.mp hk).1⟩
    · obtain ⟨k, hk⟩ := ih _ h
      exact ⟨k, (List.mem_filter.mp hk).1⟩

/-- Whatever an index finds under a name is an entry of the list it was
built from. -/
theorem NameIndex.get?_sound {α : Type} (entries : List (String × α)) (name : String) (v : α)
    (h : (NameIndex.ofList entries).get? name = some v) : (name, v) ∈ entries := by
  obtain ⟨k, hk⟩ := NameIndex.find?_build_sound _ name v _ _ h
  obtain ⟨e, he, hev⟩ := List.mem_map.mp hk
  have : e = (name, v) := by
    have := congrArg Prod.snd hev
    simpa using this
  rw [← this]; exact he

/-- A name the index of some names knows is one of the names. -/
theorem indexedMem_sound (names : List String) (name : String)
    (h : indexedMem names name = true) : name ∈ names := by
  unfold indexedMem at h
  obtain ⟨v, hv⟩ := Option.isSome_iff_exists.mp h
  have := NameIndex.get?_sound _ _ _ hv
  obtain ⟨n, hn, hnv⟩ := List.mem_map.mp this
  have : n = name := by simpa using congrArg Prod.fst hnv
  rw [← this]; exact hn

/-- `between?` finds `m` exactly when the text is `a ++ m ++ b`. -/
theorem between?_eq_some_iff (a b s m : List Char) :
    between? a b s = some m ↔ s = a ++ (m ++ b) := by
  unfold between?
  constructor
  · intro h
    split at h
    next hc =>
      obtain ⟨hp, hs⟩ := hc
      have hp2 : a ++ s.drop a.length = s := List.prefix_iff_eq_append.mp (List.isPrefixOf_iff_prefix.mp hp)
      have hs2 : (s.drop a.length).take ((s.drop a.length).length - b.length) ++ b = s.drop a.length :=
        List.suffix_iff_eq_append.mp (List.isSuffixOf_iff_suffix.mp hs)
      have hm : (s.drop a.length).take ((s.drop a.length).length - b.length) = m := by
        simpa using h
      rw [← hm, hs2, hp2]
    next => simp at h
  · intro h
    subst h
    have h1 : a.isPrefixOf (a ++ (m ++ b)) = true :=
      List.isPrefixOf_iff_prefix.mpr (List.prefix_append _ _)
    have h2 : (a ++ (m ++ b)).drop a.length = m ++ b := List.drop_left _ _
    have h3 : b.isSuffixOf (m ++ b) = true :=
      List.isSuffixOf_iff_suffix.mpr (List.suffix_append _ _)
    rw [h2]
    simp [h1, h3]

/-- `stringBetween?` finds `m` exactly when the string is `a ++ m ++ b`. -/
theorem stringBetween?_eq_some_iff (a b s m : String) :
    stringBetween? a b s = some m ↔ s = a ++ m ++ b := by
  unfold stringBetween?
  constructor
  · intro h
    obtain ⟨l, hl, hm⟩ := Option.map_eq_some'.mp h
    have := (between?_eq_some_iff _ _ _ _).mp hl
    apply String.ext
    rw [this, ← hm]
    simp [String.data_append]
  · intro h
    have hd : s.data = a.data ++ (m.data ++ b.data) := by
      rw [h]; simp [String.data_append]
    have := (between?_eq_some_iff _ _ _ _).mpr hd
    rw [this]
    rfl

/-- An entry of `kindEntries` gives the kind of its name. -/
theorem kindEntries_sound (doc : Document) (name : String) (k : TypeKind)
    (h : (name, k) ∈ kindEntries doc) : HasKind doc name k := by
  unfold kindEntries at h
  rcases List.mem_append.mp h with h1 | h2
  · obtain ⟨n, hn, he⟩ := List.mem_map.mp h1
    simp only [Prod.mk.injEq] at he
    exact Or.inl ⟨he.1 ▸ hn, he.2.symm⟩
  · obtain ⟨d, hd, he⟩ := List.mem_filterMap.mp h2
    refine Or.inr ⟨d, hd, ?_⟩
    cases hn : d.typeName? with
    | none => simp [hn] at he
    | some n =>
      cases hk : d.typeKind? with
      | none => simp [hn, hk] at he
      | some k2 =>
        simp only [hn, hk, Option.some.injEq, Prod.mk.injEq] at he
        exact ⟨by rw [he.1], by rw [he.2]⟩

/-- A name the kind index accepts has a kind that is allowed. -/
theorem kindAllowed_sound (doc : Document) (allowed : TypeKind → Bool) (name : String)
    (h : kindAllowed doc allowed name = true) : ∃ k, HasKind doc name k ∧ allowed k = true := by
  unfold kindAllowed at h
  cases hk : (NameIndex.ofList (kindEntries doc)).get? name with
  | none => rw [hk] at h; simp at h
  | some k =>
    rw [hk] at h
    exact ⟨k, kindEntries_sound doc name k (NameIndex.get?_sound _ _ _ hk), by simpa using h⟩

/-- A list is free of repetitions if the part satisfying `p` and the part not
satisfying it are. -/
theorem nodup_of_filter {α : Type} (p : α → Bool) :
    ∀ l : List α, (l.filter p).Nodup → (l.filter (fun x => !p x)).Nodup → l.Nodup := by
  intro l
  induction l with
  | nil => intro _ _; exact List.nodup_nil
  | cons x xs ih =>
    intro h1 h2
    by_cases hp : p x = true
    · have e1 : (x :: xs).filter p = x :: xs.filter p := by simp [List.filter, hp]
      have e2 : (x :: xs).filter (fun x => !p x) = xs.filter (fun x => !p x) := by
        simp [List.filter, hp]
      rw [e1] at h1; rw [e2] at h2
      have hx := (List.nodup_cons.mp h1)
      refine List.nodup_cons.mpr ⟨fun hmem => hx.1 (List.mem_filter.mpr ⟨hmem, hp⟩), ih hx.2 h2⟩
    · have hp2 : p x = false := by simpa using hp
      have e1 : (x :: xs).filter p = xs.filter p := by simp [List.filter, hp2]
      have e2 : (x :: xs).filter (fun x => !p x) = x :: xs.filter (fun x => !p x) := by
        simp [List.filter, hp2]
      rw [e1] at h1; rw [e2] at h2
      have hx := (List.nodup_cons.mp h2)
      refine List.nodup_cons.mpr
        ⟨fun hmem => hx.1 (List.mem_filter.mpr ⟨hmem, by simp [hp2]⟩), ih h1 hx.2⟩

/-- Keyed names that pass `bucketNodup` are pairwise distinct. -/
theorem bucketNodup_sound : ∀ (d : Nat) (l : List (Nat × String)),
    bucketNodup d l = true → l.Nodup := by
  intro d
  induction d with
  | zero =>
    intro l h
    match l, h with
    | [], _ => exact List.nodup_nil
    | [_], _ => exact List.nodup_singleton _
    | a :: b :: l, h =>
      simp only [bucketNodup] at h
      exact List.Nodup.of_map _ (of_decide_eq_true h)
  | succ d ih =>
    intro l h
    match l, h with
    | [], _ => exact List.nodup_nil
    | [_], _ => exact List.nodup_singleton _
    | a :: b :: l, h =>
      simp only [bucketNodup, Bool.and_eq_true] at h
      apply nodup_of_filter (fun e => decide ((e.1 >>> d) % 2 = 0))
      · exact ih _ h.1
      · have hfun : (fun e : Nat × String => decide (¬ (e.1 >>> d) % 2 = 0)) =
            (fun e => !decide ((e.1 >>> d) % 2 = 0)) := by
          funext e
          exact decide_not
        have h2 := ih _ h.2
        rw [hfun] at h2
        exact h2

/-- Names that pass `distinctNames` are pairwise distinct. -/
theorem distinctNames_sound (names : List String) (h : distinctNames names = true) :
    names.Nodup := by
  unfold distinctNames at h
  split at h
  · exact of_decide_eq_true h
  · exact List.Nodup.of_map _ (bucketNodup_sound _ _ h)

/-- A name the check accepts is a filter name of the fields. -/
theorem filterNameCheck_sound (fields : List String) (name : String)
    (h : filterNameCheck fields name = true) : FilterName fields name := by
  unfold filterNameCheck at h
  obtain ⟨f, hf, hc⟩ := List.any_eq_true.mp h
  refine ⟨f, hf, ?_⟩
  rcases (Bool.or_eq_true _ _).mp hc with h1 | h2
  · exact Or.inl (of_decide_eq_true h1)
  · cases hb : stringBetween? (f ++ "_") "" name with
    | none => rw [hb] at h2; simp at h2
    | some op =>
      rw [hb] at h2
      have hop : op ∈ filterOperators := List.mem_of_elem_eq_true h2
      have := (stringBetween?_eq_some_iff _ _ _ _).mp hb
      exact Or.inr ⟨op, hop, by rw [this]; simp⟩

/-- A type a definition refers to is a root operation type, an interface, the
type of a field, the type of an argument or input field, or a union member. -/
theorem mem_typeReferences (d : Definition) (name : String) (h : name ∈ d.typeReferences) :
    (∃ r ∈ d.operationTypes, r.type = name) ∨ name ∈ d.interfaces ∨
      (∃ f ∈ d.fields, f.type.namedType = name) ∨
      (∃ a ∈ d.inputValues, a.type.namedType = name) ∨ name ∈ d.unionMembers := by
  have fieldCase : ∀ (is : List String) (fs : List FieldDefinition),
      name ∈ is ++ (fs.map FieldDefinition.typeReferences).flatten →
        name ∈ is ∨ (∃ f ∈ fs, f.type.namedType = name) ∨
          (∃ a ∈ (fs.map (fun f => f.arguments)).flatten, a.type.namedType = name) := by
    intro is fs hm
    rcases List.mem_append.mp hm with hi | hf
    · exact Or.inl hi
    · obtain ⟨l, hl, hn⟩ := List.mem_flatten.mp hf
      obtain ⟨f, hf, rfl⟩ := List.mem_map.mp hl
      rcases List.mem_cons.mp hn with h1 | h2
      · exact Or.inr (Or.inl ⟨f, hf, h1.symm⟩)
      · obtain ⟨a, ha, hae⟩ := List.mem_map.mp h2
        exact Or.inr (Or.inr ⟨a, List.mem_flatten.mpr ⟨_, List.mem_map.mpr ⟨f, hf, rfl⟩, ha⟩, hae⟩)
  cases d with
  | schemaDefinition desc ds ops =>
    obtain ⟨o, ho, hoe⟩ := List.mem_map.mp h
    exact Or.inl ⟨o, ho, hoe⟩
  | scalarType desc n ds => exact absurd h (List.not_mem_nil _)
  | objectType desc n is ds fs =>
    rcases fieldCase is fs h with h1 | h2 | h3
    · exact Or.inr (Or.inl h1)
    · exact Or.inr (Or.inr (Or.inl h2))
    · exact Or.inr (Or.inr (Or.inr (Or.inl h3)))
  | interfaceType desc n is ds fs =>
    rcases fieldCase is fs h with h1 | h2 | h3
    · exact Or.inr (Or.inl h1)
    · exact Or.inr (Or.inr (Or.inl h2))
    · exact Or.inr (Or.inr (Or.inr (Or.inl h3)))
  | unionType desc n ds ts => exact Or.inr (Or.inr (Or.inr (Or.inr h)))
  | enumType desc n ds vs => exact absurd h (List.not_mem_nil _)
  | inputObjectType desc n ds fs =>
    obtain ⟨a, ha, hae⟩ := List.mem_map.mp h
    exact Or.inr (Or.inr (Or.inr (Or.inl ⟨a, ha, hae⟩)))
  | directiveDefinition desc n args rep locs =>
    obtain ⟨a, ha, hae⟩ := List.mem_map.mp h
    exact Or.inr (Or.inr (Or.inr (Or.inl ⟨a, ha, hae⟩)))

/-- A name that has a kind is a built-in scalar or is defined. -/
theorem hasKind_known (doc : Document) (name : String) (k : TypeKind) (h : HasKind doc name k) :
    name ∈ builtinScalars ∨ name ∈ definedTypes doc := by
  rcases h with ⟨hb, _⟩ | ⟨d, hd, hn, _⟩
  · exact Or.inl hb
  · exact Or.inr (List.mem_filterMap.mpr ⟨d, hd, hn⟩)

/-- A document whose references have checked kinds and whose root operation
types are defined refers to built-in scalars and defined types only. -/
theorem references_known (doc : Document)
    (hk : doc.all (kindsChecked doc) = true)
    (hr : ∀ d ∈ doc, ∀ r ∈ d.operationTypes, r.type ∈ definedTypes doc) :
    ∀ name ∈ referencedTypes doc, name ∈ builtinScalars ∨ name ∈ definedTypes doc := by
  intro name hname
  obtain ⟨refs, hrefs, hmem⟩ := List.mem_flatten.mp hname
  obtain ⟨d, hd, hdr⟩ := List.mem_map.mp hrefs
  subst hdr
  have hc := List.all_eq_true.mp hk d hd
  unfold kindsChecked at hc
  simp only [Bool.and_eq_true, List.all_eq_true, decide_eq_true_eq] at hc
  obtain ⟨⟨⟨⟨h1, h2⟩, h3⟩, h4⟩, _⟩ := hc
  have known : ∀ (allowed : TypeKind → Bool) (n : String), kindAllowed doc allowed n = true →
      n ∈ builtinScalars ∨ n ∈ definedTypes doc := by
    intro allowed n hn
    obtain ⟨k, hk, _⟩ := kindAllowed_sound _ _ _ hn
    exact hasKind_known doc n k hk
  rcases mem_typeReferences d name hmem with ⟨r, hr1, rfl⟩ | hi | ⟨f, hf, rfl⟩ | ⟨a, ha, rfl⟩ | hm
  · exact Or.inr (hr d hd r hr1)
  · exact known _ _ (h3 name hi)
  · exact known _ _ (h2 f hf)
  · exact known _ _ (h1 a ha)
  · exact known _ _ (h4 name hm)

end Mesh
namespace Mesh

/-! ## Evaluations -/

/-- The template literal of the Contentful module has a cooked value. -/
theorem contentful_templateError_lines : templateError Contentful.lines = none := by decide!

/-- The Contentful text parses to the Contentful document. -/
theorem contentful_parse_cookedText :
    parse (cookedText Contentful.lines) = .ok Contentful.document := by decide!

/-- The Shopify text does not go through the lexer: the quoted string that
starts on line 122 of the text (line 124 of the module) runs into a line
feed. -/
theorem shopify_parse_cookedText :
    parse (cookedText Shopify.lines) = .error (.unterminatedString 122) := by decide!

/-- Evaluated: the kinds of all references of both documents. -/
theorem kinds_checked : documents.all (fun doc => doc.all (kindsChecked doc)) = true := by decide!

/-- Evaluated: the root operation types of both documents are defined. -/
theorem roots_checked : ∀ doc ∈ documents, ∀ d ∈ doc, ∀ r ∈ d.operationTypes,
    r.type ∈ definedTypes doc := by decide!

/-- Evaluated: the payload types and the fields of `Mutation` of the Shopify
document name each other. -/
theorem shopify_payloads_checked :
    ((payloadEntries Shopify.document).all (fun e =>
        (NameIndex.ofList mutationEntries).get? e.2 == some (.named e.1)) &&
      Shopify.Mutation.fields.all (fun f => f.type == .named f.type.namedType &&
        (NameIndex.ofList (payloadEntries Shopify.document)).get? f.type.namedType
          == some f.name)) = true := by
  decide!

/-- Evaluated: the payload descriptions of the Shopify document name fields
of `Mutation` that return the payload. -/
theorem shopify_payload_fields :
    ∀ d ∈ objectTypes Shopify.document, ∀ desc ∈ d.description,
      ∀ m ∈ mutationOfDescription desc.value, ∀ P ∈ d.typeName?,
        Shopify.Mutation.HasField m (.named P) := by
  have h := (Bool.and_eq_true _ _).mp shopify_payloads_checked
  intro d hd desc hdesc m hm P hP
  have hP2 : d.typeName? = some P := hP
  have hdesc2 : d.description = some desc := hdesc
  have hm2 : mutationOfDescription desc.value = some m := hm
  have hmem : (P, m) ∈ payloadEntries Shopify.document :=
    List.mem_filterMap.mpr ⟨d, hd, by simp [hP2, hdesc2, hm2]⟩
  have h2 := List.all_eq_true.mp h.1 _ hmem
  have h3 : (NameIndex.ofList mutationEntries).get? m = some (.named P) := by simpa using h2
  obtain ⟨f, hf, hfe⟩ := List.mem_map.mp (NameIndex.get?_sound _ _ _ h3)
  simp only [Prod.mk.injEq] at hfe
  exact ⟨f, hf, hfe.1, hfe.2⟩

/-- Evaluated: every field of `Mutation` returns an object type whose
description names the field. -/
theorem shopify_mutation_payloads :
    ∀ f ∈ Shopify.Mutation.fields, ∃ d ∈ objectTypes Shopify.document,
      (d.typeName? = some f.type.namedType ∧ f.type = .named f.type.namedType) ∧
        ∃ desc ∈ d.description, mutationOfDescription desc.value = some f.name := by
  have h := (Bool.and_eq_true _ _).mp shopify_payloads_checked
  intro f hf
  have h2 := List.all_eq_true.mp h.2 f hf
  simp only [Bool.and_eq_true, beq_iff_eq] at h2
  obtain ⟨d, hd, he⟩ := List.mem_filterMap.mp (NameIndex.get?_sound _ _ _ h2.2)
  refine ⟨d, hd, ?_⟩
  cases hn : d.typeName? with
  | none => simp [hn] at he
  | some P =>
    cases hdesc : d.description with
    | none => simp [hn, hdesc] at he
    | some desc =>
      simp only [hn, hdesc, Option.map_eq_some', Prod.mk.injEq] at he
      obtain ⟨m, hm, hP, hmf⟩ := he
      exact ⟨⟨by rw [hP], h2.1⟩, desc, rfl, by rw [hm, hmf]⟩

/-- Evaluated: the replacement a deprecation reason of the Shopify document
names is a field of the same type, with the arguments named. -/
theorem shopify_replacements :
    ∀ d ∈ Shopify.document, ∀ f ∈ d.fields, ∀ reason ∈ f.deprecationReasons,
      ∀ r ∈ replacementOfReason reason,
        ∃ g ∈ d.fields, g.name = referenceField r ∧
          ∀ a ∈ referenceArguments r, ∃ b ∈ g.arguments, b.name = a := by decide!

/-- Evaluated: the connection types of the Shopify document. -/
theorem shopify_connections :
    ∀ d ∈ objectTypes Shopify.document, ∀ n ∈ d.typeName?, ∀ P ∈ stripSuffix? "Connection" n,
      d.HasField "edges" (.nonNull (.list (.nonNull (.named (P ++ "Edge"))))) ∧
      d.HasField "pageInfo" (.nonNull (.named "PageInfo")) ∧
      (P ++ "Edge") ∈ definedTypes Shopify.document := by decide!

/-- Evaluated: the edge types of the Shopify document. -/
theorem shopify_edges :
    ∀ d ∈ Shopify.document, ∀ n ∈ d.typeName?, ∀ _P ∈ stripSuffix? "Edge" n,
      d.HasField "cursor" (.nonNull (.named "String")) ∧
      ∃ desc ∈ d.description, ∃ T ∈ edgeItemOfDescription desc.value,
        d.HasField "node" (.nonNull (.named T)) := by decide!

end Mesh
namespace Mesh

/-! ## The claims -/

/-- C1, evaluated on the code: the SDL text the Shopify module hands to
`buildSchema` is not a valid GraphQL document.  The lexer stops with
"Unterminated string" on line 122 of the text (line 124 of the module), where
the cooked `\n` of a deprecation reason puts a line feed inside a quoted
string; so loading the module yields no schema, whatever the validation
rules. -/
theorem shopify_sdlText_syntax_error :
    parse Shopify.module.sdlText = .error (.unterminatedString 122) ∧
    ∀ (validateSDL : Document → List String) (schema : GraphQLSchema),
      Shopify.module.exports validateSDL ≠ .ok schema :=
  ⟨shopify_parse_cookedText,
   fun validateSDL schema =>
     exports_of_parse_error validateSDL Shopify.module _ shopify_parse_cookedText schema⟩

/-- C5: every named type the Contentful SDL refers to is a built-in scalar
or is defined by the SDL. -/
theorem contentful_no_dangling_reference :
    ∀ name ∈ referencedTypes Contentful.document,
      name ∈ builtinScalars ∨ name ∈ definedTypes Contentful.document :=
  have h : Contentful.document ∈ documents := List.mem_cons_self _ _
  references_known Contentful.document (List.all_eq_true.mp kinds_checked _ h)
    (roots_checked _ h)

/-- Witness of C5: the query root `Query` of the Contentful schema block is
referenced and defined. -/
theorem contentful_no_dangling_reference_witness :
    "Query" ∈ referencedTypes Contentful.document ∧
      ("Query" ∈ builtinScalars ∨ "Query" ∈ definedTypes Contentful.document) :=
  have h : "Query" ∈ referencedTypes Contentful.document := by decide!
  ⟨h, contentful_no_dangling_reference "Query" h⟩

/-- C18, evaluated on the code: a line of the Shopify template literal writes
the escape `\n`, and its cooked value is not the line without the
backslashes.  (The same defect as under C1.) -/
theorem shopify_template_cooks_line_feed :
    ∃ l ∈ Shopify.module.sdl, 'n' ∈ escapeCharacters false l.data ∧
      cookInto [] false l.data ≠ withoutBackslashes false l.data ++ ['\n'] := by
  decide!

/-- Counterexample to C19: the field `productID_exists` of
`ContentfuProductFilter` is named after no field of `ContentfuProduct`, which
calls the field `productId`. -/
theorem productID_is_no_field :
    "productID_exists" ∈ Contentful.ContentfuProductFilter.fieldNames ∧
    "productID_exists" ∉ filterFixedFields ∧
    ¬ FilterName Contentful.ContentfuProduct.fieldNames "productID_exists" := by
  decide!

/-- C19, amended: for `Asset`, `ContentfuProduct` and `Page`, every field of
the filter input other than `sys`, `contentfulMetadata`, `OR` and `AND` is
named `f` or `f_<operator>`, and every value of the order enum that does not
start with `sys_` is `f_ASC` or `f_DESC`, where `f` is the name of a field of
the type, written `productID` for the field `productId`. -/
theorem filters_and_orders_follow_fields :
    ∀ c ∈ contentTypes,
      (∀ g ∈ c.filter.fieldNames, g ∉ filterFixedFields →
        FilterName (c.type.fieldNames.map filterSpelling) g) ∧
      (∀ v ∈ c.order.enumValues, ¬ "sys_".data.isPrefixOf v.name.data →
        OrderName (c.type.fieldNames.map filterSpelling) v.name) := by
  have h : contentTypes.all (fun c =>
      c.filter.fieldNames.all (fun g => decide (g ∈ filterFixedFields) ||
        filterNameCheck (c.type.fieldNames.map filterSpelling) g) &&
      decide (∀ v ∈ c.order.enumValues, ¬ "sys_".data.isPrefixOf v.name.data →
        OrderName (c.type.fieldNames.map filterSpelling) v.name)) = true := by decide!
  intro c hc
  have h2 := List.all_eq_true.mp h c hc
  simp only [Bool.and_eq_true, List.all_eq_true, Bool.or_eq_true, decide_eq_true_eq] at h2
  refine ⟨fun g hg hfixed => ?_, h2.2⟩
  rcases h2.1 g hg with h3 | h3
  · exact absurd h3 hfixed
  · exact filterNameCheck_sound _ _ h3

/-- Witness of C19, amended: the filter field `productID_exists` and the order
value `productID_ASC` of `ContentfuProduct`. -/
theorem filters_and_orders_follow_fields_witness :
    (ContentType.mk Contentful.ContentfuProduct Contentful.ContentfuProductFilter
        Contentful.ContentfuProductOrder ∈ contentTypes) ∧
    FilterName (Contentful.ContentfuProduct.fieldNames.map filterSpelling) "productID_exists" ∧
    OrderName (Contentful.ContentfuProduct.fieldNames.map filterSpelling) "productID_ASC" :=
  have hc : ContentType.mk Contentful.ContentfuProduct Contentful.ContentfuProductFilter
      Contentful.ContentfuProductOrder ∈ contentTypes :=
    List.mem_cons_of_mem _ (List.mem_cons_self _ _)
  have h := filters_and_orders_follow_fields _ hc
  ⟨hc, h.1 "productID_exists" (by decide!) (by decide!),
   h.2 (enumValue none "productID_ASC" []) (by decide!) (by decide!)⟩

/-- Counterexample to C20: `SysFilter.publishedVersion` is a `Float`,
`Sys.publishedVersion` an `Int`. -/
theorem publishedVersion_filter_is_float :
    inputValue none "publishedVersion" (nm "Float") none [] ∈ Contentful.SysFilter.inputValues ∧
    field none "publishedVersion" [] (nm "Int") [] ∈ Contentful.Sys.fields ∧
    (nm "Float").namedType ≠ (nm "Int").namedType := by
  decide!

/-- C20, amended: for the pairs (`Asset`, `AssetFilter`), (`ContentfuProduct`,
`ContentfuProductFilter`), (`Page`, `PageFilter`) and (`Sys`, `SysFilter`), a
field of the filter input named exactly like a field `f` of the type has the
named type of `f`, unless it is `sys`, `contentfulMetadata` or
`publishedVersion`. -/
theorem exact_filters_have_field_types :
    ∀ p ∈ filteredTypes, ∀ g ∈ p.2.inputValues, ∀ f ∈ p.1.fields,
      g.name = f.name → g.name ∉ retypedFilterFields →
        g.type.namedType = f.type.namedType := by
  decide!

/-- Witness of C20, amended: `AssetFilter.size` is an `Int` like
`Asset.size`. -/
theorem exact_filters_have_field_types_witness :
    ((Contentful.Asset, Contentful.AssetFilter) ∈ filteredTypes ∧
      inputValue none "size" (nm "Int") none [] ∈ Contentful.AssetFilter.inputValues ∧
      field none "size" [inputValue none "locale" (nm "String") none []] (nm "Int") []
        ∈ Contentful.Asset.fields) ∧
    (nm "Int").namedType = (nm "Int").namedType :=
  have hp : (Contentful.Asset, Contentful.AssetFilter) ∈ filteredTypes := List.mem_cons_self _ _
  have hg : inputValue none "size" (nm "Int") none [] ∈ Contentful.AssetFilter.inputValues := by
    decide!
  have hf : field none "size" [inputValue none "locale" (nm "String") none []] (nm "Int") []
      ∈ Contentful.Asset.fields := by decide!
  ⟨⟨hp, hg, hf⟩,
   exact_filters_have_field_types _ hp _ hg _ hf rfl (by decide!)⟩

end Mesh
